import Mathlib

/-!
# Bank provider adapters (Sicredi, Sicoob) and the boleto webhook service

A shallow embedding of `services/integrations/sicredi/adapter.go`,
`services/integrations/sicoob/adapter.go` and the handler of
`services/boleto-webhook/cmd/server/main.go`.

* Time is an integer number of nanoseconds; `time.Duration` is a signed 64-bit integer.
* The outside world (the clock read by `time.Now()` and the HTTP server answering
  `httpClient.Do`) is an explicit `World` value threaded through every function.
* `encoding/json` is embedded as a parser of JSON text followed by the field-wise decoding
  that `json.Unmarshal` performs, and as the writer of `json.Marshal`; a `float64` is a sign,
  a mantissa and a binary exponent. The operations take the library calls on business values
  as a parameter (`Stdlib`), of which `jsonLib` is the instance embedded here.
* Response bodies are text (`String`); Go's `int` has 64 bits.
* Mutexes are no-ops in the sequential functions; the interleaving of two goroutines is
  modelled separately by a step function on explicit goroutine states.
-/

namespace Kamino

/-! ## JSON text -/

/-- A parsed JSON value. Number literals are kept as text, as the Go decoder does. -/
inductive JVal where
  | null : JVal
  | bool (b : Bool) : JVal
  | num (lit : String) : JVal
  | str (s : String) : JVal
  | arr (items : List JVal) : JVal
  | obj (members : List (String × JVal)) : JVal

/-- The double quote character. -/
def dquote : Char := Char.ofNat 34

/-- The reverse solidus that starts an escape sequence. -/
def rsolidus : Char := Char.ofNat 92

/-- JSON insignificant whitespace. -/
def isSpace (c : Char) : Bool :=
  c.toNat = 32 || c.toNat = 9 || c.toNat = 10 || c.toNat = 13

/-- Drops leading whitespace. -/
def skipSpace : List Char → List Char
  | [] => []
  | c :: cs => if isSpace c then skipSpace cs else c :: cs

/-- Decimal digit test. -/
def isDigit (c : Char) : Bool := 48 ≤ c.toNat && c.toNat ≤ 57

/-- Value of a hexadecimal digit. -/
def hexVal (c : Char) : Option Nat :=
  let n := c.toNat
  if 48 ≤ n && n ≤ 57 then some (n - 48)
  else if 97 ≤ n && n ≤ 102 then some (n - 87)
  else if 65 ≤ n && n ≤ 70 then some (n - 55)
  else none

/-- One unit of a string literal: a literal character or a `\uXXXX` code unit. -/
inductive StrUnit where
  | chr (c : Char) : StrUnit
  | unit16 (n : Nat) : StrUnit

/-- Scans the inside of a string literal up to the closing quote. -/
def scanString : List Char → List StrUnit → Option (List StrUnit × List Char)
  | [], _ => none
  | c :: cs, acc =>
    if c = dquote then some (acc.reverse, cs)
    else if c = rsolidus then
      match cs with
      | [] => none
      | e :: rest =>
        if e = dquote then scanString rest (.chr dquote :: acc)
        else if e = rsolidus then scanString rest (.chr rsolidus :: acc)
        else if e = '/' then scanString rest (.chr '/' :: acc)
        else if e = 'b' then scanString rest (.chr (Char.ofNat 8) :: acc)
        else if e = 'f' then scanString rest (.chr (Char.ofNat 12) :: acc)
        else if e = 'n' then scanString rest (.chr (Char.ofNat 10) :: acc)
        else if e = 'r' then scanString rest (.chr (Char.ofNat 13) :: acc)
        else if e = 't' then scanString rest (.chr (Char.ofNat 9) :: acc)
        else if e = 'u' then
          match rest with
          | h1 :: h2 :: h3 :: h4 :: rest4 =>
            match hexVal h1, hexVal h2, hexVal h3, hexVal h4 with
            | some a, some b, some c4, some d =>
              scanString rest4 (.unit16 (((a * 16 + b) * 16 + c4) * 16 + d) :: acc)
            | _, _, _, _ => none
          | _ => none
        else none
    else if c.toNat < 32 then none
    else scanString cs (.chr c :: acc)

/-- Emits the characters of a string literal. `pending` is a high surrogate read from the
previous `\uXXXX` escape: directly followed by a low surrogate escape the two are one
character, otherwise the lone surrogate becomes U+FFFD. -/
def joinUnits : Option Nat → List StrUnit → List Char
  | none, [] => []
  | some _, [] => [Char.ofNat 0xFFFD]
  | none, .chr c :: us => c :: joinUnits none us
  | some _, .chr c :: us => Char.ofNat 0xFFFD :: c :: joinUnits none us
  | none, .unit16 n :: us =>
    if 0xD800 ≤ n && n < 0xDC00 then joinUnits (some n) us
    else if 0xDC00 ≤ n && n < 0xE000 then Char.ofNat 0xFFFD :: joinUnits none us
    else Char.ofNat n :: joinUnits none us
  | some hi, .unit16 n :: us =>
    if 0xDC00 ≤ n && n < 0xE000 then
      Char.ofNat (0x10000 + (hi - 0xD800) * 0x400 + (n - 0xDC00)) :: joinUnits none us
    else if 0xD800 ≤ n && n < 0xDC00 then Char.ofNat 0xFFFD :: joinUnits (some n) us
    else Char.ofNat 0xFFFD :: Char.ofNat n :: joinUnits none us

/-- Takes the longest prefix of decimal digits. -/
def spanDigits : List Char → List Char × List Char
  | [] => ([], [])
  | c :: cs =>
    if isDigit c then
      let r := spanDigits cs
      (c :: r.1, r.2)
    else ([], c :: cs)

/-- Scans a number literal `-?(0|[1-9][0-9]*)(.[0-9]+)?([eE][+-]?[0-9]+)?`. -/
def scanNumber (cs : List Char) : Option (List Char × List Char) :=
  let (sign, cs1) : List Char × List Char :=
    match cs with
    | c :: r => if c = '-' then ([c], r) else ([], cs)
    | [] => ([], [])
  let intPart : Option (List Char × List Char) :=
    match cs1 with
    | c :: r =>
      if c = '0' then some ([c], r)
      else if isDigit c then
        let d := spanDigits r
        some (c :: d.1, d.2)
      else none
    | [] => none
  match intPart with
  | none => none
  | some (ip, cs2) =>
    let frac : Option (List Char × List Char) :=
      match cs2 with
      | c :: r =>
        if c = '.' then
          let d := spanDigits r
          if d.1.isEmpty then none else some (c :: d.1, d.2)
        else some ([], cs2)
      | [] => some ([], [])
    match frac with
    | none => none
    | some (fp, cs3) =>
      let expo : Option (List Char × List Char) :=
        match cs3 with
        | c :: r =>
          if c = 'e' || c = 'E' then
            let (sg, r2) : List Char × List Char :=
              match r with
              | s :: r1 => if s = '+' || s = '-' then ([s], r1) else ([], r)
              | [] => ([], [])
            let d := spanDigits r2
            if d.1.isEmpty then none else some (c :: (sg ++ d.1), d.2)
          else some ([], cs3)
        | [] => some ([], [])
      match expo with
      | none => none
      | some (ep, cs4) => some (sign ++ ip ++ fp ++ ep, cs4)

/-- Strips a fixed keyword from the front of the input. -/
def stripWord : List Char → List Char → Option (List Char)
  | [], cs => some cs
  | _ :: _, [] => none
  | k :: ks, c :: cs => if k = c then stripWord ks cs else none

mutual
/-- Parses one JSON value; the first argument bounds the nesting and sequence depth. -/
def parseValue : Nat → List Char → Option (JVal × List Char)
  | 0, _ => none
  | fuel + 1, cs =>
    match skipSpace cs with
    | [] => none
    | c :: rest =>
      if c = '{' then
        match skipSpace rest with
        | '}' :: r => some (.obj [], r)
        | _ => (parseMembers fuel rest).map (fun p => (JVal.obj p.1, p.2))
      else if c = '[' then
        match skipSpace rest with
        | ']' :: r => some (.arr [], r)
        | _ => (parseItems fuel rest).map (fun p => (JVal.arr p.1, p.2))
      else if c = dquote then
        (scanString rest []).map (fun p => (JVal.str (String.mk (joinUnits none p.1)), p.2))
      else if c = 't' then (stripWord "rue".toList rest).map (fun r => (JVal.bool true, r))
      else if c = 'f' then (stripWord "alse".toList rest).map (fun r => (JVal.bool false, r))
      else if c = 'n' then (stripWord "ull".toList rest).map (fun r => (JVal.null, r))
      else (scanNumber (c :: rest)).map (fun p => (JVal.num (String.mk p.1), p.2))
/-- Parses `value (, value)* ]`. -/
def parseItems : Nat → List Char → Option (List JVal × List Char)
  | 0, _ => none
  | fuel + 1, cs =>
    match parseValue fuel cs with
    | none => none
    | some (v, r) =>
      match skipSpace r with
      | ',' :: r2 => (parseItems fuel r2).map (fun p => (v :: p.1, p.2))
      | ']' :: r2 => some ([v], r2)
      | _ => none
/-- Parses `"key" : value (, "key" : value)* }`. -/
def parseMembers : Nat → List Char → Option (List (String × JVal) × List Char)
  | 0, _ => none
  | fuel + 1, cs =>
    match skipSpace cs with
    | [] => none
    | q :: r0 =>
      if q = dquote then
        match scanString r0 [] with
        | none => none
        | some (k, r1) =>
          match skipSpace r1 with
          | ':' :: r2 =>
            match parseValue fuel r2 with
            | none => none
            | some (v, r3) =>
              match skipSpace r3 with
              | ',' :: r4 =>
                (parseMembers fuel r4).map (fun p => ((String.mk (joinUnits none k), v) :: p.1, p.2))
              | '}' :: r4 => some ([(String.mk (joinUnits none k), v)], r4)
              | _ => none
          | _ => none
      else none
end

/-- Parses a whole document: one value surrounded by optional whitespace. `none` is a syntax
error. Of two consecutive nested calls at least one consumes input, so twice the text length
bounds the depth needed. -/
def parseJSON (text : String) : Option JVal :=
  match parseValue (2 * text.length + 2) text.toList with
  | some (v, r) => if (skipSpace r).isEmpty then some v else none
  | none => none

/-! ## Go errors -/

/-- The Sicoob error envelope (`type APIError struct`). -/
structure APIError where
  Codigo : String
  Mensagem : String
  Detalhes : String
deriving DecidableEq

/-- A Go `error` value, by the way it was built. -/
inductive GoError where
  /-- An error built by `fmt.Errorf` from a format without the wrapping verb: its full text. -/
  | errorf (text : String) : GoError
  /-- An error built by `fmt.Errorf(lead + ": %w", inner)`. -/
  | wrapf (lead : String) (inner : GoError) : GoError
  /-- A pointer to an `APIError`. -/
  | api (e : APIError) : GoError
  /-- An error returned by `net/http` or `io` (transport failure, timeout, cancellation). -/
  | transport (text : String) : GoError
  /-- An error returned by `encoding/json`. -/
  | json (text : String) : GoError
deriving DecidableEq

/-- The method `(e *APIError) Error()`. -/
def APIError.Error (e : APIError) : String :=
  "[" ++ e.Codigo ++ "] " ++ e.Mensagem ++ ": " ++ e.Detalhes

/-- The text of an error (`err.Error()`). -/
def GoError.Error : GoError → String
  | .errorf text => text
  | .wrapf lead inner => lead ++ ": " ++ inner.Error
  | .api e => e.Error
  | .transport text => text
  | .json text => text

/-- The chain walked by `errors.As(err, &apiErr)`: the first `*APIError` found by unwrapping. -/
def GoError.asAPIError : GoError → Option APIError
  | .wrapf _ inner => inner.asAPIError
  | .api e => some e
  | _ => none

/-- What a Go call leaves behind: a value, an error, or a nil pointer dereference panic. -/
inductive Outcome (α : Type) where
  | ok (a : α) : Outcome α
  | error (e : GoError) : Outcome α
  | panic : Outcome α
deriving DecidableEq

/-- The value of a call that returned without error. -/
def Outcome.value? {α : Type} : Outcome α → Option α
  | .ok a => some a
  | _ => none

/-! ## Decoding into Go structs (`json.Unmarshal`) -/

/-- Simple case folding of one character of a key, as far as it can reach an ASCII letter:
upper case ASCII, the Kelvin sign and the long s. -/
def foldChar (c : Char) : Char :=
  if 65 ≤ c.toNat && c.toNat ≤ 90 then Char.ofNat (c.toNat + 32)
  else if c.toNat = 0x212A then 'k'
  else if c.toNat = 0x17F then 's'
  else c

/-- A JSON key selects the struct field whose tag it equals up to case. -/
def keyMatches (key tag : String) : Bool :=
  key.toList.map foldChar == tag.toList.map foldChar

/-- Decoding a JSON value into a Go `string` field: `none` is an `UnmarshalTypeError`,
`null` leaves the field as it is. -/
def decodeString (v : JVal) (old : String) : Option String :=
  match v with
  | .str s => some s
  | .null => some old
  | _ => none

/-- Value of a run of decimal digits. -/
def digitsValue (ds : List Char) : Nat :=
  ds.foldl (fun acc c => acc * 10 + (c.toNat - 48)) 0

/-- The call `strconv.ParseInt(lit, 10, 64)` on a JSON number literal. -/
def parseInt64 (lit : String) : Option Int :=
  let (neg, ds) : Bool × List Char :=
    match lit.toList with
    | c :: r => if c = '-' then (true, r) else (false, c :: r)
    | [] => (false, [])
  if ds.isEmpty || !(ds.all isDigit) then none
  else
    let n : Int := if neg then -(digitsValue ds : Int) else (digitsValue ds : Int)
    if -9223372036854775808 ≤ n ∧ n ≤ 9223372036854775807 then some n else none

/-- Decoding a JSON value into a Go `int` field (64 bits). -/
def decodeInt (v : JVal) (old : Int) : Option Int :=
  match v with
  | .num lit => parseInt64 lit
  | .null => some old
  | _ => none

/-- Decodes the members of a JSON object in order; a later member with the same key
overwrites. The flag is false when some member raised an `UnmarshalTypeError`; decoding goes
on after such an error. -/
def decodeObject {α : Type} (setField : String → JVal → α → Option α) :
    List (String × JVal) → α → α × Bool
  | [], a => (a, true)
  | (k, v) :: ms, a =>
    match setField k v a with
    | some a1 => decodeObject setField ms a1
    | none => ((decodeObject setField ms a).1, false)

/-- The call `json.Unmarshal(body, &x)` for a struct `x` holding `zero`: the struct after
the call and the error returned. A syntax error and a non-object leave `x` untouched. -/
def unmarshalStruct {α : Type} (setField : String → JVal → α → Option α) (zero : α)
    (body : String) : α × Option GoError :=
  match parseJSON body with
  | none => (zero, some (.json "json: syntax error"))
  | some (.obj ms) =>
    let r := decodeObject setField ms zero
    (r.1, if r.2 then none else some (.json "json: cannot unmarshal value into Go struct field"))
  | some .null => (zero, none)
  | some _ => (zero, some (.json "json: cannot unmarshal value into Go value"))

/-! ## The type `float64` and its decimal conversions (`strconv`) -/

/-- A Go `float64`. A finite value is `± mant * 2 ^ shift / 2 ^ 1074`: `shift` is the binary
exponent counted from the smallest one. -/
inductive Float64 where
  | finite (neg : Bool) (mant : Nat) (shift : Nat) : Float64
  | inf (neg : Bool) : Float64
  | nan : Float64
deriving DecidableEq

/-- The values a `float64` can hold: 53 bits of mantissa, 2046 binary exponents, and a
mantissa below `2 ^ 52` only at the smallest exponent (subnormal numbers and zero). -/
def Float64.Valid : Float64 → Prop
  | .finite _ mant shift =>
    mant < 9007199254740992 ∧ shift ≤ 2045 ∧ (mant < 4503599627370496 → shift = 0)
  | .inf _ => True
  | .nan => True

/-- The comparison `x == 0` of Go. -/
def Float64.isZero : Float64 → Bool
  | .finite _ mant _ => mant == 0
  | _ => false

/-- The comparison `x > 0` of Go. -/
def Float64.isPositive : Float64 → Bool
  | .finite neg mant _ => !neg && mant != 0
  | .inf neg => !neg
  | .nan => false

/-- Decimal digits of a natural number, most significant first; `fuel` bounds their number. -/
def natDigitsAux : Nat → Nat → List Nat → List Nat
  | 0, n, acc => n :: acc
  | fuel + 1, n, acc => if n < 10 then n :: acc else natDigitsAux fuel (n / 10) (n % 10 :: acc)

/-- Decimal digits of a natural number, most significant first. -/
def natDigits (n : Nat) : List Nat := natDigitsAux n n []

/-- The character of a decimal digit. -/
def digitChar (d : Nat) : Char := Char.ofNat (48 + d)

/-- Removes the trailing zeros of a positive decimal `d * 10 ^ j`; `fuel` bounds their
number. -/
def stripZeros : Nat → Nat → Int → Nat × Int
  | 0, d, j => (d, j)
  | fuel + 1, d, j => if d ≠ 0 ∧ d % 10 = 0 then stripZeros fuel (d / 10) (j + 1) else (d, j)

/-- The two sides of the comparison of `d * 10 ^ j` with `a / 2 ^ 1076`, cleared of
denominators: the decimal side and the factor for `a`. -/
def decimalSides (d : Nat) (j : Int) : Nat × Nat :=
  if 0 ≤ j then (d * 10 ^ j.toNat * 2 ^ 1076, 1) else (d * 2 ^ 1076, 10 ^ (-j).toNat)

/-- Whether the decimal `d * 10 ^ j` lies between `lo / 2 ^ 1076` and `hi / 2 ^ 1076`, the
bounds included or not. -/
def decimalBetween (lo hi : Nat) (inclusive : Bool) (d : Nat) (j : Int) : Bool :=
  let s := decimalSides d j
  if inclusive then decide (lo * s.2 ≤ s.1) && decide (s.1 ≤ hi * s.2)
  else decide (lo * s.2 < s.1) && decide (s.1 < hi * s.2)

/-- Four times the value of a finite number, in units of `2 ^ -1074`. -/
def quarterValue (mant shift : Nat) : Nat := 4 * mant * 2 ^ shift

/-- Four times the midpoint to the next lower number: the gap below a power of two is half
the gap above it. -/
def quarterLower (mant shift : Nat) : Nat :=
  if mant = 4503599627370496 ∧ 0 < shift then (4 * mant - 1) * 2 ^ shift
  else (4 * mant - 2) * 2 ^ shift

/-- Four times the midpoint to the next higher number. -/
def quarterUpper (mant shift : Nat) : Nat := (4 * mant + 2) * 2 ^ shift

/-- Whether the decimal `d * 10 ^ j` reads back as the number `mant * 2 ^ shift / 2 ^ 1074`:
it lies between the midpoints to the two neighbours, which belong to the numbers of even
mantissa. -/
def readsBackAs (mant shift d : Nat) (j : Int) : Bool :=
  decimalBetween (quarterLower mant shift) (quarterUpper mant shift) (mant % 2 == 0) d j

/-- The decimal exponent of `a / 2 ^ 1076` for `a > 0`: the least `k` with
`a / 2 ^ 1076 < 10 ^ k`. -/
def decimalExponent (a : Nat) : Int :=
  if 2 ^ 1076 ≤ a then ((natDigits (a / 2 ^ 1076)).length : Int)
  else -(((List.range 330).filter (fun t => decide (a * 10 ^ (t + 1) < 2 ^ 1076))).length : Int)

/-- The integer part of `a / 2 ^ 1076 / 10 ^ j`. -/
def floorAt (a : Nat) (j : Int) : Nat :=
  if 0 ≤ j then a / (2 ^ 1076 * 10 ^ j.toNat) else a * 10 ^ (-j).toNat / 2 ^ 1076

/-- The decimal of `n` digits that reads back as the number and is nearest to it, if there
is one: the number cut after `n` digits or the next decimal of `n` digits above it, the even
one on a tie. -/
def roundDigits (mant shift : Nat) (k : Int) (n : Nat) : Option (Nat × Int) :=
  let j := k - (n : Int)
  let q := floorAt (quarterValue mant shift) j
  let down := readsBackAs mant shift q j
  let up := readsBackAs mant shift (q + 1) j
  let s := decimalSides (2 * q + 1) j
  let twice := 2 * quarterValue mant shift * s.2
  let preferUp := decide (s.1 < twice) || (decide (s.1 = twice) && q % 2 == 1)
  if down && up then (if preferUp then some (q + 1, j) else some (q, j))
  else if down then some (q, j)
  else if up then some (q + 1, j)
  else none

/-- Tries 1, 2, ... digits in turn. -/
def shortestFrom (mant shift : Nat) (k : Int) : Nat → Nat → Option (Nat × Int)
  | 0, _ => none
  | fuel + 1, n =>
    match roundDigits mant shift k n with
    | some r => some r
    | none => shortestFrom mant shift k fuel (n + 1)

/-- The shortest decimal `d * 10 ^ j` (with `d` not ending in zero) that reads back as the
positive number `mant * 2 ^ shift / 2 ^ 1074`, the nearest of that length: what
`strconv.FormatFloat` with precision -1 prints. Seventeen digits always suffice; the exact
value `mant * 2 ^ shift * 5 ^ 1074 / 10 ^ 1074` stands behind them. -/
def shortestDecimal (mant shift : Nat) : Nat × Int :=
  let r := (shortestFrom mant shift (decimalExponent (quarterValue mant shift)) 17 1).getD
    (mant * 2 ^ shift * 5 ^ 1074, -1074)
  stripZeros 1100 r.1 r.2

/-- The layout `%f` of `strconv` for the digits `ds` with the decimal point after `dp` of
them, in the shortest form. -/
def layoutF (ds : List Nat) (dp : Int) : List Char :=
  let nd := ds.length
  let intPart : List Char :=
    if 0 < dp then (ds.take dp.toNat).map digitChar ++ List.replicate (dp.toNat - nd) '0'
    else ['0']
  let fracPart : List Char :=
    if dp < nd then
      '.' :: (List.replicate (-dp).toNat '0' ++ (ds.drop dp.toNat).map digitChar)
    else []
  intPart ++ fracPart

/-- The layout `%e` of `strconv` in the shortest form, with the exponent as `encoding/json`
leaves it: a sign and no padding zero. -/
def layoutE (ds : List Nat) (dp : Int) : List Char :=
  let first : List Char := (ds.take 1).map digitChar
  let rest : List Char := if 1 < ds.length then '.' :: (ds.drop 1).map digitChar else []
  let e := dp - 1
  first ++ rest ++ ('e' :: (if e < 0 then '-' else '+') :: (natDigits e.natAbs).map digitChar)

/-- The constant `1e-6` as a `float64`, times `2 ^ 1074`. -/
def cutoffSmall : Nat := 4722366482869645 * 2 ^ 1002

/-- The constant `1e21` as a `float64`, times `2 ^ 1074`. -/
def cutoffLarge : Nat := 1000000000000000000000 * 2 ^ 1074

/-- The number text `encoding/json` writes for a `float64`; `NaN` and the infinities are an
`UnsupportedValueError`. -/
def formatFloat64 : Float64 → Option String
  | .nan => none
  | .inf _ => none
  | .finite neg mant shift =>
    let sign : List Char := if neg then ['-'] else []
    if mant = 0 then some (String.mk (sign ++ ['0']))
    else
      let r := shortestDecimal mant shift
      let ds := natDigits r.1
      let dp : Int := (ds.length : Int) + r.2
      let v := mant * 2 ^ shift
      if v < cutoffSmall ∨ cutoffLarge ≤ v then some (String.mk (sign ++ layoutE ds dp))
      else some (String.mk (sign ++ layoutF ds dp))

/-- Division rounded to the nearest integer, to the even one on a tie. -/
def divRoundEven (a b : Nat) : Nat :=
  let q := a / b
  let r := a % b
  if 2 * r < b then q
  else if b < 2 * r then q + 1
  else if q % 2 = 0 then q else q + 1

/-- The number of halvings that bring `t` below `2 ^ 53`; `fuel` bounds it. -/
def binaryShift : Nat → Nat → Nat
  | 0, _ => 0
  | fuel + 1, t => if t < 9007199254740992 then 0 else binaryShift fuel (t / 2) + 1

/-- The `float64` nearest to `± n / d` (IEEE 754 rounding to nearest, ties to even), as
`strconv.ParseFloat` computes it; `none` when the value is out of range. -/
def Float64.ofFraction (neg : Bool) (n d : Nat) : Option Float64 :=
  let p := n * 2 ^ 1074
  let t := p / d
  if t < 4503599627370496 then some (.finite neg (divRoundEven p d) 0)
  else
    let shift := binaryShift 2100 t
    let mant := divRoundEven p (d * 2 ^ shift)
    let r : Nat × Nat := if mant = 9007199254740992 then (4503599627370496, shift + 1)
      else (mant, shift)
    if r.2 ≤ 2045 then some (.finite neg r.1 r.2) else none

/-- The `float64` nearest to `± m * 10 ^ j`. -/
def Float64.ofDecimal (neg : Bool) (m : Nat) (j : Int) : Option Float64 :=
  if 0 ≤ j then Float64.ofFraction neg (m * 10 ^ j.toNat) 1
  else Float64.ofFraction neg m (10 ^ (-j).toNat)

/-- The sign, integer digits, fraction digits, exponent sign and exponent digits of a JSON
number literal. -/
def numberParts (cs : List Char) :
    Bool × List Char × List Char × Bool × List Char :=
  let (neg, cs1) : Bool × List Char :=
    match cs with
    | c :: r => if c = '-' then (true, r) else (false, cs)
    | [] => (false, [])
  let ip := spanDigits cs1
  let (fp, cs2) : List Char × List Char :=
    match ip.2 with
    | c :: r => if c = '.' then spanDigits r else ([], ip.2)
    | [] => ([], [])
  let (eneg, ed) : Bool × List Char :=
    match cs2 with
    | c :: r =>
      if c = 'e' || c = 'E' then
        match r with
        | s :: r1 =>
          if s = '-' then (true, (spanDigits r1).1)
          else if s = '+' then (false, (spanDigits r1).1)
          else (false, (spanDigits r).1)
        | [] => (false, [])
      else (false, [])
    | [] => (false, [])
  (neg, ip.1, fp, eneg, ed)

/-- The call `strconv.ParseFloat(lit, 64)` on a JSON number literal; `none` is a range
error. -/
def parseFloat64 (lit : String) : Option Float64 :=
  let p := numberParts lit.toList
  let e : Int := if p.2.2.2.1 then -(digitsValue p.2.2.2.2 : Int) else (digitsValue p.2.2.2.2 : Int)
  Float64.ofDecimal p.1 (digitsValue (p.2.1 ++ p.2.2.1)) (e - (p.2.2.1.length : Int))

/-- Decoding a JSON value into a Go `float64` field. -/
def decodeFloat (v : JVal) (old : Float64) : Option Float64 :=
  match v with
  | .num lit => parseFloat64 lit
  | .null => some old
  | _ => none

/-- Decoding a JSON value into a Go `bool` field. -/
def decodeBool (v : JVal) (old : Bool) : Option Bool :=
  match v with
  | .bool b => some b
  | .null => some old
  | _ => none

/-- Applies a decoded field value; `none` is an `UnmarshalTypeError` that leaves the struct
as it is. -/
def setWith {α β : Type} (decoded : Option β) (put : β → α) (a : α) : α × Bool :=
  match decoded with
  | some b => (put b, true)
  | none => (a, false)

/-- Decodes the members of a JSON object in order into a struct whose fields may be structs
themselves: a field decoder returns the struct after it and whether it met no error. -/
def decodeFields {α : Type} (setField : String → JVal → α → α × Bool) :
    List (String × JVal) → α → α × Bool
  | [], a => (a, true)
  | (k, v) :: ms, a =>
    let r := setField k v a
    let r2 := decodeFields setField ms r.1
    (r2.1, r.2 && r2.2)

/-- Decoding a JSON value into a struct value by the given field decoder: an object is
decoded member by member, `null` changes nothing, any other value is an error. -/
def decodeStructValue {α : Type} (setField : String → JVal → α → α × Bool) (v : JVal)
    (old : α) : α × Bool :=
  match v with
  | .obj ms => decodeFields setField ms old
  | .null => (old, true)
  | _ => (old, false)

/-- The call `json.Unmarshal(body, &x)` for a struct `x` holding `zero`, with fields that
may be structs. -/
def unmarshalFields {α : Type} (setField : String → JVal → α → α × Bool) (zero : α)
    (body : String) : α × Option GoError :=
  match parseJSON body with
  | none => (zero, some (.json "json: syntax error"))
  | some v =>
    let r := decodeStructValue setField v zero
    (r.1, if r.2 then none else some (.json "json: cannot unmarshal value into Go value"))

/-! ## Encoding Go values (`json.Marshal`) -/

/-- A lower-case hexadecimal digit. -/
def hexDigit (n : Nat) : Char := if n < 10 then Char.ofNat (48 + n) else Char.ofNat (87 + n)

/-- How `encoding/json` writes one character of a string: the quote and the reverse solidus
behind a reverse solidus, control characters and the characters `<`, `>`, `&`, U+2028 and
U+2029 as escapes, every other character as it is. -/
def escapeChar (c : Char) : List Char :=
  let n := c.toNat
  if c = dquote ∨ c = rsolidus then [rsolidus, c]
  else if n = 8 then [rsolidus, 'b']
  else if n = 12 then [rsolidus, 'f']
  else if n = 10 then [rsolidus, 'n']
  else if n = 13 then [rsolidus, 'r']
  else if n = 9 then [rsolidus, 't']
  else if n < 32 ∨ n = 60 ∨ n = 62 ∨ n = 38 then
    [rsolidus, 'u', '0', '0', hexDigit (n / 16), hexDigit (n % 16)]
  else if n = 0x2028 ∨ n = 0x2029 then [rsolidus, 'u', '2', '0', '2', hexDigit (n % 16)]
  else [c]

/-- The characters of a string between its quotes. -/
def escapeChars : List Char → List Char
  | [] => []
  | c :: cs => escapeChar c ++ escapeChars cs

/-- A Go `string` as JSON text. -/
def encodeString (s : String) : List Char := dquote :: (escapeChars s.toList ++ [dquote])

/-- A Go integer as JSON text. -/
def encodeInt (n : Int) : List Char :=
  if n < 0 then '-' :: (natDigits n.natAbs).map digitChar else (natDigits n.natAbs).map digitChar

/-- A Go `bool` as JSON text. -/
def encodeBool (b : Bool) : List Char := if b then "true".toList else "false".toList

/-- A Go `float64` as JSON text, if it has one. -/
def encodeFloat (x : Float64) : Option (List Char) := (formatFloat64 x).map String.toList

/-- Texts separated by commas. -/
def commaSeparated : List (List Char) → List Char
  | [] => []
  | [x] => x
  | x :: y :: rest => x ++ ',' :: commaSeparated (y :: rest)

/-- A member of an object being encoded: its key and the text of its value, `none` for a
value `encoding/json` cannot encode. -/
abbrev Member := String × Option (List Char)

/-- The text of one member. -/
def encodeMember (m : Member) : List Char := encodeString m.1 ++ ':' :: m.2.getD []

/-- The text of an object with the given members, in their order. -/
def encodeObject (ms : List Member) : List Char :=
  '{' :: (commaSeparated (ms.map encodeMember) ++ ['}'])

/-- The text of an array with the given elements. -/
def encodeArray (items : List (List Char)) : List Char :=
  '[' :: (commaSeparated items ++ [']'])

/-- The outcome of `json.Marshal` on a struct or map with the given members: an
`UnsupportedValueError` when some value cannot be encoded. -/
def marshalMembers (ms : List Member) : Except GoError String :=
  if ms.all (fun m => m.2.isSome) then .ok (String.mk (encodeObject ms))
  else .error (.json "json: unsupported value")

/-- A struct field of type `string`, left out under `omitempty` when empty. -/
def stringMember (key : String) (omitempty : Bool) (v : String) : List Member :=
  if omitempty ∧ v = "" then [] else [(key, some (encodeString v))]

/-- A struct field of integer type, left out under `omitempty` when zero. -/
def intMember (key : String) (omitempty : Bool) (v : Int) : List Member :=
  if omitempty ∧ v = 0 then [] else [(key, some (encodeInt v))]

/-- A struct field of type `float64`, left out under `omitempty` when it equals zero. -/
def floatMember (key : String) (omitempty : Bool) (v : Float64) : List Member :=
  if omitempty ∧ v.isZero = true then [] else [(key, encodeFloat v)]

/-- A struct field of type `bool`, left out under `omitempty` when false. -/
def boolMember (key : String) (omitempty : Bool) (v : Bool) : List Member :=
  if omitempty ∧ v = false then [] else [(key, some (encodeBool v))]

/-- A struct field of type `[]string` under `omitempty`: left out when it has no element. -/
def stringsMember (key : String) (v : List String) : List Member :=
  if v = [] then [] else [(key, some (encodeArray (v.map encodeString)))]

/-- A struct field whose value is a nested struct with the given members. -/
def structMember (key : String) (ms : List Member) : List Member :=
  [(key, if ms.all (fun m => m.2.isSome) then some (encodeObject ms) else none)]

/-- The keys of the members of an object, in the order they are written. -/
def memberKeys (ms : List Member) : List String := ms.map Prod.fst

/-- Inserts an entry into a list sorted by key; keys compare character by character. -/
def insertByKey {β : Type} (e : String × β) : List (String × β) → List (String × β)
  | [] => [e]
  | x :: xs => if e.1.toList < x.1.toList then e :: x :: xs else x :: insertByKey e xs

/-- The entries of a Go map in the order `encoding/json` writes them: sorted by key. -/
def sortByKey {β : Type} : List (String × β) → List (String × β)
  | [] => []
  | e :: es => insertByKey e (sortByKey es)

/-! ## Texts that are read back -/

/-- What may follow a value inside a JSON text: nothing, a comma, or a closing bracket. -/
def Delimited (rest : List Char) : Prop :=
  rest = [] ∨ ∃ c r, rest = c :: r ∧ (c = ',' ∨ c = '}' ∨ c = ']')

/-- The text `txt` is read as the value `v`, whatever delimited text follows it, by every
parser run with at least as much fuel as the text is long. -/
def ParsesTo (txt : List Char) (v : JVal) : Prop :=
  ∀ (fuel : Nat) (rest : List Char), txt.length ≤ fuel → Delimited rest →
    parseValue fuel (txt ++ rest) = some (v, rest)

/-- A written member is read back as the key and the value of `kv`. -/
def MemberReads (m : Member) (kv : String × JVal) : Prop :=
  kv.1 = m.1 ∧ ∃ txt, m.2 = some txt ∧ ParsesTo txt kv.2

/-- The exponent of a number text: its sign and digits behind an `e`. -/
def exponentText : Option (Bool × List Char) → List Char
  | none => []
  | some e => 'e' :: (if e.1 then '-' else '+') :: e.2

/-- The fraction of a number text: the digits behind a point, or nothing. -/
def fractionText (fp : List Char) : List Char := if fp.isEmpty then [] else '.' :: fp

/-- A number text from its parts: sign, integer digits, fraction digits and exponent. -/
def numberText (neg : Bool) (ip fp : List Char) (ex : Option (Bool × List Char)) : List Char :=
  (if neg then ['-'] else []) ++ ip ++ fractionText fp ++ exponentText ex

/-- The unit the scanner reads for a character as `encoding/json` writes it: the code unit
of a `\u` escape for the characters written so, the character itself otherwise. -/
def writtenUnit (c : Char) : StrUnit :=
  let n := c.toNat
  if n = 8 ∨ n = 12 ∨ n = 10 ∨ n = 13 ∨ n = 9 then .chr c
  else if n < 32 ∨ n = 60 ∨ n = 62 ∨ n = 38 ∨ n = 0x2028 ∨ n = 0x2029 then .unit16 n
  else .chr c

/-- Integer digits as JSON allows them: a single zero, or digits that do not start with
zero. -/
def IntegerDigits (ip : List Char) : Prop :=
  ip = ['0'] ∨ ∃ c r, ip = c :: r ∧ c ≠ '0' ∧ isDigit c = true ∧ ∀ x ∈ r, isDigit x = true

/-! ## Time and the outside world -/

/-- A `time.Time`: nanoseconds on the process clock. -/
abbrev Time := Int

/-- Wrap-around of signed 64-bit arithmetic. -/
def wrapInt64 (x : Int) : Int :=
  (x + 9223372036854775808) % 18446744073709551616 - 9223372036854775808

/-- The constant `time.Second`, in nanoseconds. -/
def Second : Int := 1000000000

/-- The expression `time.Duration(n) * time.Second`. -/
def secondsDuration (n : Int) : Int := wrapInt64 (n * Second)

/-- Body of an outgoing request. A form lists the pairs of `url.Values` in the order
`Encode` emits them (sorted by key). -/
inductive ReqBody where
  | empty : ReqBody
  | form (fields : List (String × String)) : ReqBody
  | json (text : String) : ReqBody
deriving DecidableEq

/-- An outgoing HTTP request. -/
structure Request where
  method : String
  url : String
  headers : List (String × String)
  body : ReqBody
deriving DecidableEq

/-- What `httpClient.Do` followed by reading the body gives: no response at all, or a status
with the bytes read and the error `io.ReadAll` ended with, if any. -/
inductive HttpResult where
  | failed (err : GoError) : HttpResult
  | response (status : Int) (body : String) (readErr : Option GoError) : HttpResult
deriving DecidableEq

/-- The environment of an adapter: the successive readings of `time.Now()`, the successive
answers of the network, and the log of what was read and sent so far. -/
structure World where
  clock : Nat → Time
  reads : Nat
  net : Nat → HttpResult
  sent : List Request

/-- The call `time.Now()`. -/
def timeNow (w : World) : Time × World :=
  (w.clock w.reads, { w with reads := w.reads + 1 })

/-- The call `httpClient.Do(req)`: the request is logged and the next answer is taken. -/
def httpDo (req : Request) (w : World) : HttpResult × World :=
  (w.net w.sent.length, { w with sent := w.sent ++ [req] })

/-! ## Sicredi adapter -/

namespace Sicredi

def ProdAuthURL : String := "https://api-parceiro.sicredi.com.br/auth/openapi/token"
def ProdBaseURL : String := "https://api-parceiro.sicredi.com.br/cobranca/boleto/v1"
def SandboxAuthURL : String := "https://api-parceiro.sicredi.com.br/sb/auth/openapi/token"
def SandboxBaseURL : String := "https://api-parceiro.sicredi.com.br/sb/cobranca/boleto/v1"
def AuthContext : String := "COBRANCA"
def AuthScope : String := "cobranca"

/-- The struct `SicrediConfig`; `Timeout` is a duration in nanoseconds. -/
structure SicrediConfig where
  APIKey : String
  Username : String
  Password : String
  Cooperativa : String
  Posto : String
  CodigoBeneficiario : String
  UseSandbox : Bool
  Timeout : Int
  MaxRetries : Int
deriving DecidableEq

/-- The struct `AuthResponse`. -/
structure AuthResponse where
  AccessToken : String
  TokenType : String
  RefreshToken : String
  ExpiresIn : Int
  RefreshExpiresIn : Int
  Scope : String
deriving DecidableEq

/-- The struct `TokenInfo`. -/
structure TokenInfo where
  AccessToken : String
  RefreshToken : String
  ExpiresAt : Time
  RefreshAt : Time
deriving DecidableEq

/-- The struct `ErrorResponse`. -/
structure ErrorResponse where
  Status : Int
  Message : String
  Error : String
deriving DecidableEq

/-- The struct `SicrediAdapter`; the HTTP client is the `World`, `token` is a nilable
pointer. -/
structure SicrediAdapter where
  config : SicrediConfig
  token : Option TokenInfo
  authURL : String
  baseURL : String
deriving DecidableEq

def NewSicrediAdapter (config : SicrediConfig) : SicrediAdapter :=
  if config.UseSandbox then
    { config := config, token := none, authURL := SandboxAuthURL, baseURL := SandboxBaseURL }
  else
    { config := config, token := none, authURL := ProdAuthURL, baseURL := ProdBaseURL }

/-- Field-wise decoding into `AuthResponse` by its JSON tags. -/
def AuthResponse.setField (key : String) (v : JVal) (r : AuthResponse) : Option AuthResponse :=
  if keyMatches key "access_token" then
    (decodeString v r.AccessToken).map (fun x => { r with AccessToken := x })
  else if keyMatches key "token_type" then
    (decodeString v r.TokenType).map (fun x => { r with TokenType := x })
  else if keyMatches key "refresh_token" then
    (decodeString v r.RefreshToken).map (fun x => { r with RefreshToken := x })
  else if keyMatches key "expires_in" then
    (decodeInt v r.ExpiresIn).map (fun x => { r with ExpiresIn := x })
  else if keyMatches key "refresh_expires_in" then
    (decodeInt v r.RefreshExpiresIn).map (fun x => { r with RefreshExpiresIn := x })
  else if keyMatches key "scope" then
    (decodeString v r.Scope).map (fun x => { r with Scope := x })
  else some r

/-- The call `json.Unmarshal(body, &authResp)` on `var authResp AuthResponse`. -/
def unmarshalAuthResponse (body : String) : AuthResponse × Option GoError :=
  unmarshalStruct AuthResponse.setField
    { AccessToken := "", TokenType := "", RefreshToken := "", ExpiresIn := 0,
      RefreshExpiresIn := 0, Scope := "" } body

/-- Field-wise decoding into `ErrorResponse` by its JSON tags. -/
def ErrorResponse.setField (key : String) (v : JVal) (r : ErrorResponse) :
    Option ErrorResponse :=
  if keyMatches key "status" then
    (decodeInt v r.Status).map (fun x => { r with Status := x })
  else if keyMatches key "message" then
    (decodeString v r.Message).map (fun x => { r with Message := x })
  else if keyMatches key "error" then
    (decodeString v r.Error).map (fun x => { r with Error := x })
  else some r

/-- The call `json.Unmarshal(body, &errResp)` on `var errResp ErrorResponse`. -/
def unmarshalErrorResponse (body : String) : ErrorResponse × Option GoError :=
  unmarshalStruct ErrorResponse.setField { Status := 0, Message := "", Error := "" } body

/-- The headers every token request carries. -/
def authHeaders (s : SicrediAdapter) : List (String × String) :=
  [("Content-Type", "application/x-www-form-urlencoded"), ("x-api-key", s.config.APIKey),
   ("context", AuthContext)]

/-- The password-grant request built by `Authenticate`. -/
def authRequest (s : SicrediAdapter) : Request :=
  { method := "POST", url := s.authURL, headers := authHeaders s,
    body := .form [("grant_type", "password"), ("password", s.config.Password),
                   ("scope", AuthScope), ("username", s.config.Username)] }

/-- The refresh-grant request built by `RefreshAuthentication`. -/
def refreshRequest (s : SicrediAdapter) (refreshToken : String) : Request :=
  { method := "POST", url := s.authURL, headers := authHeaders s,
    body := .form [("grant_type", "refresh_token"), ("refresh_token", refreshToken)] }

/-- The assignment `s.token = &TokenInfo{...}`: the clock is read once for each of the two
expiry fields. -/
def storeToken (s : SicrediAdapter) (authResp : AuthResponse) (w : World) :
    SicrediAdapter × World :=
  let (t1, w1) := timeNow w
  let (t2, w2) := timeNow w1
  let token : TokenInfo :=
    { AccessToken := authResp.AccessToken, RefreshToken := authResp.RefreshToken,
      ExpiresAt := t1 + secondsDuration authResp.ExpiresIn,
      RefreshAt := t2 + secondsDuration authResp.RefreshExpiresIn }
  ({ s with token := some token }, w2)

/-- The method `Authenticate`. Building the request cannot fail: the method is constant, the
URL is one of the two constants and the context is not nil. -/
def Authenticate (s : SicrediAdapter) (w : World) : Outcome Unit × SicrediAdapter × World :=
  match httpDo (authRequest s) w with
  | (.failed err, w1) => (.error (.wrapf "erro na requisição de autenticação" err), s, w1)
  | (.response _ _ (some err), w1) => (.error (.wrapf "erro ao ler resposta" err), s, w1)
  | (.response status body none, w1) =>
    if status ≠ 200 then
      let errResp := (unmarshalErrorResponse body).1
      (.error (.errorf ("autenticação falhou (status " ++ toString status ++ "): "
        ++ errResp.Message)), s, w1)
    else
      match unmarshalAuthResponse body with
      | (_, some err) => (.error (.wrapf "erro ao parsear resposta" err), s, w1)
      | (authResp, none) =>
        let (s2, w2) := storeToken s authResp w1
        (.ok (), s2, w2)

/-- The method `RefreshAuthentication`; `s.token.RefreshToken` panics on a nil token. The
error of `io.ReadAll` is dropped and the bytes read so far are decoded. -/
def RefreshAuthentication (s : SicrediAdapter) (w : World) :
    Outcome Unit × SicrediAdapter × World :=
  match s.token with
  | none => (.panic, s, w)
  | some token =>
    match httpDo (refreshRequest s token.RefreshToken) w with
    | (.failed err, w1) => (.error (.wrapf "erro na requisição de refresh" err), s, w1)
    | (.response status body _, w1) =>
      if status ≠ 200 then Authenticate s w1
      else
        match unmarshalAuthResponse body with
        | (_, some err) => (.error (.wrapf "erro ao parsear resposta" err), s, w1)
        | (authResp, none) =>
          let (s2, w2) := storeToken s authResp w1
          (.ok (), s2, w2)

/-- The body of `ensureValidToken` after its first three lines, on the local variable
`token` they set. `After` and `Before` are strict comparisons, and each `time.Now()` is a
reading of its own. -/
def ensureValidTokenWith (token : Option TokenInfo) (s : SicrediAdapter) (w : World) :
    Outcome Unit × SicrediAdapter × World :=
  match token with
  | none => Authenticate s w
  | some token =>
    let (now1, w1) := timeNow w
    if now1 > token.ExpiresAt + (-30) * Second then
      let (now2, w2) := timeNow w1
      if now2 < token.RefreshAt + (-30) * Second then RefreshAuthentication s w2
      else Authenticate s w2
    else (.ok (), s, w1)

/-- The method `ensureValidToken`: `token := s.token` under the read lock, then the rest. -/
def ensureValidToken (s : SicrediAdapter) (w : World) :
    Outcome Unit × SicrediAdapter × World :=
  ensureValidTokenWith s.token s w

/-! ### Business operations -/

/-- The struct `Pagador`. -/
structure Pagador where
  TipoPessoa : String
  Documento : String
  Nome : String
  Endereco : String
  Cidade : String
  UF : String
  CEP : String
  Telefone : String
  Email : String
deriving DecidableEq

/-- The struct `BeneficiarioFinal`. -/
structure BeneficiarioFinal where
  TipoPessoa : String
  Documento : String
  Nome : String
  Logradouro : String
  Complemento : String
  NumeroEndereco : String
  Cidade : String
  UF : String
  CEP : String
  Telefone : String
  Email : String
deriving DecidableEq

/-- The struct `CriarBoletoRequest`; the string types `TipoCobranca`, `EspecieDocumento`,
`TipoDesconto` and `TipoJuros` are strings, `BeneficiarioFinal` is a nilable pointer. -/
structure CriarBoletoRequest where
  TipoCobranca : String
  CodigoBeneficiario : String
  Pagador : Pagador
  BeneficiarioFinal : Option BeneficiarioFinal
  EspecieDocumento : String
  NossoNumero : String
  SeuNumero : String
  DataVencimento : String
  Valor : Float64
  DiasProtestoAuto : Int
  DiasNegativacaoAuto : Int
  ValidadeAposVencimento : Int
  TipoDesconto : String
  ValorDesconto1 : Float64
  DataDesconto1 : String
  ValorDesconto2 : Float64
  DataDesconto2 : String
  ValorDesconto3 : Float64
  DataDesconto3 : String
  DescontoAntecipado : Float64
  TipoJuros : String
  Juros : Float64
  Multa : Float64
  Informativos : List String
  Mensagens : List String
deriving DecidableEq

/-- The struct `CriarBoletoResponse`. -/
structure CriarBoletoResponse where
  TxID : String
  QRCode : String
  LinhaDigitavel : String
  CodigoBarras : String
  Cooperativa : String
  Posto : String
  NossoNumero : String
deriving DecidableEq

/-- The anonymous struct of `Pagador` and `BeneficiarioFinal` in `ConsultaBoletoResponse`. -/
structure PessoaConsulta where
  Codigo : String
  Documento : String
  Nome : String
deriving DecidableEq

/-- The anonymous element struct of `Descontos` in `ConsultaBoletoResponse`. -/
structure DescontoConsulta where
  NumeroOrdem : Int
  ValorDesconto : Float64
  DataLimite : String
deriving DecidableEq

/-- The anonymous struct of `DadosLiquidacao` in `ConsultaBoletoResponse`. -/
structure DadosLiquidacao where
  Data : String
  Valor : Float64
  Multa : Float64
  Abatimento : Float64
  Juros : Float64
  Desconto : Float64
deriving DecidableEq

/-- The struct `ConsultaBoletoResponse`. -/
structure ConsultaBoletoResponse where
  LinhaDigitavel : String
  CodigoBarras : String
  Carteira : String
  SeuNumero : String
  NossoNumero : String
  Pagador : PessoaConsulta
  BeneficiarioFinal : Option PessoaConsulta
  DataEmissao : String
  DataVencimento : String
  ValorNominal : Float64
  Situacao : String
  TxID : String
  CodigoQRCode : String
  Multa : Float64
  Abatimento : Float64
  TipoJuros : String
  Juros : Float64
  DiasProtesto : Int
  ValidadeAposVencimento : Int
  DiasNegativacao : Int
  TipoDesconto : String
  DescontoAntecipacao : Float64
  Descontos : List DescontoConsulta
  DadosLiquidacao : Option DadosLiquidacao
deriving DecidableEq

/-- The struct `ComandoInstrucaoResponse`. -/
structure ComandoInstrucaoResponse where
  TransactionID : String
  DataMovimento : String
  CodigoBeneficiario : String
  NossoNumero : String
  Cooperativa : String
  Posto : String
  StatusComando : String
  DataHoraRegistro : String
  TipoMensagem : String
deriving DecidableEq

/-- The struct `BoletoLiquidado`. -/
structure BoletoLiquidado where
  Cooperativa : String
  CodigoBeneficiario : String
  CooperativaPostoBeneficiario : String
  NossoNumero : String
  SeuNumero : String
  TipoCarteira : String
  DataPagamento : String
  Valor : Float64
  ValorLiquidado : Float64
  JurosLiquido : Float64
  DescontoLiquido : Float64
  MultaLiquida : Float64
  AbatimentoLiquido : Float64
  TipoLiquidacao : String
deriving DecidableEq

/-- The struct `ConsultaLiquidadosResponse`. -/
structure ConsultaLiquidadosResponse where
  Items : List BoletoLiquidado
  HasNext : Bool
deriving DecidableEq

/-- The members `json.Marshal` writes for a `Pagador`, by its tags. -/
def Pagador.members (p : Pagador) : List Member :=
  stringMember "tipoPessoa" false p.TipoPessoa ++
  stringMember "documento" false p.Documento ++
  stringMember "nome" false p.Nome ++
  stringMember "endereco" true p.Endereco ++
  stringMember "cidade" true p.Cidade ++
  stringMember "uf" true p.UF ++
  stringMember "cep" true p.CEP ++
  stringMember "telefone" true p.Telefone ++
  stringMember "email" true p.Email

/-- The members `json.Marshal` writes for a `BeneficiarioFinal`, by its tags. -/
def BeneficiarioFinal.members (b : BeneficiarioFinal) : List Member :=
  stringMember "tipoPessoa" false b.TipoPessoa ++
  stringMember "documento" false b.Documento ++
  stringMember "nome" false b.Nome ++
  stringMember "logradouro" true b.Logradouro ++
  stringMember "complemento" true b.Complemento ++
  stringMember "numeroEndereco" true b.NumeroEndereco ++
  stringMember "cidade" true b.Cidade ++
  stringMember "uf" true b.UF ++
  stringMember "cep" true b.CEP ++
  stringMember "telefone" true b.Telefone ++
  stringMember "email" true b.Email

/-- The members `json.Marshal` writes for a `CriarBoletoRequest`, by its tags and in the
order of its fields. -/
def CriarBoletoRequest.members (r : CriarBoletoRequest) : List Member :=
  stringMember "tipoCobranca" false r.TipoCobranca ++
  stringMember "codigoBeneficiario" false r.CodigoBeneficiario ++
  structMember "pagador" r.Pagador.members ++
  (match r.BeneficiarioFinal with
    | none => []
    | some b => structMember "beneficiarioFinal" b.members) ++
  stringMember "especieDocumento" false r.EspecieDocumento ++
  stringMember "nossoNumero" true r.NossoNumero ++
  stringMember "seuNumero" false r.SeuNumero ++
  stringMember "dataVencimento" false r.DataVencimento ++
  floatMember "valor" false r.Valor ++
  intMember "diasProtestoAuto" true r.DiasProtestoAuto ++
  intMember "diasNegativacaoAuto" true r.DiasNegativacaoAuto ++
  intMember "validadeAposVencimento" true r.ValidadeAposVencimento ++
  stringMember "tipoDesconto" true r.TipoDesconto ++
  floatMember "valorDesconto1" true r.ValorDesconto1 ++
  stringMember "dataDesconto1" true r.DataDesconto1 ++
  floatMember "valorDesconto2" true r.ValorDesconto2 ++
  stringMember "dataDesconto2" true r.DataDesconto2 ++
  floatMember "valorDesconto3" true r.ValorDesconto3 ++
  stringMember "dataDesconto3" true r.DataDesconto3 ++
  floatMember "descontoAntecipado" true r.DescontoAntecipado ++
  stringMember "tipoJuros" true r.TipoJuros ++
  floatMember "juros" true r.Juros ++
  floatMember "multa" true r.Multa ++
  stringsMember "informativos" r.Informativos ++
  stringsMember "mensagens" r.Mensagens

/-- The call `json.Marshal(boleto)`. -/
def marshalCriarBoletoRequest (r : CriarBoletoRequest) : Except GoError String :=
  marshalMembers r.members

/-- The maps handed to `executarComandoInstrucao` as its `body interface{}` argument, as the
list of their entries. -/
inductive CommandBody where
  | strings (entries : List (String × String)) : CommandBody
  | floats (entries : List (String × Float64)) : CommandBody
deriving DecidableEq

/-- The members `json.Marshal` writes for a map: its entries sorted by key. -/
def CommandBody.members : CommandBody → List Member
  | .strings entries => (sortByKey entries).map (fun e => (e.1, some (encodeString e.2)))
  | .floats entries => (sortByKey entries).map (fun e => (e.1, encodeFloat e.2))

/-- The call `json.Marshal(body)` on a command body. -/
def marshalCommandBody (b : CommandBody) : Except GoError String :=
  marshalMembers b.members

/-- The standard library calls taken as given: `json.Unmarshal` into the result structs
(the value decoded and the error returned) and the error of `http.NewRequestWithContext` on
a URL, if any (the methods are valid constants and the context is not nil). -/
structure Stdlib where
  unmarshalCriarBoletoResponse : String → CriarBoletoResponse × Option GoError
  unmarshalConsultaBoletoResponse : String → ConsultaBoletoResponse × Option GoError
  unmarshalComandoInstrucaoResponse : String → ComandoInstrucaoResponse × Option GoError
  unmarshalConsultaLiquidadosResponse : String → ConsultaLiquidadosResponse × Option GoError
  urlError : String → Option GoError

/-- The method `setCommonHeaders`: the API key, and the bearer token when one is held. -/
def setCommonHeaders (s : SicrediAdapter) : List (String × String) :=
  ("x-api-key", s.config.APIKey) ::
    (match s.token with
     | some token => [("Authorization", "Bearer " ++ token.AccessToken)]
     | none => [])

/-- What `CriarBoleto` returns on a response (its lines from the status check on). -/
def criarBoletoResult (L : Stdlib) (status : Int) (respBody : String) :
    Outcome CriarBoletoResponse :=
  if status ≠ 201 ∧ status ≠ 202 then
    .error (.errorf ("erro ao criar boleto (status " ++ toString status ++ "): "
      ++ (unmarshalErrorResponse respBody).1.Message))
  else
    match L.unmarshalCriarBoletoResponse respBody with
    | (_, some err) => .error (.wrapf "erro ao parsear resposta" err)
    | (result, none) => .ok result

/-- The request `CriarBoleto` sends. -/
def criarBoletoRequest (s : SicrediAdapter) (body : String) : Request :=
  { method := "POST", url := s.baseURL ++ "/boletos",
    headers := setCommonHeaders s ++ [("Content-Type", "application/json"),
      ("cooperativa", s.config.Cooperativa), ("posto", s.config.Posto)],
    body := .json body }

/-- The method `CriarBoleto`. The error of `io.ReadAll` is dropped. -/
def CriarBoleto (L : Stdlib) (s : SicrediAdapter) (boleto : CriarBoletoRequest) (w : World) :
    Outcome CriarBoletoResponse × SicrediAdapter × World :=
  match ensureValidToken s w with
  | (.error err, s1, w1) => (.error (.wrapf "erro de autenticação" err), s1, w1)
  | (.panic, s1, w1) => (.panic, s1, w1)
  | (.ok (), s1, w1) =>
    match marshalCriarBoletoRequest boleto with
    | .error err => (.error (.wrapf "erro ao serializar boleto" err), s1, w1)
    | .ok body =>
      match L.urlError (s1.baseURL ++ "/boletos") with
      | some err => (.error (.wrapf "erro ao criar requisição" err), s1, w1)
      | none =>
        match httpDo (criarBoletoRequest s1 body) w1 with
        | (.failed err, w2) => (.error (.wrapf "erro na requisição" err), s1, w2)
        | (.response status respBody _, w2) => (criarBoletoResult L status respBody, s1, w2)

/-- What `ConsultarBoleto` returns on a response. -/
def consultarBoletoResult (L : Stdlib) (status : Int) (respBody : String) :
    Outcome ConsultaBoletoResponse :=
  if status ≠ 200 then
    .error (.errorf ("erro ao consultar boleto (status " ++ toString status ++ "): "
      ++ (unmarshalErrorResponse respBody).1.Message))
  else
    match L.unmarshalConsultaBoletoResponse respBody with
    | (_, some err) => .error (.wrapf "erro ao parsear resposta" err)
    | (result, none) => .ok result

/-- The request `ConsultarBoleto` sends. -/
def consultarBoletoRequest (s : SicrediAdapter) (nossoNumero : String) : Request :=
  { method := "GET",
    url := s.baseURL ++ "/boletos?codigoBeneficiario=" ++ s.config.CodigoBeneficiario ++
      "&nossoNumero=" ++ nossoNumero,
    headers := setCommonHeaders s ++ [("cooperativa", s.config.Cooperativa),
      ("posto", s.config.Posto)],
    body := .empty }

/-- The method `ConsultarBoleto`. -/
def ConsultarBoleto (L : Stdlib) (s : SicrediAdapter) (nossoNumero : String) (w : World) :
    Outcome ConsultaBoletoResponse × SicrediAdapter × World :=
  match ensureValidToken s w with
  | (.error err, s1, w1) => (.error (.wrapf "erro de autenticação" err), s1, w1)
  | (.panic, s1, w1) => (.panic, s1, w1)
  | (.ok (), s1, w1) =>
    match L.urlError (consultarBoletoRequest s1 nossoNumero).url with
    | some err => (.error (.wrapf "erro ao criar requisição" err), s1, w1)
    | none =>
      match httpDo (consultarBoletoRequest s1 nossoNumero) w1 with
      | (.failed err, w2) => (.error (.wrapf "erro na requisição" err), s1, w2)
      | (.response status respBody _, w2) => (consultarBoletoResult L status respBody, s1, w2)

/-- What `ImprimirBoleto` returns on a response: on a status other than 200 and 201 an
error with the bytes read, else the result of `io.ReadAll` (its error as it is). -/
def imprimirBoletoResult (status : Int) (respBody : String) (readErr : Option GoError) :
    Outcome String :=
  if status ≠ 201 ∧ status ≠ 200 then
    .error (.errorf ("erro ao imprimir boleto (status " ++ toString status ++ "): "
      ++ respBody))
  else
    match readErr with
    | some err => .error err
    | none => .ok respBody

/-- The request `ImprimirBoleto` sends. -/
def imprimirBoletoRequest (s : SicrediAdapter) (linhaDigitavel : String) : Request :=
  { method := "GET", url := s.baseURL ++ "/boletos/pdf?linhaDigitavel=" ++ linhaDigitavel,
    headers := setCommonHeaders s, body := .empty }

/-- The method `ImprimirBoleto`. -/
def ImprimirBoleto (L : Stdlib) (s : SicrediAdapter) (linhaDigitavel : String) (w : World) :
    Outcome String × SicrediAdapter × World :=
  match ensureValidToken s w with
  | (.error err, s1, w1) => (.error (.wrapf "erro de autenticação" err), s1, w1)
  | (.panic, s1, w1) => (.panic, s1, w1)
  | (.ok (), s1, w1) =>
    match L.urlError (imprimirBoletoRequest s1 linhaDigitavel).url with
    | some err => (.error (.wrapf "erro ao criar requisição" err), s1, w1)
    | none =>
      match httpDo (imprimirBoletoRequest s1 linhaDigitavel) w1 with
      | (.failed err, w2) => (.error (.wrapf "erro na requisição" err), s1, w2)
      | (.response status respBody readErr, w2) =>
        (imprimirBoletoResult status respBody readErr, s1, w2)

/-- What `executarComandoInstrucao` returns on a response. -/
def comandoResult (L : Stdlib) (comando : String) (status : Int) (respBody : String) :
    Outcome ComandoInstrucaoResponse :=
  if status ≠ 202 then
    .error (.errorf ("erro no comando " ++ comando ++ " (status " ++ toString status ++ "): "
      ++ (unmarshalErrorResponse respBody).1.Message))
  else
    match L.unmarshalComandoInstrucaoResponse respBody with
    | (_, some err) => .error (.wrapf "erro ao parsear resposta" err)
    | (result, none) => .ok result

/-- The body text of a command: the empty object for a nil body, else its encoding. -/
def comandoBody (body : Option CommandBody) : Except GoError String :=
  match body with
  | none => .ok "\x7b\x7d"
  | some b => marshalCommandBody b

/-- The request `executarComandoInstrucao` sends. -/
def comandoRequest (s : SicrediAdapter) (nossoNumero comando body : String) : Request :=
  { method := "PATCH", url := s.baseURL ++ "/boletos/" ++ nossoNumero ++ "/" ++ comando,
    headers := setCommonHeaders s ++ [("Content-Type", "application/json"),
      ("cooperativa", s.config.Cooperativa), ("posto", s.config.Posto),
      ("codigoBeneficiario", s.config.CodigoBeneficiario)],
    body := .json body }

/-- The method `executarComandoInstrucao`. -/
def executarComandoInstrucao (L : Stdlib) (s : SicrediAdapter) (nossoNumero comando : String)
    (body : Option CommandBody) (w : World) :
    Outcome ComandoInstrucaoResponse × SicrediAdapter × World :=
  match ensureValidToken s w with
  | (.error err, s1, w1) => (.error (.wrapf "erro de autenticação" err), s1, w1)
  | (.panic, s1, w1) => (.panic, s1, w1)
  | (.ok (), s1, w1) =>
    match comandoBody body with
    | .error err => (.error (.wrapf "erro ao serializar body" err), s1, w1)
    | .ok text =>
      match L.urlError (comandoRequest s1 nossoNumero comando text).url with
      | some err => (.error (.wrapf "erro ao criar requisição" err), s1, w1)
      | none =>
        match httpDo (comandoRequest s1 nossoNumero comando text) w1 with
        | (.failed err, w2) => (.error (.wrapf "erro na requisição" err), s1, w2)
        | (.response status respBody _, w2) =>
          (comandoResult L comando status respBody, s1, w2)

/-- The method `BaixarBoleto`. -/
def BaixarBoleto (L : Stdlib) (s : SicrediAdapter) (nossoNumero : String) (w : World) :
    Outcome ComandoInstrucaoResponse × SicrediAdapter × World :=
  executarComandoInstrucao L s nossoNumero "baixa" none w

/-- The method `AlterarVencimento`. -/
def AlterarVencimento (L : Stdlib) (s : SicrediAdapter) (nossoNumero novaData : String)
    (w : World) : Outcome ComandoInstrucaoResponse × SicrediAdapter × World :=
  executarComandoInstrucao L s nossoNumero "data-vencimento"
    (some (.strings [("dataVencimento", novaData)])) w

/-- The map built by `AlterarDesconto`: an entry for each discount above zero. -/
def descontoBody (desconto1 desconto2 desconto3 : Float64) : CommandBody :=
  .floats ((if desconto1.isPositive then [("valorDesconto1", desconto1)] else []) ++
    (if desconto2.isPositive then [("valorDesconto2", desconto2)] else []) ++
    (if desconto3.isPositive then [("valorDesconto3", desconto3)] else []))

/-- The method `AlterarDesconto`. -/
def AlterarDesconto (L : Stdlib) (s : SicrediAdapter) (nossoNumero : String)
    (desconto1 desconto2 desconto3 : Float64) (w : World) :
    Outcome ComandoInstrucaoResponse × SicrediAdapter × World :=
  executarComandoInstrucao L s nossoNumero "desconto"
    (some (descontoBody desconto1 desconto2 desconto3)) w

/-- The map built by `AlterarDataDesconto`: an entry for each date that is not empty. -/
def dataDescontoBody (data1 data2 data3 : String) : CommandBody :=
  .strings ((if data1 ≠ "" then [("data1", data1)] else []) ++
    (if data2 ≠ "" then [("data2", data2)] else []) ++
    (if data3 ≠ "" then [("data3", data3)] else []))

/-- The method `AlterarDataDesconto`. -/
def AlterarDataDesconto (L : Stdlib) (s : SicrediAdapter) (nossoNumero : String)
    (data1 data2 data3 : String) (w : World) :
    Outcome ComandoInstrucaoResponse × SicrediAdapter × World :=
  executarComandoInstrucao L s nossoNumero "data-desconto"
    (some (dataDescontoBody data1 data2 data3)) w

/-- The method `AlterarJuros`. -/
def AlterarJuros (L : Stdlib) (s : SicrediAdapter) (nossoNumero : String)
    (valorOuPercentual : Float64) (w : World) :
    Outcome ComandoInstrucaoResponse × SicrediAdapter × World :=
  executarComandoInstrucao L s nossoNumero "juros"
    (some (.floats [("valorOuPercentual", valorOuPercentual)])) w

/-- The method `AlterarSeuNumero`. -/
def AlterarSeuNumero (L : Stdlib) (s : SicrediAdapter) (nossoNumero novoSeuNumero : String)
    (w : World) : Outcome ComandoInstrucaoResponse × SicrediAdapter × World :=
  executarComandoInstrucao L s nossoNumero "seu-numero"
    (some (.strings [("seuNumero", novoSeuNumero)])) w

/-- What `ConsultarLiquidadosPorDia` returns on a response. -/
def liquidadosResult (L : Stdlib) (status : Int) (respBody : String) :
    Outcome ConsultaLiquidadosResponse :=
  if status ≠ 200 then
    .error (.errorf ("erro ao consultar liquidados (status " ++ toString status ++ "): "
      ++ (unmarshalErrorResponse respBody).1.Message))
  else
    match L.unmarshalConsultaLiquidadosResponse respBody with
    | (_, some err) => .error (.wrapf "erro ao parsear resposta" err)
    | (result, none) => .ok result

/-- The request `ConsultarLiquidadosPorDia` sends. -/
def liquidadosRequest (s : SicrediAdapter) (data : String) (pagina : Int) : Request :=
  { method := "GET",
    url := s.baseURL ++ "/boletos/liquidados/dia?codigoBeneficiario=" ++
      s.config.CodigoBeneficiario ++ "&dia=" ++ data ++
      (if pagina > 0 then "&pagina=" ++ toString pagina else ""),
    headers := setCommonHeaders s ++
      [("Content-Type", "application/x-www-form-urlencoded"),
       ("cooperativa", s.config.Cooperativa), ("posto", s.config.Posto)],
    body := .empty }

/-- The method `ConsultarLiquidadosPorDia`. -/
def ConsultarLiquidadosPorDia (L : Stdlib) (s : SicrediAdapter) (data : String)
    (pagina : Int) (w : World) :
    Outcome ConsultaLiquidadosResponse × SicrediAdapter × World :=
  match ensureValidToken s w with
  | (.error err, s1, w1) => (.error (.wrapf "erro de autenticação" err), s1, w1)
  | (.panic, s1, w1) => (.panic, s1, w1)
  | (.ok (), s1, w1) =>
    match L.urlError (liquidadosRequest s1 data pagina).url with
    | some err => (.error (.wrapf "erro ao criar requisição" err), s1, w1)
    | none =>
      match httpDo (liquidadosRequest s1 data pagina) w1 with
      | (.failed err, w2) => (.error (.wrapf "erro na requisição" err), s1, w2)
      | (.response status respBody _, w2) => (liquidadosResult L status respBody, s1, w2)

/-- The method `HealthCheck`. -/
def HealthCheck (s : SicrediAdapter) (w : World) : Outcome Unit × SicrediAdapter × World :=
  ensureValidToken s w

/-- The method `GetProviderName`. -/
def GetProviderName : String := "SICREDI"

/-- A business request was answered: a token was ensured, leaving the adapter `s1` and the
world `w1`, and the network answers the next request with a status and a body. -/
def Answered (s : SicrediAdapter) (w : World) (s1 : SicrediAdapter) (w1 : World)
    (status : Int) (respBody : String) (readErr : Option GoError) : Prop :=
  ensureValidToken s w = (.ok (), s1, w1) ∧
  w1.net w1.sent.length = .response status respBody readErr

/-- A goroutine inside `ensureValidToken`: before the read-locked `token := s.token`, after
it (holding the value read in its local variable), or returned. -/
inductive Goroutine where
  | start : Goroutine
  | holding (token : Option TokenInfo) : Goroutine
  | finished (out : Outcome Unit) : Goroutine
deriving DecidableEq

/-- One scheduling step of a goroutine on the shared adapter: the read-locked
`token := s.token`, then the rest of the method run to its return. No lock is held between
the two, so other goroutines may run in between. -/
def Goroutine.step (g : Goroutine) (s : SicrediAdapter) (w : World) :
    Goroutine × SicrediAdapter × World :=
  match g with
  | .start => (.holding s.token, s, w)
  | .holding token =>
    let r := ensureValidTokenWith token s w
    (.finished r.1, r.2.1, r.2.2)
  | .finished out => (.finished out, s, w)

/-- Two goroutines sharing one adapter and one world. -/
structure Shared where
  first : Goroutine
  second : Goroutine
  adapter : SicrediAdapter
  world : World

/-- Runs a schedule: `false` lets the first goroutine take a step, `true` the second. -/
def runSchedule : List Bool → Shared → Shared
  | [], st => st
  | false :: rest, st =>
    let r := st.first.step st.adapter st.world
    runSchedule rest { st with first := r.1, adapter := r.2.1, world := r.2.2 }
  | true :: rest, st =>
    let r := st.second.step st.adapter st.world
    runSchedule rest { st with second := r.1, adapter := r.2.1, world := r.2.2 }

end Sicredi

/-! ## Sicoob client -/

namespace Sicoob

def SandboxAuthURL : String := "https://sandbox.sicoob.com.br/sicoob/sandbox/oauth/token"
def SandboxAPIURL : String := "https://sandbox.sicoob.com.br/sicoob/sandbox"
def ProductionAuthURL : String :=
  "https://auth.sicoob.com.br/auth/realms/cooperado/protocol/openid-connect/token"
def ProductionAPIURL : String := "https://api.sicoob.com.br"

/-- The struct `Config`; `Timeout` is a duration in nanoseconds. -/
structure Config where
  ClientID : String
  ClientSecret : String
  NumeroContrato : String
  CooperativaCode : String
  Environment : String
  CertPath : String
  KeyPath : String
  Timeout : Int
deriving DecidableEq

/-- The struct `TokenResponse`. -/
structure TokenResponse where
  AccessToken : String
  TokenType : String
  ExpiresIn : Int
  RefreshToken : String
  Scope : String
deriving DecidableEq

/-- The struct `Client`; the HTTP client is the `World`, `token` is a nilable pointer. -/
structure Client where
  config : Config
  token : Option TokenResponse
  tokenExpiry : Time
deriving DecidableEq

/-- Field-wise decoding into `TokenResponse` by its JSON tags. -/
def TokenResponse.setField (key : String) (v : JVal) (r : TokenResponse) :
    Option TokenResponse :=
  if keyMatches key "access_token" then
    (decodeString v r.AccessToken).map (fun x => { r with AccessToken := x })
  else if keyMatches key "token_type" then
    (decodeString v r.TokenType).map (fun x => { r with TokenType := x })
  else if keyMatches key "expires_in" then
    (decodeInt v r.ExpiresIn).map (fun x => { r with ExpiresIn := x })
  else if keyMatches key "refresh_token" then
    (decodeString v r.RefreshToken).map (fun x => { r with RefreshToken := x })
  else if keyMatches key "scope" then
    (decodeString v r.Scope).map (fun x => { r with Scope := x })
  else some r

/-- The call `json.Unmarshal(body, &tokenResp)` on `var tokenResp TokenResponse`. -/
def unmarshalTokenResponse (body : String) : TokenResponse × Option GoError :=
  unmarshalStruct TokenResponse.setField
    { AccessToken := "", TokenType := "", ExpiresIn := 0, RefreshToken := "", Scope := "" } body

/-- Field-wise decoding into `APIError` by its JSON tags. -/
def setAPIErrorField (key : String) (v : JVal) (r : APIError) : Option APIError :=
  if keyMatches key "codigo" then
    (decodeString v r.Codigo).map (fun x => { r with Codigo := x })
  else if keyMatches key "mensagem" then
    (decodeString v r.Mensagem).map (fun x => { r with Mensagem := x })
  else if keyMatches key "detalhes" then
    (decodeString v r.Detalhes).map (fun x => { r with Detalhes := x })
  else some r

/-- The call `json.Unmarshal(respBody, &apiErr)` on `var apiErr APIError`. -/
def unmarshalAPIError (body : String) : APIError × Option GoError :=
  unmarshalStruct setAPIErrorField { Codigo := "", Mensagem := "", Detalhes := "" } body

def getAuthURL (c : Client) : String :=
  if c.config.Environment = "production" then ProductionAuthURL else SandboxAuthURL

def getAPIURL (c : Client) : String :=
  if c.config.Environment = "production" then ProductionAPIURL else SandboxAPIURL

/-- The scope string of the client-credentials grant. -/
def authScope : String :=
  "cobranca_boletos_consultar cobranca_boletos_incluir cobranca_boletos_alterar " ++
  "cobranca_pagadores_consultar cob.read cob.write pix.read pix.write"

/-- The client-credentials request built by `Authenticate`. -/
def authRequest (c : Client) : Request :=
  { method := "POST", url := getAuthURL c,
    headers := [("Content-Type", "application/x-www-form-urlencoded")],
    body := .form [("client_id", c.config.ClientID), ("client_secret", c.config.ClientSecret),
                   ("grant_type", "client_credentials"), ("scope", authScope)] }

/-- The test `c.token != nil && time.Now().Before(c.tokenExpiry)`: the clock is read only
when a token is held. -/
def tokenStillValid (c : Client) (w : World) : Bool × World :=
  match c.token with
  | none => (false, w)
  | some _ =>
    let (now, w1) := timeNow w
    (decide (now < c.tokenExpiry), w1)

/-- The method `Authenticate`. The error of `io.ReadAll` is dropped. -/
def Authenticate (c : Client) (w : World) : Outcome Unit × Client × World :=
  match tokenStillValid c w with
  | (true, w0) => (.ok (), c, w0)
  | (false, w0) =>
    match httpDo (authRequest c) w0 with
    | (.failed err, w1) => (.error (.wrapf "erro na autenticação" err), c, w1)
    | (.response status body _, w1) =>
      if status ≠ 200 then
        (.error (.errorf ("falha na autenticação: status " ++ toString status ++ ", body: "
          ++ body)), c, w1)
      else
        match unmarshalTokenResponse body with
        | (_, some err) => (.error (.wrapf "erro ao decodificar token" err), c, w1)
        | (tokenResp, none) =>
          let (now, w2) := timeNow w1
          (.ok (), { c with token := some tokenResp,
                            tokenExpiry := now + secondsDuration (wrapInt64 (tokenResp.ExpiresIn - 60)) },
            w2)

/-- The method `getAccessToken`; `c.token.AccessToken` panics on a nil token. -/
def getAccessToken (c : Client) (w : World) : Outcome String × Client × World :=
  match c.token, tokenStillValid c w with
  | some token, (true, w0) => (.ok token.AccessToken, c, w0)
  | _, (_, w0) =>
    match Authenticate c w0 with
    | (.error err, c1, w1) => (.error err, c1, w1)
    | (.panic, c1, w1) => (.panic, c1, w1)
    | (.ok (), c1, w1) =>
      match c1.token with
      | some token => (.ok token.AccessToken, c1, w1)
      | none => (.panic, c1, w1)

/-! ### Business operations -/

/-- The struct `Pessoa`. -/
structure Pessoa where
  TipoPessoa : String
  CpfCnpj : String
  Nome : String
  Endereco : String
  Bairro : String
  Cidade : String
  Uf : String
  Cep : String
  Email : String
  Telefone : String

/-- The struct `Boleto`. -/
structure Boleto where
  NumeroContrato : String
  ModalidadePartilha : Int
  NossoNumero : Int
  SeuNumero : String
  Valor : Float64
  DataVencimento : String
  DataEmissao : String
  DataLimitePagamento : String
  EspecieDocumento : String
  TipoCobranca : Int
  TipoJurosMora : Int
  ValorJurosMora : Float64
  TipoMulta : Int
  ValorMulta : Float64
  DataMulta : String
  TipoDesconto1 : Int
  ValorDesconto1 : Float64
  DataDesconto1 : String
  Pagador : Pessoa
  Mensagem1 : String
  Mensagem2 : String
  Mensagem3 : String
  Mensagem4 : String
  Mensagem5 : String
  GerarPix : Bool
  LinhaDigitavel : String
  CodigoBarras : String
  QrCode : String
  TxId : String
  Situacao : String

/-- The struct `BoletoResponse`. -/
structure BoletoResponse where
  NossoNumero : Int
  LinhaDigitavel : String
  CodigoBarras : String
  QrCode : String
  TxId : String

/-- The struct `PixCalendario`. -/
structure PixCalendario where
  Criacao : String
  Expiracao : Int

/-- The struct `PixValor`. -/
structure PixValor where
  Original : String

/-- The struct `PixInfo`. -/
structure PixInfo where
  Nome : String
  Valor : String

/-- The struct `PixCobranca`. -/
structure PixCobranca where
  Calendario : PixCalendario
  Devedor : Pessoa
  Valor : PixValor
  Chave : String
  SolicitacaoPagador : String
  InfoAdicionais : List PixInfo

/-- The struct `PixCobrancaResponse`. -/
structure PixCobrancaResponse where
  TxId : String
  Location : String
  QrCode : String
  ImagemQrCode : String

/-- The struct `WebhookConfig`. -/
structure WebhookConfig where
  URL : String

/-- The values handed to `doRequest` as its `body interface{}` argument. A map is the list
of its entries. -/
inductive Payload where
  | boleto (b : Boleto) : Payload
  | pix (p : PixCobranca) : Payload
  | webhook (cfg : WebhookConfig) : Payload
  | stringMap (entries : List (String × String)) : Payload

/-- The standard library calls on business values, taken as given: `json.Marshal` of a
request payload, `json.Unmarshal` into the result structs (the value decoded and the error
returned), and the error of `http.NewRequest` on a URL, if any (the methods are valid
constants). -/
structure Stdlib where
  marshal : Payload → Except GoError String
  unmarshalBoletoResponse : String → BoletoResponse × Option GoError
  unmarshalResultado : String → List Boleto × Option GoError
  unmarshalPixCobrancaResponse : String → PixCobrancaResponse × Option GoError
  urlError : String → Option GoError

/-- The zero value of `Pessoa`. -/
def Pessoa.zero : Pessoa :=
  { TipoPessoa := "", CpfCnpj := "", Nome := "", Endereco := "", Bairro := "", Cidade := "",
    Uf := "", Cep := "", Email := "", Telefone := "" }

/-- The zero value of `Boleto`. -/
def Boleto.zero : Boleto :=
  { NumeroContrato := "", ModalidadePartilha := 0, NossoNumero := 0, SeuNumero := "",
    Valor := .finite false 0 0, DataVencimento := "", DataEmissao := "",
    DataLimitePagamento := "", EspecieDocumento := "", TipoCobranca := 0, TipoJurosMora := 0,
    ValorJurosMora := .finite false 0 0, TipoMulta := 0, ValorMulta := .finite false 0 0,
    DataMulta := "", TipoDesconto1 := 0, ValorDesconto1 := .finite false 0 0,
    DataDesconto1 := "", Pagador := Pessoa.zero, Mensagem1 := "", Mensagem2 := "",
    Mensagem3 := "", Mensagem4 := "", Mensagem5 := "", GerarPix := false,
    LinhaDigitavel := "", CodigoBarras := "", QrCode := "", TxId := "", Situacao := "" }

/-- The numbers of a `Boleto` are numbers its Go fields can hold: the `float64` fields hold
`float64` values and the `int` fields 64-bit integers. -/
def Boleto.InRange (b : Boleto) : Prop :=
  b.Valor.Valid ∧ b.ValorJurosMora.Valid ∧ b.ValorMulta.Valid ∧ b.ValorDesconto1.Valid ∧
  ∀ n ∈ [b.ModalidadePartilha, b.NossoNumero, b.TipoCobranca, b.TipoJurosMora, b.TipoMulta,
      b.TipoDesconto1], -9223372036854775808 ≤ n ∧ n ≤ 9223372036854775807

/-- The members `json.Marshal` writes for a `Pessoa`, by its tags. -/
def Pessoa.members (p : Pessoa) : List Member :=
  stringMember "tipoPessoa" false p.TipoPessoa ++
  stringMember "cpfCnpj" false p.CpfCnpj ++
  stringMember "nome" false p.Nome ++
  stringMember "endereco" true p.Endereco ++
  stringMember "bairro" true p.Bairro ++
  stringMember "cidade" true p.Cidade ++
  stringMember "uf" true p.Uf ++
  stringMember "cep" true p.Cep ++
  stringMember "email" true p.Email ++
  stringMember "telefone" true p.Telefone

/-- The members `json.Marshal` writes for a `Boleto`, by its tags and in the order of its
fields. -/
def Boleto.members (b : Boleto) : List Member :=
  stringMember "numeroContrato" false b.NumeroContrato ++
  intMember "modalidadePartilha" true b.ModalidadePartilha ++
  intMember "nossoNumero" true b.NossoNumero ++
  stringMember "seuNumero" true b.SeuNumero ++
  floatMember "valor" false b.Valor ++
  stringMember "dataVencimento" false b.DataVencimento ++
  stringMember "dataEmissao" true b.DataEmissao ++
  stringMember "dataLimitePagamento" true b.DataLimitePagamento ++
  stringMember "especieDocumento" true b.EspecieDocumento ++
  intMember "tipoCobranca" true b.TipoCobranca ++
  intMember "tipoJurosMora" true b.TipoJurosMora ++
  floatMember "valorJurosMora" true b.ValorJurosMora ++
  intMember "tipoMulta" true b.TipoMulta ++
  floatMember "valorMulta" true b.ValorMulta ++
  stringMember "dataMulta" true b.DataMulta ++
  intMember "tipoDesconto1" true b.TipoDesconto1 ++
  floatMember "valorDesconto1" true b.ValorDesconto1 ++
  stringMember "dataDesconto1" true b.DataDesconto1 ++
  structMember "pagador" b.Pagador.members ++
  stringMember "mensagem1" true b.Mensagem1 ++
  stringMember "mensagem2" true b.Mensagem2 ++
  stringMember "mensagem3" true b.Mensagem3 ++
  stringMember "mensagem4" true b.Mensagem4 ++
  stringMember "mensagem5" true b.Mensagem5 ++
  boolMember "gerarPix" true b.GerarPix ++
  stringMember "linhaDigitavel" true b.LinhaDigitavel ++
  stringMember "codigoBarras" true b.CodigoBarras ++
  stringMember "qrCode" true b.QrCode ++
  stringMember "txId" true b.TxId ++
  stringMember "situacao" true b.Situacao

/-- The call `json.Marshal(boleto)`. -/
def marshalBoleto (b : Boleto) : Except GoError String := marshalMembers b.members

/-- Field-wise decoding into `Pessoa` by its JSON tags. -/
def Pessoa.setField (key : String) (v : JVal) (p : Pessoa) : Option Pessoa :=
  if keyMatches key "tipoPessoa" then
    (decodeString v p.TipoPessoa).map (fun x => { p with TipoPessoa := x })
  else if keyMatches key "cpfCnpj" then
    (decodeString v p.CpfCnpj).map (fun x => { p with CpfCnpj := x })
  else if keyMatches key "nome" then
    (decodeString v p.Nome).map (fun x => { p with Nome := x })
  else if keyMatches key "endereco" then
    (decodeString v p.Endereco).map (fun x => { p with Endereco := x })
  else if keyMatches key "bairro" then
    (decodeString v p.Bairro).map (fun x => { p with Bairro := x })
  else if keyMatches key "cidade" then
    (decodeString v p.Cidade).map (fun x => { p with Cidade := x })
  else if keyMatches key "uf" then
    (decodeString v p.Uf).map (fun x => { p with Uf := x })
  else if keyMatches key "cep" then
    (decodeString v p.Cep).map (fun x => { p with Cep := x })
  else if keyMatches key "email" then
    (decodeString v p.Email).map (fun x => { p with Email := x })
  else if keyMatches key "telefone" then
    (decodeString v p.Telefone).map (fun x => { p with Telefone := x })
  else some p

/-- Decoding a JSON value into a field of type `Pessoa`. -/
def decodePessoa (v : JVal) (old : Pessoa) : Pessoa × Bool :=
  match v with
  | .obj ms => decodeObject Pessoa.setField ms old
  | .null => (old, true)
  | _ => (old, false)

/-- Field-wise decoding into `Boleto` by its JSON tags. -/
def Boleto.setField (key : String) (v : JVal) (b : Boleto) : Boleto × Bool :=
  if keyMatches key "numeroContrato" then
    setWith (decodeString v b.NumeroContrato) (fun x => { b with NumeroContrato := x }) b
  else if keyMatches key "modalidadePartilha" then
    setWith (decodeInt v b.ModalidadePartilha) (fun x => { b with ModalidadePartilha := x }) b
  else if keyMatches key "nossoNumero" then
    setWith (decodeInt v b.NossoNumero) (fun x => { b with NossoNumero := x }) b
  else if keyMatches key "seuNumero" then
    setWith (decodeString v b.SeuNumero) (fun x => { b with SeuNumero := x }) b
  else if keyMatches key "valor" then
    setWith (decodeFloat v b.Valor) (fun x => { b with Valor := x }) b
  else if keyMatches key "dataVencimento" then
    setWith (decodeString v b.DataVencimento) (fun x => { b with DataVencimento := x }) b
  else if keyMatches key "dataEmissao" then
    setWith (decodeString v b.DataEmissao) (fun x => { b with DataEmissao := x }) b
  else if keyMatches key "dataLimitePagamento" then
    setWith (decodeString v b.DataLimitePagamento)
      (fun x => { b with DataLimitePagamento := x }) b
  else if keyMatches key "especieDocumento" then
    setWith (decodeString v b.EspecieDocumento) (fun x => { b with EspecieDocumento := x }) b
  else if keyMatches key "tipoCobranca" then
    setWith (decodeInt v b.TipoCobranca) (fun x => { b with TipoCobranca := x }) b
  else if keyMatches key "tipoJurosMora" then
    setWith (decodeInt v b.TipoJurosMora) (fun x => { b with TipoJurosMora := x }) b
  else if keyMatches key "valorJurosMora" then
    setWith (decodeFloat v b.ValorJurosMora) (fun x => { b with ValorJurosMora := x }) b
  else if keyMatches key "tipoMulta" then
    setWith (decodeInt v b.TipoMulta) (fun x => { b with TipoMulta := x }) b
  else if keyMatches key "valorMulta" then
    setWith (decodeFloat v b.ValorMulta) (fun x => { b with ValorMulta := x }) b
  else if keyMatches key "dataMulta" then
    setWith (decodeString v b.DataMulta) (fun x => { b with DataMulta := x }) b
  else if keyMatches key "tipoDesconto1" then
    setWith (decodeInt v b.TipoDesconto1) (fun x => { b with TipoDesconto1 := x }) b
  else if keyMatches key "valorDesconto1" then
    setWith (decodeFloat v b.ValorDesconto1) (fun x => { b with ValorDesconto1 := x }) b
  else if keyMatches key "dataDesconto1" then
    setWith (decodeString v b.DataDesconto1) (fun x => { b with DataDesconto1 := x }) b
  else if keyMatches key "pagador" then
    ({ b with Pagador := (decodePessoa v b.Pagador).1 }, (decodePessoa v b.Pagador).2)
  else if keyMatches key "mensagem1" then
    setWith (decodeString v b.Mensagem1) (fun x => { b with Mensagem1 := x }) b
  else if keyMatches key "mensagem2" then
    setWith (decodeString v b.Mensagem2) (fun x => { b with Mensagem2 := x }) b
  else if keyMatches key "mensagem3" then
    setWith (decodeString v b.Mensagem3) (fun x => { b with Mensagem3 := x }) b
  else if keyMatches key "mensagem4" then
    setWith (decodeString v b.Mensagem4) (fun x => { b with Mensagem4 := x }) b
  else if keyMatches key "mensagem5" then
    setWith (decodeString v b.Mensagem5) (fun x => { b with Mensagem5 := x }) b
  else if keyMatches key "gerarPix" then
    setWith (decodeBool v b.GerarPix) (fun x => { b with GerarPix := x }) b
  else if keyMatches key "linhaDigitavel" then
    setWith (decodeString v b.LinhaDigitavel) (fun x => { b with LinhaDigitavel := x }) b
  else if keyMatches key "codigoBarras" then
    setWith (decodeString v b.CodigoBarras) (fun x => { b with CodigoBarras := x }) b
  else if keyMatches key "qrCode" then
    setWith (decodeString v b.QrCode) (fun x => { b with QrCode := x }) b
  else if keyMatches key "txId" then
    setWith (decodeString v b.TxId) (fun x => { b with TxId := x }) b
  else if keyMatches key "situacao" then
    setWith (decodeString v b.Situacao) (fun x => { b with Situacao := x }) b
  else (b, true)

/-- The call `json.Unmarshal(text, &boleto)` on `var boleto Boleto`. -/
def unmarshalBoleto (text : String) : Boleto × Option GoError :=
  unmarshalFields Boleto.setField Boleto.zero text

/-- Decoding the elements of a JSON array into a fresh `[]Boleto`. -/
def decodeBoletos : List JVal → List Boleto × Bool
  | [] => ([], true)
  | v :: vs =>
    let r := decodeStructValue Boleto.setField v Boleto.zero
    let rs := decodeBoletos vs
    (r.1 :: rs.1, r.2 && rs.2)

/-- Field-wise decoding into the anonymous struct with the one field `Resultado []Boleto`. -/
def setResultadoField (key : String) (v : JVal) (old : List Boleto) : List Boleto × Bool :=
  if keyMatches key "resultado" then
    match v with
    | .arr items => decodeBoletos items
    | .null => (old, true)
    | _ => (old, false)
  else (old, true)

/-- The call `json.Unmarshal(body, &boletos)` of `ConsultarBoleto` and `ListarBoletos`: the
field `Resultado` after it and the error returned. -/
def unmarshalResultado (body : String) : List Boleto × Option GoError :=
  unmarshalFields setResultadoField [] body

/-- Field-wise decoding into `BoletoResponse` by its JSON tags. -/
def BoletoResponse.setField (key : String) (v : JVal) (r : BoletoResponse) :
    Option BoletoResponse :=
  if keyMatches key "nossoNumero" then
    (decodeInt v r.NossoNumero).map (fun x => { r with NossoNumero := x })
  else if keyMatches key "linhaDigitavel" then
    (decodeString v r.LinhaDigitavel).map (fun x => { r with LinhaDigitavel := x })
  else if keyMatches key "codigoBarras" then
    (decodeString v r.CodigoBarras).map (fun x => { r with CodigoBarras := x })
  else if keyMatches key "qrCode" then
    (decodeString v r.QrCode).map (fun x => { r with QrCode := x })
  else if keyMatches key "txId" then
    (decodeString v r.TxId).map (fun x => { r with TxId := x })
  else some r

/-- The call `json.Unmarshal(body, &resp)` on `var resp BoletoResponse`. -/
def unmarshalBoletoResponse (body : String) : BoletoResponse × Option GoError :=
  unmarshalStruct BoletoResponse.setField
    { NossoNumero := 0, LinhaDigitavel := "", CodigoBarras := "", QrCode := "", TxId := "" }
    body

/-- Field-wise decoding into `PixCobrancaResponse` by its JSON tags. -/
def PixCobrancaResponse.setField (key : String) (v : JVal) (r : PixCobrancaResponse) :
    Option PixCobrancaResponse :=
  if keyMatches key "txid" then
    (decodeString v r.TxId).map (fun x => { r with TxId := x })
  else if keyMatches key "location" then
    (decodeString v r.Location).map (fun x => { r with Location := x })
  else if keyMatches key "pixCopiaECola" then
    (decodeString v r.QrCode).map (fun x => { r with QrCode := x })
  else if keyMatches key "imagemQrcode" then
    (decodeString v r.ImagemQrCode).map (fun x => { r with ImagemQrCode := x })
  else some r

/-- The call `json.Unmarshal(body, &resp)` on `var resp PixCobrancaResponse`. -/
def unmarshalPixCobrancaResponse (body : String) : PixCobrancaResponse × Option GoError :=
  unmarshalStruct PixCobrancaResponse.setField
    { TxId := "", Location := "", QrCode := "", ImagemQrCode := "" } body

/-- The members `json.Marshal` writes for a `PixCobranca`: `omitempty` never leaves out the
struct `Devedor`. -/
def PixCobranca.members (p : PixCobranca) : List Member :=
  structMember "calendario"
    (stringMember "criacao" true p.Calendario.Criacao ++
     intMember "expiracao" true p.Calendario.Expiracao) ++
  structMember "devedor" p.Devedor.members ++
  structMember "valor" (stringMember "original" false p.Valor.Original) ++
  stringMember "chave" false p.Chave ++
  stringMember "solicitacaoPagador" true p.SolicitacaoPagador ++
  (if p.InfoAdicionais.isEmpty then []
   else [("infoAdicionais", some (encodeArray (p.InfoAdicionais.map (fun i =>
     encodeObject (stringMember "nome" false i.Nome ++ stringMember "valor" false i.Valor)))))])

/-- The call `json.Marshal(body)` on the payloads of the operations. -/
def marshalPayload : Payload → Except GoError String
  | .boleto b => marshalBoleto b
  | .pix p => marshalMembers p.members
  | .webhook cfg => marshalMembers (stringMember "webhookUrl" false cfg.URL)
  | .stringMap entries =>
    marshalMembers ((sortByKey entries).map (fun e => (e.1, some (encodeString e.2))))

/-- The library parameter with `encoding/json` as embedded here; URL parsing stays a
parameter. -/
def jsonLib (urlError : String → Option GoError) : Stdlib :=
  { marshal := marshalPayload,
    unmarshalBoletoResponse := unmarshalBoletoResponse,
    unmarshalResultado := unmarshalResultado,
    unmarshalPixCobrancaResponse := unmarshalPixCobrancaResponse,
    urlError := urlError }

/-- The reader built from `body`: nothing for a nil body, else its JSON encoding. -/
def marshalBody (L : Stdlib) (body : Option Payload) : Except GoError ReqBody :=
  match body with
  | none => .ok .empty
  | some p =>
    match L.marshal p with
    | .ok text => .ok (.json text)
    | .error err => .error err

/-- The request `doRequest` sends once it has a token and an encoded body. -/
def apiRequest (c : Client) (token method endpoint : String) (reqBody : ReqBody) : Request :=
  { method := method, url := getAPIURL c ++ endpoint,
    headers := [("Authorization", "Bearer " ++ token), ("Content-Type", "application/json"),
                ("Accept", "application/json"), ("x-sicoob-clientid", c.config.ClientID)],
    body := reqBody }

/-- The method `doRequest`. The error of `io.ReadAll` is dropped. -/
def doRequest (L : Stdlib) (c : Client) (method endpoint : String) (body : Option Payload)
    (w : World) : Outcome String × Client × World :=
  match getAccessToken c w with
  | (.error err, c1, w1) => (.error err, c1, w1)
  | (.panic, c1, w1) => (.panic, c1, w1)
  | (.ok token, c1, w1) =>
    match marshalBody L body with
    | .error err => (.error (.wrapf "erro ao serializar body" err), c1, w1)
    | .ok reqBody =>
      match L.urlError (getAPIURL c1 ++ endpoint) with
      | some err => (.error (.wrapf "erro ao criar request" err), c1, w1)
      | none =>
        match httpDo (apiRequest c1 token method endpoint reqBody) w1 with
        | (.failed err, w2) => (.error (.wrapf "erro na request" err), c1, w2)
        | (.response status respBody _, w2) =>
          if status ≥ 400 then
            match unmarshalAPIError respBody with
            | (apiErr, none) =>
              if apiErr.Mensagem ≠ "" then (.error (.api apiErr), c1, w2)
              else (.error (.errorf ("erro API: status " ++ toString status ++ ", body: "
                ++ respBody)), c1, w2)
            | (_, some _) =>
              (.error (.errorf ("erro API: status " ++ toString status ++ ", body: "
                ++ respBody)), c1, w2)
          else (.ok respBody, c1, w2)

/-- The method `CriarBoleto`; the contract number of the configuration is written into the
boleto before it is sent. -/
def CriarBoleto (L : Stdlib) (c : Client) (boleto : Boleto) (w : World) :
    Outcome BoletoResponse × Client × World :=
  match doRequest L c "POST" "/cobranca-bancaria/v2/boletos"
      (some (.boleto { boleto with NumeroContrato := c.config.NumeroContrato })) w with
  | (.error err, c1, w1) => (.error (.wrapf "erro ao criar boleto" err), c1, w1)
  | (.panic, c1, w1) => (.panic, c1, w1)
  | (.ok body, c1, w1) =>
    match L.unmarshalBoletoResponse body with
    | (_, some err) => (.error (.wrapf "erro ao decodificar resposta" err), c1, w1)
    | (resp, none) => (.ok resp, c1, w1)

/-- The method `ConsultarBoleto`. -/
def ConsultarBoleto (L : Stdlib) (c : Client) (nossoNumero : Int) (w : World) :
    Outcome Boleto × Client × World :=
  match doRequest L c "GET" ("/cobranca-bancaria/v2/boletos?numeroContrato=" ++
      c.config.NumeroContrato ++ "&nossoNumero=" ++ toString nossoNumero) none w with
  | (.error err, c1, w1) => (.error (.wrapf "erro ao consultar boleto" err), c1, w1)
  | (.panic, c1, w1) => (.panic, c1, w1)
  | (.ok body, c1, w1) =>
    match L.unmarshalResultado body with
    | (_, some err) => (.error (.wrapf "erro ao decodificar resposta" err), c1, w1)
    | ([], none) => (.error (.errorf "boleto não encontrado"), c1, w1)
    | (b :: _, none) => (.ok b, c1, w1)

/-- The method `ListarBoletos`. -/
def ListarBoletos (L : Stdlib) (c : Client) (dataInicio dataFim situacao : String)
    (w : World) : Outcome (List Boleto) × Client × World :=
  let endpoint := "/cobranca-bancaria/v2/boletos?numeroContrato=" ++ c.config.NumeroContrato
    ++ "&dataInicio=" ++ dataInicio ++ "&dataFim=" ++ dataFim
  let endpoint := if situacao ≠ "" then endpoint ++ "&situacao=" ++ situacao else endpoint
  match doRequest L c "GET" endpoint none w with
  | (.error err, c1, w1) => (.error (.wrapf "erro ao listar boletos" err), c1, w1)
  | (.panic, c1, w1) => (.panic, c1, w1)
  | (.ok body, c1, w1) =>
    match L.unmarshalResultado body with
    | (_, some err) => (.error (.wrapf "erro ao decodificar resposta" err), c1, w1)
    | (boletos, none) => (.ok boletos, c1, w1)

/-- The method `BaixarBoleto`. -/
def BaixarBoleto (L : Stdlib) (c : Client) (nossoNumero : Int) (w : World) :
    Outcome Unit × Client × World :=
  match doRequest L c "PATCH"
      ("/cobranca-bancaria/v2/boletos/" ++ toString nossoNumero ++ "/baixar")
      (some (.stringMap [("numeroContrato", c.config.NumeroContrato)])) w with
  | (.error err, c1, w1) => (.error (.wrapf "erro ao baixar boleto" err), c1, w1)
  | (.panic, c1, w1) => (.panic, c1, w1)
  | (.ok _, c1, w1) => (.ok (), c1, w1)

/-- The method `AlterarVencimento`. -/
def AlterarVencimento (L : Stdlib) (c : Client) (nossoNumero : Int) (novaData : String)
    (w : World) : Outcome Unit × Client × World :=
  match doRequest L c "PATCH"
      ("/cobranca-bancaria/v2/boletos/" ++ toString nossoNumero ++ "/prorrogacoes")
      (some (.stringMap [("numeroContrato", c.config.NumeroContrato),
                         ("dataVencimento", novaData)])) w with
  | (.error err, c1, w1) => (.error (.wrapf "erro ao alterar vencimento" err), c1, w1)
  | (.panic, c1, w1) => (.panic, c1, w1)
  | (.ok _, c1, w1) => (.ok (), c1, w1)

/-- The method `CriarCobrancaPix`. -/
def CriarCobrancaPix (L : Stdlib) (c : Client) (cobranca : PixCobranca) (w : World) :
    Outcome PixCobrancaResponse × Client × World :=
  match doRequest L c "POST" "/pix/api/v2/cob" (some (.pix cobranca)) w with
  | (.error err, c1, w1) => (.error (.wrapf "erro ao criar cobrança PIX" err), c1, w1)
  | (.panic, c1, w1) => (.panic, c1, w1)
  | (.ok body, c1, w1) =>
    match L.unmarshalPixCobrancaResponse body with
    | (_, some err) => (.error (.wrapf "erro ao decodificar resposta" err), c1, w1)
    | (resp, none) => (.ok resp, c1, w1)

/-- The method `ConsultarCobrancaPix`. -/
def ConsultarCobrancaPix (L : Stdlib) (c : Client) (txId : String) (w : World) :
    Outcome PixCobrancaResponse × Client × World :=
  match doRequest L c "GET" ("/pix/api/v2/cob/" ++ txId) none w with
  | (.error err, c1, w1) => (.error (.wrapf "erro ao consultar cobrança PIX" err), c1, w1)
  | (.panic, c1, w1) => (.panic, c1, w1)
  | (.ok body, c1, w1) =>
    match L.unmarshalPixCobrancaResponse body with
    | (_, some err) => (.error (.wrapf "erro ao decodificar resposta" err), c1, w1)
    | (resp, none) => (.ok resp, c1, w1)

/-- The method `ConfigurarWebhook`. -/
def ConfigurarWebhook (L : Stdlib) (c : Client) (chave webhookURL : String) (w : World) :
    Outcome Unit × Client × World :=
  match doRequest L c "PUT" ("/pix/api/v2/webhook/" ++ chave)
      (some (.webhook { URL := webhookURL })) w with
  | (.error err, c1, w1) => (.error (.wrapf "erro ao configurar webhook" err), c1, w1)
  | (.panic, c1, w1) => (.panic, c1, w1)
  | (.ok _, c1, w1) => (.ok (), c1, w1)

/-- The method `GerarSegundaVia`. -/
def GerarSegundaVia (L : Stdlib) (c : Client) (nossoNumero : Int) (w : World) :
    Outcome String × Client × World :=
  match doRequest L c "GET" ("/cobranca-bancaria/v2/boletos/" ++ toString nossoNumero ++
      "/segunda-via?numeroContrato=" ++ c.config.NumeroContrato) none w with
  | (.error err, c1, w1) => (.error (.wrapf "erro ao gerar segunda via" err), c1, w1)
  | (.panic, c1, w1) => (.panic, c1, w1)
  | (.ok body, c1, w1) => (.ok body, c1, w1)

/-- The business request went out and was answered: a token was obtained, the body was
encoded, the request was built, and the network answered with a status and a body. -/
def Answered (L : Stdlib) (c : Client) (endpoint : String) (body : Option Payload)
    (w : World) (status : Int) (respBody : String) : Prop :=
  ∃ token c1 w1 reqBody readErr,
    getAccessToken c w = (.ok token, c1, w1) ∧
    marshalBody L body = .ok reqBody ∧
    L.urlError (getAPIURL c1 ++ endpoint) = none ∧
    w1.net w1.sent.length = .response status respBody readErr

end Sicoob

/-! ## Counting token requests, and sample values -/

/-- The `grant_type` of a token request. -/
def grantType (r : Request) : Option String :=
  match r.body with
  | .form fields => fields.lookup "grant_type"
  | _ => none

/-- Number of full authentications (password or client-credentials grant) in a request log. -/
def authCalls (log : List Request) : Nat :=
  (log.filter (fun r => grantType r = some "password" ∨
    grantType r = some "client_credentials")).length

/-- Number of refresh-grant requests in a request log. -/
def refreshCalls (log : List Request) : Nat :=
  (log.filter (fun r => grantType r = some "refresh_token")).length

/-- The requests sent between two worlds. -/
def sentSince (before after : World) : List Request :=
  after.sent.drop before.sent.length

/-- A world whose clock stands still at `now` and whose network gives `answers` in order
(and fails once they are used up). -/
def frozenWorld (now : Time) (answers : List HttpResult) : World :=
  { clock := fun _ => now, reads := 0,
    net := fun k => answers.getD k (.failed (.transport "connection refused")), sent := [] }

/-- A world whose `k`-th clock reading is `times[k]` (the last one from then on). -/
def scriptedWorld (times : List Time) (answers : List HttpResult) : World :=
  { clock := fun k => times.getD k (times.getLastD 0), reads := 0,
    net := fun k => answers.getD k (.failed (.transport "connection refused")), sent := [] }

/-- A token endpoint body `{"access_token":"new-access","expires_in":3600}`. -/
def bodyWithoutRefresh : String :=
  "\x7b\"access_token\":\"new-access\",\"expires_in\":3600\x7d"

/-- A token endpoint body with all of `access_token`, `refresh_token`, `expires_in` (300) and
`refresh_expires_in` (1800). -/
def bodyWithRefresh : String :=
  "\x7b\"access_token\":\"new-access\",\"refresh_token\":\"new-refresh\"," ++
  "\"expires_in\":300,\"refresh_expires_in\":1800\x7d"

/-- A token endpoint body whose `expires_in` is 9223372037 seconds, one second more than a
`time.Duration` can hold. -/
def bodyHugeExpiry : String :=
  "\x7b\"access_token\":\"new-access\",\"expires_in\":9223372037\x7d"

/-- A number of seconds whose nanoseconds fit in a signed 64-bit `time.Duration`. -/
def fitsDuration (n : Int) : Prop := -9223372036 ≤ n ∧ n ≤ 9223372036

instance (n : Int) : Decidable (fitsDuration n) := by
  unfold fitsDuration
  infer_instance

namespace Sicredi

def sampleConfig : SicrediConfig :=
  { APIKey := "key", Username := "123450100", Password := "secret", Cooperativa := "0100",
    Posto := "02", CodigoBeneficiario := "12345", UseSandbox := true,
    Timeout := 30 * Second, MaxRetries := 0 }

/-- An adapter built by `NewSicrediAdapter` that has not authenticated yet. -/
def freshAdapter : SicrediAdapter := NewSicrediAdapter sampleConfig

/-- The zero value of `ConsultaBoletoResponse`. -/
def ConsultaBoletoResponse.zero : ConsultaBoletoResponse :=
  { LinhaDigitavel := "", CodigoBarras := "", Carteira := "", SeuNumero := "",
    NossoNumero := "", Pagador := { Codigo := "", Documento := "", Nome := "" },
    BeneficiarioFinal := none, DataEmissao := "", DataVencimento := "",
    ValorNominal := .finite false 0 0, Situacao := "", TxID := "", CodigoQRCode := "",
    Multa := .finite false 0 0, Abatimento := .finite false 0 0, TipoJuros := "",
    Juros := .finite false 0 0, DiasProtesto := 0, ValidadeAposVencimento := 0,
    DiasNegativacao := 0, TipoDesconto := "", DescontoAntecipacao := .finite false 0 0,
    Descontos := [], DadosLiquidacao := none }

/-- A sample instance of the library parameter: every URL is accepted and no result
decodes. It only instantiates statements that hold for every instance. -/
def sampleLib : Stdlib :=
  { unmarshalCriarBoletoResponse := fun _ =>
      ({ TxID := "", QRCode := "", LinhaDigitavel := "", CodigoBarras := "", Cooperativa := "",
         Posto := "", NossoNumero := "" }, some (.json "json: syntax error")),
    unmarshalConsultaBoletoResponse := fun _ =>
      (ConsultaBoletoResponse.zero, some (.json "json: syntax error")),
    unmarshalComandoInstrucaoResponse := fun _ =>
      ({ TransactionID := "", DataMovimento := "", CodigoBeneficiario := "",
         NossoNumero := "", Cooperativa := "", Posto := "", StatusComando := "",
         DataHoraRegistro := "", TipoMensagem := "" }, some (.json "json: syntax error")),
    unmarshalConsultaLiquidadosResponse := fun _ =>
      ({ Items := [], HasNext := false }, some (.json "json: syntax error")),
    urlError := fun _ => none }

/-- The amount `150.00` as a `float64`: `150 = 5277655813324800 / 2 ^ 45`. -/
def amount150 : Float64 := .finite false 5277655813324800 1029

/-- The boleto of `ExampleCriarBoletoTradicional`: amount `150.00`, due `2026-02-28`, no
discounts, interest `1.00` and fine `2.00`. -/
def exampleBoleto : CriarBoletoRequest :=
  { TipoCobranca := "NORMAL", CodigoBeneficiario := "12345",
    Pagador := { TipoPessoa := "PESSOA_FISICA", Documento := "12345678909",
                 Nome := "JOÃO DA SILVA", Endereco := "RUA DAS FLORES, 123",
                 Cidade := "PORTO ALEGRE", UF := "RS", CEP := "91250000", Telefone := "",
                 Email := "" },
    BeneficiarioFinal := none, EspecieDocumento := "DUPLICATA_MERCANTIL_INDICACAO",
    NossoNumero := "", SeuNumero := "NF-001234", DataVencimento := "2026-02-28",
    Valor := amount150, DiasProtestoAuto := 0, DiasNegativacaoAuto := 0,
    ValidadeAposVencimento := 0, TipoDesconto := "", ValorDesconto1 := .finite false 0 0,
    DataDesconto1 := "", ValorDesconto2 := .finite false 0 0, DataDesconto2 := "",
    ValorDesconto3 := .finite false 0 0, DataDesconto3 := "",
    DescontoAntecipado := .finite false 0 0, TipoJuros := "VALOR",
    Juros := .finite false 4503599627370496 1022,
    Multa := .finite false 4503599627370496 1023,
    Informativos := ["Referente a compra realizada em 28/01/2026", "Pedido número 001234"],
    Mensagens := [] }

/-- The boleto of `ExampleCriarBoletoHibrido`: amount `2500.00`, a first discount of `100.00`
until `2026-02-28` and a second one of `50.00` until `2026-03-07`. -/
def exampleHibrido : CriarBoletoRequest :=
  { TipoCobranca := "HIBRIDO", CodigoBeneficiario := "12345",
    Pagador := { TipoPessoa := "PESSOA_JURIDICA", Documento := "12345678000199",
                 Nome := "EMPRESA LTDA", Endereco := "AV COMERCIAL, 500",
                 Cidade := "SAO PAULO", UF := "SP", CEP := "01310100", Telefone := "",
                 Email := "financeiro@empresa.com.br" },
    BeneficiarioFinal := some { TipoPessoa := "PESSOA_FISICA", Documento := "98765432100",
                                Nome := "MARIA OLIVEIRA", Logradouro := "", Complemento := "",
                                NumeroEndereco := "", Cidade := "", UF := "", CEP := "",
                                Telefone := "", Email := "" },
    EspecieDocumento := "DUPLICATA_SERVICO_INDICACAO",
    NossoNumero := "", SeuNumero := "SERV-2026-001", DataVencimento := "2026-03-15",
    Valor := .finite false 5497558138880000 1033, DiasProtestoAuto := 0,
    DiasNegativacaoAuto := 0, ValidadeAposVencimento := 30, TipoDesconto := "VALOR",
    ValorDesconto1 := .finite false 7036874417766400 1028, DataDesconto1 := "2026-02-28",
    ValorDesconto2 := .finite false 7036874417766400 1027, DataDesconto2 := "2026-03-07",
    ValorDesconto3 := .finite false 0 0, DataDesconto3 := "",
    DescontoAntecipado := .finite false 0 0, TipoJuros := "PERCENTUAL",
    Juros := .finite false 4755801206503244 1017,
    Multa := .finite false 4503599627370496 1023,
    Informativos := [],
    Mensagens := ["Após o vencimento, cobrar multa de 2%", "e juros de 1% ao mês"] }

/-- An adapter holding a token with the given expiry instants. -/
def adapterHolding (expiresAt refreshAt : Time) : SicrediAdapter :=
  { config := sampleConfig,
    token := some { AccessToken := "old-access", RefreshToken := "old-refresh",
                    ExpiresAt := expiresAt, RefreshAt := refreshAt },
    authURL := SandboxAuthURL, baseURL := SandboxBaseURL }

end Sicredi

namespace Sicoob

def sampleConfig : Config :=
  { ClientID := "client", ClientSecret := "secret", NumeroContrato := "987",
    CooperativaCode := "0001", Environment := "sandbox", CertPath := "", KeyPath := "",
    Timeout := 30 * Second }

/-- A client that has not authenticated yet. -/
def freshClient : Client := { config := sampleConfig, token := none, tokenExpiry := 0 }

/-- The error envelope `{"codigo":"404","mensagem":"boleto não encontrado"}`. -/
def notFoundBody : String :=
  "\x7b\"codigo\":\"404\",\"mensagem\":\"boleto não encontrado\"\x7d"

/-- A sample instance of the library parameter: every URL is accepted, every payload is
encoded as the empty object and no result decodes. It only instantiates statements that
hold for every instance. -/
def sampleLib : Stdlib :=
  { marshal := fun _ => .ok "\x7b\x7d",
    unmarshalBoletoResponse := fun _ =>
      ({ NossoNumero := 0, LinhaDigitavel := "", CodigoBarras := "", QrCode := "", TxId := "" },
        some (.json "json: syntax error")),
    unmarshalResultado := fun _ => ([], some (.json "json: syntax error")),
    unmarshalPixCobrancaResponse := fun _ =>
      ({ TxId := "", Location := "", QrCode := "", ImagemQrCode := "" },
        some (.json "json: syntax error")),
    urlError := fun _ => none }

/-- A listing answer with a `PENDENTE` boleto due `2026-03-01` followed by an `EM_ABERTO`
boleto due `2026-02-15`. -/
def listingBody : String :=
  "\x7b\"resultado\":[\x7b\"valor\":150.25,\"dataVencimento\":\"2026-03-01\"," ++
  "\"situacao\":\"PENDENTE\"\x7d,\x7b\"valor\":80,\"dataVencimento\":\"2026-02-15\"," ++
  "\"situacao\":\"EM_ABERTO\"\x7d]\x7d"

/-- The listing answer `listingBody` with its two boletos in the other order. -/
def listingBodyReversed : String :=
  "\x7b\"resultado\":[\x7b\"valor\":80,\"dataVencimento\":\"2026-02-15\"," ++
  "\"situacao\":\"EM_ABERTO\"\x7d,\x7b\"valor\":150.25,\"dataVencimento\":\"2026-03-01\"," ++
  "\"situacao\":\"PENDENTE\"\x7d]\x7d"

/-- A client holding a token with the given expiry instant. -/
def clientHolding (expiry : Time) : Client :=
  { config := sampleConfig,
    token := some { AccessToken := "old-access", TokenType := "Bearer", ExpiresIn := 3600,
                    RefreshToken := "", Scope := "" },
    tokenExpiry := expiry }

end Sicoob

/-! ## Construction of the HTTP clients -/

/-- A `tls.Certificate`, by the contents of the two files it was loaded from. -/
structure Certificate where
  certPEM : String
  keyPEM : String
deriving DecidableEq

/-- What the constructors put into `http.Client` and its transport: the request timeout in
nanoseconds (zero means that requests never time out) and the client certificates of the
TLS configuration. -/
structure HttpClient where
  Timeout : Int
  Certificates : List Certificate
deriving DecidableEq

namespace Sicredi

/-- The `httpClient` that `NewSicrediAdapter` stores in the adapter. -/
def NewSicrediAdapter.httpClient (config : SicrediConfig) : HttpClient :=
  { Timeout := config.Timeout, Certificates := [] }

end Sicredi

namespace Sicoob

/-- The function `NewClient`: the client with the `http.Client` it holds, or the error, and
next to it the pairs of paths handed to `tls.LoadX509KeyPair`, which is the parameter
`loadX509KeyPair`. -/
def NewClient (loadX509KeyPair : String → String → Except GoError Certificate)
    (config : Config) : Except GoError (Client × HttpClient) × List (String × String) :=
  let config := if config.Timeout = 0 then { config with Timeout := 30 * Second } else config
  if config.Environment = "production" ∧ config.CertPath ≠ "" ∧ config.KeyPath ≠ "" then
    match loadX509KeyPair config.CertPath config.KeyPath with
    | .error err =>
      (.error (.wrapf "erro ao carregar certificado" err), [(config.CertPath, config.KeyPath)])
    | .ok cert =>
      (.ok ({ config := config, token := none, tokenExpiry := 0 },
            { Timeout := config.Timeout, Certificates := [cert] }),
        [(config.CertPath, config.KeyPath)])
  else
    (.ok ({ config := config, token := none, tokenExpiry := 0 },
          { Timeout := config.Timeout, Certificates := [] }), [])

/-- A production configuration with a certificate and a key file and no timeout. -/
def productionConfig : Config :=
  { ClientID := "client", ClientSecret := "secret", NumeroContrato := "987",
    CooperativaCode := "0001", Environment := "production", CertPath := "/etc/sicoob/cert.pem",
    KeyPath := "/etc/sicoob/key.pem", Timeout := 0 }

/-- A file system that holds the certificate of `productionConfig` and nothing else. -/
def sampleLoader (certFile keyFile : String) : Except GoError Certificate :=
  if certFile = "/etc/sicoob/cert.pem" ∧ keyFile = "/etc/sicoob/key.pem" then
    .ok { certPEM := "CERTIFICATE", keyPEM := "PRIVATE KEY" }
  else .error (.errorf ("open " ++ certFile ++ ": no such file or directory"))

/-- A boleto of `150.25` due `2026-03-01` under the contract `987`. -/
def boletoExemplo : Boleto :=
  { Boleto.zero with NumeroContrato := "987",
                     Valor := .finite false 5286451906347008 1029,
                     DataVencimento := "2026-03-01" }

/-- A PIX charge of `10.00` on the key `chave@empresa.com.br` with no debtor and none of the
optional fields. -/
def pixSemDevedor : PixCobranca :=
  { Calendario := { Criacao := "", Expiracao := 0 }, Devedor := Pessoa.zero,
    Valor := { Original := "10.00" }, Chave := "chave@empresa.com.br",
    SolicitacaoPagador := "", InfoAdicionais := [] }

end Sicoob

/-! ## Boleto webhook service

A shallow embedding of the handler `consultarBoletos` of
`services/boleto-webhook/cmd/server/main.go` and of the functions it calls.

* Strings are sequences of Unicode characters (the request fields come out of the JSON
  decoder and the stored ones out of the database, both as valid UTF-8); `len` counts the
  bytes of the UTF-8 encoding.
* The database is a parameter: what the two queries answer. The handler returns the HTTP
  answer together with the queries it ran; logging is left out.
* `sha256.Sum256` is a parameter whose result is an array of 32 bytes.
-/

namespace Webhook

/-- The struct `ConsultaBoletoRequest`. -/
structure ConsultaBoletoRequest where
  Telefone : String
  Senha : String
deriving DecidableEq

/-- The struct `BoletoResponse`; the two pointer fields are nilable. -/
structure BoletoResponse where
  ID : String
  NossoNumero : String
  LinhaDigitavel : String
  CodigoBarras : String
  QRCode : String
  QRCodeURL : String
  Valor : Float64
  ValorPago : Option Float64
  DataEmissao : String
  DataVencimento : String
  DataPagamento : Option String
  Status : String
  PagadorNome : String
  URLBoleto : String
  URLPDF : String
  Descricao : String
  Vencido : Bool
  DiasVencimento : Int
deriving DecidableEq

/-- The struct `ConsultaBoletoResponse`. -/
structure ConsultaBoletoResponse where
  Success : Bool
  Message : String
  Cliente : String
  Total : Int
  Boletos : List BoletoResponse
deriving DecidableEq

/-- The struct `ErrorResponse`. -/
structure ErrorResponse where
  Success : Bool
  Error : String
  Code : String
deriving DecidableEq

/-- The struct `Usuario`. -/
structure Usuario where
  ID : String
  Nome : String
  Telefone : String
  DocumentoHash : String
  DocumentoPrimeiros4 : String
deriving DecidableEq

/-- The number of bytes of a character in UTF-8. -/
def utf8Len (c : Char) : Nat :=
  let n := c.toNat
  if n < 128 then 1 else if n < 2048 then 2 else if n < 65536 then 3 else 4

/-- The builtin `len` on a string: the number of bytes. -/
def len (s : String) : Nat := (s.toList.map utf8Len).sum

/-- The loop of `normalizarTelefone`: the runes from `'0'` to `'9'` are written to the
builder `resultado`. -/
def normalizarTelefoneLoop (resultado : List Char) : List Char → List Char
  | [] => resultado
  | c :: cs =>
    if 48 ≤ c.toNat ∧ c.toNat ≤ 57 then normalizarTelefoneLoop (resultado ++ [c]) cs
    else normalizarTelefoneLoop resultado cs

/-- The function `normalizarTelefone`. -/
def normalizarTelefone (telefone : String) : String :=
  String.mk (normalizarTelefoneLoop [] telefone.toList)

/-- The loop of `isNumeric`: false at the first rune outside `'0'` to `'9'`. -/
def isNumericLoop : List Char → Bool
  | [] => true
  | c :: cs => if c.toNat < 48 ∨ c.toNat > 57 then false else isNumericLoop cs

/-- The function `isNumeric`. -/
def isNumeric (s : String) : Bool := isNumericLoop s.toList

/-- The function `unicode.IsSpace`: the characters with the Unicode property White_Space. -/
def isSpace (c : Char) : Bool :=
  let n := c.toNat
  (9 ≤ n && n ≤ 13) || n = 32 || n = 133 || n = 160 || n = 5760 ||
  (8192 ≤ n && n ≤ 8202) || n = 8232 || n = 8233 || n = 8239 || n = 8287 || n = 12288

/-- The function `strings.TrimSpace`: leading and trailing white space is cut off. -/
def TrimSpace (s : String) : String :=
  String.mk ((s.toList.dropWhile isSpace).reverse.dropWhile isSpace).reverse

/-- The function `strings.HasPrefix`. -/
def HasPrefix (s pre : String) : Bool := pre.toList.isPrefixOf s.toList

/-- The array `[32]byte` returned by `sha256.Sum256`. -/
structure Digest where
  bytes : List (Fin 256)
  size : bytes.length = 32

/-- The function `hex.EncodeToString`: two lower-case hexadecimal digits for each byte. -/
def hexEncodeToString (bytes : List (Fin 256)) : String :=
  String.mk (bytes.flatMap (fun b => [hexDigit (b.val / 16), hexDigit (b.val % 16)]))

/-- The function `generateHash`; `sum256 s` stands for `sha256.Sum256([]byte(s))`. -/
def generateHash (sum256 : String → Digest) (s : String) : String :=
  hexEncodeToString (sum256 s).bytes

/-- The method `validarSenha`. -/
def validarSenha (sum256 : String → Digest)
    (senhaInformada documentoHash documentoPrimeiros4 : String) : Bool :=
  if documentoPrimeiros4 ≠ "" ∧ senhaInformada = documentoPrimeiros4 then true
  else HasPrefix documentoHash (generateHash sum256 senhaInformada)

/-- What `QueryRowContext(...).Scan(...)` ends with: the row scanned, `sql.ErrNoRows`, or
another error. -/
inductive RowResult (α : Type) where
  | row (a : α) : RowResult α
  | noRows : RowResult α
  | failed (err : GoError) : RowResult α

/-- The columns `rows.Scan` reads from one row of the boleto query; a nullable column is
valid exactly when it holds a value. -/
structure BoletoRow where
  ID : String
  NossoNumero : String
  LinhaDigitavel : String
  CodigoBarras : String
  QRCode : String
  QRCodeURL : String
  Valor : Float64
  valorPago : Option Float64
  DataEmissao : String
  DataVencimento : String
  dataPagamento : Option String
  Status : String
  PagadorNome : String
  URLBoleto : String
  URLPDF : String
  Descricao : String
  diasVencido : Int
deriving DecidableEq

/-- What `QueryContext` gives when it returns rows: the outcome of `rows.Scan` on each of
the rows that `rows.Next()` delivers, and the value of `rows.Err()` after the last one. -/
structure Rows where
  scans : List (Except GoError BoletoRow)
  err : Option GoError

/-- The database behind the service: the answers to the user query for a telephone number
and to the boleto query for a user id. -/
structure Database where
  queryUsuario : String → RowResult Usuario
  queryBoletos : String → Except GoError Rows

/-- The method `buscarUsuarioPorTelefone`. -/
def buscarUsuarioPorTelefone (db : Database) (telefone : String) : Except GoError Usuario :=
  match db.queryUsuario telefone with
  | .noRows => .error (.errorf "usuário não encontrado")
  | .failed err => .error err
  | .row usuario => .ok usuario

/-- The body of the loop of `buscarBoletosPorUsuario` after a successful `rows.Scan`: the
`BoletoResponse` appended for a row. The negation is that of a signed 64-bit integer. -/
def boletoDaLinha (r : BoletoRow) : BoletoResponse :=
  { ID := r.ID, NossoNumero := r.NossoNumero, LinhaDigitavel := r.LinhaDigitavel,
    CodigoBarras := r.CodigoBarras, QRCode := r.QRCode, QRCodeURL := r.QRCodeURL,
    Valor := r.Valor, ValorPago := r.valorPago, DataEmissao := r.DataEmissao,
    DataVencimento := r.DataVencimento, DataPagamento := r.dataPagamento,
    Status := r.Status, PagadorNome := r.PagadorNome, URLBoleto := r.URLBoleto,
    URLPDF := r.URLPDF, Descricao := r.Descricao,
    Vencido := decide (r.diasVencido > 0),
    DiasVencimento := wrapInt64 (-r.diasVencido) }

/-- The loop `for rows.Next()` of `buscarBoletosPorUsuario`: the boletos collected, or the
error of the first `rows.Scan` that fails. -/
def buscarBoletosLoop (boletos : List BoletoResponse) :
    List (Except GoError BoletoRow) → Except GoError (List BoletoResponse)
  | [] => .ok boletos
  | .error err :: _ => .error err
  | .ok r :: rest => buscarBoletosLoop (boletos ++ [boletoDaLinha r]) rest

/-- The method `buscarBoletosPorUsuario`: the slice and the error it returns. -/
def buscarBoletosPorUsuario (db : Database) (userID : String) :
    List BoletoResponse × Option GoError :=
  match db.queryBoletos userID with
  | .error err => ([], some err)
  | .ok rows =>
    match buscarBoletosLoop [] rows.scans with
    | .error err => ([], some err)
    | .ok boletos => (boletos, rows.err)

/-- A query the handler ran. -/
inductive DBCall where
  | usuario (telefone : String) : DBCall
  | boletos (userID : String) : DBCall
deriving DecidableEq

/-- What the handler writes with `c.JSON`: the status and the value encoded. -/
inductive Answer where
  | error (status : Nat) (body : ErrorResponse) : Answer
  | ok (status : Nat) (body : ConsultaBoletoResponse) : Answer
deriving DecidableEq

/-- The handler `consultarBoletos`; `bound` is what `c.ShouldBindJSON(&req)` gave, the
request or the error. The answer comes with the queries run, in order. -/
def consultarBoletos (sum256 : String → Digest) (db : Database)
    (bound : Except GoError ConsultaBoletoRequest) : Answer × List DBCall :=
  match bound with
  | .error _ =>
    (.error 400 { Success := false, Error := "Dados inválidos. Informe telefone e senha.",
                  Code := "INVALID_REQUEST" }, [])
  | .ok req =>
    let telefone := normalizarTelefone req.Telefone
    if len telefone < 10 ∨ len telefone > 11 then
      (.error 400 { Success := false,
                    Error := "Telefone inválido. Informe DDD + número (10 ou 11 dígitos).",
                    Code := "INVALID_PHONE" }, [])
    else
      let senha := TrimSpace req.Senha
      if len senha ≠ 4 ∨ isNumeric senha = false then
        (.error 400 { Success := false,
                      Error := "Senha inválida. Informe os 4 primeiros dígitos do seu " ++
                        "CPF ou CNPJ.",
                      Code := "INVALID_PASSWORD" }, [])
      else
        match buscarUsuarioPorTelefone db telefone with
        | .error _ =>
          (.error 404 { Success := false, Error := "Telefone não encontrado no sistema.",
                        Code := "USER_NOT_FOUND" }, [.usuario telefone])
        | .ok usuario =>
          if validarSenha sum256 senha usuario.DocumentoHash usuario.DocumentoPrimeiros4
              = false then
            (.error 401 { Success := false,
                          Error := "Senha incorreta. A senha são os 4 primeiros dígitos " ++
                            "do seu CPF ou CNPJ.",
                          Code := "INVALID_CREDENTIALS" }, [.usuario telefone])
          else
            match buscarBoletosPorUsuario db usuario.ID with
            | (_, some _) =>
              (.error 500 { Success := false,
                            Error := "Erro ao buscar boletos. Tente novamente.",
                            Code := "INTERNAL_ERROR" },
                [.usuario telefone, .boletos usuario.ID])
            | (boletos, none) =>
              (.ok 200 { Success := true,
                         Message := if boletos.length = 0 then
                             "Nenhum boleto encontrado para este cliente"
                           else "Boletos encontrados com sucesso",
                         Cliente := usuario.Nome, Total := boletos.length,
                         Boletos := boletos },
                [.usuario telefone, .boletos usuario.ID])

/-- The answer `400 INVALID_PHONE`. -/
def invalidPhone : Answer :=
  .error 400 { Success := false,
               Error := "Telefone inválido. Informe DDD + número (10 ou 11 dígitos).",
               Code := "INVALID_PHONE" }

/-- The answer `400 INVALID_PASSWORD`. -/
def invalidPassword : Answer :=
  .error 400 { Success := false,
               Error := "Senha inválida. Informe os 4 primeiros dígitos do seu " ++
                 "CPF ou CNPJ.",
               Code := "INVALID_PASSWORD" }

/-- A stand-in for `sha256.Sum256` in examples: 32 bytes that are all the number of
characters of the text modulo 256. -/
def sampleSum256 (s : String) : Digest :=
  { bytes := List.replicate 32 (Fin.ofNat s.length), size := List.length_replicate _ _ }

/-- The user `Ana`, stored under `51999887766` with the hash `sampleSum256` gives for a
password of four characters. -/
def sampleUsuario : Usuario :=
  { ID := "u-1", Nome := "Ana Souza", Telefone := "51999887766",
    DocumentoHash := "0404040404040404040404040404040404040404040404040404040404040404",
    DocumentoPrimeiros4 := "" }

/-- A row of the boleto query: a boleto of `80.00` that fell due three days ago. -/
def sampleRow : BoletoRow :=
  { ID := "b-1", NossoNumero := "211001293", LinhaDigitavel := "", CodigoBarras := "",
    QRCode := "", QRCodeURL := "", Valor := .finite false 5629499534213120 1028,
    valorPago := none, DataEmissao := "2026-02-01", DataVencimento := "2026-02-15",
    dataPagamento := none, Status := "VENCIDO", PagadorNome := "Ana Souza", URLBoleto := "",
    URLPDF := "", Descricao := "", diasVencido := 3 }

/-- A database that knows `sampleUsuario` and one boleto of that user. -/
def sampleDatabase : Database :=
  { queryUsuario := fun telefone =>
      if telefone = "51999887766" then .row sampleUsuario else .noRows,
    queryBoletos := fun userID =>
      if userID = "u-1" then .ok { scans := [.ok sampleRow], err := none }
      else .ok { scans := [], err := none } }

end Webhook

end Kamino
/-! # Properties -/

namespace Kamino

namespace Sicredi

/-- The three branches of `ensureValidToken` on a held token, by the two clock readings. -/
theorem ensureValidToken_held (s : SicrediAdapter) (w : World) (token : TokenInfo)
    (hheld : s.token = some token) :
    ensureValidToken s w =
      if w.clock w.reads > token.ExpiresAt + (-30) * Second then
        if w.clock (w.reads + 1) < token.RefreshAt + (-30) * Second then
          RefreshAuthentication s { w with reads := w.reads + 2 }
        else Authenticate s { w with reads := w.reads + 2 }
      else (.ok (), s, { w with reads := w.reads + 1 }) := by
  simp only [ensureValidToken, ensureValidTokenWith, hheld, timeNow]

/-- `Authenticate` when the transport fails. -/
theorem Authenticate_failed (s : SicrediAdapter) (w : World) (err : GoError)
    (hnet : w.net w.sent.length = .failed err) :
    Authenticate s w =
      (.error (.wrapf "erro na requisição de autenticação" err), s,
        { w with sent := w.sent ++ [authRequest s] }) := by
  simp only [Authenticate, httpDo, hnet]

/-- `Authenticate` when reading the body fails. -/
theorem Authenticate_readErr (s : SicrediAdapter) (w : World) (status : Int) (body : String)
    (err : GoError) (hnet : w.net w.sent.length = .response status body (some err)) :
    Authenticate s w =
      (.error (.wrapf "erro ao ler resposta" err), s,
        { w with sent := w.sent ++ [authRequest s] }) := by
  simp only [Authenticate, httpDo, hnet]

/-- `Authenticate` on a status other than 200. -/
theorem Authenticate_status (s : SicrediAdapter) (w : World) (status : Int) (body : String)
    (hnet : w.net w.sent.length = .response status body none) (hst : status ≠ 200) :
    Authenticate s w =
      (.error (.errorf ("autenticação falhou (status " ++ toString status ++ "): "
        ++ (unmarshalErrorResponse body).1.Message)), s,
        { w with sent := w.sent ++ [authRequest s] }) := by
  simp only [Authenticate, httpDo, hnet, if_pos hst]

/-- `Authenticate` on status 200. -/
theorem Authenticate_200 (s : SicrediAdapter) (w : World) (body : String)
    (hnet : w.net w.sent.length = .response 200 body none) :
    Authenticate s w =
      match unmarshalAuthResponse body with
      | (_, some err) => (.error (.wrapf "erro ao parsear resposta" err), s,
          { w with sent := w.sent ++ [authRequest s] })
      | (authResp, none) =>
        (.ok (), (storeToken s authResp { w with sent := w.sent ++ [authRequest s] })) := by
  simp only [Authenticate, httpDo, hnet]
  rfl

/-- `Authenticate` sends exactly one request, the password grant. -/
theorem Authenticate_sent (s : SicrediAdapter) (w : World) :
    (Authenticate s w).2.2.sent = w.sent ++ [authRequest s] := by
  cases hnet : w.net w.sent.length with
  | failed err => rw [Authenticate_failed s w err hnet]
  | response status body readErr =>
    cases readErr with
    | some err => rw [Authenticate_readErr s w status body err hnet]
    | none =>
      by_cases hst : status = 200
      · subst hst
        rw [Authenticate_200 s w body hnet]
        cases hdec : unmarshalAuthResponse body with
        | mk authResp err =>
          cases err with
          | some e => rfl
          | none => rfl
      · rw [Authenticate_status s w status body hnet hst]

/-- `RefreshAuthentication` when the transport fails. -/
theorem RefreshAuthentication_failed (s : SicrediAdapter) (w : World) (token : TokenInfo)
    (err : GoError) (hheld : s.token = some token)
    (hnet : w.net w.sent.length = .failed err) :
    RefreshAuthentication s w =
      (.error (.wrapf "erro na requisição de refresh" err), s,
        { w with sent := w.sent ++ [refreshRequest s token.RefreshToken] }) := by
  simp only [RefreshAuthentication, hheld, httpDo, hnet]

/-- `RefreshAuthentication` on a status other than 200 falls back to `Authenticate`. -/
theorem RefreshAuthentication_status (s : SicrediAdapter) (w : World) (token : TokenInfo)
    (status : Int) (body : String) (readErr : Option GoError) (hheld : s.token = some token)
    (hnet : w.net w.sent.length = .response status body readErr) (hst : status ≠ 200) :
    RefreshAuthentication s w =
      Authenticate s { w with sent := w.sent ++ [refreshRequest s token.RefreshToken] } := by
  simp only [RefreshAuthentication, hheld, httpDo, hnet, if_pos hst]

/-- `RefreshAuthentication` on status 200. -/
theorem RefreshAuthentication_200 (s : SicrediAdapter) (w : World) (token : TokenInfo)
    (body : String) (readErr : Option GoError) (hheld : s.token = some token)
    (hnet : w.net w.sent.length = .response 200 body readErr) :
    RefreshAuthentication s w =
      match unmarshalAuthResponse body with
      | (_, some err) => (.error (.wrapf "erro ao parsear resposta" err), s,
          { w with sent := w.sent ++ [refreshRequest s token.RefreshToken] })
      | (authResp, none) =>
        (.ok (), (storeToken s authResp
          { w with sent := w.sent ++ [refreshRequest s token.RefreshToken] })) := by
  simp only [RefreshAuthentication, hheld, httpDo, hnet]
  rfl

/-- `RefreshAuthentication` on a held token sends the refresh grant with the stored refresh
token first, and the password grant after it exactly when the answer has a status other
than 200. -/
theorem RefreshAuthentication_sent (s : SicrediAdapter) (w : World) (token : TokenInfo)
    (hheld : s.token = some token) :
    (RefreshAuthentication s w).2.2.sent =
      w.sent ++ refreshRequest s token.RefreshToken ::
        (match w.net w.sent.length with
         | .response status _ _ => if status ≠ 200 then [authRequest s] else []
         | .failed _ => []) := by
  cases hnet : w.net w.sent.length with
  | failed err => rw [RefreshAuthentication_failed s w token err hheld hnet]
  | response status body readErr =>
    by_cases hst : status = 200
    · subst hst
      rw [RefreshAuthentication_200 s w token body readErr hheld hnet]
      cases hdec : unmarshalAuthResponse body with
      | mk authResp err =>
        cases err with
        | some e => rfl
        | none => rfl
    · rw [RefreshAuthentication_status s w token status body readErr hheld hnet hst,
        Authenticate_sent]
      simp only [if_pos hst, List.append_assoc, List.singleton_append]

end Sicredi

/-- Within the range of `fitsDuration` the duration of `n` seconds is `n * Second`. -/
theorem secondsDuration_eq (n : Int) (h : fitsDuration n) : secondsDuration n = n * Second := by
  unfold fitsDuration at h
  unfold secondsDuration wrapInt64 Second
  omega

/-- The requests sent since `w` when the log of `w` was extended by `l`. -/
theorem sentSince_append (w w2 : World) (l : List Request) (h : w2.sent = w.sent ++ l) :
    sentSince w w2 = l := by
  simp [sentSince, h]

namespace Sicredi

/-- A successful `Authenticate` stores exactly the values of the response: both tokens as
decoded, and the two expiry instants from the two clock readings that follow the answer. -/
theorem Authenticate_ok_token (s : SicrediAdapter) (w : World)
    (hok : (Authenticate s w).1 = .ok ()) :
    ∃ body, w.net w.sent.length = .response 200 body none ∧
      (unmarshalAuthResponse body).2 = none ∧
      (Authenticate s w).2.1.token = some
        { AccessToken := (unmarshalAuthResponse body).1.AccessToken,
          RefreshToken := (unmarshalAuthResponse body).1.RefreshToken,
          ExpiresAt := w.clock w.reads +
            secondsDuration (unmarshalAuthResponse body).1.ExpiresIn,
          RefreshAt := w.clock (w.reads + 1) +
            secondsDuration (unmarshalAuthResponse body).1.RefreshExpiresIn } := by
  cases hnet : w.net w.sent.length with
  | failed err =>
    rw [Authenticate_failed s w err hnet] at hok
    exact absurd hok (by simp)
  | response status body readErr =>
    cases readErr with
    | some err =>
      rw [Authenticate_readErr s w status body err hnet] at hok
      exact absurd hok (by simp)
    | none =>
      by_cases hst : status = 200
      · subst hst
        refine ⟨body, rfl, ?_⟩
        rw [Authenticate_200 s w body hnet] at hok ⊢
        cases hdec : unmarshalAuthResponse body with
        | mk authResp err =>
          cases err with
          | some e =>
            rw [hdec] at hok
            exact absurd hok (by simp)
          | none => exact ⟨rfl, rfl⟩
      · rw [Authenticate_status s w status body hnet hst] at hok
        exact absurd hok (by simp)

end Sicredi

namespace Sicoob

/-- With no token held the validity test fails without reading the clock. -/
theorem tokenStillValid_none (c : Client) (w : World) (h : c.token = none) :
    tokenStillValid c w = (false, w) := by
  simp only [tokenStillValid, h]

/-- With a token held the validity test reads the clock once. -/
theorem tokenStillValid_some (c : Client) (w : World) (token : TokenResponse)
    (h : c.token = some token) :
    tokenStillValid c w =
      (decide (w.clock w.reads < c.tokenExpiry), { w with reads := w.reads + 1 }) := by
  simp only [tokenStillValid, h, timeNow]

/-- The validity test never touches the request log or the network. -/
theorem tokenStillValid_world (c : Client) (w : World) :
    (tokenStillValid c w).2.sent = w.sent ∧ (tokenStillValid c w).2.net = w.net ∧
    (tokenStillValid c w).2.clock = w.clock := by
  cases h : c.token with
  | none => rw [tokenStillValid_none c w h]; exact ⟨rfl, rfl, rfl⟩
  | some token => rw [tokenStillValid_some c w token h]; exact ⟨rfl, rfl, rfl⟩

/-- `Authenticate` with a token that is still valid: nothing is sent. -/
theorem client_Authenticate_valid (c : Client) (w : World) (h : (tokenStillValid c w).1 = true) :
    Authenticate c w = (.ok (), c, (tokenStillValid c w).2) := by
  unfold Authenticate
  cases hv : tokenStillValid c w with
  | mk b w0 =>
    rw [hv] at h
    simp only at h
    subst h
    rfl

/-- `Authenticate` when the transport fails. -/
theorem client_Authenticate_failed (c : Client) (w w0 : World) (err : GoError)
    (hv : tokenStillValid c w = (false, w0)) (hnet : w0.net w0.sent.length = .failed err) :
    Authenticate c w =
      (.error (.wrapf "erro na autenticação" err), c,
        { w0 with sent := w0.sent ++ [authRequest c] }) := by
  simp only [Authenticate, hv, httpDo, hnet]

/-- `Authenticate` on a status other than 200. -/
theorem client_Authenticate_status (c : Client) (w w0 : World) (status : Int) (body : String)
    (readErr : Option GoError) (hv : tokenStillValid c w = (false, w0))
    (hnet : w0.net w0.sent.length = .response status body readErr) (hst : status ≠ 200) :
    Authenticate c w =
      (.error (.errorf ("falha na autenticação: status " ++ toString status ++ ", body: "
        ++ body)), c, { w0 with sent := w0.sent ++ [authRequest c] }) := by
  simp only [Authenticate, hv, httpDo, hnet, if_pos hst]

/-- `Authenticate` on status 200. -/
theorem client_Authenticate_200 (c : Client) (w w0 : World) (body : String)
    (readErr : Option GoError) (hv : tokenStillValid c w = (false, w0))
    (hnet : w0.net w0.sent.length = .response 200 body readErr) :
    Authenticate c w =
      match unmarshalTokenResponse body with
      | (_, some err) => (.error (.wrapf "erro ao decodificar token" err), c,
          { w0 with sent := w0.sent ++ [authRequest c] })
      | (tokenResp, none) =>
        (.ok (), { c with token := some tokenResp,
                          tokenExpiry := w0.clock w0.reads +
                            secondsDuration (wrapInt64 (tokenResp.ExpiresIn - 60)) },
          { w0 with sent := w0.sent ++ [authRequest c], reads := w0.reads + 1 }) := by
  simp only [Authenticate, hv, httpDo, hnet, timeNow]
  rfl

/-- When the validity test fails `Authenticate` sends exactly one request. -/
theorem client_Authenticate_sent (c : Client) (w w0 : World)
    (hv : tokenStillValid c w = (false, w0)) :
    (Authenticate c w).2.2.sent = w0.sent ++ [authRequest c] := by
  cases hnet : w0.net w0.sent.length with
  | failed err => rw [client_Authenticate_failed c w w0 err hv hnet]
  | response status body readErr =>
    by_cases hst : status = 200
    · subst hst
      rw [client_Authenticate_200 c w w0 body readErr hv hnet]
      cases hdec : unmarshalTokenResponse body with
      | mk tokenResp err =>
        cases err with
        | some e => rfl
        | none => rfl
    · rw [client_Authenticate_status c w w0 status body readErr hv hnet hst]

/-- After a successful `Authenticate` a token is held. -/
theorem client_Authenticate_ok_held (c : Client) (w : World) (hnone : c.token = none)
    (hok : (Authenticate c w).1 = .ok ()) :
    ∃ token, (Authenticate c w).2.1.token = some token := by
  have hv := tokenStillValid_none c w hnone
  cases hnet : w.net w.sent.length with
  | failed err =>
    rw [client_Authenticate_failed c w w err hv hnet] at hok
    exact absurd hok (by simp)
  | response status body readErr =>
    by_cases hst : status = 200
    · subst hst
      rw [client_Authenticate_200 c w w body readErr hv hnet] at hok ⊢
      cases hdec : unmarshalTokenResponse body with
      | mk tokenResp err =>
        cases err with
        | some e =>
          rw [hdec] at hok
          exact absurd hok (by simp)
        | none => exact ⟨tokenResp, rfl⟩
    · rw [client_Authenticate_status c w w status body readErr hv hnet hst] at hok
      exact absurd hok (by simp)

/-- With no token held `getAccessToken` goes through `Authenticate` on the same world. -/
theorem getAccessToken_none (c : Client) (w : World) (hnone : c.token = none) :
    getAccessToken c w =
      match Authenticate c w with
      | (.error err, c1, w1) => (.error err, c1, w1)
      | (.panic, c1, w1) => (.panic, c1, w1)
      | (.ok (), c1, w1) =>
        match c1.token with
        | some token => (.ok token.AccessToken, c1, w1)
        | none => (.panic, c1, w1) := by
  simp only [getAccessToken, hnone, tokenStillValid]

end Sicoob

open Sicredi in
/-- C1: when a Sicredi token is held and the clock reads less than `ExpiresAt` minus 30 s,
`ensureValidToken` returns no error, sends no request (neither the password grant of
`Authenticate` nor the refresh grant of `RefreshAuthentication`) and leaves the adapter, and
with it the held token, unchanged. -/
theorem sicredi_valid_token_no_call (s : SicrediAdapter) (w : World) (token : TokenInfo)
    (hheld : s.token = some token)
    (hnow : w.clock w.reads < token.ExpiresAt - 30 * Second) :
    (ensureValidToken s w).1 = .ok () ∧
    (ensureValidToken s w).2.2.sent = w.sent ∧
    (ensureValidToken s w).2.1 = s ∧
    (ensureValidToken s w).2.1.token = some token := by
  have hnot : ¬ (w.clock w.reads > token.ExpiresAt + (-30) * Second) := by linarith
  rw [ensureValidToken_held s w token hheld, if_neg hnot]
  exact ⟨rfl, rfl, rfl, hheld⟩

open Sicredi in
/-- Witness of C1: a token expiring at 3600 s, refreshable until 7200 s, at time 0. -/
theorem sicredi_valid_token_no_call_witness :
    (ensureValidToken (adapterHolding (3600 * Second) (7200 * Second))
        (frozenWorld 0 [])).1 = .ok () ∧
    (ensureValidToken (adapterHolding (3600 * Second) (7200 * Second))
        (frozenWorld 0 [])).2.2.sent = [] :=
  have h := sicredi_valid_token_no_call (adapterHolding (3600 * Second) (7200 * Second))
    (frozenWorld 0 []) _ rfl (by decide)
  ⟨h.1, h.2.1⟩

open Sicredi in
/-- C2, as stated, fails on the boundary: a held token with `ExpiresAt` = 30 s and
`RefreshAt` = 7200 s at `now` = 0 satisfies `now ≥ ExpiresAt − 30 s` and
`now < RefreshAt − 30 s`, yet `ensureValidToken` returns without sending any request. -/
theorem sicredi_refresh_boundary_counterexample :
    (adapterHolding (30 * Second) (7200 * Second)).token =
      some { AccessToken := "old-access", RefreshToken := "old-refresh",
             ExpiresAt := 30 * Second, RefreshAt := 7200 * Second } ∧
    (0 : Time) ≥ 30 * Second - 30 * Second ∧ (0 : Time) < 7200 * Second - 30 * Second ∧
    (ensureValidToken (adapterHolding (30 * Second) (7200 * Second))
      (frozenWorld 0 [.response 200 bodyWithRefresh none])).1 = .ok () ∧
    (ensureValidToken (adapterHolding (30 * Second) (7200 * Second))
      (frozenWorld 0 [.response 200 bodyWithRefresh none])).2.2.sent = [] := by
  decide

open Sicredi in
/-- C2 (amended): when a Sicredi token is held and the clock read by the call is strictly
past `ExpiresAt` − 30 s and before `RefreshAt` − 30 s, `ensureValidToken` is
`RefreshAuthentication`, and the first request it sends is the refresh grant carrying the
stored refresh token. -/
theorem sicredi_near_expiry_refreshes (s : SicrediAdapter) (w : World) (token : TokenInfo)
    (hheld : s.token = some token)
    (hexp : w.clock w.reads > token.ExpiresAt - 30 * Second)
    (href : w.clock (w.reads + 1) < token.RefreshAt - 30 * Second) :
    ensureValidToken s w = RefreshAuthentication s { w with reads := w.reads + 2 } ∧
    ∃ rest, (ensureValidToken s w).2.2.sent =
      w.sent ++ refreshRequest s token.RefreshToken :: rest := by
  have h1 : w.clock w.reads > token.ExpiresAt + (-30) * Second := by linarith
  have h2 : w.clock (w.reads + 1) < token.RefreshAt + (-30) * Second := by linarith
  have heq : ensureValidToken s w = RefreshAuthentication s { w with reads := w.reads + 2 } := by
    rw [ensureValidToken_held s w token hheld, if_pos h1, if_pos h2]
  refine ⟨heq, ?_⟩
  rw [heq, RefreshAuthentication_sent s _ token hheld]
  exact ⟨_, rfl⟩

open Sicredi in
/-- Witness of C2 (amended): a token expired since 1 s, refreshable for another hour. -/
theorem sicredi_near_expiry_refreshes_witness :
    ∃ rest, (ensureValidToken (adapterHolding (-1 * Second) (3600 * Second))
        (frozenWorld 0 [.response 200 bodyWithRefresh none])).2.2.sent =
      [] ++ refreshRequest (adapterHolding (-1 * Second) (3600 * Second)) "old-refresh" :: rest :=
  (sicredi_near_expiry_refreshes (adapterHolding (-1 * Second) (3600 * Second))
    (frozenWorld 0 [.response 200 bodyWithRefresh none]) _ rfl (by decide) (by decide)).2

open Sicredi in
/-- C3, as stated, fails in two ways. A token expired 1 s ago whose refresh window ends in
10 s (in the future, but inside the 30 s margin) makes `ensureValidToken` send one password
grant and no refresh grant; and a token expired 1 s ago with an hour of refresh window left,
whose refresh request is answered 401, makes it send the refresh grant and then a password
grant. -/
theorem sicredi_expired_refresh_counterexample :
    ((-1 * Second < (0 : Time) ∧ (0 : Time) < 10 * Second) ∧
      refreshCalls (ensureValidToken (adapterHolding (-1 * Second) (10 * Second))
        (frozenWorld 0 [.response 200 bodyWithRefresh none])).2.2.sent = 0 ∧
      authCalls (ensureValidToken (adapterHolding (-1 * Second) (10 * Second))
        (frozenWorld 0 [.response 200 bodyWithRefresh none])).2.2.sent = 1) ∧
    ((-1 * Second < (0 : Time) ∧ (0 : Time) < 3600 * Second) ∧
      refreshCalls (ensureValidToken (adapterHolding (-1 * Second) (3600 * Second))
        (frozenWorld 0 [.response 401 "" none, .response 200 bodyWithRefresh none])).2.2.sent
        = 1 ∧
      authCalls (ensureValidToken (adapterHolding (-1 * Second) (3600 * Second))
        (frozenWorld 0 [.response 401 "" none, .response 200 bodyWithRefresh none])).2.2.sent
        = 1) := by
  decide

open Sicredi in
/-- C3 (amended): for a held Sicredi token whose `ExpiresAt` is in the past and whose
`RefreshAt` is more than 30 s in the future, `ensureValidToken` sends exactly one refresh
grant, with the stored refresh token; and when the token endpoint does not answer it with a
status other than 200, that is the only request sent: no password grant. -/
theorem sicredi_expired_refreshes_once (s : SicrediAdapter) (w : World) (token : TokenInfo)
    (hheld : s.token = some token)
    (hexp : token.ExpiresAt < w.clock w.reads)
    (href : w.clock (w.reads + 1) < token.RefreshAt - 30 * Second) :
    refreshCalls (sentSince w (ensureValidToken s w).2.2) = 1 ∧
    (sentSince w (ensureValidToken s w).2.2).head? =
      some (refreshRequest s token.RefreshToken) ∧
    ((∀ status body readErr,
        w.net w.sent.length = .response status body readErr → status = 200) →
      sentSince w (ensureValidToken s w).2.2 = [refreshRequest s token.RefreshToken] ∧
      authCalls (sentSince w (ensureValidToken s w).2.2) = 0) := by
  have h1 : w.clock w.reads > token.ExpiresAt + (-30) * Second := by
    have : (0 : Int) < Second := by decide
    linarith
  have h2 : w.clock (w.reads + 1) < token.RefreshAt + (-30) * Second := by linarith
  have hsent : sentSince w (ensureValidToken s w).2.2 =
      refreshRequest s token.RefreshToken ::
        (match w.net w.sent.length with
         | .response status _ _ => if status ≠ 200 then [authRequest s] else []
         | .failed _ => []) := by
    apply sentSince_append
    rw [ensureValidToken_held s w token hheld, if_pos h1, if_pos h2,
      RefreshAuthentication_sent s _ token hheld]
  rw [hsent]
  refine ⟨?_, rfl, ?_⟩
  · cases hnet : w.net w.sent.length with
    | failed err => rfl
    | response status body readErr =>
      by_cases hst : status = 200
      · subst hst
        rfl
      · simp only [ne_eq, hst, not_false_eq_true, if_true]
        rfl
  · intro hans
    cases hnet : w.net w.sent.length with
    | failed err => exact ⟨rfl, rfl⟩
    | response status body readErr =>
      have h200 : status = 200 := hans status body readErr hnet
      subst h200
      exact ⟨rfl, rfl⟩

open Sicredi in
/-- Witness of C3 (amended): a token expired 1 s ago with an hour of refresh window left,
refreshed with status 200. -/
theorem sicredi_expired_refreshes_once_witness :
    sentSince (frozenWorld 0 [.response 200 bodyWithRefresh none])
      (ensureValidToken (adapterHolding (-1 * Second) (3600 * Second))
        (frozenWorld 0 [.response 200 bodyWithRefresh none])).2.2 =
      [refreshRequest (adapterHolding (-1 * Second) (3600 * Second)) "old-refresh"] :=
  ((sicredi_expired_refreshes_once (adapterHolding (-1 * Second) (3600 * Second))
    (frozenWorld 0 [.response 200 bodyWithRefresh none]) _ rfl (by decide) (by decide)).2.2
    (by
      intro status body readErr h
      have h2 : (HttpResult.response 200 bodyWithRefresh none) =
          .response status body readErr := h
      injection h2 with h3
      exact h3.symm)).1

open Sicredi in
/-- C4: for a held Sicredi token past the 30 s expiry margin, if the clock has reached
`RefreshAt` − 30 s, or if the refresh request is answered with a status outside 2xx,
`ensureValidToken` is a full `Authenticate` (after no request, or after the one refresh
request): the password grant is the last request sent, and when the call succeeds the held
token consists of the values of the new response only: its access and refresh tokens and
the clock plus its `expires_in` and `refresh_expires_in`. -/
theorem sicredi_reauthenticates (s : SicrediAdapter) (w : World) (token : TokenInfo)
    (hheld : s.token = some token)
    (hexp : w.clock w.reads > token.ExpiresAt - 30 * Second)
    (hcase : token.RefreshAt - 30 * Second ≤ w.clock (w.reads + 1) ∨
      ∃ status body readErr, w.net w.sent.length = .response status body readErr ∧
        (status < 200 ∨ 300 ≤ status)) :
    ∃ w1, ensureValidToken s w = Authenticate s w1 ∧
      (sentSince w w1 = [] ∨ sentSince w w1 = [refreshRequest s token.RefreshToken]) ∧
      (ensureValidToken s w).2.2.sent = w1.sent ++ [authRequest s] ∧
      w1.clock = w.clock ∧ w1.reads = w.reads + 2 ∧ w1.net = w.net ∧
      ((ensureValidToken s w).1 = .ok () →
        ∃ body, w.net w1.sent.length = .response 200 body none ∧
          (unmarshalAuthResponse body).2 = none ∧
          (ensureValidToken s w).2.1.token = some
            { AccessToken := (unmarshalAuthResponse body).1.AccessToken,
              RefreshToken := (unmarshalAuthResponse body).1.RefreshToken,
              ExpiresAt := w.clock (w.reads + 2) +
                secondsDuration (unmarshalAuthResponse body).1.ExpiresIn,
              RefreshAt := w.clock (w.reads + 3) +
                secondsDuration (unmarshalAuthResponse body).1.RefreshExpiresIn }) := by
  have h1 : w.clock w.reads > token.ExpiresAt + (-30) * Second := by linarith
  have key : ∀ w1 : World, ensureValidToken s w = Authenticate s w1 →
      w1.clock = w.clock → w1.reads = w.reads + 2 → w1.net = w.net →
      ((ensureValidToken s w).2.2.sent = w1.sent ++ [authRequest s] ∧
       w1.clock = w.clock ∧ w1.reads = w.reads + 2 ∧ w1.net = w.net ∧
       ((ensureValidToken s w).1 = .ok () →
        ∃ body, w.net w1.sent.length = .response 200 body none ∧
          (unmarshalAuthResponse body).2 = none ∧
          (ensureValidToken s w).2.1.token = some
            { AccessToken := (unmarshalAuthResponse body).1.AccessToken,
              RefreshToken := (unmarshalAuthResponse body).1.RefreshToken,
              ExpiresAt := w.clock (w.reads + 2) +
                secondsDuration (unmarshalAuthResponse body).1.ExpiresIn,
              RefreshAt := w.clock (w.reads + 3) +
                secondsDuration (unmarshalAuthResponse body).1.RefreshExpiresIn })) := by
    intro w1 heq hc hr hn
    refine ⟨by rw [heq, Authenticate_sent], hc, hr, hn, ?_⟩
    intro hok
    rw [heq] at hok ⊢
    obtain ⟨body, hb, hdec, htok⟩ := Authenticate_ok_token s w1 hok
    refine ⟨body, by rw [← hn]; exact hb, hdec, ?_⟩
    rw [htok, hc, hr]
  by_cases h2 : w.clock (w.reads + 1) < token.RefreshAt + (-30) * Second
  · have hno : ¬ (token.RefreshAt - 30 * Second ≤ w.clock (w.reads + 1)) := by
      intro h
      linarith
    obtain ⟨status, body, readErr, hnet, hst⟩ := hcase.resolve_left hno
    have hne : status ≠ 200 := by
      intro h
      subst h
      omega
    have heq : ensureValidToken s w = Authenticate s
        { clock := w.clock, reads := w.reads + 2, net := w.net,
          sent := w.sent ++ [refreshRequest s token.RefreshToken] } := by
      rw [ensureValidToken_held s w token hheld, if_pos h1, if_pos h2,
        RefreshAuthentication_status s { w with reads := w.reads + 2 } token status body
          readErr hheld hnet hne]
    exact ⟨_, heq, Or.inr (sentSince_append w _ _ rfl), key _ heq rfl rfl rfl⟩
  · have heq : ensureValidToken s w = Authenticate s { w with reads := w.reads + 2 } := by
      rw [ensureValidToken_held s w token hheld, if_pos h1, if_neg h2]
    exact ⟨_, heq, Or.inl (sentSince_append w _ [] (by simp)), key _ heq rfl rfl rfl⟩

open Sicredi in
/-- Witness of C4: a token expired 1 s ago with an hour of refresh window left, whose refresh
request is answered 401 and whose password grant is answered 200. -/
theorem sicredi_reauthenticates_witness :
    ∃ w1, ensureValidToken (adapterHolding (-1 * Second) (3600 * Second))
        (frozenWorld 0 [.response 401 "" none, .response 200 bodyWithRefresh none]) =
      Authenticate (adapterHolding (-1 * Second) (3600 * Second)) w1 :=
  (sicredi_reauthenticates (adapterHolding (-1 * Second) (3600 * Second))
    (frozenWorld 0 [.response 401 "" none, .response 200 bodyWithRefresh none]) _ rfl
    (by decide) (Or.inr ⟨401, "", none, rfl, Or.inr (by decide)⟩)).imp (fun _ h => h.1)

/-- C5: with no token held, obtaining a token is one full authentication. For Sicredi
`ensureValidToken` is `Authenticate` and sends exactly the password grant; for Sicoob
`getAccessToken` leaves the client and world that `Authenticate` leaves, sends exactly the
client-credentials grant, returns the error of `Authenticate` if it fails and the access
token just stored if it succeeds. No refresh grant is sent. -/
theorem no_token_authenticates_once (s : Sicredi.SicrediAdapter) (c : Sicoob.Client)
    (w : World) (hs : s.token = none) (hc : c.token = none) :
    (Sicredi.ensureValidToken s w = Sicredi.Authenticate s w ∧
      sentSince w (Sicredi.ensureValidToken s w).2.2 = [Sicredi.authRequest s] ∧
      authCalls (sentSince w (Sicredi.ensureValidToken s w).2.2) = 1 ∧
      refreshCalls (sentSince w (Sicredi.ensureValidToken s w).2.2) = 0) ∧
    ((Sicoob.getAccessToken c w).2 = (Sicoob.Authenticate c w).2 ∧
      sentSince w (Sicoob.getAccessToken c w).2.2 = [Sicoob.authRequest c] ∧
      authCalls (sentSince w (Sicoob.getAccessToken c w).2.2) = 1 ∧
      refreshCalls (sentSince w (Sicoob.getAccessToken c w).2.2) = 0 ∧
      (∀ err, (Sicoob.Authenticate c w).1 = .error err →
        (Sicoob.getAccessToken c w).1 = .error err) ∧
      ((Sicoob.Authenticate c w).1 = .ok () →
        ∃ token, (Sicoob.Authenticate c w).2.1.token = some token ∧
          (Sicoob.getAccessToken c w).1 = .ok token.AccessToken)) := by
  have h1 : Sicredi.ensureValidToken s w = Sicredi.Authenticate s w := by
    simp only [Sicredi.ensureValidToken, Sicredi.ensureValidTokenWith, hs]
  have h2 : sentSince w (Sicredi.ensureValidToken s w).2.2 = [Sicredi.authRequest s] :=
    sentSince_append w _ _ (by rw [h1, Sicredi.Authenticate_sent])
  have h3 : (Sicoob.getAccessToken c w).2 = (Sicoob.Authenticate c w).2 := by
    rw [Sicoob.getAccessToken_none c w hc]
    rcases hA : Sicoob.Authenticate c w with ⟨out, c1, w1⟩
    cases out with
    | error err => rfl
    | panic => rfl
    | ok u =>
      cases u
      cases htok : c1.token with
      | none => simp only [htok]
      | some token => simp only [htok]
  have h4 : sentSince w (Sicoob.getAccessToken c w).2.2 = [Sicoob.authRequest c] :=
    sentSince_append w _ _ (by
      rw [h3, Sicoob.client_Authenticate_sent c w w (Sicoob.tokenStillValid_none c w hc)])
  refine ⟨⟨h1, h2, ?_, ?_⟩, h3, h4, ?_, ?_, ?_, ?_⟩
  · rw [h2]; rfl
  · rw [h2]; rfl
  · rw [h4]; rfl
  · rw [h4]; rfl
  · intro err herr
    rw [Sicoob.getAccessToken_none c w hc]
    rcases hA : Sicoob.Authenticate c w with ⟨out, c1, w1⟩
    rw [hA] at herr
    simp only at herr
    subst herr
    rfl
  · intro hok
    obtain ⟨token, htok⟩ := Sicoob.client_Authenticate_ok_held c w hc hok
    refine ⟨token, htok, ?_⟩
    rw [Sicoob.getAccessToken_none c w hc]
    rcases hA : Sicoob.Authenticate c w with ⟨out, c1, w1⟩
    rw [hA] at hok htok
    simp only at hok htok
    subst hok
    simp only [htok]

/-- Witness of C5: a fresh Sicredi adapter and a fresh Sicoob client, both answered 200. -/
theorem no_token_authenticates_once_witness :
    sentSince (frozenWorld 0 [.response 200 bodyWithRefresh none])
      (Sicredi.ensureValidToken Sicredi.freshAdapter
        (frozenWorld 0 [.response 200 bodyWithRefresh none])).2.2 =
      [Sicredi.authRequest Sicredi.freshAdapter] ∧
    sentSince (frozenWorld 0 [.response 200 bodyWithRefresh none])
      (Sicoob.getAccessToken Sicoob.freshClient
        (frozenWorld 0 [.response 200 bodyWithRefresh none])).2.2 =
      [Sicoob.authRequest Sicoob.freshClient] :=
  have h := no_token_authenticates_once Sicredi.freshAdapter Sicoob.freshClient
    (frozenWorld 0 [.response 200 bodyWithRefresh none]) rfl rfl
  ⟨h.1.2.1, h.2.2.1⟩

/-- C6, as stated, fails in two ways. The Sicoob client answered `expires_in` = 3600 at
time 0 stores the expiry 3540 s, not 3600 s; and the Sicredi adapter answered `expires_in` =
9223372037 at time 0 stores a negative expiry, because the nanoseconds of that many seconds
do not fit in a `time.Duration`. -/
theorem stored_expiry_counterexample :
    ((Sicoob.Authenticate Sicoob.freshClient
        (frozenWorld 0 [.response 200 bodyWithoutRefresh none])).1 = .ok () ∧
      (Sicoob.Authenticate Sicoob.freshClient
        (frozenWorld 0 [.response 200 bodyWithoutRefresh none])).2.1.tokenExpiry
        = 0 + 3540 * Second ∧
      (Sicoob.Authenticate Sicoob.freshClient
        (frozenWorld 0 [.response 200 bodyWithoutRefresh none])).2.1.tokenExpiry
        ≠ 0 + 3600 * Second) ∧
    ((Sicredi.Authenticate Sicredi.freshAdapter
        (frozenWorld 0 [.response 200 bodyHugeExpiry none])).1 = .ok () ∧
      (Sicredi.unmarshalAuthResponse bodyHugeExpiry).1.ExpiresIn = 9223372037 ∧
      (Sicredi.Authenticate Sicredi.freshAdapter
        (frozenWorld 0 [.response 200 bodyHugeExpiry none])).2.1.token =
        some { AccessToken := "new-access", RefreshToken := "",
               ExpiresAt := 0 + (9223372037 * Second - 18446744073709551616),
               RefreshAt := 0 } ∧
      ((Sicredi.Authenticate Sicredi.freshAdapter
        (frozenWorld 0 [.response 200 bodyHugeExpiry none])).2.1.token.map
          (fun t => t.ExpiresAt)) ≠ some (0 + 9223372037 * Second)) := by
  decide

/-- C6 (amended): a successful token call performed at time `now` on a response carrying
`expires_in` = e and `refresh_expires_in` = r, both within the range of a `time.Duration`
in seconds, stores: in the Sicredi adapter (`Authenticate` and `RefreshAuthentication`
alike) the expiry `now` + e s and the refresh expiry `now` + r s; in the Sicoob client the
expiry `now` + (e − 60) s, for e − 60 within that range. -/
theorem stored_expiry (now : Time) (body : String) :
    (∀ (s : Sicredi.SicrediAdapter) (w : World) (resp : Sicredi.AuthResponse),
      w.net w.sent.length = .response 200 body none →
      Sicredi.unmarshalAuthResponse body = (resp, none) →
      w.clock w.reads = now → w.clock (w.reads + 1) = now →
      fitsDuration resp.ExpiresIn → fitsDuration resp.RefreshExpiresIn →
      (Sicredi.Authenticate s w).1 = .ok () ∧
      (Sicredi.Authenticate s w).2.1.token = some
        { AccessToken := resp.AccessToken, RefreshToken := resp.RefreshToken,
          ExpiresAt := now + resp.ExpiresIn * Second,
          RefreshAt := now + resp.RefreshExpiresIn * Second }) ∧
    (∀ (s : Sicredi.SicrediAdapter) (w : World) (token : Sicredi.TokenInfo)
      (readErr : Option GoError) (resp : Sicredi.AuthResponse),
      s.token = some token →
      w.net w.sent.length = .response 200 body readErr →
      Sicredi.unmarshalAuthResponse body = (resp, none) →
      w.clock w.reads = now → w.clock (w.reads + 1) = now →
      fitsDuration resp.ExpiresIn → fitsDuration resp.RefreshExpiresIn →
      (Sicredi.RefreshAuthentication s w).1 = .ok () ∧
      (Sicredi.RefreshAuthentication s w).2.1.token = some
        { AccessToken := resp.AccessToken, RefreshToken := resp.RefreshToken,
          ExpiresAt := now + resp.ExpiresIn * Second,
          RefreshAt := now + resp.RefreshExpiresIn * Second }) ∧
    (∀ (c : Sicoob.Client) (w w0 : World) (readErr : Option GoError)
      (resp : Sicoob.TokenResponse),
      Sicoob.tokenStillValid c w = (false, w0) →
      w0.net w0.sent.length = .response 200 body readErr →
      Sicoob.unmarshalTokenResponse body = (resp, none) →
      w0.clock w0.reads = now →
      fitsDuration (resp.ExpiresIn - 60) →
      (Sicoob.Authenticate c w).1 = .ok () ∧
      (Sicoob.Authenticate c w).2.1.token = some resp ∧
      (Sicoob.Authenticate c w).2.1.tokenExpiry = now + (resp.ExpiresIn - 60) * Second) := by
  refine ⟨?_, ?_, ?_⟩
  · intro s w resp hnet hdec h1 h2 he hr
    rw [Sicredi.Authenticate_200 s w body hnet, hdec]
    simp only [Sicredi.storeToken, timeNow, h1, h2, secondsDuration_eq _ he,
      secondsDuration_eq _ hr, and_self]
  · intro s w token readErr resp hheld hnet hdec h1 h2 he hr
    rw [Sicredi.RefreshAuthentication_200 s w token body readErr hheld hnet, hdec]
    simp only [Sicredi.storeToken, timeNow, h1, h2, secondsDuration_eq _ he,
      secondsDuration_eq _ hr, and_self]
  · intro c w w0 readErr resp hv hnet hdec h1 he
    have hw : wrapInt64 (resp.ExpiresIn - 60) = resp.ExpiresIn - 60 := by
      unfold fitsDuration at he
      unfold wrapInt64
      omega
    rw [Sicoob.client_Authenticate_200 c w w0 body readErr hv hnet, hdec]
    simp only [h1, hw, secondsDuration_eq _ he, and_self]

/-- Witness of C6 (amended): a Sicredi password grant answered with `expires_in` = 300 and
`refresh_expires_in` = 1800 at time 5 s. -/
theorem stored_expiry_witness :
    (Sicredi.Authenticate Sicredi.freshAdapter
      (frozenWorld (5 * Second) [.response 200 bodyWithRefresh none])).2.1.token = some
        { AccessToken := "new-access", RefreshToken := "new-refresh",
          ExpiresAt := 5 * Second + 300 * Second,
          RefreshAt := 5 * Second + 1800 * Second } :=
  ((stored_expiry (5 * Second) bodyWithRefresh).1 Sicredi.freshAdapter
    (frozenWorld (5 * Second) [.response 200 bodyWithRefresh none])
    { AccessToken := "new-access", TokenType := "", RefreshToken := "new-refresh",
      ExpiresIn := 300, RefreshExpiresIn := 1800, Scope := "" }
    rfl (by decide) rfl rfl (by decide) (by decide)).2

/-- A token stored from a response without `refresh_expires_in` is never refreshed: once
the clock is past the 30 s expiry margin `ensureValidToken` sends the password grant only. -/
theorem sicredi_no_refresh_window (s0 : Sicredi.SicrediAdapter) (w0 w : World)
    (resp : Sicredi.AuthResponse) (hr : resp.RefreshExpiresIn = 0)
    (hclock : w.clock = w0.clock) (hmono : Monotone w0.clock) (hlater : w0.reads ≤ w.reads)
    (hexp : w.clock w.reads > w0.clock w0.reads + secondsDuration resp.ExpiresIn - 30 * Second) :
    Sicredi.ensureValidToken (Sicredi.storeToken s0 resp w0).1 w =
      Sicredi.Authenticate (Sicredi.storeToken s0 resp w0).1 { w with reads := w.reads + 2 } ∧
    sentSince w (Sicredi.ensureValidToken (Sicredi.storeToken s0 resp w0).1 w).2.2 =
      [Sicredi.authRequest (Sicredi.storeToken s0 resp w0).1] := by
  have hheld : (Sicredi.storeToken s0 resp w0).1.token = some
      { AccessToken := resp.AccessToken, RefreshToken := resp.RefreshToken,
        ExpiresAt := w0.clock w0.reads + secondsDuration resp.ExpiresIn,
        RefreshAt := w0.clock (w0.reads + 1) + secondsDuration resp.RefreshExpiresIn } := rfl
  have hzero : secondsDuration resp.RefreshExpiresIn = 0 := by
    rw [hr]
    decide
  have hge : w0.clock (w0.reads + 1) ≤ w.clock (w.reads + 1) := by
    rw [hclock]
    exact hmono (by omega)
  have hpos : (0 : Int) < Second := by decide
  have h1 : w.clock w.reads >
      (w0.clock w0.reads + secondsDuration resp.ExpiresIn) + (-30) * Second := by linarith
  have h2 : ¬ (w.clock (w.reads + 1) <
      (w0.clock (w0.reads + 1) + secondsDuration resp.RefreshExpiresIn) + (-30) * Second) := by
    rw [hzero]
    intro h
    linarith
  have heq := Sicredi.ensureValidToken_held _ w _ hheld
  rw [if_pos h1, if_neg h2] at heq
  refine ⟨heq, sentSince_append w _ _ ?_⟩
  rw [heq, Sicredi.Authenticate_sent]

/-- Once the clock has reached `tokenExpiry`, the Sicoob `getAccessToken` sends exactly the
client-credentials grant. -/
theorem sicoob_expired_reauthenticates (c : Sicoob.Client) (w : World)
    (token : Sicoob.TokenResponse) (hheld : c.token = some token)
    (hmono : Monotone w.clock) (hexp : c.tokenExpiry ≤ w.clock w.reads) :
    sentSince w (Sicoob.getAccessToken c w).2.2 = [Sicoob.authRequest c] := by
  have hv1 : Sicoob.tokenStillValid c w = (false, { w with reads := w.reads + 1 }) := by
    rw [Sicoob.tokenStillValid_some c w token hheld]
    have : ¬ (w.clock w.reads < c.tokenExpiry) := by
      intro h
      linarith
    simp only [this, decide_False]
  have hle : w.clock w.reads ≤ w.clock (w.reads + 1) := hmono (by omega)
  have hv2 : Sicoob.tokenStillValid c { w with reads := w.reads + 1 } =
      (false, { w with reads := w.reads + 1 + 1 }) := by
    rw [Sicoob.tokenStillValid_some c _ token hheld]
    have : ¬ (w.clock (w.reads + 1) < c.tokenExpiry) := by
      intro h
      linarith
    simp only [this, decide_False]
  have hget : (Sicoob.getAccessToken c w).2 =
      (Sicoob.Authenticate c { w with reads := w.reads + 1 }).2 := by
    simp only [Sicoob.getAccessToken, hheld, hv1]
    rcases hA : Sicoob.Authenticate c { w with reads := w.reads + 1 } with ⟨out, c1, w1⟩
    cases out with
    | error err => rfl
    | panic => rfl
    | ok u =>
      cases u
      cases htok : c1.token with
      | none => simp only [htok]
      | some t => simp only [htok]
  apply sentSince_append
  rw [hget, Sicoob.client_Authenticate_sent c _ _ hv2]

/-- C7: without a refresh window every Sicredi call past the expiry margin of a token
stored from a response lacking `refresh_expires_in`, and every Sicoob call once the clock
has reached `tokenExpiry`, sends one full authentication request and no refresh request (the
clock being monotone). In particular a first call answered with `expires_in` = 3600
followed by a second call 3601 s later makes 2 authentication calls and 0 refresh calls, in
the Sicredi adapter as in the Sicoob client. -/
theorem no_refresh_grant_reauthenticates :
    (∀ (s0 : Sicredi.SicrediAdapter) (w0 w : World) (resp : Sicredi.AuthResponse),
      resp.RefreshExpiresIn = 0 → w.clock = w0.clock → Monotone w0.clock →
      w0.reads ≤ w.reads →
      w.clock w.reads > w0.clock w0.reads + secondsDuration resp.ExpiresIn - 30 * Second →
      authCalls (sentSince w
        (Sicredi.ensureValidToken (Sicredi.storeToken s0 resp w0).1 w).2.2) = 1 ∧
      refreshCalls (sentSince w
        (Sicredi.ensureValidToken (Sicredi.storeToken s0 resp w0).1 w).2.2) = 0) ∧
    (∀ (c : Sicoob.Client) (w : World) (token : Sicoob.TokenResponse),
      c.token = some token → Monotone w.clock → c.tokenExpiry ≤ w.clock w.reads →
      authCalls (sentSince w (Sicoob.getAccessToken c w).2.2) = 1 ∧
      refreshCalls (sentSince w (Sicoob.getAccessToken c w).2.2) = 0) ∧
    (authCalls (Sicredi.ensureValidToken
        (Sicredi.ensureValidToken Sicredi.freshAdapter
          (scriptedWorld [0, 0, 3601 * Second]
            [.response 200 bodyWithoutRefresh none, .response 200 bodyWithoutRefresh none])).2.1
        (Sicredi.ensureValidToken Sicredi.freshAdapter
          (scriptedWorld [0, 0, 3601 * Second]
            [.response 200 bodyWithoutRefresh none, .response 200 bodyWithoutRefresh none])).2.2
        ).2.2.sent = 2 ∧
      refreshCalls (Sicredi.ensureValidToken
        (Sicredi.ensureValidToken Sicredi.freshAdapter
          (scriptedWorld [0, 0, 3601 * Second]
            [.response 200 bodyWithoutRefresh none, .response 200 bodyWithoutRefresh none])).2.1
        (Sicredi.ensureValidToken Sicredi.freshAdapter
          (scriptedWorld [0, 0, 3601 * Second]
            [.response 200 bodyWithoutRefresh none, .response 200 bodyWithoutRefresh none])).2.2
        ).2.2.sent = 0) ∧
    (authCalls (Sicoob.getAccessToken
        (Sicoob.getAccessToken Sicoob.freshClient
          (scriptedWorld [0, 3601 * Second]
            [.response 200 bodyWithoutRefresh none, .response 200 bodyWithoutRefresh none])).2.1
        (Sicoob.getAccessToken Sicoob.freshClient
          (scriptedWorld [0, 3601 * Second]
            [.response 200 bodyWithoutRefresh none, .response 200 bodyWithoutRefresh none])).2.2
        ).2.2.sent = 2 ∧
      refreshCalls (Sicoob.getAccessToken
        (Sicoob.getAccessToken Sicoob.freshClient
          (scriptedWorld [0, 3601 * Second]
            [.response 200 bodyWithoutRefresh none, .response 200 bodyWithoutRefresh none])).2.1
        (Sicoob.getAccessToken Sicoob.freshClient
          (scriptedWorld [0, 3601 * Second]
            [.response 200 bodyWithoutRefresh none, .response 200 bodyWithoutRefresh none])).2.2
        ).2.2.sent = 0) := by
  refine ⟨?_, ?_, by decide, by decide⟩
  · intro s0 w0 w resp hr hclock hmono hlater hexp
    rw [(sicredi_no_refresh_window s0 w0 w resp hr hclock hmono hlater hexp).2]
    exact ⟨rfl, rfl⟩
  · intro c w token hheld hmono hexp
    rw [sicoob_expired_reauthenticates c w token hheld hmono hexp]
    exact ⟨rfl, rfl⟩

/-- Witness of C7: the Sicredi token stored at time 0 from `expires_in` = 3600 and no
`refresh_expires_in`, used again at 3601 s; and a Sicoob token that expired at 3540 s, used
at 3601 s. -/
theorem no_refresh_grant_reauthenticates_witness :
    (authCalls (sentSince
        { scriptedWorld [0, 0, 3601 * Second] [.response 200 bodyWithoutRefresh none] with
          reads := 2 }
        (Sicredi.ensureValidToken
          (Sicredi.storeToken Sicredi.freshAdapter
            { AccessToken := "new-access", TokenType := "", RefreshToken := "",
              ExpiresIn := 3600, RefreshExpiresIn := 0, Scope := "" }
            (scriptedWorld [0, 0, 3601 * Second] [.response 200 bodyWithoutRefresh none])).1
          { scriptedWorld [0, 0, 3601 * Second] [.response 200 bodyWithoutRefresh none] with
            reads := 2 }).2.2) = 1 ∧
      refreshCalls (sentSince
        { scriptedWorld [0, 0, 3601 * Second] [.response 200 bodyWithoutRefresh none] with
          reads := 2 }
        (Sicredi.ensureValidToken
          (Sicredi.storeToken Sicredi.freshAdapter
            { AccessToken := "new-access", TokenType := "", RefreshToken := "",
              ExpiresIn := 3600, RefreshExpiresIn := 0, Scope := "" }
            (scriptedWorld [0, 0, 3601 * Second] [.response 200 bodyWithoutRefresh none])).1
          { scriptedWorld [0, 0, 3601 * Second] [.response 200 bodyWithoutRefresh none] with
            reads := 2 }).2.2) = 0) ∧
    (authCalls (sentSince (frozenWorld (3601 * Second) [.response 200 bodyWithoutRefresh none])
        (Sicoob.getAccessToken (Sicoob.clientHolding (3540 * Second))
          (frozenWorld (3601 * Second) [.response 200 bodyWithoutRefresh none])).2.2) = 1 ∧
      refreshCalls (sentSince
        (frozenWorld (3601 * Second) [.response 200 bodyWithoutRefresh none])
        (Sicoob.getAccessToken (Sicoob.clientHolding (3540 * Second))
          (frozenWorld (3601 * Second) [.response 200 bodyWithoutRefresh none])).2.2) = 0) :=
  ⟨no_refresh_grant_reauthenticates.1 Sicredi.freshAdapter
      (scriptedWorld [0, 0, 3601 * Second] [.response 200 bodyWithoutRefresh none])
      { scriptedWorld [0, 0, 3601 * Second] [.response 200 bodyWithoutRefresh none] with
        reads := 2 }
      { AccessToken := "new-access", TokenType := "", RefreshToken := "",
        ExpiresIn := 3600, RefreshExpiresIn := 0, Scope := "" }
      rfl rfl
      (monotone_nat_of_le_succ (fun n => by
        rcases n with _ | _ | _ | n
        · decide
        · decide
        · decide
        · simp [scriptedWorld, List.getD]))
      (by decide) (by decide),
    no_refresh_grant_reauthenticates.2.1 (Sicoob.clientHolding (3540 * Second))
      (frozenWorld (3601 * Second) [.response 200 bodyWithoutRefresh none]) _ rfl
      monotone_const (by decide)⟩

/-- C8, as stated, fails for the Sicredi adapter: answered 503 once with the body
`Service Unavailable` and once with the body `Bad Gateway`, `Authenticate` returns the very
same error, whose text is `autenticação falhou (status 503): ` with nothing after it, so
the error does not carry the body. -/
theorem sicredi_auth_error_counterexample :
    (Sicredi.Authenticate Sicredi.freshAdapter
      (frozenWorld 0 [.response 503 "Service Unavailable" none])).1 =
      .error (.errorf "autenticação falhou (status 503): ") ∧
    (Sicredi.Authenticate Sicredi.freshAdapter
      (frozenWorld 0 [.response 503 "Bad Gateway" none])).1 =
      (Sicredi.Authenticate Sicredi.freshAdapter
        (frozenWorld 0 [.response 503 "Service Unavailable" none])).1 ∧
    "Bad Gateway" ≠ "Service Unavailable" := by
  decide

/-- C8 (amended): on a token endpoint answer with a status other than 200, `Authenticate`
sends exactly one request and returns an error. In the Sicoob client the error text carries
the status and the raw body. In the Sicredi adapter (the body having been read in full) it
carries the status and the `message` field of the error envelope decoded from the body. -/
theorem auth_failure_not_retried (status : Int) (body : String) (hst : status ≠ 200) :
    (∀ (s : Sicredi.SicrediAdapter) (w : World),
      w.net w.sent.length = .response status body none →
      (Sicredi.Authenticate s w).1 = .error (.errorf
        ("autenticação falhou (status " ++ toString status ++ "): " ++
          (Sicredi.unmarshalErrorResponse body).1.Message)) ∧
      sentSince w (Sicredi.Authenticate s w).2.2 = [Sicredi.authRequest s] ∧
      authCalls (sentSince w (Sicredi.Authenticate s w).2.2) = 1) ∧
    (∀ (c : Sicoob.Client) (w w0 : World) (readErr : Option GoError),
      Sicoob.tokenStillValid c w = (false, w0) →
      w0.net w0.sent.length = .response status body readErr →
      (Sicoob.Authenticate c w).1 = .error (.errorf
        ("falha na autenticação: status " ++ toString status ++ ", body: " ++ body)) ∧
      sentSince w (Sicoob.Authenticate c w).2.2 = [Sicoob.authRequest c] ∧
      authCalls (sentSince w (Sicoob.Authenticate c w).2.2) = 1) := by
  constructor
  · intro s w hnet
    have hsent : sentSince w (Sicredi.Authenticate s w).2.2 = [Sicredi.authRequest s] :=
      sentSince_append w _ _ (Sicredi.Authenticate_sent s w)
    refine ⟨by rw [Sicredi.Authenticate_status s w status body hnet hst], hsent, ?_⟩
    rw [hsent]
    rfl
  · intro c w w0 readErr hv hnet
    have hw0 : w0.sent = w.sent := by
      have h := (Sicoob.tokenStillValid_world c w).1
      rw [hv] at h
      exact h
    have hsent : sentSince w (Sicoob.Authenticate c w).2.2 = [Sicoob.authRequest c] :=
      sentSince_append w _ _ (by rw [Sicoob.client_Authenticate_sent c w w0 hv, hw0])
    refine ⟨by rw [Sicoob.client_Authenticate_status c w w0 status body readErr hv hnet hst],
      hsent, ?_⟩
    rw [hsent]
    rfl

/-- Witness of C8 (amended): both token endpoints answering 401 with an error envelope. -/
theorem auth_failure_not_retried_witness :
    (Sicredi.Authenticate Sicredi.freshAdapter
      (frozenWorld 0 [.response 401 "\x7b\"message\":\"Unauthorized\"\x7d" none])).1 =
      .error (.errorf "autenticação falhou (status 401): Unauthorized") ∧
    (Sicoob.Authenticate Sicoob.freshClient
      (frozenWorld 0 [.response 401 "\x7b\"message\":\"Unauthorized\"\x7d" none])).1 =
      .error (.errorf
        "falha na autenticação: status 401, body: \x7b\"message\":\"Unauthorized\"\x7d") :=
  have h := auth_failure_not_retried 401 "\x7b\"message\":\"Unauthorized\"\x7d" (by decide)
  ⟨((h.1 Sicredi.freshAdapter
      (frozenWorld 0 [.response 401 "\x7b\"message\":\"Unauthorized\"\x7d" none])
      rfl).1).trans (by decide),
    ((h.2 Sicoob.freshClient
      (frozenWorld 0 [.response 401 "\x7b\"message\":\"Unauthorized\"\x7d" none]) _ none
      rfl rfl).1).trans (by decide)⟩

open Sicredi in
/-- C9 on the Sicredi adapter: two goroutines call `ensureValidToken` on a fresh adapter
whose token endpoint answers 200. Scheduled one after the other they send one password
grant; scheduled so that both read `s.token` (nil) before either authenticates, both return
without error and two password grants are sent, where the claim allows one. -/
theorem sicredi_concurrent_double_authentication :
    authCalls (runSchedule [false, false, true, true]
      { first := .start, second := .start, adapter := freshAdapter,
        world := frozenWorld 0 [.response 200 bodyWithRefresh none,
          .response 200 bodyWithRefresh none] }).world.sent = 1 ∧
    (runSchedule [false, true, false, true]
      { first := .start, second := .start, adapter := freshAdapter,
        world := frozenWorld 0 [.response 200 bodyWithRefresh none,
          .response 200 bodyWithRefresh none] }).first = .finished (.ok ()) ∧
    (runSchedule [false, true, false, true]
      { first := .start, second := .start, adapter := freshAdapter,
        world := frozenWorld 0 [.response 200 bodyWithRefresh none,
          .response 200 bodyWithRefresh none] }).second = .finished (.ok ()) ∧
    (runSchedule [false, true, false, true]
      { first := .start, second := .start, adapter := freshAdapter,
        world := frozenWorld 0 [.response 200 bodyWithRefresh none,
          .response 200 bodyWithRefresh none] }).world.sent =
      [authRequest freshAdapter, authRequest freshAdapter] ∧
    authCalls (runSchedule [false, true, false, true]
      { first := .start, second := .start, adapter := freshAdapter,
        world := frozenWorld 0 [.response 200 bodyWithRefresh none,
          .response 200 bodyWithRefresh none] }).world.sent = 2 := by
  decide

namespace Sicoob

/-- An answered request with a status of 400 or more whose body decodes as an error envelope
with a message makes `doRequest` return that `APIError`. -/
theorem doRequest_api_error (L : Stdlib) (c : Client) (method endpoint : String)
    (body : Option Payload) (w : World) (status : Int) (respBody : String) (e : APIError)
    (hans : Answered L c endpoint body w status respBody) (hst : 400 ≤ status)
    (hdec : unmarshalAPIError respBody = (e, none)) (hmsg : e.Mensagem ≠ "") :
    (doRequest L c method endpoint body w).1 = .error (.api e) := by
  obtain ⟨token, c1, w1, reqBody, readErr, htok, hbody, hurl, hnet⟩ := hans
  have hge : status ≥ 400 := hst
  simp only [doRequest, htok, hbody, hurl, httpDo, hnet, if_pos hge, hdec, if_pos hmsg]

/-- A call whose outcome is an `APIError` is that error with some client and world. -/
theorem outcome_api_error {α : Type} (r : Outcome α × Client × World) (e : APIError)
    (h : r.1 = .error (.api e)) : ∃ c1 w1, r = (.error (.api e), c1, w1) := by
  rcases r with ⟨out, c1, w1⟩
  simp only at h
  subst h
  exact ⟨c1, w1, rfl⟩

/-- A body that parses as an object with the three string members of the envelope decodes
into an `APIError` with exactly these values. -/
theorem unmarshalAPIError_envelope (body codigo mensagem detalhes : String)
    (hparse : parseJSON body = some (.obj [("codigo", .str codigo),
      ("mensagem", .str mensagem), ("detalhes", .str detalhes)])) :
    unmarshalAPIError body =
      ({ Codigo := codigo, Mensagem := mensagem, Detalhes := detalhes }, none) := by
  have h1 : keyMatches "codigo" "codigo" = true := by decide
  have h2 : keyMatches "mensagem" "codigo" = false := by decide
  have h3 : keyMatches "mensagem" "mensagem" = true := by decide
  have h4 : keyMatches "detalhes" "codigo" = false := by decide
  have h5 : keyMatches "detalhes" "mensagem" = false := by decide
  have h6 : keyMatches "detalhes" "detalhes" = true := by decide
  simp [unmarshalAPIError, unmarshalStruct, hparse, decodeObject, setAPIErrorField,
    decodeString, h1, h2, h3, h4, h5, h6]

end Sicoob

open Sicoob in
/-- C10: when a Sicoob request is answered with a status of 400 or more and a body that
decodes as the envelope with a non-empty `mensagem`, `doRequest` returns the `APIError`
holding the decoded `codigo`, `mensagem` and `detalhes`, and each of the nine operations
returns the error of `doRequest` wrapped under its own lead text, so that unwrapping gives
that `APIError` back. In particular `ConsultarBoleto` answered 404 with the body
`{"codigo":"404","mensagem":"boleto não encontrado"}` returns an error wrapping the
`APIError` with code `404` and message `boleto não encontrado`. -/
theorem sicoob_api_error_envelope (L : Stdlib) (c : Client) (w : World) :
    (∀ (method endpoint : String) (body : Option Payload) (status : Int)
        (respBody : String) (e : APIError),
      Answered L c endpoint body w status respBody → 400 ≤ status →
      unmarshalAPIError respBody = (e, none) → e.Mensagem ≠ "" →
      (doRequest L c method endpoint body w).1 = .error (.api e)) ∧
    (∀ (respBody codigo mensagem detalhes : String),
      parseJSON respBody = some (.obj [("codigo", .str codigo),
        ("mensagem", .str mensagem), ("detalhes", .str detalhes)]) →
      unmarshalAPIError respBody =
        ({ Codigo := codigo, Mensagem := mensagem, Detalhes := detalhes }, none)) ∧
    (∀ (e : APIError),
      (∀ boleto, (doRequest L c "POST" "/cobranca-bancaria/v2/boletos"
          (some (.boleto { boleto with NumeroContrato := c.config.NumeroContrato })) w).1
          = .error (.api e) →
        (CriarBoleto L c boleto w).1 = .error (.wrapf "erro ao criar boleto" (.api e))) ∧
      (∀ nossoNumero, (doRequest L c "GET" ("/cobranca-bancaria/v2/boletos?numeroContrato=" ++
          c.config.NumeroContrato ++ "&nossoNumero=" ++ toString nossoNumero) none w).1
          = .error (.api e) →
        (ConsultarBoleto L c nossoNumero w).1 =
          .error (.wrapf "erro ao consultar boleto" (.api e))) ∧
      (∀ dataInicio dataFim situacao, (doRequest L c "GET"
          (if situacao ≠ "" then "/cobranca-bancaria/v2/boletos?numeroContrato=" ++
              c.config.NumeroContrato ++ "&dataInicio=" ++ dataInicio ++ "&dataFim=" ++ dataFim
              ++ "&situacao=" ++ situacao
            else "/cobranca-bancaria/v2/boletos?numeroContrato=" ++
              c.config.NumeroContrato ++ "&dataInicio=" ++ dataInicio ++ "&dataFim=" ++ dataFim)
          none w).1 = .error (.api e) →
        (ListarBoletos L c dataInicio dataFim situacao w).1 =
          .error (.wrapf "erro ao listar boletos" (.api e))) ∧
      (∀ nossoNumero, (doRequest L c "PATCH"
          ("/cobranca-bancaria/v2/boletos/" ++ toString nossoNumero ++ "/baixar")
          (some (.stringMap [("numeroContrato", c.config.NumeroContrato)])) w).1
          = .error (.api e) →
        (BaixarBoleto L c nossoNumero w).1 =
          .error (.wrapf "erro ao baixar boleto" (.api e))) ∧
      (∀ nossoNumero novaData, (doRequest L c "PATCH"
          ("/cobranca-bancaria/v2/boletos/" ++ toString nossoNumero ++ "/prorrogacoes")
          (some (.stringMap [("numeroContrato", c.config.NumeroContrato),
                             ("dataVencimento", novaData)])) w).1 = .error (.api e) →
        (AlterarVencimento L c nossoNumero novaData w).1 =
          .error (.wrapf "erro ao alterar vencimento" (.api e))) ∧
      (∀ cobranca, (doRequest L c "POST" "/pix/api/v2/cob" (some (.pix cobranca)) w).1
          = .error (.api e) →
        (CriarCobrancaPix L c cobranca w).1 =
          .error (.wrapf "erro ao criar cobrança PIX" (.api e))) ∧
      (∀ txId, (doRequest L c "GET" ("/pix/api/v2/cob/" ++ txId) none w).1
          = .error (.api e) →
        (ConsultarCobrancaPix L c txId w).1 =
          .error (.wrapf "erro ao consultar cobrança PIX" (.api e))) ∧
      (∀ chave webhookURL, (doRequest L c "PUT" ("/pix/api/v2/webhook/" ++ chave)
          (some (.webhook { URL := webhookURL })) w).1 = .error (.api e) →
        (ConfigurarWebhook L c chave webhookURL w).1 =
          .error (.wrapf "erro ao configurar webhook" (.api e))) ∧
      (∀ nossoNumero, (doRequest L c "GET" ("/cobranca-bancaria/v2/boletos/" ++
          toString nossoNumero ++ "/segunda-via?numeroContrato=" ++ c.config.NumeroContrato)
          none w).1 = .error (.api e) →
        (GerarSegundaVia L c nossoNumero w).1 =
          .error (.wrapf "erro ao gerar segunda via" (.api e))) ∧
      (∀ lead, (GoError.wrapf lead (.api e)).asAPIError = some e)) ∧
    (L.urlError (getAPIURL freshClient ++ "/cobranca-bancaria/v2/boletos?numeroContrato=" ++
        freshClient.config.NumeroContrato ++ "&nossoNumero=" ++ toString (123 : Int)) = none →
      (ConsultarBoleto L freshClient 123
        (frozenWorld 0 [.response 200 bodyWithoutRefresh none,
          .response 404 notFoundBody none])).1 =
        .error (.wrapf "erro ao consultar boleto"
          (.api { Codigo := "404", Mensagem := "boleto não encontrado", Detalhes := "" }))) := by
  refine ⟨?_, ?_, ?_, ?_⟩
  · intro method endpoint body status respBody e hans hst hdec hmsg
    exact doRequest_api_error L c method endpoint body w status respBody e hans hst hdec hmsg
  · intro respBody codigo mensagem detalhes hparse
    exact unmarshalAPIError_envelope respBody codigo mensagem detalhes hparse
  · intro e
    refine ⟨?_, ?_, ?_, ?_, ?_, ?_, ?_, ?_, ?_, fun _ => rfl⟩
    · intro boleto h
      obtain ⟨c1, w1, hr⟩ := outcome_api_error _ e h
      simp only [CriarBoleto, hr]
    · intro nossoNumero h
      obtain ⟨c1, w1, hr⟩ := outcome_api_error _ e h
      simp only [ConsultarBoleto, hr]
    · intro dataInicio dataFim situacao h
      obtain ⟨c1, w1, hr⟩ := outcome_api_error _ e h
      simp only [ListarBoletos, hr]
    · intro nossoNumero h
      obtain ⟨c1, w1, hr⟩ := outcome_api_error _ e h
      simp only [BaixarBoleto, hr]
    · intro nossoNumero novaData h
      obtain ⟨c1, w1, hr⟩ := outcome_api_error _ e h
      simp only [AlterarVencimento, hr]
    · intro cobranca h
      obtain ⟨c1, w1, hr⟩ := outcome_api_error _ e h
      simp only [CriarCobrancaPix, hr]
    · intro txId h
      obtain ⟨c1, w1, hr⟩ := outcome_api_error _ e h
      simp only [ConsultarCobrancaPix, hr]
    · intro chave webhookURL h
      obtain ⟨c1, w1, hr⟩ := outcome_api_error _ e h
      simp only [ConfigurarWebhook, hr]
    · intro nossoNumero h
      obtain ⟨c1, w1, hr⟩ := outcome_api_error _ e h
      simp only [GerarSegundaVia, hr]
  · intro hurl
    have hdo : (doRequest L freshClient "GET" ("/cobranca-bancaria/v2/boletos?numeroContrato="
        ++ freshClient.config.NumeroContrato ++ "&nossoNumero=" ++ toString (123 : Int)) none
        (frozenWorld 0 [.response 200 bodyWithoutRefresh none,
          .response 404 notFoundBody none])).1 =
        .error (.api { Codigo := "404", Mensagem := "boleto não encontrado",
                       Detalhes := "" }) := by
      apply doRequest_api_error L freshClient "GET" _ none _ 404 notFoundBody
      · exact ⟨"new-access", _, _, .empty, none, rfl, rfl, by simpa [String.append_assoc] using hurl, rfl⟩
      · decide
      · decide
      · decide
    obtain ⟨c1, w1, hr⟩ := outcome_api_error _ _ hdo
    simp only [ConsultarBoleto, hr]

open Sicoob in
/-- Witness of C10: `ConsultarBoleto` of a fresh client, answered 200 on the token request
and 404 with the envelope on the business request. -/
theorem sicoob_api_error_envelope_witness :
    (doRequest sampleLib freshClient "GET"
      ("/cobranca-bancaria/v2/boletos?numeroContrato=987&nossoNumero=123") none
      (frozenWorld 0 [.response 200 bodyWithoutRefresh none,
        .response 404 notFoundBody none])).1 =
      .error (.api { Codigo := "404", Mensagem := "boleto não encontrado", Detalhes := "" }) ∧
    (ConsultarBoleto sampleLib freshClient 123
      (frozenWorld 0 [.response 200 bodyWithoutRefresh none,
        .response 404 notFoundBody none])).1 =
      .error (.wrapf "erro ao consultar boleto"
        (.api { Codigo := "404", Mensagem := "boleto não encontrado", Detalhes := "" })) :=
  have h := sicoob_api_error_envelope sampleLib freshClient
    (frozenWorld 0 [.response 200 bodyWithoutRefresh none, .response 404 notFoundBody none])
  ⟨h.1 "GET" "/cobranca-bancaria/v2/boletos?numeroContrato=987&nossoNumero=123" none 404
      notFoundBody { Codigo := "404", Mensagem := "boleto não encontrado", Detalhes := "" }
      ⟨"new-access", _, _, .empty, none, rfl, rfl, rfl, rfl⟩ (by decide) (by decide)
      (by decide),
    h.2.2.2 rfl⟩

end Kamino

namespace Kamino

namespace Sicredi

/-- A successful `RefreshAuthentication` leaves a token held. -/
theorem RefreshAuthentication_ok_held (s : SicrediAdapter) (w : World)
    (hok : (RefreshAuthentication s w).1 = .ok ()) :
    ∃ token, (RefreshAuthentication s w).2.1.token = some token := by
  cases hheld : s.token with
  | none =>
    simp only [RefreshAuthentication, hheld] at hok
    exact absurd hok (by simp)
  | some token =>
    cases hnet : w.net w.sent.length with
    | failed err =>
      rw [RefreshAuthentication_failed s w token err hheld hnet] at hok
      exact absurd hok (by simp)
    | response status body readErr =>
      by_cases hst : status = 200
      · subst hst
        rw [RefreshAuthentication_200 s w token body readErr hheld hnet] at hok ⊢
        cases hdec : unmarshalAuthResponse body with
        | mk authResp err =>
          cases err with
          | some e =>
            rw [hdec] at hok
            exact absurd hok (by simp)
          | none => exact ⟨_, rfl⟩
      · rw [RefreshAuthentication_status s w token status body readErr hheld hnet hst]
          at hok ⊢
        obtain ⟨b, _, _, htok⟩ := Authenticate_ok_token s _ hok
        exact ⟨_, htok⟩

/-- After a successful `ensureValidToken` a token is held. -/
theorem ensureValidToken_ok_held (s s1 : SicrediAdapter) (w w1 : World)
    (h : ensureValidToken s w = (.ok (), s1, w1)) : ∃ token, s1.token = some token := by
  have hout : (ensureValidToken s w).1 = .ok () := by rw [h]
  have hst : (ensureValidToken s w).2.1 = s1 := by rw [h]
  rw [← hst]
  cases hheld : s.token with
  | none =>
    have heq : ensureValidToken s w = Authenticate s w := by
      simp only [ensureValidToken, ensureValidTokenWith, hheld]
    rw [heq] at hout ⊢
    obtain ⟨b, _, _, htok⟩ := Authenticate_ok_token s w hout
    exact ⟨_, htok⟩
  | some token =>
    rw [ensureValidToken_held s w token hheld] at hout ⊢
    split at hout
    · split at hout
      · rename_i h1 h2
        rw [if_pos h1, if_pos h2]
        exact RefreshAuthentication_ok_held s _ hout
      · rename_i h1 h2
        rw [if_pos h1, if_neg h2]
        obtain ⟨b, _, _, htok⟩ := Authenticate_ok_token s _ hout
        exact ⟨_, htok⟩
    · rename_i h1
      rw [if_neg h1]
      exact ⟨token, hheld⟩

/-- `CriarBoleto` once the token is ensured, the body encoded, the request built and the
network has answered: its request went out and its result is `criarBoletoResult`. -/
theorem CriarBoleto_answered (L : Stdlib) (s s1 : SicrediAdapter) (w w1 : World)
    (boleto : CriarBoletoRequest) (text : String) (status : Int) (respBody : String)
    (readErr : Option GoError) (hans : Answered s w s1 w1 status respBody readErr)
    (hbody : marshalCriarBoletoRequest boleto = .ok text)
    (hurl : L.urlError (s1.baseURL ++ "/boletos") = none) :
    CriarBoleto L s boleto w =
      (criarBoletoResult L status respBody, s1,
        { w1 with sent := w1.sent ++ [criarBoletoRequest s1 text] }) := by
  simp only [CriarBoleto, hans.1, hbody, hurl, httpDo, hans.2]

/-- `ConsultarBoleto` once answered. -/
theorem ConsultarBoleto_answered (L : Stdlib) (s s1 : SicrediAdapter) (w w1 : World)
    (nossoNumero : String) (status : Int) (respBody : String) (readErr : Option GoError)
    (hans : Answered s w s1 w1 status respBody readErr)
    (hurl : L.urlError (consultarBoletoRequest s1 nossoNumero).url = none) :
    ConsultarBoleto L s nossoNumero w =
      (consultarBoletoResult L status respBody, s1,
        { w1 with sent := w1.sent ++ [consultarBoletoRequest s1 nossoNumero] }) := by
  simp only [ConsultarBoleto, hans.1, hurl, httpDo, hans.2]

/-- `ImprimirBoleto` once answered. -/
theorem ImprimirBoleto_answered (L : Stdlib) (s s1 : SicrediAdapter) (w w1 : World)
    (linhaDigitavel : String) (status : Int) (respBody : String) (readErr : Option GoError)
    (hans : Answered s w s1 w1 status respBody readErr)
    (hurl : L.urlError (imprimirBoletoRequest s1 linhaDigitavel).url = none) :
    ImprimirBoleto L s linhaDigitavel w =
      (imprimirBoletoResult status respBody readErr, s1,
        { w1 with sent := w1.sent ++ [imprimirBoletoRequest s1 linhaDigitavel] }) := by
  simp only [ImprimirBoleto, hans.1, hurl, httpDo, hans.2]

/-- `executarComandoInstrucao` once answered. -/
theorem executarComandoInstrucao_answered (L : Stdlib) (s s1 : SicrediAdapter)
    (w w1 : World) (nossoNumero comando : String) (body : Option CommandBody)
    (text : String) (status : Int) (respBody : String) (readErr : Option GoError)
    (hans : Answered s w s1 w1 status respBody readErr)
    (hbody : comandoBody body = .ok text)
    (hurl : L.urlError (comandoRequest s1 nossoNumero comando text).url = none) :
    executarComandoInstrucao L s nossoNumero comando body w =
      (comandoResult L comando status respBody, s1,
        { w1 with sent := w1.sent ++ [comandoRequest s1 nossoNumero comando text] }) := by
  simp only [executarComandoInstrucao, hans.1, hbody, hurl, httpDo, hans.2]

/-- `ConsultarLiquidadosPorDia` once answered. -/
theorem ConsultarLiquidadosPorDia_answered (L : Stdlib) (s s1 : SicrediAdapter)
    (w w1 : World) (data : String) (pagina : Int) (status : Int) (respBody : String)
    (readErr : Option GoError) (hans : Answered s w s1 w1 status respBody readErr)
    (hurl : L.urlError (liquidadosRequest s1 data pagina).url = none) :
    ConsultarLiquidadosPorDia L s data pagina w =
      (liquidadosResult L status respBody, s1,
        { w1 with sent := w1.sent ++ [liquidadosRequest s1 data pagina] }) := by
  simp only [ConsultarLiquidadosPorDia, hans.1, hurl, httpDo, hans.2]

end Sicredi

namespace Sicoob

/-- A call whose outcome is an error is that error with some client and world. -/
theorem outcome_error {α : Type} (r : Outcome α × Client × World) (err : GoError)
    (h : r.1 = .error err) : ∃ c1 w1, r = (.error err, c1, w1) := by
  rcases r with ⟨out, c1, w1⟩
  simp only at h
  subst h
  exact ⟨c1, w1, rfl⟩

/-- `doRequest` once answered: an error above status 399, the body below. -/
theorem doRequest_answered (L : Stdlib) (c : Client) (method endpoint : String)
    (body : Option Payload) (w : World) (status : Int) (respBody : String)
    (hans : Answered L c endpoint body w status respBody) :
    (doRequest L c method endpoint body w).1 =
      if status ≥ 400 then
        match unmarshalAPIError respBody with
        | (apiErr, none) =>
          if apiErr.Mensagem ≠ "" then .error (.api apiErr)
          else .error (.errorf ("erro API: status " ++ toString status ++ ", body: "
            ++ respBody))
        | (_, some _) =>
          .error (.errorf ("erro API: status " ++ toString status ++ ", body: " ++ respBody))
      else .ok respBody := by
  obtain ⟨token, c1, w1, reqBody, readErr, htok, hbody, hurl, hnet⟩ := hans
  simp only [doRequest, htok, hbody, hurl, httpDo, hnet]
  split
  · rcases hdec : unmarshalAPIError respBody with ⟨apiErr, err⟩
    cases err with
    | none =>
      simp only
      split <;> rfl
    | some e => rfl
  · rfl

end Sicoob

end Kamino

namespace Kamino

/-- C20: the token requests are POSTs with a form body holding exactly `grant_type` and the
fields of the grant. `Authenticate` of the Sicredi adapter sends one request with
`grant_type=password`, the configured `username` and `password` and the scope; its
`RefreshAuthentication` sends first a request with `grant_type=refresh_token` and the stored
refresh token, and nothing else but the password grant after it; `Authenticate` of the Sicoob
client sends, unless its token is still valid, one request with
`grant_type=client_credentials`, the configured `client_id` and `client_secret` and the
scope. -/
theorem token_request_form (w : World) :
    (∀ s : Sicredi.SicrediAdapter,
      sentSince w (Sicredi.Authenticate s w).2.2 =
        [{ method := "POST", url := s.authURL,
           headers := [("Content-Type", "application/x-www-form-urlencoded"),
             ("x-api-key", s.config.APIKey), ("context", "COBRANCA")],
           body := .form [("grant_type", "password"), ("password", s.config.Password),
             ("scope", "cobranca"), ("username", s.config.Username)] }]) ∧
    (∀ (s : Sicredi.SicrediAdapter) (token : Sicredi.TokenInfo), s.token = some token →
      ∃ rest, sentSince w (Sicredi.RefreshAuthentication s w).2.2 =
        { method := "POST", url := s.authURL,
          headers := [("Content-Type", "application/x-www-form-urlencoded"),
            ("x-api-key", s.config.APIKey), ("context", "COBRANCA")],
          body := .form [("grant_type", "refresh_token"),
            ("refresh_token", token.RefreshToken)] } :: rest ∧
        (rest = [] ∨ rest = [Sicredi.authRequest s])) ∧
    (∀ (c : Sicoob.Client) (w0 : World), Sicoob.tokenStillValid c w = (false, w0) →
      sentSince w (Sicoob.Authenticate c w).2.2 =
        [{ method := "POST", url := Sicoob.getAuthURL c,
           headers := [("Content-Type", "application/x-www-form-urlencoded")],
           body := .form [("client_id", c.config.ClientID),
             ("client_secret", c.config.ClientSecret),
             ("grant_type", "client_credentials"), ("scope", Sicoob.authScope)] }]) ∧
    (∀ (c : Sicoob.Client), (Sicoob.tokenStillValid c w).1 = true →
      sentSince w (Sicoob.Authenticate c w).2.2 = []) := by
  refine ⟨?_, ?_, ?_, ?_⟩
  · intro s
    exact sentSince_append w _ _ (Sicredi.Authenticate_sent s w)
  · intro s token hheld
    refine ⟨_, sentSince_append w _ _ (Sicredi.RefreshAuthentication_sent s w token hheld), ?_⟩
    cases hnet : w.net w.sent.length with
    | failed err => exact Or.inl rfl
    | response status body readErr =>
      by_cases hst : status = 200
      · subst hst
        exact Or.inl rfl
      · right
        simp only [ne_eq, hst, not_false_eq_true, if_true]
  · intro c w0 hv
    have hw0 : w0.sent = w.sent := by
      have h := (Sicoob.tokenStillValid_world c w).1
      rw [hv] at h
      exact h
    exact sentSince_append w _ _ (by rw [Sicoob.client_Authenticate_sent c w w0 hv, hw0]; rfl)
  · intro c hv
    apply sentSince_append w _ []
    rw [Sicoob.client_Authenticate_valid c w hv, (Sicoob.tokenStillValid_world c w).1]
    simp

/-- Witness of C20: a Sicredi adapter holding a refresh token, and a fresh Sicoob client. -/
theorem token_request_form_witness :
    (∃ rest, sentSince (frozenWorld 0 [.response 200 bodyWithRefresh none])
      (Sicredi.RefreshAuthentication (Sicredi.adapterHolding (-1 * Second) (3600 * Second))
        (frozenWorld 0 [.response 200 bodyWithRefresh none])).2.2 =
      { method := "POST", url := Sicredi.SandboxAuthURL,
        headers := [("Content-Type", "application/x-www-form-urlencoded"),
          ("x-api-key", "key"), ("context", "COBRANCA")],
        body := .form [("grant_type", "refresh_token"), ("refresh_token", "old-refresh")] }
        :: rest) ∧
    sentSince (frozenWorld 0 [.response 200 bodyWithoutRefresh none])
      (Sicoob.Authenticate Sicoob.freshClient
        (frozenWorld 0 [.response 200 bodyWithoutRefresh none])).2.2 =
      [{ method := "POST", url := Sicoob.SandboxAuthURL,
         headers := [("Content-Type", "application/x-www-form-urlencoded")],
         body := .form [("client_id", "client"), ("client_secret", "secret"),
           ("grant_type", "client_credentials"), ("scope", Sicoob.authScope)] }] :=
  ⟨((token_request_form (frozenWorld 0 [.response 200 bodyWithRefresh none])).2.1
      (Sicredi.adapterHolding (-1 * Second) (3600 * Second)) _ rfl).imp (fun _ h => h.1),
    (token_request_form (frozenWorld 0 [.response 200 bodyWithoutRefresh none])).2.2.1
      Sicoob.freshClient _ rfl⟩

end Kamino

namespace Kamino

namespace Sicredi

/-- `storeToken` changes the token only. -/
theorem storeToken_frame (s : SicrediAdapter) (authResp : AuthResponse) (w : World) :
    (storeToken s authResp w).1.config = s.config ∧
    (storeToken s authResp w).1.authURL = s.authURL ∧
    (storeToken s authResp w).1.baseURL = s.baseURL := ⟨rfl, rfl, rfl⟩

/-- `Authenticate` changes the token only. -/
theorem Authenticate_frame (s : SicrediAdapter) (w : World) :
    (Authenticate s w).2.1.config = s.config ∧
    (Authenticate s w).2.1.authURL = s.authURL ∧
    (Authenticate s w).2.1.baseURL = s.baseURL := by
  cases hnet : w.net w.sent.length with
  | failed err => rw [Authenticate_failed s w err hnet]; exact ⟨rfl, rfl, rfl⟩
  | response status body readErr =>
    cases readErr with
    | some err => rw [Authenticate_readErr s w status body err hnet]; exact ⟨rfl, rfl, rfl⟩
    | none =>
      by_cases hst : status = 200
      · subst hst
        rw [Authenticate_200 s w body hnet]
        cases hdec : unmarshalAuthResponse body with
        | mk authResp err =>
          cases err with
          | some e => exact ⟨rfl, rfl, rfl⟩
          | none => exact ⟨rfl, rfl, rfl⟩
      · rw [Authenticate_status s w status body hnet hst]; exact ⟨rfl, rfl, rfl⟩

/-- `RefreshAuthentication` changes the token only. -/
theorem RefreshAuthentication_frame (s : SicrediAdapter) (w : World) :
    (RefreshAuthentication s w).2.1.config = s.config ∧
    (RefreshAuthentication s w).2.1.authURL = s.authURL ∧
    (RefreshAuthentication s w).2.1.baseURL = s.baseURL := by
  cases hheld : s.token with
  | none =>
    simp [RefreshAuthentication, hheld]
  | some token =>
    cases hnet : w.net w.sent.length with
    | failed err =>
      rw [RefreshAuthentication_failed s w token err hheld hnet]; exact ⟨rfl, rfl, rfl⟩
    | response status body readErr =>
      by_cases hst : status = 200
      · subst hst
        rw [RefreshAuthentication_200 s w token body readErr hheld hnet]
        cases hdec : unmarshalAuthResponse body with
        | mk authResp err =>
          cases err with
          | some e => exact ⟨rfl, rfl, rfl⟩
          | none => exact ⟨rfl, rfl, rfl⟩
      · rw [RefreshAuthentication_status s w token status body readErr hheld hnet hst]
        exact Authenticate_frame s _

/-- `ensureValidToken` changes the token only. -/
theorem ensureValidToken_frame (s : SicrediAdapter) (w : World) :
    (ensureValidToken s w).2.1.config = s.config ∧
    (ensureValidToken s w).2.1.authURL = s.authURL ∧
    (ensureValidToken s w).2.1.baseURL = s.baseURL := by
  cases hheld : s.token with
  | none =>
    have heq : ensureValidToken s w = Authenticate s w := by
      simp only [ensureValidToken, ensureValidTokenWith, hheld]
    rw [heq]
    exact Authenticate_frame s w
  | some token =>
    rw [ensureValidToken_held s w token hheld]
    split
    · split
      · exact RefreshAuthentication_frame s _
      · exact Authenticate_frame s _
    · exact ⟨rfl, rfl, rfl⟩

end Sicredi

open Sicredi in
/-- C17: the six instruction commands are `executarComandoInstrucao` at the command names
`baixa`, `data-vencimento`, `desconto`, `data-desconto`, `juros` and `seu-numero` with their
body map, and for every our-number and command the request that goes out is a PATCH of
`baseURL/boletos/our-number/command` carrying the encoded body, which for the nil body of
`BaixarBoleto` is the empty JSON object. -/
theorem instruction_commands_one_path (L : Stdlib) (s : SicrediAdapter)
    (nossoNumero : String) (w : World) :
    (BaixarBoleto L s nossoNumero w =
      executarComandoInstrucao L s nossoNumero "baixa" none w) ∧
    (∀ novaData, AlterarVencimento L s nossoNumero novaData w =
      executarComandoInstrucao L s nossoNumero "data-vencimento"
        (some (.strings [("dataVencimento", novaData)])) w) ∧
    (∀ d1 d2 d3, AlterarDesconto L s nossoNumero d1 d2 d3 w =
      executarComandoInstrucao L s nossoNumero "desconto"
        (some (.floats ((if d1.isPositive then [("valorDesconto1", d1)] else []) ++
          (if d2.isPositive then [("valorDesconto2", d2)] else []) ++
          (if d3.isPositive then [("valorDesconto3", d3)] else [])))) w) ∧
    (∀ data1 data2 data3, AlterarDataDesconto L s nossoNumero data1 data2 data3 w =
      executarComandoInstrucao L s nossoNumero "data-desconto"
        (some (.strings ((if data1 ≠ "" then [("data1", data1)] else []) ++
          (if data2 ≠ "" then [("data2", data2)] else []) ++
          (if data3 ≠ "" then [("data3", data3)] else [])))) w) ∧
    (∀ valor, AlterarJuros L s nossoNumero valor w =
      executarComandoInstrucao L s nossoNumero "juros"
        (some (.floats [("valorOuPercentual", valor)])) w) ∧
    (∀ novoSeuNumero, AlterarSeuNumero L s nossoNumero novoSeuNumero w =
      executarComandoInstrucao L s nossoNumero "seu-numero"
        (some (.strings [("seuNumero", novoSeuNumero)])) w) ∧
    (∀ (comando : String) (body : Option CommandBody) (s1 : SicrediAdapter) (w1 : World)
        (text : String) (status : Int) (respBody : String) (readErr : Option GoError),
      Answered s w s1 w1 status respBody readErr →
      comandoBody body = .ok text →
      L.urlError (s1.baseURL ++ "/boletos/" ++ nossoNumero ++ "/" ++ comando) = none →
      ∃ req, sentSince w1 (executarComandoInstrucao L s nossoNumero comando body w).2.2
          = [req] ∧
        req.method = "PATCH" ∧
        req.url = s.baseURL ++ "/boletos/" ++ nossoNumero ++ "/" ++ comando ∧
        req.body = .json text) ∧
    comandoBody none = .ok "\x7b\x7d" := by
  refine ⟨rfl, fun _ => rfl, fun _ _ _ => rfl, fun _ _ _ => rfl, fun _ => rfl, fun _ => rfl,
    ?_, rfl⟩
  intro comando body s1 w1 text status respBody readErr hans hbody hurl
  have hbase : s1.baseURL = s.baseURL := by
    have h := (ensureValidToken_frame s w).2.2
    rw [hans.1] at h
    exact h
  refine ⟨comandoRequest s1 nossoNumero comando text, ?_, rfl, ?_, rfl⟩
  · rw [executarComandoInstrucao_answered L s s1 w w1 nossoNumero comando body text status
      respBody readErr hans hbody hurl]
    exact sentSince_append w1 _ _ rfl
  · show s1.baseURL ++ "/boletos/" ++ nossoNumero ++ "/" ++ comando = _
    rw [hbase]

open Sicredi in
/-- Witness of C17: `BaixarBoleto` of boleto 211001293 by an adapter holding a valid token,
answered 202. -/
theorem instruction_commands_one_path_witness :
    ∃ req, sentSince (frozenWorld 0 [.response 202 "" none])
        (BaixarBoleto sampleLib (adapterHolding (3600 * Second) (7200 * Second)) "211001293"
          (frozenWorld 0 [.response 202 "" none])).2.2 = [req] ∧
      req.method = "PATCH" ∧
      req.url = SandboxBaseURL ++ "/boletos/" ++ "211001293" ++ "/" ++ "baixa" ∧
      req.body = .json "\x7b\x7d" :=
  have h := (instruction_commands_one_path sampleLib
    (adapterHolding (3600 * Second) (7200 * Second)) "211001293"
    (frozenWorld 0 [.response 202 "" none])).2.2.2.2.2.2.1 "baixa" none
    (adapterHolding (3600 * Second) (7200 * Second))
    { frozenWorld 0 [.response 202 "" none] with reads := 1 } "\x7b\x7d" 202 "" none
    ⟨rfl, rfl⟩ rfl rfl
  h

end Kamino

namespace Kamino

namespace Sicoob

/-- `Authenticate` of the client leaves its configuration alone. -/
theorem client_Authenticate_frame (c : Client) (w : World) :
    (Authenticate c w).2.1.config = c.config := by
  rcases hv : tokenStillValid c w with ⟨b, w0⟩
  cases b with
  | true =>
    rw [client_Authenticate_valid c w (by rw [hv])]
  | false =>
    cases hnet : w0.net w0.sent.length with
    | failed err => rw [client_Authenticate_failed c w w0 err hv hnet]
    | response status body readErr =>
      by_cases hst : status = 200
      · subst hst
        rw [client_Authenticate_200 c w w0 body readErr hv hnet]
        cases hdec : unmarshalTokenResponse body with
        | mk tokenResp err =>
          cases err with
          | some e => rfl
          | none => rfl
      · rw [client_Authenticate_status c w w0 status body readErr hv hnet hst]

/-- The token `getAccessToken` returns is the access token of the token held afterwards, and
the configuration is unchanged. -/
theorem getAccessToken_ok_current (c c1 : Client) (w w1 : World) (token : String)
    (h : getAccessToken c w = (.ok token, c1, w1)) :
    (∃ t, c1.token = some t ∧ t.AccessToken = token) ∧ c1.config = c.config := by
  unfold getAccessToken at h
  rcases hv : tokenStillValid c w with ⟨b, w0⟩
  rw [hv] at h
  have slow : ∀ (hA : (match Authenticate c w0 with
      | (.error err, c1, w1) => ((.error err : Outcome String), c1, w1)
      | (.panic, c1, w1) => (.panic, c1, w1)
      | (.ok (), c1, w1) =>
        match c1.token with
        | some token => (.ok token.AccessToken, c1, w1)
        | none => (.panic, c1, w1)) = (.ok token, c1, w1)),
      (∃ t, c1.token = some t ∧ t.AccessToken = token) ∧ c1.config = c.config := by
    intro hA
    have hfr := client_Authenticate_frame c w0
    rcases hAu : Authenticate c w0 with ⟨out, c2, w2⟩
    rw [hAu] at hA hfr
    cases out with
    | error err => simp at hA
    | panic => simp at hA
    | ok u =>
      cases u
      cases htok : c2.token with
      | none => simp [htok] at hA
      | some t =>
        simp only [htok, Prod.mk.injEq, Outcome.ok.injEq] at hA
        obtain ⟨h1, h2, _⟩ := hA
        subst h2
        exact ⟨⟨t, htok, h1⟩, hfr⟩
  cases htok : c.token with
  | none =>
    rw [htok] at h
    exact slow h
  | some t =>
    rw [htok] at h
    cases b with
    | true =>
      simp only [Prod.mk.injEq, Outcome.ok.injEq] at h
      obtain ⟨h1, h2, _⟩ := h
      subst h2
      exact ⟨⟨t, htok, h1⟩, rfl⟩
    | false => exact slow h

end Sicoob

/-- C19, as stated, fails for the Sicredi adapter: with a valid token held, the request of
`ImprimirBoleto` carries the API key and the bearer token only (no `cooperativa`, `posto` or
`codigoBeneficiario` header), and the request of `CriarBoleto` carries no
`codigoBeneficiario` header. -/
theorem sicredi_headers_counterexample :
    (Sicredi.ImprimirBoleto Sicredi.sampleLib
        (Sicredi.adapterHolding (3600 * Second) (7200 * Second)) "74891121150023456789"
        (frozenWorld 0 [.response 200 "%PDF" none])).2.2.sent.map (fun r => r.headers) =
      [[("x-api-key", "key"), ("Authorization", "Bearer old-access")]] ∧
    (Sicredi.CriarBoleto Sicredi.sampleLib
        (Sicredi.adapterHolding (3600 * Second) (7200 * Second)) Sicredi.exampleBoleto
        (frozenWorld 0 [.response 201 "" none])).2.2.sent.map (fun r => r.headers) =
      [[("x-api-key", "key"), ("Authorization", "Bearer old-access"),
        ("Content-Type", "application/json"), ("cooperativa", "0100"), ("posto", "02")]] := by
  constructor
  · decide
  · set_option exponentiation.threshold 3000 in
    set_option maxRecDepth 100000 in
    decide

namespace Sicoob

/-- Every operation of the client sends what its one call of `doRequest` sends. -/
theorem operations_send_through_doRequest (L : Stdlib) (c : Client) (w : World) :
    (∀ boleto, (CriarBoleto L c boleto w).2.2 =
      (doRequest L c "POST" "/cobranca-bancaria/v2/boletos"
        (some (.boleto { boleto with NumeroContrato := c.config.NumeroContrato })) w).2.2) ∧
    (∀ nossoNumero, (ConsultarBoleto L c nossoNumero w).2.2 =
      (doRequest L c "GET" ("/cobranca-bancaria/v2/boletos?numeroContrato=" ++
        c.config.NumeroContrato ++ "&nossoNumero=" ++ toString nossoNumero) none w).2.2) ∧
    (∀ dataInicio dataFim situacao, (ListarBoletos L c dataInicio dataFim situacao w).2.2 =
      (doRequest L c "GET"
        (if situacao ≠ "" then "/cobranca-bancaria/v2/boletos?numeroContrato=" ++
            c.config.NumeroContrato ++ "&dataInicio=" ++ dataInicio ++ "&dataFim=" ++ dataFim
            ++ "&situacao=" ++ situacao
          else "/cobranca-bancaria/v2/boletos?numeroContrato=" ++
            c.config.NumeroContrato ++ "&dataInicio=" ++ dataInicio ++ "&dataFim=" ++ dataFim)
        none w).2.2) ∧
    (∀ nossoNumero, (BaixarBoleto L c nossoNumero w).2.2 =
      (doRequest L c "PATCH"
        ("/cobranca-bancaria/v2/boletos/" ++ toString nossoNumero ++ "/baixar")
        (some (.stringMap [("numeroContrato", c.config.NumeroContrato)])) w).2.2) ∧
    (∀ nossoNumero novaData, (AlterarVencimento L c nossoNumero novaData w).2.2 =
      (doRequest L c "PATCH"
        ("/cobranca-bancaria/v2/boletos/" ++ toString nossoNumero ++ "/prorrogacoes")
        (some (.stringMap [("numeroContrato", c.config.NumeroContrato),
                           ("dataVencimento", novaData)])) w).2.2) ∧
    (∀ cobranca, (CriarCobrancaPix L c cobranca w).2.2 =
      (doRequest L c "POST" "/pix/api/v2/cob" (some (.pix cobranca)) w).2.2) ∧
    (∀ txId, (ConsultarCobrancaPix L c txId w).2.2 =
      (doRequest L c "GET" ("/pix/api/v2/cob/" ++ txId) none w).2.2) ∧
    (∀ chave webhookURL, (ConfigurarWebhook L c chave webhookURL w).2.2 =
      (doRequest L c "PUT" ("/pix/api/v2/webhook/" ++ chave)
        (some (.webhook { URL := webhookURL })) w).2.2) ∧
    (∀ nossoNumero, (GerarSegundaVia L c nossoNumero w).2.2 =
      (doRequest L c "GET" ("/cobranca-bancaria/v2/boletos/" ++ toString nossoNumero ++
        "/segunda-via?numeroContrato=" ++ c.config.NumeroContrato) none w).2.2) := by
  refine ⟨?_, ?_, ?_, ?_, ?_, ?_, ?_, ?_, ?_⟩
  · intro boleto
    simp only [CriarBoleto]
    split
    · next h => rw [h]
    · next h => rw [h]
    · next h => rw [h]; split <;> rfl
  · intro nossoNumero
    simp only [ConsultarBoleto]
    split
    · next h => rw [h]
    · next h => rw [h]
    · next h => rw [h]; split <;> rfl
  · intro dataInicio dataFim situacao
    simp only [ListarBoletos]
    split
    · next h => rw [h]
    · next h => rw [h]
    · next h => rw [h]; split <;> rfl
  · intro nossoNumero
    simp only [BaixarBoleto]
    split
    · next h => rw [h]
    · next h => rw [h]
    · next h => rw [h]
  · intro nossoNumero novaData
    simp only [AlterarVencimento]
    split
    · next h => rw [h]
    · next h => rw [h]
    · next h => rw [h]
  · intro cobranca
    simp only [CriarCobrancaPix]
    split
    · next h => rw [h]
    · next h => rw [h]
    · next h => rw [h]; split <;> rfl
  · intro txId
    simp only [ConsultarCobrancaPix]
    split
    · next h => rw [h]
    · next h => rw [h]
    · next h => rw [h]; split <;> rfl
  · intro chave webhookURL
    simp only [ConfigurarWebhook]
    split
    · next h => rw [h]
    · next h => rw [h]
    · next h => rw [h]
  · intro nossoNumero
    simp only [GerarSegundaVia]
    split
    · next h => rw [h]
    · next h => rw [h]
    · next h => rw [h]

end Sicoob

/-- C19 (amended): once a token is ensured, every business request carries the API key
(Sicredi) or the client id `x-sicoob-clientid` (Sicoob) and `Authorization: Bearer` with the
access token held at that moment. The Sicredi requests carry besides: `cooperativa` and
`posto` on create, query, instruction commands and settled-by-day, but not on print PDF;
`codigoBeneficiario` on instruction commands only. The header lists below are complete. -/
theorem business_request_headers :
    (∀ (L : Sicredi.Stdlib) (s s1 : Sicredi.SicrediAdapter) (w w1 : World) (status : Int)
        (respBody : String) (readErr : Option GoError),
      Sicredi.Answered s w s1 w1 status respBody readErr →
      ∃ token, s1.token = some token ∧
        (∀ boleto text, Sicredi.marshalCriarBoletoRequest boleto = .ok text →
          L.urlError (s1.baseURL ++ "/boletos") = none →
          (sentSince w1 (Sicredi.CriarBoleto L s boleto w).2.2).map (fun r => r.headers) =
            [[("x-api-key", s.config.APIKey),
              ("Authorization", "Bearer " ++ token.AccessToken),
              ("Content-Type", "application/json"),
              ("cooperativa", s.config.Cooperativa), ("posto", s.config.Posto)]]) ∧
        (∀ nossoNumero,
          L.urlError (Sicredi.consultarBoletoRequest s1 nossoNumero).url = none →
          (sentSince w1 (Sicredi.ConsultarBoleto L s nossoNumero w).2.2).map
              (fun r => r.headers) =
            [[("x-api-key", s.config.APIKey),
              ("Authorization", "Bearer " ++ token.AccessToken),
              ("cooperativa", s.config.Cooperativa), ("posto", s.config.Posto)]]) ∧
        (∀ linhaDigitavel,
          L.urlError (Sicredi.imprimirBoletoRequest s1 linhaDigitavel).url = none →
          (sentSince w1 (Sicredi.ImprimirBoleto L s linhaDigitavel w).2.2).map
              (fun r => r.headers) =
            [[("x-api-key", s.config.APIKey),
              ("Authorization", "Bearer " ++ token.AccessToken)]]) ∧
        (∀ nossoNumero comando body text, Sicredi.comandoBody body = .ok text →
          L.urlError (Sicredi.comandoRequest s1 nossoNumero comando text).url = none →
          (sentSince w1 (Sicredi.executarComandoInstrucao L s nossoNumero comando body
              w).2.2).map (fun r => r.headers) =
            [[("x-api-key", s.config.APIKey),
              ("Authorization", "Bearer " ++ token.AccessToken),
              ("Content-Type", "application/json"),
              ("cooperativa", s.config.Cooperativa), ("posto", s.config.Posto),
              ("codigoBeneficiario", s.config.CodigoBeneficiario)]]) ∧
        (∀ data pagina,
          L.urlError (Sicredi.liquidadosRequest s1 data pagina).url = none →
          (sentSince w1 (Sicredi.ConsultarLiquidadosPorDia L s data pagina w).2.2).map
              (fun r => r.headers) =
            [[("x-api-key", s.config.APIKey),
              ("Authorization", "Bearer " ++ token.AccessToken),
              ("Content-Type", "application/x-www-form-urlencoded"),
              ("cooperativa", s.config.Cooperativa), ("posto", s.config.Posto)]])) ∧
    (∀ (L : Sicoob.Stdlib) (c : Sicoob.Client) (method endpoint : String)
        (body : Option Sicoob.Payload) (w : World) (status : Int) (respBody : String),
      Sicoob.Answered L c endpoint body w status respBody →
      ∃ token c1 w1 t, Sicoob.getAccessToken c w = (.ok token, c1, w1) ∧
        c1.token = some t ∧ t.AccessToken = token ∧
        (sentSince w1 (Sicoob.doRequest L c method endpoint body w).2.2).map
            (fun r => r.headers) =
          [[("Authorization", "Bearer " ++ token), ("Content-Type", "application/json"),
            ("Accept", "application/json"), ("x-sicoob-clientid", c.config.ClientID)]]) := by
  constructor
  · intro L s s1 w w1 status respBody readErr hans
    obtain ⟨token, htok⟩ := Sicredi.ensureValidToken_ok_held s s1 w w1 hans.1
    have hcfg : s1.config = s.config := by
      have h := (Sicredi.ensureValidToken_frame s w).1
      rw [hans.1] at h
      exact h
    have hcommon : Sicredi.setCommonHeaders s1 =
        [("x-api-key", s.config.APIKey), ("Authorization", "Bearer " ++ token.AccessToken)] := by
      simp only [Sicredi.setCommonHeaders, htok, hcfg]
    refine ⟨token, htok, ?_, ?_, ?_, ?_, ?_⟩
    · intro boleto text hbody hurl
      rw [Sicredi.CriarBoleto_answered L s s1 w w1 boleto text status respBody readErr hans
        hbody hurl, sentSince_append w1 _ _ rfl]
      simp only [List.map, Sicredi.criarBoletoRequest, hcommon, hcfg, List.cons_append,
        List.nil_append]
    · intro nossoNumero hurl
      rw [Sicredi.ConsultarBoleto_answered L s s1 w w1 nossoNumero status respBody readErr
        hans hurl, sentSince_append w1 _ _ rfl]
      simp only [List.map, Sicredi.consultarBoletoRequest, hcommon, hcfg, List.cons_append,
        List.nil_append]
    · intro linhaDigitavel hurl
      rw [Sicredi.ImprimirBoleto_answered L s s1 w w1 linhaDigitavel status respBody readErr
        hans hurl, sentSince_append w1 _ _ rfl]
      simp only [List.map, Sicredi.imprimirBoletoRequest, hcommon]
    · intro nossoNumero comando body text hbody hurl
      rw [Sicredi.executarComandoInstrucao_answered L s s1 w w1 nossoNumero comando body text
        status respBody readErr hans hbody hurl, sentSince_append w1 _ _ rfl]
      simp only [List.map, Sicredi.comandoRequest, hcommon, hcfg, List.cons_append,
        List.nil_append]
    · intro data pagina hurl
      rw [Sicredi.ConsultarLiquidadosPorDia_answered L s s1 w w1 data pagina status respBody
        readErr hans hurl, sentSince_append w1 _ _ rfl]
      simp only [List.map, Sicredi.liquidadosRequest, hcommon, hcfg, List.cons_append,
        List.nil_append]
  · intro L c method endpoint body w status respBody hans
    obtain ⟨token, c1, w1, reqBody, readErr, htok, hbody, hurl, hnet⟩ := hans
    obtain ⟨⟨t, ht, hacc⟩, hcfg⟩ := Sicoob.getAccessToken_ok_current c c1 w w1 token htok
    refine ⟨token, c1, w1, t, htok, ht, hacc, ?_⟩
    have hsent : (Sicoob.doRequest L c method endpoint body w).2.2.sent =
        w1.sent ++ [Sicoob.apiRequest c1 token method endpoint reqBody] := by
      simp only [Sicoob.doRequest, htok, hbody, hurl, httpDo, hnet]
      split
      · rcases hdec : Sicoob.unmarshalAPIError respBody with ⟨apiErr, err⟩
        cases err with
        | none =>
          simp only
          split <;> rfl
        | some e => rfl
      · rfl
    rw [sentSince_append w1 _ _ hsent]
    simp only [List.map, Sicoob.apiRequest, hcfg]

/-- Witness of C19: the print-PDF request of an adapter holding the valid token `old-access`
carries the API key and the bearer token, and nothing else. -/
theorem business_request_headers_witness :
    Sicredi.Answered (Sicredi.adapterHolding (3600 * Second) (7200 * Second))
        (frozenWorld 0 [.response 200 "%PDF" none])
        (Sicredi.adapterHolding (3600 * Second) (7200 * Second))
        { frozenWorld 0 [.response 200 "%PDF" none] with reads := 1 } 200 "%PDF" none ∧
      (sentSince { frozenWorld 0 [.response 200 "%PDF" none] with reads := 1 }
          (Sicredi.ImprimirBoleto Sicredi.sampleLib
            (Sicredi.adapterHolding (3600 * Second) (7200 * Second)) "74891121150023456789"
            (frozenWorld 0 [.response 200 "%PDF" none])).2.2).map (fun r => r.headers) =
        [[("x-api-key", "key"), ("Authorization", "Bearer " ++ "old-access")]] := by
  refine ⟨⟨rfl, rfl⟩, ?_⟩
  obtain ⟨token, htok, _, _, hprint, _, _⟩ :=
    business_request_headers.1 Sicredi.sampleLib
      (Sicredi.adapterHolding (3600 * Second) (7200 * Second))
      (Sicredi.adapterHolding (3600 * Second) (7200 * Second))
      (frozenWorld 0 [.response 200 "%PDF" none])
      { frozenWorld 0 [.response 200 "%PDF" none] with reads := 1 } 200 "%PDF" none ⟨rfl, rfl⟩
  simp only [Sicredi.adapterHolding, Option.some.injEq] at htok
  subst htok
  exact hprint "74891121150023456789" rfl

end Kamino

namespace Kamino

namespace Sicoob

/-- Each operation returns the error of its call of `doRequest` under its own lead text. -/
theorem operations_wrap_error (L : Stdlib) (c : Client) (w : World) (err : GoError) :
    (∀ boleto, (doRequest L c "POST" "/cobranca-bancaria/v2/boletos"
        (some (.boleto { boleto with NumeroContrato := c.config.NumeroContrato })) w).1
        = .error err →
      (CriarBoleto L c boleto w).1 = .error (.wrapf "erro ao criar boleto" err)) ∧
    (∀ nossoNumero, (doRequest L c "GET" ("/cobranca-bancaria/v2/boletos?numeroContrato=" ++
        c.config.NumeroContrato ++ "&nossoNumero=" ++ toString nossoNumero) none w).1
        = .error err →
      (ConsultarBoleto L c nossoNumero w).1 = .error (.wrapf "erro ao consultar boleto" err)) ∧
    (∀ dataInicio dataFim situacao, (doRequest L c "GET"
        (if situacao ≠ "" then "/cobranca-bancaria/v2/boletos?numeroContrato=" ++
            c.config.NumeroContrato ++ "&dataInicio=" ++ dataInicio ++ "&dataFim=" ++ dataFim
            ++ "&situacao=" ++ situacao
          else "/cobranca-bancaria/v2/boletos?numeroContrato=" ++
            c.config.NumeroContrato ++ "&dataInicio=" ++ dataInicio ++ "&dataFim=" ++ dataFim)
        none w).1 = .error err →
      (ListarBoletos L c dataInicio dataFim situacao w).1 =
        .error (.wrapf "erro ao listar boletos" err)) ∧
    (∀ nossoNumero, (doRequest L c "PATCH"
        ("/cobranca-bancaria/v2/boletos/" ++ toString nossoNumero ++ "/baixar")
        (some (.stringMap [("numeroContrato", c.config.NumeroContrato)])) w).1
        = .error err →
      (BaixarBoleto L c nossoNumero w).1 = .error (.wrapf "erro ao baixar boleto" err)) ∧
    (∀ nossoNumero novaData, (doRequest L c "PATCH"
        ("/cobranca-bancaria/v2/boletos/" ++ toString nossoNumero ++ "/prorrogacoes")
        (some (.stringMap [("numeroContrato", c.config.NumeroContrato),
                           ("dataVencimento", novaData)])) w).1 = .error err →
      (AlterarVencimento L c nossoNumero novaData w).1 =
        .error (.wrapf "erro ao alterar vencimento" err)) ∧
    (∀ cobranca, (doRequest L c "POST" "/pix/api/v2/cob" (some (.pix cobranca)) w).1
        = .error err →
      (CriarCobrancaPix L c cobranca w).1 = .error (.wrapf "erro ao criar cobrança PIX" err)) ∧
    (∀ txId, (doRequest L c "GET" ("/pix/api/v2/cob/" ++ txId) none w).1 = .error err →
      (ConsultarCobrancaPix L c txId w).1 =
        .error (.wrapf "erro ao consultar cobrança PIX" err)) ∧
    (∀ chave webhookURL, (doRequest L c "PUT" ("/pix/api/v2/webhook/" ++ chave)
        (some (.webhook { URL := webhookURL })) w).1 = .error err →
      (ConfigurarWebhook L c chave webhookURL w).1 =
        .error (.wrapf "erro ao configurar webhook" err)) ∧
    (∀ nossoNumero, (doRequest L c "GET" ("/cobranca-bancaria/v2/boletos/" ++
        toString nossoNumero ++ "/segunda-via?numeroContrato=" ++ c.config.NumeroContrato)
        none w).1 = .error err →
      (GerarSegundaVia L c nossoNumero w).1 =
        .error (.wrapf "erro ao gerar segunda via" err)) := by
  refine ⟨?_, ?_, ?_, ?_, ?_, ?_, ?_, ?_, ?_⟩
  · intro boleto h
    obtain ⟨c1, w1, hr⟩ := outcome_error _ err h
    simp only [CriarBoleto, hr]
  · intro nossoNumero h
    obtain ⟨c1, w1, hr⟩ := outcome_error _ err h
    simp only [ConsultarBoleto, hr]
  · intro dataInicio dataFim situacao h
    obtain ⟨c1, w1, hr⟩ := outcome_error _ err h
    simp only [ListarBoletos, hr]
  · intro nossoNumero h
    obtain ⟨c1, w1, hr⟩ := outcome_error _ err h
    simp only [BaixarBoleto, hr]
  · intro nossoNumero novaData h
    obtain ⟨c1, w1, hr⟩ := outcome_error _ err h
    simp only [AlterarVencimento, hr]
  · intro cobranca h
    obtain ⟨c1, w1, hr⟩ := outcome_error _ err h
    simp only [CriarCobrancaPix, hr]
  · intro txId h
    obtain ⟨c1, w1, hr⟩ := outcome_error _ err h
    simp only [ConsultarCobrancaPix, hr]
  · intro chave webhookURL h
    obtain ⟨c1, w1, hr⟩ := outcome_error _ err h
    simp only [ConfigurarWebhook, hr]
  · intro nossoNumero h
    obtain ⟨c1, w1, hr⟩ := outcome_error _ err h
    simp only [GerarSegundaVia, hr]

end Sicoob

/-- Counterexample to C11: the Sicredi `ConsultarBoleto` answered 500 with the body
`upstream timeout`, which does not decode as the error envelope, returns an error holding
the status and nothing of the body; the same error is returned for the body `<html>`. -/
theorem sicredi_error_body_counterexample :
    (Sicredi.unmarshalErrorResponse "upstream timeout").2 ≠ none ∧
    (Sicredi.ConsultarBoleto Sicredi.sampleLib
      (Sicredi.adapterHolding (3600 * Second) (7200 * Second)) "211001293"
      (frozenWorld 0 [.response 500 "upstream timeout" none])).1 =
        .error (.errorf "erro ao consultar boleto (status 500): ") ∧
    (Sicredi.ConsultarBoleto Sicredi.sampleLib
      (Sicredi.adapterHolding (3600 * Second) (7200 * Second)) "211001293"
      (frozenWorld 0 [.response 500 "<html>" none])).1 =
        .error (.errorf "erro ao consultar boleto (status 500): ") := by
  decide

/-- C11 (amended): on a non-success response whose body does not decode as the error
envelope, the error of the Sicoob `doRequest` (status 400 and above) and of the Sicredi
`ImprimirBoleto` holds the status code and the raw body, and each Sicoob operation returns
the error of `doRequest` under its lead text. The other Sicredi operations return an error
holding the status code and the `message` decoded from the body, not the raw body; for a
body that is not JSON that message is empty. -/
theorem undecodable_error_body :
    (∀ (L : Sicoob.Stdlib) (c : Sicoob.Client) (method endpoint : String)
        (body : Option Sicoob.Payload) (w : World) (status : Int) (respBody : String),
      Sicoob.Answered L c endpoint body w status respBody → 400 ≤ status →
      (Sicoob.unmarshalAPIError respBody).2 ≠ none →
      (Sicoob.doRequest L c method endpoint body w).1 =
        .error (.errorf ("erro API: status " ++ toString status ++ ", body: " ++ respBody))) ∧
    (∀ (L : Sicoob.Stdlib) (c : Sicoob.Client) (w : World) (err : GoError),
      (∀ boleto, (Sicoob.doRequest L c "POST" "/cobranca-bancaria/v2/boletos"
          (some (.boleto { boleto with NumeroContrato := c.config.NumeroContrato })) w).1
          = .error err →
        (Sicoob.CriarBoleto L c boleto w).1 = .error (.wrapf "erro ao criar boleto" err)) ∧
      (∀ nossoNumero, (Sicoob.doRequest L c "GET" ("/cobranca-bancaria/v2/boletos?numeroContrato=" ++
          c.config.NumeroContrato ++ "&nossoNumero=" ++ toString nossoNumero) none w).1
          = .error err →
        (Sicoob.ConsultarBoleto L c nossoNumero w).1 =
          .error (.wrapf "erro ao consultar boleto" err)) ∧
      (∀ dataInicio dataFim situacao, (Sicoob.doRequest L c "GET"
          (if situacao ≠ "" then "/cobranca-bancaria/v2/boletos?numeroContrato=" ++
              c.config.NumeroContrato ++ "&dataInicio=" ++ dataInicio ++ "&dataFim=" ++ dataFim
              ++ "&situacao=" ++ situacao
            else "/cobranca-bancaria/v2/boletos?numeroContrato=" ++
              c.config.NumeroContrato ++ "&dataInicio=" ++ dataInicio ++ "&dataFim=" ++ dataFim)
          none w).1 = .error err →
        (Sicoob.ListarBoletos L c dataInicio dataFim situacao w).1 =
          .error (.wrapf "erro ao listar boletos" err)) ∧
      (∀ nossoNumero, (Sicoob.doRequest L c "PATCH"
          ("/cobranca-bancaria/v2/boletos/" ++ toString nossoNumero ++ "/baixar")
          (some (.stringMap [("numeroContrato", c.config.NumeroContrato)])) w).1
          = .error err →
        (Sicoob.BaixarBoleto L c nossoNumero w).1 = .error (.wrapf "erro ao baixar boleto" err)) ∧
      (∀ nossoNumero novaData, (Sicoob.doRequest L c "PATCH"
          ("/cobranca-bancaria/v2/boletos/" ++ toString nossoNumero ++ "/prorrogacoes")
          (some (.stringMap [("numeroContrato", c.config.NumeroContrato),
                             ("dataVencimento", novaData)])) w).1 = .error err →
        (Sicoob.AlterarVencimento L c nossoNumero novaData w).1 =
          .error (.wrapf "erro ao alterar vencimento" err)) ∧
      (∀ cobranca, (Sicoob.doRequest L c "POST" "/pix/api/v2/cob" (some (.pix cobranca)) w).1
          = .error err →
        (Sicoob.CriarCobrancaPix L c cobranca w).1 =
          .error (.wrapf "erro ao criar cobrança PIX" err)) ∧
      (∀ txId, (Sicoob.doRequest L c "GET" ("/pix/api/v2/cob/" ++ txId) none w).1 = .error err →
        (Sicoob.ConsultarCobrancaPix L c txId w).1 =
          .error (.wrapf "erro ao consultar cobrança PIX" err)) ∧
      (∀ chave webhookURL, (Sicoob.doRequest L c "PUT" ("/pix/api/v2/webhook/" ++ chave)
          (some (.webhook { URL := webhookURL })) w).1 = .error err →
        (Sicoob.ConfigurarWebhook L c chave webhookURL w).1 =
          .error (.wrapf "erro ao configurar webhook" err)) ∧
      (∀ nossoNumero, (Sicoob.doRequest L c "GET" ("/cobranca-bancaria/v2/boletos/" ++
          toString nossoNumero ++ "/segunda-via?numeroContrato=" ++ c.config.NumeroContrato)
          none w).1 = .error err →
        (Sicoob.GerarSegundaVia L c nossoNumero w).1 =
          .error (.wrapf "erro ao gerar segunda via" err))) ∧
    (∀ (L : Sicredi.Stdlib) (s s1 : Sicredi.SicrediAdapter) (w w1 : World) (status : Int)
        (respBody : String) (readErr : Option GoError),
      Sicredi.Answered s w s1 w1 status respBody readErr →
      (∀ linhaDigitavel,
        L.urlError (Sicredi.imprimirBoletoRequest s1 linhaDigitavel).url = none →
        status ≠ 200 → status ≠ 201 →
        (Sicredi.ImprimirBoleto L s linhaDigitavel w).1 =
          .error (.errorf ("erro ao imprimir boleto (status " ++ toString status ++ "): "
            ++ respBody))) ∧
      (∀ boleto text, Sicredi.marshalCriarBoletoRequest boleto = .ok text →
        L.urlError (s1.baseURL ++ "/boletos") = none →
        status ≠ 201 → status ≠ 202 →
        (Sicredi.CriarBoleto L s boleto w).1 =
          .error (.errorf ("erro ao criar boleto (status " ++ toString status ++ "): "
            ++ (Sicredi.unmarshalErrorResponse respBody).1.Message))) ∧
      (∀ nossoNumero,
        L.urlError (Sicredi.consultarBoletoRequest s1 nossoNumero).url = none →
        status ≠ 200 →
        (Sicredi.ConsultarBoleto L s nossoNumero w).1 =
          .error (.errorf ("erro ao consultar boleto (status " ++ toString status ++ "): "
            ++ (Sicredi.unmarshalErrorResponse respBody).1.Message))) ∧
      (∀ nossoNumero comando body text, Sicredi.comandoBody body = .ok text →
        L.urlError (Sicredi.comandoRequest s1 nossoNumero comando text).url = none →
        status ≠ 202 →
        (Sicredi.executarComandoInstrucao L s nossoNumero comando body w).1 =
          .error (.errorf ("erro no comando " ++ comando ++ " (status " ++ toString status
            ++ "): " ++ (Sicredi.unmarshalErrorResponse respBody).1.Message))) ∧
      (∀ data pagina,
        L.urlError (Sicredi.liquidadosRequest s1 data pagina).url = none →
        status ≠ 200 →
        (Sicredi.ConsultarLiquidadosPorDia L s data pagina w).1 =
          .error (.errorf ("erro ao consultar liquidados (status " ++ toString status ++ "): "
            ++ (Sicredi.unmarshalErrorResponse respBody).1.Message)))) ∧
    (∀ respBody, parseJSON respBody = none →
      (Sicredi.unmarshalErrorResponse respBody).2 ≠ none ∧
      (Sicredi.unmarshalErrorResponse respBody).1.Message = "") := by
  refine ⟨?_, ?_, ?_, ?_⟩
  · intro L c method endpoint body w status respBody hans hst hdec
    rw [Sicoob.doRequest_answered L c method endpoint body w status respBody hans,
      if_pos hst]
    rcases hun : Sicoob.unmarshalAPIError respBody with ⟨apiErr, err⟩
    rw [hun] at hdec
    cases err with
    | none => exact absurd rfl hdec
    | some e => rfl
  · intro L c w err
    exact Sicoob.operations_wrap_error L c w err
  · intro L s s1 w w1 status respBody readErr hans
    refine ⟨?_, ?_, ?_, ?_, ?_⟩
    · intro linhaDigitavel hurl h200 h201
      rw [Sicredi.ImprimirBoleto_answered L s s1 w w1 linhaDigitavel status respBody readErr
        hans hurl]
      simp only [Sicredi.imprimirBoletoResult, if_pos (And.intro h201 h200)]
    · intro boleto text hbody hurl h201 h202
      rw [Sicredi.CriarBoleto_answered L s s1 w w1 boleto text status respBody readErr hans
        hbody hurl]
      simp only [Sicredi.criarBoletoResult, if_pos (And.intro h201 h202)]
    · intro nossoNumero hurl h200
      rw [Sicredi.ConsultarBoleto_answered L s s1 w w1 nossoNumero status respBody readErr
        hans hurl]
      simp only [Sicredi.consultarBoletoResult, if_pos h200]
    · intro nossoNumero comando body text hbody hurl h202
      rw [Sicredi.executarComandoInstrucao_answered L s s1 w w1 nossoNumero comando body text
        status respBody readErr hans hbody hurl]
      simp only [Sicredi.comandoResult, if_pos h202]
    · intro data pagina hurl h200
      rw [Sicredi.ConsultarLiquidadosPorDia_answered L s s1 w w1 data pagina status respBody
        readErr hans hurl]
      simp only [Sicredi.liquidadosResult, if_pos h200]
  · intro respBody hparse
    simp only [Sicredi.unmarshalErrorResponse, unmarshalStruct, hparse]
    exact ⟨by simp, trivial⟩

/-- Witness of C11: `ConsultarBoleto` of an adapter holding a valid token, answered 500 with
a body that is not JSON. -/
theorem undecodable_error_body_witness :
    Sicredi.Answered (Sicredi.adapterHolding (3600 * Second) (7200 * Second))
        (frozenWorld 0 [.response 500 "upstream timeout" none])
        (Sicredi.adapterHolding (3600 * Second) (7200 * Second))
        { frozenWorld 0 [.response 500 "upstream timeout" none] with reads := 1 }
        500 "upstream timeout" none ∧
      (Sicredi.ConsultarBoleto Sicredi.sampleLib
        (Sicredi.adapterHolding (3600 * Second) (7200 * Second)) "211001293"
        (frozenWorld 0 [.response 500 "upstream timeout" none])).1 =
          .error (.errorf ("erro ao consultar boleto (status " ++ toString (500 : Int) ++ "): "
            ++ (Sicredi.unmarshalErrorResponse "upstream timeout").1.Message)) :=
  ⟨⟨rfl, rfl⟩,
    (undecodable_error_body.2.2.1 Sicredi.sampleLib
      (Sicredi.adapterHolding (3600 * Second) (7200 * Second))
      (Sicredi.adapterHolding (3600 * Second) (7200 * Second))
      (frozenWorld 0 [.response 500 "upstream timeout" none])
      { frozenWorld 0 [.response 500 "upstream timeout" none] with reads := 1 }
      500 "upstream timeout" none ⟨rfl, rfl⟩).2.2.1 "211001293" rfl (by decide)⟩

end Kamino

namespace Kamino

namespace Sicoob

/-- A call whose outcome is a result is that result with some client and world. -/
theorem outcome_ok {α β : Type} (r : Outcome α × β × World) (a : α)
    (h : r.1 = .ok a) : ∃ c1 w1, r = (.ok a, c1, w1) := by
  rcases r with ⟨out, c1, w1⟩
  simp only at h
  subst h
  exact ⟨c1, w1, rfl⟩

/-- Each operation decodes the body its call of `doRequest` returns, whatever the status
was. -/
theorem operations_decode_body (L : Stdlib) (c : Client) (w : World) (body : String) :
    (∀ boleto, (doRequest L c "POST" "/cobranca-bancaria/v2/boletos"
        (some (.boleto { boleto with NumeroContrato := c.config.NumeroContrato })) w).1 = .ok body →
      ∀ resp, L.unmarshalBoletoResponse body = (resp, none) →
        (CriarBoleto L c boleto w).1 = .ok resp) ∧
    (∀ nossoNumero, (doRequest L c "GET" ("/cobranca-bancaria/v2/boletos?numeroContrato=" ++
        c.config.NumeroContrato ++ "&nossoNumero=" ++ toString nossoNumero) none w).1 = .ok body →
      ∀ b rest, L.unmarshalResultado body = (b :: rest, none) →
        (ConsultarBoleto L c nossoNumero w).1 = .ok b) ∧
    (∀ dataInicio dataFim situacao, (doRequest L c "GET"
        (if situacao ≠ "" then "/cobranca-bancaria/v2/boletos?numeroContrato=" ++
            c.config.NumeroContrato ++ "&dataInicio=" ++ dataInicio ++ "&dataFim=" ++ dataFim
            ++ "&situacao=" ++ situacao
          else "/cobranca-bancaria/v2/boletos?numeroContrato=" ++
            c.config.NumeroContrato ++ "&dataInicio=" ++ dataInicio ++ "&dataFim=" ++ dataFim)
        none w).1 = .ok body →
      ∀ boletos, L.unmarshalResultado body = (boletos, none) →
        (ListarBoletos L c dataInicio dataFim situacao w).1 = .ok boletos) ∧
    (∀ nossoNumero, (doRequest L c "PATCH"
        ("/cobranca-bancaria/v2/boletos/" ++ toString nossoNumero ++ "/baixar")
        (some (.stringMap [("numeroContrato", c.config.NumeroContrato)])) w).1 = .ok body →
      (BaixarBoleto L c nossoNumero w).1 = .ok ()) ∧
    (∀ nossoNumero novaData, (doRequest L c "PATCH"
        ("/cobranca-bancaria/v2/boletos/" ++ toString nossoNumero ++ "/prorrogacoes")
        (some (.stringMap [("numeroContrato", c.config.NumeroContrato),
                           ("dataVencimento", novaData)])) w).1 = .ok body →
      (AlterarVencimento L c nossoNumero novaData w).1 = .ok ()) ∧
    (∀ cobranca, (doRequest L c "POST" "/pix/api/v2/cob" (some (.pix cobranca)) w).1 = .ok body →
      ∀ resp, L.unmarshalPixCobrancaResponse body = (resp, none) →
        (CriarCobrancaPix L c cobranca w).1 = .ok resp) ∧
    (∀ txId, (doRequest L c "GET" ("/pix/api/v2/cob/" ++ txId) none w).1 = .ok body →
      ∀ resp, L.unmarshalPixCobrancaResponse body = (resp, none) →
        (ConsultarCobrancaPix L c txId w).1 = .ok resp) ∧
    (∀ chave webhookURL, (doRequest L c "PUT" ("/pix/api/v2/webhook/" ++ chave)
        (some (.webhook { URL := webhookURL })) w).1 = .ok body →
      (ConfigurarWebhook L c chave webhookURL w).1 = .ok ()) ∧
    (∀ nossoNumero, (doRequest L c "GET" ("/cobranca-bancaria/v2/boletos/" ++
        toString nossoNumero ++ "/segunda-via?numeroContrato=" ++ c.config.NumeroContrato)
        none w).1 = .ok body →
      (GerarSegundaVia L c nossoNumero w).1 = .ok body) := by
  refine ⟨?_, ?_, ?_, ?_, ?_, ?_, ?_, ?_, ?_⟩
  · intro boleto h resp hdec
    obtain ⟨c1, w1, hr⟩ := outcome_ok _ body h
    simp only [CriarBoleto, hr, hdec]
  · intro nossoNumero h b rest hdec
    obtain ⟨c1, w1, hr⟩ := outcome_ok _ body h
    simp only [ConsultarBoleto, hr, hdec]
  · intro dataInicio dataFim situacao h boletos hdec
    obtain ⟨c1, w1, hr⟩ := outcome_ok _ body h
    simp only [ListarBoletos, hr, hdec]
  · intro nossoNumero h
    obtain ⟨c1, w1, hr⟩ := outcome_ok _ body h
    simp only [BaixarBoleto, hr]
  · intro nossoNumero novaData h
    obtain ⟨c1, w1, hr⟩ := outcome_ok _ body h
    simp only [AlterarVencimento, hr]
  · intro cobranca h resp hdec
    obtain ⟨c1, w1, hr⟩ := outcome_ok _ body h
    simp only [CriarCobrancaPix, hr, hdec]
  · intro txId h resp hdec
    obtain ⟨c1, w1, hr⟩ := outcome_ok _ body h
    simp only [ConsultarCobrancaPix, hr, hdec]
  · intro chave webhookURL h
    obtain ⟨c1, w1, hr⟩ := outcome_ok _ body h
    simp only [ConfigurarWebhook, hr]
  · intro nossoNumero h
    obtain ⟨c1, w1, hr⟩ := outcome_ok _ body h
    simp only [GerarSegundaVia, hr]

end Sicoob

/-- Counterexample to C12: the Sicoob operations return a result on statuses outside
200, 201 and 202. `GerarSegundaVia` answered 204 returns the empty body, `BaixarBoleto`
answered 302 succeeds, and `CriarBoleto` answered 302 with the body `{"nossoNumero":77}`
returns the decoded response. -/
theorem sicoob_success_set_counterexample :
    (Sicoob.GerarSegundaVia Sicoob.sampleLib Sicoob.freshClient 123
      (frozenWorld 0 [.response 200 bodyWithoutRefresh none, .response 204 "" none])).1 =
        .ok "" ∧
    (Sicoob.BaixarBoleto Sicoob.sampleLib Sicoob.freshClient 123
      (frozenWorld 0 [.response 200 bodyWithoutRefresh none,
        .response 302 "<html>moved</html>" none])).1 = .ok () ∧
    ((Sicoob.CriarBoleto (Sicoob.jsonLib (fun _ => none)) Sicoob.freshClient Sicoob.Boleto.zero
      (frozenWorld 0 [.response 200 bodyWithoutRefresh none,
        .response 302 "\x7b\"nossoNumero\":77\x7d" none])).1.value?.map
          (fun r => r.NossoNumero)) = some 77 := by
  refine ⟨by decide, by decide, ?_⟩
  set_option exponentiation.threshold 3000 in
  set_option maxRecDepth 100000 in
  decide

/-- C12 (amended): each Sicredi operation returns a result exactly on its success set,
`CriarBoleto` on 201 and 202, `ConsultarBoleto` on 200, the instruction commands on 202,
`ImprimirBoleto` on 200 and 201, `ConsultarLiquidadosPorDia` on 200, provided the body
decodes (for `ImprimirBoleto`: was read), and an error on every other status. The Sicoob
`doRequest` returns an error on a status of 400 and above and the body on every status
below 400, and each Sicoob operation decodes the body `doRequest` returned. -/
theorem success_status_sets :
    (∀ (L : Sicredi.Stdlib) (s s1 : Sicredi.SicrediAdapter) (w w1 : World) (status : Int)
        (respBody : String) (readErr : Option GoError),
      Sicredi.Answered s w s1 w1 status respBody readErr →
      (∀ boleto text, Sicredi.marshalCriarBoletoRequest boleto = .ok text →
        L.urlError (s1.baseURL ++ "/boletos") = none →
        ((status = 201 ∨ status = 202) →
          ∀ r, L.unmarshalCriarBoletoResponse respBody = (r, none) →
          (Sicredi.CriarBoleto L s boleto w).1 = .ok r) ∧
        (¬ (status = 201 ∨ status = 202) →
          ∃ err, (Sicredi.CriarBoleto L s boleto w).1 = .error err)) ∧
      (∀ nossoNumero,
        L.urlError (Sicredi.consultarBoletoRequest s1 nossoNumero).url = none →
        (status = 200 →
          ∀ r, L.unmarshalConsultaBoletoResponse respBody = (r, none) →
          (Sicredi.ConsultarBoleto L s nossoNumero w).1 = .ok r) ∧
        (status ≠ 200 → ∃ err, (Sicredi.ConsultarBoleto L s nossoNumero w).1 = .error err)) ∧
      (∀ nossoNumero comando body text, Sicredi.comandoBody body = .ok text →
        L.urlError (Sicredi.comandoRequest s1 nossoNumero comando text).url = none →
        (status = 202 →
          ∀ r, L.unmarshalComandoInstrucaoResponse respBody = (r, none) →
          (Sicredi.executarComandoInstrucao L s nossoNumero comando body w).1 = .ok r) ∧
        (status ≠ 202 →
          ∃ err, (Sicredi.executarComandoInstrucao L s nossoNumero comando body w).1
            = .error err)) ∧
      (∀ linhaDigitavel,
        L.urlError (Sicredi.imprimirBoletoRequest s1 linhaDigitavel).url = none →
        ((status = 200 ∨ status = 201) → readErr = none →
          (Sicredi.ImprimirBoleto L s linhaDigitavel w).1 = .ok respBody) ∧
        (¬ (status = 200 ∨ status = 201) →
          ∃ err, (Sicredi.ImprimirBoleto L s linhaDigitavel w).1 = .error err)) ∧
      (∀ data pagina,
        L.urlError (Sicredi.liquidadosRequest s1 data pagina).url = none →
        (status = 200 →
          ∀ r, L.unmarshalConsultaLiquidadosResponse respBody = (r, none) →
          (Sicredi.ConsultarLiquidadosPorDia L s data pagina w).1 = .ok r) ∧
        (status ≠ 200 →
          ∃ err, (Sicredi.ConsultarLiquidadosPorDia L s data pagina w).1 = .error err))) ∧
    (∀ (L : Sicoob.Stdlib) (c : Sicoob.Client) (method endpoint : String)
        (body : Option Sicoob.Payload) (w : World) (status : Int) (respBody : String),
      Sicoob.Answered L c endpoint body w status respBody →
      (status < 400 → (Sicoob.doRequest L c method endpoint body w).1 = .ok respBody) ∧
      (400 ≤ status → ∃ err, (Sicoob.doRequest L c method endpoint body w).1 = .error err)) ∧
    (∀ (L : Sicoob.Stdlib) (c : Sicoob.Client) (w : World) (body : String),
      (∀ boleto, (Sicoob.doRequest L c "POST" "/cobranca-bancaria/v2/boletos"
          (some (.boleto { boleto with NumeroContrato := c.config.NumeroContrato })) w).1 = .ok body →
        ∀ resp, L.unmarshalBoletoResponse body = (resp, none) →
          (Sicoob.CriarBoleto L c boleto w).1 = .ok resp) ∧
      (∀ nossoNumero, (Sicoob.doRequest L c "GET" ("/cobranca-bancaria/v2/boletos?numeroContrato=" ++
          c.config.NumeroContrato ++ "&nossoNumero=" ++ toString nossoNumero) none w).1 = .ok body →
        ∀ b rest, L.unmarshalResultado body = (b :: rest, none) →
          (Sicoob.ConsultarBoleto L c nossoNumero w).1 = .ok b) ∧
      (∀ dataInicio dataFim situacao, (Sicoob.doRequest L c "GET"
          (if situacao ≠ "" then "/cobranca-bancaria/v2/boletos?numeroContrato=" ++
              c.config.NumeroContrato ++ "&dataInicio=" ++ dataInicio ++ "&dataFim=" ++ dataFim
              ++ "&situacao=" ++ situacao
            else "/cobranca-bancaria/v2/boletos?numeroContrato=" ++
              c.config.NumeroContrato ++ "&dataInicio=" ++ dataInicio ++ "&dataFim=" ++ dataFim)
          none w).1 = .ok body →
        ∀ boletos, L.unmarshalResultado body = (boletos, none) →
          (Sicoob.ListarBoletos L c dataInicio dataFim situacao w).1 = .ok boletos) ∧
      (∀ nossoNumero, (Sicoob.doRequest L c "PATCH"
          ("/cobranca-bancaria/v2/boletos/" ++ toString nossoNumero ++ "/baixar")
          (some (.stringMap [("numeroContrato", c.config.NumeroContrato)])) w).1 = .ok body →
        (Sicoob.BaixarBoleto L c nossoNumero w).1 = .ok ()) ∧
      (∀ nossoNumero novaData, (Sicoob.doRequest L c "PATCH"
          ("/cobranca-bancaria/v2/boletos/" ++ toString nossoNumero ++ "/prorrogacoes")
          (some (.stringMap [("numeroContrato", c.config.NumeroContrato),
                             ("dataVencimento", novaData)])) w).1 = .ok body →
        (Sicoob.AlterarVencimento L c nossoNumero novaData w).1 = .ok ()) ∧
      (∀ cobranca, (Sicoob.doRequest L c "POST" "/pix/api/v2/cob" (some (.pix cobranca)) w).1 = .ok body →
        ∀ resp, L.unmarshalPixCobrancaResponse body = (resp, none) →
          (Sicoob.CriarCobrancaPix L c cobranca w).1 = .ok resp) ∧
      (∀ txId, (Sicoob.doRequest L c "GET" ("/pix/api/v2/cob/" ++ txId) none w).1 = .ok body →
        ∀ resp, L.unmarshalPixCobrancaResponse body = (resp, none) →
          (Sicoob.ConsultarCobrancaPix L c txId w).1 = .ok resp) ∧
      (∀ chave webhookURL, (Sicoob.doRequest L c "PUT" ("/pix/api/v2/webhook/" ++ chave)
          (some (.webhook { URL := webhookURL })) w).1 = .ok body →
        (Sicoob.ConfigurarWebhook L c chave webhookURL w).1 = .ok ()) ∧
      (∀ nossoNumero, (Sicoob.doRequest L c "GET" ("/cobranca-bancaria/v2/boletos/" ++
          toString nossoNumero ++ "/segunda-via?numeroContrato=" ++ c.config.NumeroContrato)
          none w).1 = .ok body →
        (Sicoob.GerarSegundaVia L c nossoNumero w).1 = .ok body)) := by
  refine ⟨?_, ?_, ?_⟩
  · intro L s s1 w w1 status respBody readErr hans
    refine ⟨?_, ?_, ?_, ?_, ?_⟩
    · intro boleto text hbody hurl
      rw [Sicredi.CriarBoleto_answered L s s1 w w1 boleto text status respBody readErr hans
        hbody hurl]
      constructor
      · intro hst r hdec
        have hn : ¬ (status ≠ 201 ∧ status ≠ 202) := by
          rcases hst with h | h <;> simp [h]
        simp only [Sicredi.criarBoletoResult, if_neg hn, hdec]
      · intro hst
        have hp : status ≠ 201 ∧ status ≠ 202 := by
          constructor
          · intro h; exact hst (Or.inl h)
          · intro h; exact hst (Or.inr h)
        simp only [Sicredi.criarBoletoResult, if_pos hp]
        exact ⟨_, rfl⟩
    · intro nossoNumero hurl
      rw [Sicredi.ConsultarBoleto_answered L s s1 w w1 nossoNumero status respBody readErr
        hans hurl]
      constructor
      · intro hst r hdec
        simp only [Sicredi.consultarBoletoResult, if_neg (not_not.mpr hst), hdec]
      · intro hst
        simp only [Sicredi.consultarBoletoResult, if_pos hst]
        exact ⟨_, rfl⟩
    · intro nossoNumero comando body text hbody hurl
      rw [Sicredi.executarComandoInstrucao_answered L s s1 w w1 nossoNumero comando body text
        status respBody readErr hans hbody hurl]
      constructor
      · intro hst r hdec
        simp only [Sicredi.comandoResult, if_neg (not_not.mpr hst), hdec]
      · intro hst
        simp only [Sicredi.comandoResult, if_pos hst]
        exact ⟨_, rfl⟩
    · intro linhaDigitavel hurl
      rw [Sicredi.ImprimirBoleto_answered L s s1 w w1 linhaDigitavel status respBody readErr
        hans hurl]
      constructor
      · intro hst hread
        have hn : ¬ (status ≠ 201 ∧ status ≠ 200) := by
          rcases hst with h | h <;> simp [h]
        simp only [Sicredi.imprimirBoletoResult, if_neg hn, hread]
      · intro hst
        have hp : status ≠ 201 ∧ status ≠ 200 := by
          constructor
          · intro h; exact hst (Or.inr h)
          · intro h; exact hst (Or.inl h)
        simp only [Sicredi.imprimirBoletoResult, if_pos hp]
        exact ⟨_, rfl⟩
    · intro data pagina hurl
      rw [Sicredi.ConsultarLiquidadosPorDia_answered L s s1 w w1 data pagina status respBody
        readErr hans hurl]
      constructor
      · intro hst r hdec
        simp only [Sicredi.liquidadosResult, if_neg (not_not.mpr hst), hdec]
      · intro hst
        simp only [Sicredi.liquidadosResult, if_pos hst]
        exact ⟨_, rfl⟩
  · intro L c method endpoint body w status respBody hans
    rw [Sicoob.doRequest_answered L c method endpoint body w status respBody hans]
    constructor
    · intro hst
      rw [if_neg (not_le.mpr hst)]
    · intro hst
      rw [if_pos hst]
      rcases hun : Sicoob.unmarshalAPIError respBody with ⟨apiErr, err⟩
      cases err with
      | none =>
        simp only
        split
        · exact ⟨_, rfl⟩
        · exact ⟨_, rfl⟩
      | some e => exact ⟨_, rfl⟩
  · intro L c w body
    exact Sicoob.operations_decode_body L c w body

/-- Witness of C12: `ImprimirBoleto` of an adapter holding a valid token, answered 200. -/
theorem success_status_sets_witness :
    Sicredi.Answered (Sicredi.adapterHolding (3600 * Second) (7200 * Second))
        (frozenWorld 0 [.response 200 "%PDF" none])
        (Sicredi.adapterHolding (3600 * Second) (7200 * Second))
        { frozenWorld 0 [.response 200 "%PDF" none] with reads := 1 } 200 "%PDF" none ∧
      (Sicredi.ImprimirBoleto Sicredi.sampleLib
        (Sicredi.adapterHolding (3600 * Second) (7200 * Second)) "74891121150023456789"
        (frozenWorld 0 [.response 200 "%PDF" none])).1 = .ok "%PDF" :=
  ⟨⟨rfl, rfl⟩,
    ((success_status_sets.1 Sicredi.sampleLib
      (Sicredi.adapterHolding (3600 * Second) (7200 * Second))
      (Sicredi.adapterHolding (3600 * Second) (7200 * Second))
      (frozenWorld 0 [.response 200 "%PDF" none])
      { frozenWorld 0 [.response 200 "%PDF" none] with reads := 1 } 200 "%PDF" none
      ⟨rfl, rfl⟩).2.2.2.1 "74891121150023456789" rfl).1 (Or.inl rfl) rfl⟩

end Kamino

namespace Kamino

namespace Sicoob

/-- The slice decoded from a JSON array holds the decoded elements in the order of the
array. -/
theorem decodeBoletos_order (items : List JVal) :
    (decodeBoletos items).1 =
      items.map (fun v => (decodeStructValue Boleto.setField v Boleto.zero).1) := by
  induction items with
  | nil => rfl
  | cons v vs ih => simp only [decodeBoletos, List.map, ih]

end Sicoob

/-- Counterexample to C18: `ListarBoletos` returns the boletos in the order of the response.
For the response with a `PENDENTE` boleto due 2026-03-01 followed by an `EM_ABERTO` boleto
due 2026-02-15 the result has them in that order, and for the response with the two the other
way round the result has them the other way round; no ordering policy gives both. -/
theorem listing_order_counterexample :
    ((Sicoob.ListarBoletos (Sicoob.jsonLib (fun _ => none)) Sicoob.freshClient "2026-02-01"
        "2026-03-31" ""
        (frozenWorld 0 [.response 200 bodyWithoutRefresh none,
          .response 200 Sicoob.listingBody none])).1.value?.map
        (fun bs => bs.map (fun b => (b.Situacao, b.DataVencimento)))) =
      some [("PENDENTE", "2026-03-01"), ("EM_ABERTO", "2026-02-15")] ∧
    ((Sicoob.ListarBoletos (Sicoob.jsonLib (fun _ => none)) Sicoob.freshClient "2026-02-01"
        "2026-03-31" ""
        (frozenWorld 0 [.response 200 bodyWithoutRefresh none,
          .response 200 Sicoob.listingBodyReversed none])).1.value?.map
        (fun bs => bs.map (fun b => (b.Situacao, b.DataVencimento)))) =
      some [("EM_ABERTO", "2026-02-15"), ("PENDENTE", "2026-03-01")] := by
  constructor
  · set_option exponentiation.threshold 3000 in
    set_option maxRecDepth 100000 in
    decide
  · set_option exponentiation.threshold 3000 in
    set_option maxRecDepth 100000 in
    decide

/-- C18 (amended): `ListarBoletos` returns the boletos decoded from the body of the response
as they are, and the decoded list holds the elements of the `resultado` array in the order
of the response: nothing reorders them. -/
theorem listing_keeps_response_order :
    (∀ (L : Sicoob.Stdlib) (c : Sicoob.Client) (dataInicio dataFim situacao : String)
        (w : World) (body : String) (boletos : List Sicoob.Boleto),
      (Sicoob.doRequest L c "GET"
        (if situacao ≠ "" then "/cobranca-bancaria/v2/boletos?numeroContrato=" ++
            c.config.NumeroContrato ++ "&dataInicio=" ++ dataInicio ++ "&dataFim=" ++ dataFim
            ++ "&situacao=" ++ situacao
          else "/cobranca-bancaria/v2/boletos?numeroContrato=" ++
            c.config.NumeroContrato ++ "&dataInicio=" ++ dataInicio ++ "&dataFim=" ++ dataFim)
        none w).1 = .ok body →
      L.unmarshalResultado body = (boletos, none) →
      (Sicoob.ListarBoletos L c dataInicio dataFim situacao w).1 = .ok boletos) ∧
    (∀ (body : String) (items : List JVal),
      parseJSON body = some (.obj [("resultado", .arr items)]) →
      (Sicoob.unmarshalResultado body).1 =
        items.map (fun v =>
          (decodeStructValue Sicoob.Boleto.setField v Sicoob.Boleto.zero).1)) := by
  constructor
  · intro L c dataInicio dataFim situacao w body boletos h hdec
    exact (Sicoob.operations_decode_body L c w body).2.2.1 dataInicio dataFim situacao h
      boletos hdec
  · intro body items hparse
    have hkey : keyMatches "resultado" "resultado" = true := by decide
    simp only [Sicoob.unmarshalResultado, unmarshalFields, hparse, decodeStructValue,
      decodeFields, Sicoob.setResultadoField, hkey, if_true]
    exact Sicoob.decodeBoletos_order items

/-- Witness of C18: the listing of a fresh client, answered 200 on the token request and
200 with `listingBody` on the listing request. -/
theorem listing_keeps_response_order_witness :
    (Sicoob.ListarBoletos (Sicoob.jsonLib (fun _ => none)) Sicoob.freshClient "2026-02-01"
      "2026-03-31" ""
      (frozenWorld 0 [.response 200 bodyWithoutRefresh none,
        .response 200 Sicoob.listingBody none])).1 =
      .ok (Sicoob.unmarshalResultado Sicoob.listingBody).1 := by
  have hpair : ∀ p : List Sicoob.Boleto × Option GoError, p.2 = none → p = (p.1, none) := by
    rintro ⟨a, b⟩ h
    simp only at h
    subst h
    rfl
  have hdec : (Sicoob.jsonLib (fun _ => none)).unmarshalResultado Sicoob.listingBody =
      ((Sicoob.unmarshalResultado Sicoob.listingBody).1, none) := by
    have hlib : (Sicoob.jsonLib (fun _ => none)).unmarshalResultado =
        Sicoob.unmarshalResultado := rfl
    rw [hlib]
    apply hpair
    set_option exponentiation.threshold 3000 in
    set_option maxRecDepth 100000 in
    decide
  exact listing_keeps_response_order.1 (Sicoob.jsonLib (fun _ => none)) Sicoob.freshClient
    "2026-02-01" "2026-03-31" ""
    (frozenWorld 0 [.response 200 bodyWithoutRefresh none,
      .response 200 Sicoob.listingBody none])
    Sicoob.listingBody (Sicoob.unmarshalResultado Sicoob.listingBody).1 (by decide) hdec

end Kamino

namespace Kamino

theorem memberKeys_append (a b : List Member) :
    memberKeys (a ++ b) = memberKeys a ++ memberKeys b := by
  simp only [memberKeys, List.map_append]

theorem memberKeys_stringMember (key : String) (omitempty : Bool) (v : String) :
    memberKeys (stringMember key omitempty v) =
      if omitempty = true ∧ v = "" then [] else [key] := by
  unfold stringMember memberKeys
  split <;> rfl

theorem memberKeys_intMember (key : String) (omitempty : Bool) (v : Int) :
    memberKeys (intMember key omitempty v) =
      if omitempty = true ∧ v = 0 then [] else [key] := by
  unfold intMember memberKeys
  split <;> rfl

theorem memberKeys_floatMember (key : String) (omitempty : Bool) (v : Float64) :
    memberKeys (floatMember key omitempty v) =
      if omitempty = true ∧ v.isZero = true then [] else [key] := by
  unfold floatMember memberKeys
  split <;> rfl

theorem memberKeys_stringsMember (key : String) (v : List String) :
    memberKeys (stringsMember key v) = if v = [] then [] else [key] := by
  unfold stringsMember memberKeys
  split <;> rfl

theorem memberKeys_structMember (key : String) (ms : List Member) :
    memberKeys (structMember key ms) = [key] := rfl

namespace Sicredi

/-- The keys `json.Marshal` writes for a `CriarBoletoRequest`: the fields without
`omitempty` always, the others when they are not empty, in the order of the struct. -/
theorem criarBoletoRequest_memberKeys (r : CriarBoletoRequest) :
    memberKeys r.members =
      ["tipoCobranca", "codigoBeneficiario", "pagador"] ++
      (if r.BeneficiarioFinal.isSome then ["beneficiarioFinal"] else []) ++
      ["especieDocumento"] ++
      (if r.NossoNumero = "" then [] else ["nossoNumero"]) ++
      ["seuNumero", "dataVencimento", "valor"] ++
      (if r.DiasProtestoAuto = 0 then [] else ["diasProtestoAuto"]) ++
      (if r.DiasNegativacaoAuto = 0 then [] else ["diasNegativacaoAuto"]) ++
      (if r.ValidadeAposVencimento = 0 then [] else ["validadeAposVencimento"]) ++
      (if r.TipoDesconto = "" then [] else ["tipoDesconto"]) ++
      (if r.ValorDesconto1.isZero then [] else ["valorDesconto1"]) ++
      (if r.DataDesconto1 = "" then [] else ["dataDesconto1"]) ++
      (if r.ValorDesconto2.isZero then [] else ["valorDesconto2"]) ++
      (if r.DataDesconto2 = "" then [] else ["dataDesconto2"]) ++
      (if r.ValorDesconto3.isZero then [] else ["valorDesconto3"]) ++
      (if r.DataDesconto3 = "" then [] else ["dataDesconto3"]) ++
      (if r.DescontoAntecipado.isZero then [] else ["descontoAntecipado"]) ++
      (if r.TipoJuros = "" then [] else ["tipoJuros"]) ++
      (if r.Juros.isZero then [] else ["juros"]) ++
      (if r.Multa.isZero then [] else ["multa"]) ++
      (if r.Informativos = [] then [] else ["informativos"]) ++
      (if r.Mensagens = [] then [] else ["mensagens"]) := by
  rcases r with ⟨tc, cb, pg, bf, ed, nn, sn, dv, vl, dp, dn, va, td, v1, d1, v2, d2, v3, d3,
    da, tj, ju, mu, inf, msg⟩
  cases bf <;>
  simp only [CriarBoletoRequest.members, memberKeys_append, memberKeys_stringMember,
    memberKeys_intMember, memberKeys_floatMember, memberKeys_stringsMember,
    memberKeys_structMember, true_and, false_and, if_false, Bool.false_eq_true,
    List.append_assoc, List.cons_append, List.nil_append, Option.isSome, if_true]

/-- The keys written for a `Pagador`. -/
theorem pagador_memberKeys (p : Pagador) :
    memberKeys p.members =
      ["tipoPessoa", "documento", "nome"] ++
      (if p.Endereco = "" then [] else ["endereco"]) ++
      (if p.Cidade = "" then [] else ["cidade"]) ++
      (if p.UF = "" then [] else ["uf"]) ++
      (if p.CEP = "" then [] else ["cep"]) ++
      (if p.Telefone = "" then [] else ["telefone"]) ++
      (if p.Email = "" then [] else ["email"]) := by
  simp only [Pagador.members, memberKeys_append, memberKeys_stringMember,
    true_and, false_and, if_false, Bool.false_eq_true,
    List.append_assoc, List.cons_append, List.nil_append]

/-- The keys written for a `BeneficiarioFinal`. -/
theorem beneficiarioFinal_memberKeys (b : BeneficiarioFinal) :
    memberKeys b.members =
      ["tipoPessoa", "documento", "nome"] ++
      (if b.Logradouro = "" then [] else ["logradouro"]) ++
      (if b.Complemento = "" then [] else ["complemento"]) ++
      (if b.NumeroEndereco = "" then [] else ["numeroEndereco"]) ++
      (if b.Cidade = "" then [] else ["cidade"]) ++
      (if b.UF = "" then [] else ["uf"]) ++
      (if b.CEP = "" then [] else ["cep"]) ++
      (if b.Telefone = "" then [] else ["telefone"]) ++
      (if b.Email = "" then [] else ["email"]) := by
  simp only [BeneficiarioFinal.members, memberKeys_append, memberKeys_stringMember,
    true_and, false_and, if_false, Bool.false_eq_true,
    List.append_assoc, List.cons_append, List.nil_append]

end Sicredi

open Sicredi in
/-- C13: the body of a creation request is the JSON object of the members of the request,
whose keys are the fields without `omitempty` and, of the others, those that are not empty
(a nil pointer, an empty string, a zero number, a list without elements are left out, not
written as null, zero or an empty value); the same holds inside `pagador` and
`beneficiarioFinal`. In particular a request with no discounts has none of the keys
`tipoDesconto`, `valorDesconto1..3`, `dataDesconto1..3`, `descontoAntecipado`. -/
theorem absent_optional_fields_omitted (r : CriarBoletoRequest) :
    (∀ text, marshalCriarBoletoRequest r = .ok text →
      text = String.mk (encodeObject r.members)) ∧
    (memberKeys r.members =
      ["tipoCobranca", "codigoBeneficiario", "pagador"] ++
      (if r.BeneficiarioFinal.isSome then ["beneficiarioFinal"] else []) ++
      ["especieDocumento"] ++
      (if r.NossoNumero = "" then [] else ["nossoNumero"]) ++
      ["seuNumero", "dataVencimento", "valor"] ++
      (if r.DiasProtestoAuto = 0 then [] else ["diasProtestoAuto"]) ++
      (if r.DiasNegativacaoAuto = 0 then [] else ["diasNegativacaoAuto"]) ++
      (if r.ValidadeAposVencimento = 0 then [] else ["validadeAposVencimento"]) ++
      (if r.TipoDesconto = "" then [] else ["tipoDesconto"]) ++
      (if r.ValorDesconto1.isZero then [] else ["valorDesconto1"]) ++
      (if r.DataDesconto1 = "" then [] else ["dataDesconto1"]) ++
      (if r.ValorDesconto2.isZero then [] else ["valorDesconto2"]) ++
      (if r.DataDesconto2 = "" then [] else ["dataDesconto2"]) ++
      (if r.ValorDesconto3.isZero then [] else ["valorDesconto3"]) ++
      (if r.DataDesconto3 = "" then [] else ["dataDesconto3"]) ++
      (if r.DescontoAntecipado.isZero then [] else ["descontoAntecipado"]) ++
      (if r.TipoJuros = "" then [] else ["tipoJuros"]) ++
      (if r.Juros.isZero then [] else ["juros"]) ++
      (if r.Multa.isZero then [] else ["multa"]) ++
      (if r.Informativos = [] then [] else ["informativos"]) ++
      (if r.Mensagens = [] then [] else ["mensagens"])) ∧
    (r.TipoDesconto = "" → r.ValorDesconto1.isZero = true → r.ValorDesconto2.isZero = true →
      r.ValorDesconto3.isZero = true → r.DescontoAntecipado.isZero = true →
      r.DataDesconto1 = "" → r.DataDesconto2 = "" → r.DataDesconto3 = "" →
      ∀ k ∈ ["tipoDesconto", "valorDesconto1", "valorDesconto2", "valorDesconto3",
        "dataDesconto1", "dataDesconto2", "dataDesconto3", "descontoAntecipado"],
        k ∉ memberKeys r.members) ∧
    (memberKeys r.Pagador.members =
      ["tipoPessoa", "documento", "nome"] ++
      (if r.Pagador.Endereco = "" then [] else ["endereco"]) ++
      (if r.Pagador.Cidade = "" then [] else ["cidade"]) ++
      (if r.Pagador.UF = "" then [] else ["uf"]) ++
      (if r.Pagador.CEP = "" then [] else ["cep"]) ++
      (if r.Pagador.Telefone = "" then [] else ["telefone"]) ++
      (if r.Pagador.Email = "" then [] else ["email"])) ∧
    (∀ b, r.BeneficiarioFinal = some b →
      memberKeys b.members =
        ["tipoPessoa", "documento", "nome"] ++
        (if b.Logradouro = "" then [] else ["logradouro"]) ++
        (if b.Complemento = "" then [] else ["complemento"]) ++
        (if b.NumeroEndereco = "" then [] else ["numeroEndereco"]) ++
        (if b.Cidade = "" then [] else ["cidade"]) ++
        (if b.UF = "" then [] else ["uf"]) ++
        (if b.CEP = "" then [] else ["cep"]) ++
        (if b.Telefone = "" then [] else ["telefone"]) ++
        (if b.Email = "" then [] else ["email"])) := by
  refine ⟨?_, criarBoletoRequest_memberKeys r, ?_, pagador_memberKeys r.Pagador,
    fun b _ => beneficiarioFinal_memberKeys b⟩
  · intro text h
    simp only [marshalCriarBoletoRequest, marshalMembers] at h
    split at h
    · exact (Except.ok.inj h).symm
    · exact absurd h (by simp)
  · intro h1 h2 h3 h4 h5 h6 h7 h8 k hk
    rw [criarBoletoRequest_memberKeys r]
    simp only [h1, h2, h3, h4, h5, h6, h7, h8, if_true, List.append_nil]
    simp only [List.mem_cons, List.mem_singleton, List.not_mem_nil, or_false] at hk
    rcases hk with rfl | rfl | rfl | rfl | rfl | rfl | rfl | rfl <;>
      simp [List.mem_ite_nil_left]

open Sicredi in
/-- Witness of C13: the boleto of the example test, of amount 150.00 due 2026-02-28 with no
discounts. -/
theorem absent_optional_fields_omitted_witness :
    ∀ k ∈ ["tipoDesconto", "valorDesconto1", "valorDesconto2", "valorDesconto3",
      "dataDesconto1", "dataDesconto2", "dataDesconto3", "descontoAntecipado"],
      k ∉ memberKeys exampleBoleto.members :=
  (absent_optional_fields_omitted exampleBoleto).2.2.1 rfl rfl rfl rfl rfl rfl rfl rfl

end Kamino

namespace Kamino

/-- A call of which `toOption` gives a value returned that value. -/
theorem except_ok_of_toOption {ε α : Type} (x : Except ε α) (a : α)
    (h : x.toOption = some a) : x = .ok a := by
  cases x with
  | ok t => exact congrArg Except.ok (Option.some.inj h)
  | error e => exact absurd h (by simp [Except.toOption])

namespace Sicredi

/-- The keys of the body built by `AlterarDesconto`: the discounts above zero, tier 1 first
(a Go map is written sorted by key). -/
theorem descontoBody_memberKeys (desconto1 desconto2 desconto3 : Float64) :
    memberKeys (descontoBody desconto1 desconto2 desconto3).members =
      (if desconto1.isPositive then ["valorDesconto1"] else []) ++
      (if desconto2.isPositive then ["valorDesconto2"] else []) ++
      (if desconto3.isPositive then ["valorDesconto3"] else []) := by
  have h12 : "valorDesconto1".toList < "valorDesconto2".toList := by decide
  have h13 : "valorDesconto1".toList < "valorDesconto3".toList := by decide
  have h23 : "valorDesconto2".toList < "valorDesconto3".toList := by decide
  cases h1 : desconto1.isPositive <;> cases h2 : desconto2.isPositive <;>
    cases h3 : desconto3.isPositive <;>
    simp only [descontoBody, CommandBody.members, sortByKey, insertByKey, memberKeys, h1, h2,
      h3, h12, h13, h23, if_true, if_false, List.append_nil, List.nil_append, List.map,
      List.cons_append, Bool.false_eq_true]

end Sicredi

open Sicredi in
/-- C16: the keys of the body of a creation request hold the discount tiers in one block,
the fields of tier 1 (value, date) before those of tier 2 before those of tier 3, each
present when it is not empty, and no tier field stands before or after that block. The body
`AlterarDesconto` hands to the one command path has the keys of the discounts above zero
with `valorDesconto1` before `valorDesconto2` before `valorDesconto3`. Both bodies are the
JSON objects of these members in this order. -/
theorem discount_tiers_in_order :
    (∀ r : CriarBoletoRequest, ∃ front back,
      memberKeys r.members = front ++
        ((if r.ValorDesconto1.isZero then [] else ["valorDesconto1"]) ++
          (if r.DataDesconto1 = "" then [] else ["dataDesconto1"])) ++
        ((if r.ValorDesconto2.isZero then [] else ["valorDesconto2"]) ++
          (if r.DataDesconto2 = "" then [] else ["dataDesconto2"])) ++
        ((if r.ValorDesconto3.isZero then [] else ["valorDesconto3"]) ++
          (if r.DataDesconto3 = "" then [] else ["dataDesconto3"])) ++ back ∧
      ∀ k ∈ ["valorDesconto1", "dataDesconto1", "valorDesconto2", "dataDesconto2",
        "valorDesconto3", "dataDesconto3"], k ∉ front ∧ k ∉ back) ∧
    (∀ r : CriarBoletoRequest,
      marshalCriarBoletoRequest r = marshalMembers r.members) ∧
    (∀ desconto1 desconto2 desconto3 : Float64,
      memberKeys (descontoBody desconto1 desconto2 desconto3).members =
        (if desconto1.isPositive then ["valorDesconto1"] else []) ++
        (if desconto2.isPositive then ["valorDesconto2"] else []) ++
        (if desconto3.isPositive then ["valorDesconto3"] else [])) ∧
    (∀ (L : Stdlib) (s : SicrediAdapter) (nossoNumero : String)
        (desconto1 desconto2 desconto3 : Float64) (w : World),
      AlterarDesconto L s nossoNumero desconto1 desconto2 desconto3 w =
        executarComandoInstrucao L s nossoNumero "desconto"
          (some (descontoBody desconto1 desconto2 desconto3)) w ∧
      comandoBody (some (descontoBody desconto1 desconto2 desconto3)) =
        marshalMembers (descontoBody desconto1 desconto2 desconto3).members) ∧
    (∀ (ms : List Member) (text : String), marshalMembers ms = .ok text →
      text = String.mk (encodeObject ms)) := by
  refine ⟨?_, fun _ => rfl, descontoBody_memberKeys, fun _ _ _ _ _ _ _ => ⟨rfl, rfl⟩, ?_⟩
  · intro r
    refine ⟨["tipoCobranca", "codigoBeneficiario", "pagador"] ++
        (if r.BeneficiarioFinal.isSome then ["beneficiarioFinal"] else []) ++
        ["especieDocumento"] ++
        (if r.NossoNumero = "" then [] else ["nossoNumero"]) ++
        ["seuNumero", "dataVencimento", "valor"] ++
        (if r.DiasProtestoAuto = 0 then [] else ["diasProtestoAuto"]) ++
        (if r.DiasNegativacaoAuto = 0 then [] else ["diasNegativacaoAuto"]) ++
        (if r.ValidadeAposVencimento = 0 then [] else ["validadeAposVencimento"]) ++
        (if r.TipoDesconto = "" then [] else ["tipoDesconto"]),
      (if r.DescontoAntecipado.isZero then [] else ["descontoAntecipado"]) ++
        (if r.TipoJuros = "" then [] else ["tipoJuros"]) ++
        (if r.Juros.isZero then [] else ["juros"]) ++
        (if r.Multa.isZero then [] else ["multa"]) ++
        (if r.Informativos = [] then [] else ["informativos"]) ++
        (if r.Mensagens = [] then [] else ["mensagens"]), ?_, ?_⟩
    · rw [criarBoletoRequest_memberKeys r]
      simp only [List.append_assoc]
    · intro k hk
      simp only [List.mem_cons, List.mem_singleton, List.not_mem_nil, or_false] at hk
      rcases hk with rfl | rfl | rfl | rfl | rfl | rfl <;>
        simp [List.mem_ite_nil_left, List.mem_ite_nil_right]
  · intro ms text h
    simp only [marshalMembers] at h
    split at h
    · exact (Except.ok.inj h).symm
    · exact absurd h (by simp)

open Sicredi in
/-- Witness of C16: the body of the discounts 100.00 and 50.00 handed over by
`AlterarDesconto`. -/
theorem discount_tiers_in_order_witness :
    marshalMembers (descontoBody (.finite false 7036874417766400 1028)
        (.finite false 7036874417766400 1027) (.finite false 0 0)).members =
        .ok "\x7b\"valorDesconto1\":100,\"valorDesconto2\":50\x7d" ∧
      "\x7b\"valorDesconto1\":100,\"valorDesconto2\":50\x7d" =
        String.mk (encodeObject (descontoBody (.finite false 7036874417766400 1028)
          (.finite false 7036874417766400 1027) (.finite false 0 0)).members) := by
  have h : marshalMembers (descontoBody (.finite false 7036874417766400 1028)
        (.finite false 7036874417766400 1027) (.finite false 0 0)).members =
        .ok "\x7b\"valorDesconto1\":100,\"valorDesconto2\":50\x7d" := by
    apply except_ok_of_toOption
    set_option exponentiation.threshold 3000 in
    set_option maxRecDepth 100000 in
    decide
  exact ⟨h, discount_tiers_in_order.2.2.2.2 _ _ h⟩

end Kamino

namespace Kamino

open Sicredi in
/-- Counterexample to C14: the amount 150.00 of the example test is written `150`, without
fraction digits. -/
theorem amount_two_digits_counterexample :
    parseFloat64 "150.00" = some amount150 ∧
    exampleBoleto.Valor = amount150 ∧
    formatFloat64 amount150 = some "150" ∧
    (marshalCriarBoletoRequest exampleBoleto).toOption = some (
      "\x7b\"tipoCobranca\":\"NORMAL\",\"codigoBeneficiario\":\"12345\"," ++
      "\"pagador\":\x7b\"tipoPessoa\":\"PESSOA_FISICA\",\"documento\":\"12345678909\"," ++
      "\"nome\":\"JOÃO DA SILVA\",\"endereco\":\"RUA DAS FLORES, 123\"," ++
      "\"cidade\":\"PORTO ALEGRE\",\"uf\":\"RS\",\"cep\":\"91250000\"\x7d," ++
      "\"especieDocumento\":\"DUPLICATA_MERCANTIL_INDICACAO\",\"seuNumero\":\"NF-001234\"," ++
      "\"dataVencimento\":\"2026-02-28\",\"valor\":150,\"tipoJuros\":\"VALOR\"," ++
      "\"juros\":1,\"multa\":2,\"informativos\":[" ++
      "\"Referente a compra realizada em 28/01/2026\",\"Pedido número 001234\"]\x7d") := by
  refine ⟨?_, rfl, ?_, ?_⟩
  · set_option exponentiation.threshold 3000 in
    set_option maxRecDepth 100000 in
    decide
  · set_option exponentiation.threshold 3000 in
    set_option maxRecDepth 100000 in
    decide
  · set_option exponentiation.threshold 3000 in
    set_option maxRecDepth 100000 in
    decide

end Kamino


namespace Kamino

/-! ## Rounding to the nearest `float64` -/

/-- `divRoundEven p d` is `m` when `p / d` lies within one half of `m`, a tie being allowed
only for an even `m`. -/
theorem divRoundEven_eq (p d m : Nat) (hd : 0 < d) (hlo : 2 * (m * d) ≤ 2 * p + d)
    (hhi : 2 * p ≤ 2 * (m * d) + d) (hlt : 2 * (m * d) = 2 * p + d → m % 2 = 0)
    (hht : 2 * p = 2 * (m * d) + d → m % 2 = 0) : divRoundEven p d = m := by
  have hdiv : d * (p / d) + p % d = p := Nat.div_add_mod p d
  have hr : p % d < d := Nat.mod_lt p hd
  have hq1 : p / d ≤ m := by
    by_contra hcon
    have h1 : m + 1 ≤ p / d := by omega
    have h2 : d * (m + 1) ≤ d * (p / d) := Nat.mul_le_mul_left d h1
    have h3 : d * (m + 1) = m * d + d := by ring
    omega
  have hq2 : m ≤ p / d + 1 := by
    by_contra hcon
    have h1 : p / d + 2 ≤ m := by omega
    have h2 : d * (p / d + 2) ≤ d * m := Nat.mul_le_mul_left d h1
    have h3 : d * (p / d + 2) = d * (p / d) + 2 * d := by ring
    have h4 : d * m = m * d := Nat.mul_comm d m
    omega
  have hcases : p / d = m ∨ p / d + 1 = m := by omega
  unfold divRoundEven
  simp only
  rcases hcases with hq | hq
  · have hmd : m * d = d * (p / d) := by rw [hq, Nat.mul_comm]
    by_cases h1 : 2 * (p % d) < d
    · rw [if_pos h1]; exact hq
    · rw [if_neg h1]
      have h2 : ¬ d < 2 * (p % d) := by omega
      rw [if_neg h2]
      have h3 : 2 * p = 2 * (m * d) + d := by omega
      have h4 : (p / d) % 2 = 0 := by rw [hq]; exact hht h3
      rw [if_pos h4]; exact hq
  · have hmd : m * d = d * (p / d) + d := by rw [← hq]; ring
    by_cases h1 : 2 * (p % d) < d
    · exfalso; omega
    · rw [if_neg h1]
      by_cases h2 : d < 2 * (p % d)
      · rw [if_pos h2]; exact hq
      · rw [if_neg h2]
        have h3 : 2 * (m * d) = 2 * p + d := by omega
        have h4 : m % 2 = 0 := hlt h3
        have h5 : ¬ (p / d) % 2 = 0 := by omega
        rw [if_neg h5]; exact hq

/-- The number of halvings found by `binaryShift`. -/
theorem binaryShift_eq (k : Nat) : ∀ (fuel t : Nat), k ≤ fuel →
    4503599627370496 * 2 ^ k ≤ t → t < 9007199254740992 * 2 ^ k → binaryShift fuel t = k := by
  induction k with
  | zero =>
    intro fuel t _ _ h2
    cases fuel with
    | zero => rfl
    | succ f =>
      simp only [binaryShift]
      rw [if_pos (by simpa using h2)]
  | succ k ih =>
    intro fuel t hf h1 h2
    cases fuel with
    | zero => omega
    | succ f =>
      simp only [binaryShift]
      have hpow : 2 ^ (k + 1) = 2 * 2 ^ k := by ring
      rw [hpow] at h1 h2
      have hpos : 0 < 2 ^ k := Nat.two_pow_pos k
      have h3 : ¬ t < 9007199254740992 := by omega
      rw [if_neg h3]
      have h4 : binaryShift f (t / 2) = k := by
        apply ih f (t / 2) (by omega)
        · omega
        · omega
      rw [h4]

/-- The quotient of a fraction within one half of `m` is `m` or `m - 1`. -/
theorem div_near (p d m : Nat) (hlo : 2 * (m * d) ≤ 2 * p + d)
    (hhi : 2 * p ≤ 2 * (m * d) + d) (hd : 0 < d) : p / d = m ∨ p / d + 1 = m := by
  have hdiv : d * (p / d) + p % d = p := Nat.div_add_mod p d
  have hr : p % d < d := Nat.mod_lt p hd
  have hq1 : p / d ≤ m := by
    by_contra hcon
    have h1 : m + 1 ≤ p / d := by omega
    have h2 : d * (m + 1) ≤ d * (p / d) := Nat.mul_le_mul_left d h1
    have h3 : d * (m + 1) = m * d + d := by ring
    omega
  have hq2 : m ≤ p / d + 1 := by
    by_contra hcon
    have h1 : p / d + 2 ≤ m := by omega
    have h2 : d * (p / d + 2) ≤ d * m := Nat.mul_le_mul_left d h1
    have h3 : d * (p / d + 2) = d * (p / d) + 2 * d := by ring
    have h4 : d * m = m * d := Nat.mul_comm d m
    omega
  omega

/-- The quotient of a fraction between `m` and `m` and a half is `m`. -/
theorem div_above (p d m : Nat) (hlo : m * d ≤ p) (hhi : 2 * p ≤ 2 * (m * d) + d)
    (hd : 0 < d) : p / d = m := by
  rcases div_near p d m (by omega) hhi hd with h | h
  · exact h
  · exfalso
    have h1 : m ≤ p / d := (Nat.le_div_iff_mul_le hd).mpr hlo
    omega

theorem four_sub_two_mul (m d : Nat) (hm : 0 < m) : (4 * m - 2) * d + 2 * d = 4 * (m * d) := by
  obtain ⟨k, rfl⟩ : ∃ k, m = k + 1 := ⟨m - 1, by omega⟩
  have h : 4 * (k + 1) - 2 = 4 * k + 2 := by omega
  rw [h]; ring

theorem four_sub_one_mul (m d : Nat) (hm : 0 < m) : (4 * m - 1) * d + d = 4 * (m * d) := by
  obtain ⟨k, rfl⟩ : ∃ k, m = k + 1 := ⟨m - 1, by omega⟩
  have h : 4 * (k + 1) - 1 = 4 * k + 3 := by omega
  rw [h]; ring


end Kamino

namespace Kamino

theorem low_arith (p W Y L : Nat) (hql : L + 2 * W = 8 * Y) (hlo : L ≤ 4 * p)
    (hbelow : 4 * p < 4 * (2 * Y)) :
    2 * (2 * Y) ≤ 2 * p + W ∧ 2 * p ≤ 2 * (2 * Y) + W ∧ ¬ 2 * p = 2 * (2 * Y) + W ∧
      p < 2 * Y := by
  omega

/-- The rounding step of `Float64.ofFraction` on a fraction `p / d` (in units of
`2 ^ -1074`) that lies between the midpoints around a number gives that number. -/
theorem round_core (neg : Bool) (p d mant shift : Nat) (hd : 0 < d) (hm : 0 < mant)
    (hvalid : Float64.Valid (.finite neg mant shift))
    (hlo : quarterLower mant shift * d ≤ 4 * p) (hhi : 4 * p ≤ quarterUpper mant shift * d)
    (hlos : mant % 2 = 1 → quarterLower mant shift * d ≠ 4 * p)
    (hhis : mant % 2 = 1 → 4 * p ≠ quarterUpper mant shift * d) :
    (if p / d < 4503599627370496 then some (Float64.finite neg (divRoundEven p d) 0)
      else
        if (if divRoundEven p (d * 2 ^ binaryShift 2100 (p / d)) = 9007199254740992
            then (4503599627370496, binaryShift 2100 (p / d) + 1)
            else (divRoundEven p (d * 2 ^ binaryShift 2100 (p / d)),
              binaryShift 2100 (p / d))).2 ≤ 2045
        then some (Float64.finite neg
          (if divRoundEven p (d * 2 ^ binaryShift 2100 (p / d)) = 9007199254740992
            then (4503599627370496, binaryShift 2100 (p / d) + 1)
            else (divRoundEven p (d * 2 ^ binaryShift 2100 (p / d)),
              binaryShift 2100 (p / d))).1
          (if divRoundEven p (d * 2 ^ binaryShift 2100 (p / d)) = 9007199254740992
            then (4503599627370496, binaryShift 2100 (p / d) + 1)
            else (divRoundEven p (d * 2 ^ binaryShift 2100 (p / d)),
              binaryShift 2100 (p / d))).2)
        else none) = some (Float64.finite neg mant shift) := by
  obtain ⟨hv1, hv2, hv3⟩ := hvalid
  cases shift with
  | zero =>
    have hql : quarterLower mant 0 = 4 * mant - 2 := by simp [quarterLower]
    have hqu : quarterUpper mant 0 = 4 * mant + 2 := by simp [quarterUpper]
    rw [hql] at hlo hlos
    rw [hqu] at hhi hhis
    have h1 := four_sub_two_mul mant d hm
    have h2 : (4 * mant + 2) * d = 4 * (mant * d) + 2 * d := by ring
    have hdre : divRoundEven p d = mant := by
      apply divRoundEven_eq p d mant hd (by omega) (by omega)
      · intro htie
        by_contra hodd
        exact hlos (by omega) (by omega)
      · intro htie
        by_contra hodd
        exact hhis (by omega) (by omega)
    have hq := div_near p d mant (by omega) (by omega) hd
    by_cases ht : p / d < 4503599627370496
    · rw [if_pos ht, hdre]
    · rw [if_neg ht]
      have hbs : binaryShift 2100 (p / d) = 0 :=
        binaryShift_eq 0 2100 (p / d) (by omega) (by omega) (by omega)
      simp only [hbs, pow_zero, Nat.mul_one, hdre]
      have hne : ¬ mant = 9007199254740992 := by omega
      simp [hne]
  | succ s =>
    have hmant : 4503599627370496 ≤ mant := by
      by_contra hcon
      have := hv3 (by omega)
      omega
    have hF : 0 < 2 ^ s := Nat.two_pow_pos s
    have hE : 2 ^ (s + 1) = 2 * 2 ^ s := by ring
    have hqu : quarterUpper mant (s + 1) * d = 4 * (mant * (d * 2 ^ (s + 1)))
        + 2 * (d * 2 ^ (s + 1)) := by
      simp only [quarterUpper]; ring
    rw [hqu] at hhi hhis
    by_cases hlow : mant = 4503599627370496 ∧ 4 * p < 4 * (mant * (d * 2 ^ (s + 1)))
    · obtain ⟨hm52, hbelow⟩ := hlow
      have hql : quarterLower mant (s + 1) * d + 2 * (d * 2 ^ s) =
          8 * (mant * (d * 2 ^ s)) := by
        have h0 : quarterLower mant (s + 1) = (4 * mant - 1) * 2 ^ (s + 1) := by
          simp [quarterLower, hm52]
        have h1 := four_sub_one_mul mant (2 * (d * 2 ^ s)) hm
        rw [h0, hE]
        have h2 : (4 * mant - 1) * (2 * 2 ^ s) * d = (4 * mant - 1) * (2 * (d * 2 ^ s)) := by
          ring
        rw [h2]
        have h3 : 4 * (mant * (2 * (d * 2 ^ s))) = 8 * (mant * (d * 2 ^ s)) := by ring
        omega
      have hb2 : mant * (d * 2 ^ (s + 1)) = 2 * (mant * (d * 2 ^ s)) := by rw [hE]; ring
      have hd2 : 0 < d * 2 ^ s := Nat.mul_pos hd hF
      have ha := low_arith p (d * 2 ^ s) (mant * (d * 2 ^ s)) (quarterLower mant (s + 1) * d)
        hql hlo (by rw [hb2] at hbelow; exact hbelow)
      have hdre : divRoundEven p (d * 2 ^ s) = 9007199254740992 := by
        have hMd : 9007199254740992 * (d * 2 ^ s) = 2 * (mant * (d * 2 ^ s)) := by
          rw [hm52]; ring
        apply divRoundEven_eq p (d * 2 ^ s) 9007199254740992 hd2
        · rw [hMd]; exact ha.1
        · rw [hMd]; exact ha.2.1
        · intro _; rfl
        · rw [hMd]; intro htie; exact absurd htie ha.2.2.1
      have hqeq : p / (d * 2 ^ s) = 9007199254740991 := by
        have hMd : 9007199254740992 * (d * 2 ^ s) = 2 * (mant * (d * 2 ^ s)) := by
          rw [hm52]; ring
        have hq := div_near p (d * 2 ^ s) 9007199254740992 (by rw [hMd]; exact ha.1)
          (by rw [hMd]; exact ha.2.1) hd2
        have hqlt : p / (d * 2 ^ s) < 9007199254740992 :=
          (Nat.div_lt_iff_lt_mul hd2).mpr (by rw [hMd]; exact ha.2.2.2)
        clear hMd ha hql hb2 hbelow hlo hhi hlos hhis
        omega
      have hqq : p / d / 2 ^ s = p / (d * 2 ^ s) := Nat.div_div_eq_div_mul p d (2 ^ s)
      have hge : 4503599627370496 * 2 ^ s ≤ p / d :=
        (Nat.le_div_iff_mul_le hF).mp (by rw [hqq, hqeq]; decide)
      have hlt : p / d < 9007199254740992 * 2 ^ s :=
        (Nat.div_lt_iff_lt_mul hF).mp (by rw [hqq, hqeq]; decide)
      have hbs : binaryShift 2100 (p / d) = s :=
        binaryShift_eq s 2100 (p / d) (Nat.le_trans (Nat.le_succ s) (Nat.le_trans hv2
          (by decide))) hge hlt
      have h52 : 4503599627370496 * 1 ≤ 4503599627370496 * 2 ^ s :=
        Nat.mul_le_mul_left _ hF
      have ht : ¬ p / d < 4503599627370496 := by
        rw [Nat.mul_one] at h52
        exact Nat.not_lt.mpr (Nat.le_trans h52 hge)
      rw [if_neg ht]
      simp only [hbs, hdre, if_true]
      rw [if_pos hv2, hm52]
    · have hd2 : 0 < d * 2 ^ (s + 1) := Nat.mul_pos hd (Nat.two_pow_pos (s + 1))
      have hlo2 : 2 * (mant * (d * 2 ^ (s + 1))) ≤ 2 * p + d * 2 ^ (s + 1) ∧
          (2 * (mant * (d * 2 ^ (s + 1))) = 2 * p + d * 2 ^ (s + 1) → mant % 2 = 0) := by
        by_cases hm52 : mant = 4503599627370496
        · have : ¬ 4 * p < 4 * (mant * (d * 2 ^ (s + 1))) := fun h => hlow ⟨hm52, h⟩
          exact ⟨by omega, fun _ => by omega⟩
        · have h0 : quarterLower mant (s + 1) = (4 * mant - 2) * 2 ^ (s + 1) := by
            simp [quarterLower, hm52]
          have h1 := four_sub_two_mul mant (d * 2 ^ (s + 1)) hm
          have h2 : (4 * mant - 2) * 2 ^ (s + 1) * d = (4 * mant - 2) * (d * 2 ^ (s + 1)) := by
            ring
          rw [h0, h2] at hlo hlos
          refine ⟨by omega, fun htie => ?_⟩
          by_contra hodd
          exact hlos (by omega) (by omega)
      have hdre : divRoundEven p (d * 2 ^ (s + 1)) = mant := by
        apply divRoundEven_eq p (d * 2 ^ (s + 1)) mant hd2 hlo2.1 (by omega) hlo2.2
        intro htie
        by_contra hodd
        exact hhis (by omega) (by omega)
      have hq : 4503599627370496 ≤ p / (d * 2 ^ (s + 1)) ∧
          p / (d * 2 ^ (s + 1)) < 9007199254740992 := by
        rcases div_near p (d * 2 ^ (s + 1)) mant hlo2.1 (by omega) hd2 with h | h
        · omega
        · by_cases hm52 : mant = 4503599627370496
          · have : ¬ 4 * p < 4 * (mant * (d * 2 ^ (s + 1))) := fun h => hlow ⟨hm52, h⟩
            have h3 := div_above p (d * 2 ^ (s + 1)) mant (by omega) (by omega) hd2
            omega
          · omega
      have hqq : p / d / 2 ^ (s + 1) = p / (d * 2 ^ (s + 1)) :=
        Nat.div_div_eq_div_mul p d (2 ^ (s + 1))
      have hE1 : 0 < 2 ^ (s + 1) := Nat.two_pow_pos (s + 1)
      have hge : 4503599627370496 * 2 ^ (s + 1) ≤ p / d :=
        (Nat.le_div_iff_mul_le hE1).mp (by omega)
      have hlt : p / d < 9007199254740992 * 2 ^ (s + 1) :=
        (Nat.div_lt_iff_lt_mul hE1).mp (by omega)
      have hbs : binaryShift 2100 (p / d) = s + 1 :=
        binaryShift_eq (s + 1) 2100 (p / d) (by omega) hge hlt
      have h52 : 4503599627370496 * 1 ≤ 4503599627370496 * 2 ^ (s + 1) :=
        Nat.mul_le_mul_left _ hE1
      have ht : ¬ p / d < 4503599627370496 := by omega
      rw [if_neg ht]
      have hne : ¬ mant = 9007199254740992 := by omega
      simp only [hbs, hdre, if_neg hne]
      rw [if_pos hv2]

end Kamino

namespace Kamino

theorem two_pow_1076 : (2 : Nat) ^ 1076 = 4 * 2 ^ 1074 := by
  have h : (1076 : Nat) = 1074 + 2 := rfl
  rw [h, pow_add]
  generalize (2 : Nat) ^ 1074 = K
  omega

/-- A decimal that reads back as a number is converted to that number. -/
theorem ofDecimal_of_readsBackAs (neg : Bool) (mant shift D : Nat) (j : Int) (hm : 0 < mant)
    (hvalid : Float64.Valid (.finite neg mant shift))
    (h : readsBackAs mant shift D j = true) :
    Float64.ofDecimal neg D j = some (.finite neg mant shift) := by
  unfold readsBackAs decimalBetween decimalSides at h
  unfold Float64.ofDecimal Float64.ofFraction
  by_cases hj : 0 ≤ j
  · rw [if_pos hj] at h
    rw [if_pos hj]
    simp only [Nat.mul_one] at h
    have h4 : 4 * (D * 10 ^ j.toNat * 2 ^ 1074) = D * 10 ^ j.toNat * 2 ^ 1076 := by
      rw [two_pow_1076]; ring
    apply round_core neg (D * 10 ^ j.toNat * 2 ^ 1074) 1 mant shift (by decide) hm hvalid
    · rw [h4, Nat.mul_one]
      by_cases he : (mant % 2 == 0) = true
      · rw [if_pos he] at h
        simp only [Bool.and_eq_true, decide_eq_true_eq] at h
        exact h.1
      · rw [if_neg he] at h
        simp only [Bool.and_eq_true, decide_eq_true_eq] at h
        exact Nat.le_of_lt h.1
    · rw [h4, Nat.mul_one]
      by_cases he : (mant % 2 == 0) = true
      · rw [if_pos he] at h
        simp only [Bool.and_eq_true, decide_eq_true_eq] at h
        exact h.2
      · rw [if_neg he] at h
        simp only [Bool.and_eq_true, decide_eq_true_eq] at h
        exact Nat.le_of_lt h.2
    · intro hodd
      rw [h4, Nat.mul_one]
      have he : ¬ (mant % 2 == 0) = true := by simp [hodd]
      rw [if_neg he] at h
      simp only [Bool.and_eq_true, decide_eq_true_eq] at h
      exact Nat.ne_of_lt h.1
    · intro hodd
      rw [h4, Nat.mul_one]
      have he : ¬ (mant % 2 == 0) = true := by simp [hodd]
      rw [if_neg he] at h
      simp only [Bool.and_eq_true, decide_eq_true_eq] at h
      exact Nat.ne_of_lt h.2
  · rw [if_neg hj] at h
    rw [if_neg hj]
    have h4 : 4 * (D * 2 ^ 1074) = D * 2 ^ 1076 := by
      rw [two_pow_1076]; ring
    have hd : 0 < 10 ^ (-j).toNat := Nat.pos_pow_of_pos _ (by decide)
    apply round_core neg (D * 2 ^ 1074) (10 ^ (-j).toNat) mant shift hd hm hvalid
    · rw [h4]
      by_cases he : (mant % 2 == 0) = true
      · rw [if_pos he] at h
        simp only [Bool.and_eq_true, decide_eq_true_eq] at h
        exact h.1
      · rw [if_neg he] at h
        simp only [Bool.and_eq_true, decide_eq_true_eq] at h
        exact Nat.le_of_lt h.1
    · rw [h4]
      by_cases he : (mant % 2 == 0) = true
      · rw [if_pos he] at h
        simp only [Bool.and_eq_true, decide_eq_true_eq] at h
        exact h.2
      · rw [if_neg he] at h
        simp only [Bool.and_eq_true, decide_eq_true_eq] at h
        exact Nat.le_of_lt h.2
    · intro hodd
      rw [h4]
      have he : ¬ (mant % 2 == 0) = true := by simp [hodd]
      rw [if_neg he] at h
      simp only [Bool.and_eq_true, decide_eq_true_eq] at h
      exact Nat.ne_of_lt h.1
    · intro hodd
      rw [h4]
      have he : ¬ (mant % 2 == 0) = true := by simp [hodd]
      rw [if_neg he] at h
      simp only [Bool.and_eq_true, decide_eq_true_eq] at h
      exact Nat.ne_of_lt h.2

end Kamino

namespace Kamino

/-! ## The shortest decimal reads back -/

theorem decimalBetween_shift (lo hi : Nat) (inclusive : Bool) (d : Nat) (j : Int) :
    decimalBetween lo hi inclusive (10 * d) j = decimalBetween lo hi inclusive d (j + 1) := by
  unfold decimalBetween decimalSides
  by_cases hj : 0 ≤ j
  · have hj1 : 0 ≤ j + 1 := by omega
    have ht : (j + 1).toNat = j.toNat + 1 := by omega
    rw [if_pos hj, if_pos hj1, ht]
    have h : 10 * d * 10 ^ j.toNat * 2 ^ 1076 = d * 10 ^ (j.toNat + 1) * 2 ^ 1076 := by
      rw [pow_succ]; ring
    simp only [h]
  · rw [if_neg hj]
    by_cases hj1 : 0 ≤ j + 1
    · have hjm : j = -1 := by omega
      subst hjm
      rw [if_pos hj1]
      simp only [neg_neg, Int.toNat_one, pow_one, Int.reduceNeg, neg_add_cancel, Int.toNat_zero,
        pow_zero, Nat.mul_one]
      generalize (2 : Nat) ^ 1076 = K
      have h1 : (lo * 10 ≤ 10 * d * K) = (lo ≤ d * K) := by
        apply propext
        constructor
        · intro h; have : 10 * d * K = 10 * (d * K) := by ring
          omega
        · intro h; have : 10 * d * K = 10 * (d * K) := by ring
          omega
      have h2 : (10 * d * K ≤ hi * 10) = (d * K ≤ hi) := by
        apply propext
        constructor
        · intro h; have : 10 * d * K = 10 * (d * K) := by ring
          omega
        · intro h; have : 10 * d * K = 10 * (d * K) := by ring
          omega
      have h3 : (lo * 10 < 10 * d * K) = (lo < d * K) := by
        apply propext
        constructor
        · intro h; have : 10 * d * K = 10 * (d * K) := by ring
          omega
        · intro h; have : 10 * d * K = 10 * (d * K) := by ring
          omega
      have h4 : (10 * d * K < hi * 10) = (d * K < hi) := by
        apply propext
        constructor
        · intro h; have : 10 * d * K = 10 * (d * K) := by ring
          omega
        · intro h; have : 10 * d * K = 10 * (d * K) := by ring
          omega
      simp only [h1, h2, h3, h4]
    · rw [if_neg hj1]
      have ht : (-j).toNat = (-(j + 1)).toNat + 1 := by omega
      have hp : 10 ^ ((-(j + 1)).toNat + 1) = 10 ^ (-(j + 1)).toNat * 10 := pow_succ _ _
      rw [ht, hp]
      simp only
      generalize (2 : Nat) ^ 1076 = K
      generalize 10 ^ (-(j + 1)).toNat = T
      have e1 : lo * (T * 10) = 10 * (lo * T) := by ring
      have e2 : hi * (T * 10) = 10 * (hi * T) := by ring
      have e3 : 10 * d * K = 10 * (d * K) := by ring
      rw [e1, e2, e3]
      have h1 : (10 * (lo * T) ≤ 10 * (d * K)) = (lo * T ≤ d * K) := by
        apply propext; constructor <;> intro h <;> omega
      have h2 : (10 * (d * K) ≤ 10 * (hi * T)) = (d * K ≤ hi * T) := by
        apply propext; constructor <;> intro h <;> omega
      have h3 : (10 * (lo * T) < 10 * (d * K)) = (lo * T < d * K) := by
        apply propext; constructor <;> intro h <;> omega
      have h4 : (10 * (d * K) < 10 * (hi * T)) = (d * K < hi * T) := by
        apply propext; constructor <;> intro h <;> omega
      simp only [h1, h2, h3, h4]

theorem stripZeros_readsBack (mant shift : Nat) : ∀ (fuel d : Nat) (j : Int),
    readsBackAs mant shift d j = true →
    readsBackAs mant shift (stripZeros fuel d j).1 (stripZeros fuel d j).2 = true := by
  intro fuel
  induction fuel with
  | zero => intro d j h; exact h
  | succ f ih =>
    intro d j h
    simp only [stripZeros]
    split
    · next hc =>
      apply ih
      have hd : d = 10 * (d / 10) := by omega
      unfold readsBackAs at h ⊢
      rw [hd, decimalBetween_shift] at h
      exact h
    · exact h

theorem roundDigits_readsBack (mant shift : Nat) (k : Int) (n : Nat) (r : Nat × Int)
    (h : roundDigits mant shift k n = some r) : readsBackAs mant shift r.1 r.2 = true := by
  unfold roundDigits at h
  simp only at h
  split at h
  · next hboth =>
    simp only [Bool.and_eq_true] at hboth
    split at h
    · cases h; exact hboth.2
    · cases h; exact hboth.1
  · split at h
    · next hdown => cases h; exact hdown
    · split at h
      · next hup => cases h; exact hup
      · cases h

theorem shortestFrom_readsBack (mant shift : Nat) (k : Int) : ∀ (fuel n : Nat) (r : Nat × Int),
    shortestFrom mant shift k fuel n = some r → readsBackAs mant shift r.1 r.2 = true := by
  intro fuel
  induction fuel with
  | zero => intro n r h; cases h
  | succ f ih =>
    intro n r h
    simp only [shortestFrom] at h
    split at h
    · next r1 hr => cases h; exact roundDigits_readsBack mant shift k n _ hr
    · exact ih _ _ h

theorem ten_pow_1074 : (10 : Nat) ^ 1074 = 2 ^ 1074 * 5 ^ 1074 := by
  rw [← Nat.mul_pow]

/-- The exact decimal expansion of a number reads back as the number. -/
theorem exact_readsBack (mant shift : Nat) (hm : 0 < mant) :
    readsBackAs mant shift (mant * 2 ^ shift * 5 ^ 1074) (-1074) = true := by
  have hA : 0 < 2 ^ 1074 := Nat.two_pow_pos 1074
  have hB : 0 < 5 ^ 1074 := Nat.pos_pow_of_pos _ (by decide)
  have hE : 0 < 2 ^ shift := Nat.two_pow_pos shift
  have hZ : 0 < 2 ^ shift * (2 ^ 1074 * 5 ^ 1074) := Nat.mul_pos hE (Nat.mul_pos hA hB)
  have hmid : mant * 2 ^ shift * 5 ^ 1074 * 2 ^ 1076 =
      4 * (mant * (2 ^ shift * (2 ^ 1074 * 5 ^ 1074))) := by
    rw [two_pow_1076]; ring
  have hlo : quarterLower mant shift * 10 ^ 1074 < mant * 2 ^ shift * 5 ^ 1074 * 2 ^ 1076 := by
    rw [hmid, ten_pow_1074]
    unfold quarterLower
    split
    · have h1 := four_sub_one_mul mant (2 ^ shift * (2 ^ 1074 * 5 ^ 1074)) hm
      have h2 : (4 * mant - 1) * 2 ^ shift * (2 ^ 1074 * 5 ^ 1074) =
          (4 * mant - 1) * (2 ^ shift * (2 ^ 1074 * 5 ^ 1074)) := by ring
      rw [h2]
      generalize (4 * mant - 1) * (2 ^ shift * (2 ^ 1074 * 5 ^ 1074)) = X at *
      generalize mant * (2 ^ shift * (2 ^ 1074 * 5 ^ 1074)) = Y at *
      generalize 2 ^ shift * (2 ^ 1074 * 5 ^ 1074) = Z at *
      omega
    · have h1 := four_sub_two_mul mant (2 ^ shift * (2 ^ 1074 * 5 ^ 1074)) hm
      have h2 : (4 * mant - 2) * 2 ^ shift * (2 ^ 1074 * 5 ^ 1074) =
          (4 * mant - 2) * (2 ^ shift * (2 ^ 1074 * 5 ^ 1074)) := by ring
      rw [h2]
      generalize (4 * mant - 2) * (2 ^ shift * (2 ^ 1074 * 5 ^ 1074)) = X at *
      generalize mant * (2 ^ shift * (2 ^ 1074 * 5 ^ 1074)) = Y at *
      generalize 2 ^ shift * (2 ^ 1074 * 5 ^ 1074) = Z at *
      omega
  have hhi : mant * 2 ^ shift * 5 ^ 1074 * 2 ^ 1076 < quarterUpper mant shift * 10 ^ 1074 := by
    rw [hmid, ten_pow_1074]
    unfold quarterUpper
    have h2 : (4 * mant + 2) * 2 ^ shift * (2 ^ 1074 * 5 ^ 1074) =
        4 * (mant * (2 ^ shift * (2 ^ 1074 * 5 ^ 1074))) +
          2 * (2 ^ shift * (2 ^ 1074 * 5 ^ 1074)) := by ring
    rw [h2]
    generalize mant * (2 ^ shift * (2 ^ 1074 * 5 ^ 1074)) = Y at *
    generalize 2 ^ shift * (2 ^ 1074 * 5 ^ 1074) = Z at *
    omega
  unfold readsBackAs decimalBetween decimalSides
  have hj : ¬ (0 : Int) ≤ -1074 := by decide
  have ht : (-(-1074 : Int)).toNat = 1074 := by decide
  rw [if_neg hj]
  simp only [ht]
  split
  · simp only [Bool.and_eq_true, decide_eq_true_eq]
    exact ⟨Nat.le_of_lt hlo, Nat.le_of_lt hhi⟩
  · simp only [Bool.and_eq_true, decide_eq_true_eq]
    exact ⟨hlo, hhi⟩

/-- What `strconv.FormatFloat` prints reads back as the number. -/
theorem shortestDecimal_readsBack (mant shift : Nat) (hm : 0 < mant) :
    readsBackAs mant shift (shortestDecimal mant shift).1 (shortestDecimal mant shift).2
      = true := by
  unfold shortestDecimal
  simp only
  apply stripZeros_readsBack
  cases h : shortestFrom mant shift (decimalExponent (quarterValue mant shift)) 17 1 with
  | none => exact exact_readsBack mant shift hm
  | some r => exact shortestFrom_readsBack mant shift _ 17 1 r h

/-- A decimal that reads back as a number above zero is not zero. -/
theorem readsBackAs_pos (mant shift d : Nat) (j : Int) (hm : 0 < mant)
    (h : readsBackAs mant shift d j = true) : 0 < d := by
  by_contra hd
  have hd0 : d = 0 := by omega
  subst hd0
  have hE : 0 < 2 ^ shift := Nat.two_pow_pos shift
  have hlo : 0 < quarterLower mant shift := by
    unfold quarterLower
    split
    · exact Nat.mul_pos (by omega) hE
    · exact Nat.mul_pos (by omega) hE
  unfold readsBackAs decimalBetween decimalSides at h
  by_cases hj : 0 ≤ j
  · rw [if_pos hj] at h
    simp only [Nat.zero_mul, Nat.mul_one] at h
    split at h
    · simp only [Bool.and_eq_true, decide_eq_true_eq] at h; omega
    · simp only [Bool.and_eq_true, decide_eq_true_eq] at h; omega
  · rw [if_neg hj] at h
    have hT : 0 < 10 ^ (-j).toNat := Nat.pos_pow_of_pos _ (by decide)
    have hp : 0 < quarterLower mant shift * 10 ^ (-j).toNat := Nat.mul_pos hlo hT
    simp only [Nat.zero_mul] at h
    split at h
    · simp only [Bool.and_eq_true, decide_eq_true_eq] at h; omega
    · simp only [Bool.and_eq_true, decide_eq_true_eq] at h; omega

end Kamino

namespace Kamino

theorem divRoundEven_bounds (p d : Nat) :
    p / d ≤ divRoundEven p d ∧ divRoundEven p d ≤ p / d + 1 := by
  unfold divRoundEven
  simp only
  split
  · omega
  · split
    · omega
    · split <;> omega

/-- If `binaryShift` did not run out of fuel, the halved number is below `2 ^ 53`, and not
below `2 ^ 52` when the number was not. -/
theorem binaryShift_spec : ∀ (fuel t : Nat), binaryShift fuel t < fuel →
    t / 2 ^ binaryShift fuel t < 9007199254740992 ∧
    (4503599627370496 ≤ t → 4503599627370496 ≤ t / 2 ^ binaryShift fuel t) := by
  intro fuel
  induction fuel with
  | zero => intro t h; omega
  | succ f ih =>
    intro t h
    simp only [binaryShift] at h ⊢
    by_cases ht : t < 9007199254740992
    · rw [if_pos ht] at h ⊢
      simp only [pow_zero, Nat.div_one]
      exact ⟨ht, fun h => h⟩
    · rw [if_neg ht] at h ⊢
      have h1 : binaryShift f (t / 2) < f := by omega
      have h2 := ih (t / 2) h1
      have h3 : t / 2 ^ (binaryShift f (t / 2) + 1) = t / 2 / 2 ^ binaryShift f (t / 2) := by
        rw [pow_succ, Nat.mul_comm, Nat.div_div_eq_div_mul]
      rw [h3]
      exact ⟨h2.1, fun _ => h2.2 (by omega)⟩

/-- The numbers `Float64.ofFraction` returns are numbers a `float64` can hold. -/
theorem ofFraction_valid (neg : Bool) (n d : Nat) (x : Float64)
    (h : Float64.ofFraction neg n d = some x) : x.Valid := by
  unfold Float64.ofFraction at h
  simp only at h
  generalize n * 2 ^ 1074 = p at h
  by_cases ht : p / d < 4503599627370496
  · rw [if_pos ht] at h
    cases h
    have hb := divRoundEven_bounds p d
    exact ⟨by omega, by omega, fun _ => rfl⟩
  · rw [if_neg ht] at h
    have hb := divRoundEven_bounds p (d * 2 ^ binaryShift 2100 (p / d))
    have hqq : p / d / 2 ^ binaryShift 2100 (p / d) = p / (d * 2 ^ binaryShift 2100 (p / d)) :=
      Nat.div_div_eq_div_mul p d _
    by_cases hm : divRoundEven p (d * 2 ^ binaryShift 2100 (p / d)) = 9007199254740992
    · rw [if_pos hm] at h
      simp only at h
      split at h
      · next hle =>
        cases h
        exact ⟨by decide, hle, fun hc => absurd hc (by decide)⟩
      · cases h
    · rw [if_neg hm] at h
      simp only at h
      split at h
      · next hle =>
        cases h
        have hs := binaryShift_spec 2100 (p / d) (by omega)
        rw [hqq] at hs
        exact ⟨by omega, hle, fun hc => by omega⟩
      · cases h

end Kamino

namespace Kamino

/-! ## Decimal digits -/

theorem natDigitsAux_append : ∀ (fuel n : Nat) (acc : List Nat),
    natDigitsAux fuel n acc = natDigitsAux fuel n [] ++ acc := by
  intro fuel
  induction fuel with
  | zero => intro n acc; rfl
  | succ f ih =>
    intro n acc
    simp only [natDigitsAux]
    split
    · rfl
    · rw [ih (n / 10) (n % 10 :: acc), ih (n / 10) [n % 10]]
      simp

/-- The digits of a number: the digits of its tenth followed by its last digit. -/
theorem natDigitsAux_step (f n : Nat) (h : ¬ n < 10) :
    natDigitsAux (f + 1) n [] = natDigitsAux f (n / 10) [] ++ [n % 10] := by
  simp only [natDigitsAux, if_neg h]
  exact natDigitsAux_append f (n / 10) [n % 10]

theorem natDigitsAux_ne_nil : ∀ (fuel n : Nat), natDigitsAux fuel n [] ≠ [] := by
  intro fuel
  induction fuel with
  | zero => intro n; simp [natDigitsAux]
  | succ f ih =>
    intro n
    by_cases h : n < 10
    · simp [natDigitsAux, h]
    · rw [natDigitsAux_step f n h]
      simp

theorem natDigitsAux_lt : ∀ (fuel n : Nat), n < 10 ^ (fuel + 1) →
    ∀ d ∈ natDigitsAux fuel n [], d < 10 := by
  intro fuel
  induction fuel with
  | zero =>
    intro n hn d hd
    simp only [natDigitsAux, List.mem_singleton] at hd
    subst hd
    simpa using hn
  | succ f ih =>
    intro n hn d hd
    by_cases h : n < 10
    · simp only [natDigitsAux, if_pos h, List.mem_singleton] at hd
      omega
    · rw [natDigitsAux_step f n h] at hd
      rcases List.mem_append.mp hd with h1 | h1
      · apply ih (n / 10) _ d h1
        rw [pow_succ] at hn
        omega
      · simp only [List.mem_singleton] at h1
        omega

theorem natDigitsAux_head : ∀ (fuel n : Nat), 0 < n →
    (natDigitsAux fuel n []).head? ≠ some 0 := by
  intro fuel
  induction fuel with
  | zero => intro n hn; simp [natDigitsAux]; omega
  | succ f ih =>
    intro n hn
    by_cases h : n < 10
    · simp [natDigitsAux, h]; omega
    · rw [natDigitsAux_step f n h]
      have h1 := ih (n / 10) (by omega)
      have h2 := natDigitsAux_ne_nil f (n / 10)
      cases hl : natDigitsAux f (n / 10) [] with
      | nil => exact absurd hl h2
      | cons a l => rw [hl] at h1; simpa using h1

/-- The value of a list of decimal digits. -/
theorem digitsValue_append (xs ys : List Char) :
    digitsValue (xs ++ ys) = digitsValue xs * 10 ^ ys.length + digitsValue ys := by
  unfold digitsValue
  induction ys using List.reverseRecOn with
  | nil => simp
  | append_singleton ys y ih =>
    rw [← List.append_assoc, List.foldl_append, ih, List.foldl_append]
    simp only [List.foldl_cons, List.foldl_nil, List.length_append, List.length_singleton]
    rw [pow_succ]
    ring

theorem lt_ten_pow_succ (n : Nat) : n < 10 ^ (n + 1) := by
  have h : n < 10 ^ n := Nat.lt_pow_self (by decide) n
  have h2 : 10 ^ n ≤ 10 ^ (n + 1) := Nat.pow_le_pow_right (by decide) (by omega)
  omega

theorem digitChar_toNat : ∀ d, d < 10 → (digitChar d).toNat = 48 + d := by decide

theorem digitChar_isDigit : ∀ d, d < 10 → isDigit (digitChar d) = true := by decide

theorem digitsValue_natDigitsAux : ∀ (fuel n : Nat), n < 10 ^ (fuel + 1) →
    digitsValue ((natDigitsAux fuel n []).map digitChar) = n := by
  intro fuel
  induction fuel with
  | zero =>
    intro n hn
    have hn' : n < 10 := by simpa using hn
    simp [natDigitsAux, digitsValue, digitChar_toNat n hn']
  | succ f ih =>
    intro n hn
    by_cases h : n < 10
    · simp [natDigitsAux, h, digitsValue, digitChar_toNat n h]
    · rw [natDigitsAux_step f n h, List.map_append, digitsValue_append]
      rw [ih (n / 10) (by rw [pow_succ] at hn; omega)]
      have hd : n % 10 < 10 := Nat.mod_lt n (by decide)
      simp [digitsValue, digitChar_toNat _ hd]
      omega

theorem natDigits_ne_nil (n : Nat) : natDigits n ≠ [] := natDigitsAux_ne_nil n n

theorem natDigits_lt (n : Nat) : ∀ d ∈ natDigits n, d < 10 :=
  natDigitsAux_lt n n (lt_ten_pow_succ n)

theorem natDigits_head (n : Nat) (hn : 0 < n) : (natDigits n).head? ≠ some 0 :=
  natDigitsAux_head n n hn

theorem digitsValue_natDigits (n : Nat) : digitsValue ((natDigits n).map digitChar) = n :=
  digitsValue_natDigitsAux n n (lt_ten_pow_succ n)

end Kamino

namespace Kamino

/-! ## Number texts -/

theorem spanDigits_append (ds rest : List Char) (hds : ∀ c ∈ ds, isDigit c = true)
    (hrest : ∀ c ∈ rest.head?, isDigit c = false) : spanDigits (ds ++ rest) = (ds, rest) := by
  induction ds with
  | nil =>
    cases rest with
    | nil => rfl
    | cons c r =>
      have h : isDigit c = false := hrest c (by simp)
      simp [spanDigits, h]
  | cons d ds ih =>
    have hd : isDigit d = true := hds d (by simp)
    have ih' := ih (fun c hc => hds c (by simp [hc]))
    simp [spanDigits, hd, ih']

theorem delimited_head (rest : List Char) (h : Delimited rest) :
    ∀ c ∈ rest.head?, isDigit c = false ∧ c ≠ '.' ∧ c ≠ 'e' ∧ c ≠ 'E' := by
  intro c hc
  rcases h with rfl | ⟨c1, r, rfl, hc1⟩
  · simp at hc
  · simp only [List.head?_cons, Option.mem_def, Option.some.injEq] at hc
    subst hc
    rcases hc1 with rfl | rfl | rfl <;> decide

/-- The tail of a number text behind its integer digits does not start with a digit. -/
theorem numberTail_head (fp : List Char) (ex : Option (Bool × List Char)) (rest : List Char)
    (hrest : Delimited rest) :
    ∀ c ∈ (fractionText fp ++ exponentText ex ++ rest).head?, isDigit c = false := by
  intro c hc
  cases fp with
  | cons f fs =>
    simp [fractionText] at hc
    subst hc
    decide
  | nil =>
    cases ex with
    | some e =>
      simp [fractionText, exponentText] at hc
      subst hc
      decide
    | none =>
      simp [fractionText, exponentText] at hc
      exact (delimited_head rest hrest c (by simpa using hc)).1

theorem delimited_cases (rest : List Char) (h : Delimited rest) :
    rest = [] ∨ ∃ c r, rest = c :: r ∧ isDigit c = false ∧ c ≠ '.' ∧ c ≠ 'e' ∧ c ≠ 'E' := by
  rcases h with rfl | ⟨c1, r, rfl, hc1⟩
  · exact Or.inl rfl
  · exact Or.inr ⟨c1, r, rfl, by rcases hc1 with rfl | rfl | rfl <;> decide⟩

set_option maxHeartbeats 4000000 in
/-- `scanNumber` takes a number text whole and stops before what follows it. -/
theorem scanNumber_build (neg : Bool) (ip fp : List Char) (ex : Option (Bool × List Char))
    (rest : List Char) (hip : IntegerDigits ip) (hfp : ∀ c ∈ fp, isDigit c = true)
    (hex : ∀ e ∈ ex, e.2 ≠ [] ∧ ∀ c ∈ e.2, isDigit c = true) (hrest : Delimited rest) :
    scanNumber (numberText neg ip fp ex ++ rest) = some (numberText neg ip fp ex, rest) := by
  have hrest0 : ∀ c ∈ rest.head?, isDigit c = false := fun c hc =>
    (delimited_head rest hrest c hc).1
  have hed : ∀ e ∈ ex, spanDigits (e.2 ++ rest) = (e.2, rest) := fun e he =>
    spanDigits_append e.2 rest (hex e he).2 hrest0
  have hfd : spanDigits (fp ++ (exponentText ex ++ rest)) = (fp, exponentText ex ++ rest) := by
    apply spanDigits_append fp _ hfp
    have := numberTail_head [] ex rest hrest
    simpa [fractionText] using this
  have hid : ∀ r0 : List Char, (∀ x ∈ r0, isDigit x = true) →
      spanDigits (r0 ++ (fractionText fp ++ exponentText ex ++ rest)) =
        (r0, fractionText fp ++ exponentText ex ++ rest) := fun r0 h =>
    spanDigits_append r0 _ h (numberTail_head fp ex rest hrest)
  rcases ex with _ | ⟨eneg, ed⟩
  · rcases delimited_cases rest hrest with rfl | ⟨c, r, rfl, hc1, hc2, hc3, hc4⟩
    · rcases hip with rfl | ⟨c0, r0, rfl, hc0, hd0, hr0⟩
      · cases neg <;> cases fp <;>
          simp [exponentText, fractionText] at hfd hid <;>
          simp [scanNumber, numberText, fractionText, exponentText, hfd]
      · have hid0 := hid r0 hr0
        have hc0m : c0 ≠ '-' := by
          intro h; subst h; exact absurd hd0 (by decide)
        cases neg <;> cases fp <;>
          simp [exponentText, fractionText] at hfd hid0 <;>
          simp [scanNumber, numberText, fractionText, exponentText, hfd, hid0, hc0, hd0, hc0m]
    · have hc0e : ¬ (c = 'e' ∨ c = 'E') := by simp [hc3, hc4]
      rcases hip with rfl | ⟨c0, r0, rfl, hc0, hd0, hr0⟩
      · cases neg <;> cases fp <;>
          simp [exponentText, fractionText] at hfd hid <;>
          simp [scanNumber, numberText, fractionText, exponentText, hfd, hc1, hc2, hc3, hc4]
      · have hid0 := hid r0 hr0
        have hc0m : c0 ≠ '-' := by
          intro h; subst h; exact absurd hd0 (by decide)
        cases neg <;> cases fp <;>
          simp [exponentText, fractionText] at hfd hid0 <;>
          simp [scanNumber, numberText, fractionText, exponentText, hfd, hid0, hc0, hd0, hc0m,
            hc1, hc2, hc3, hc4]
  · have hex1 := hex (eneg, ed) rfl
    have hed1 := hed (eneg, ed) rfl
    simp only at hex1 hed1
    rcases ed with _ | ⟨e0, es⟩
    · exact absurd rfl hex1.1
    · have he0 : isDigit e0 = true := hex1.2 e0 (by simp)
      have he0p : e0 ≠ '+' := by
        intro h; subst h; exact absurd he0 (by decide)
      have he0m : e0 ≠ '-' := by
        intro h; subst h; exact absurd he0 (by decide)
      rcases hip with rfl | ⟨c0, r0, rfl, hc0, hd0, hr0⟩
      · cases neg <;> cases fp <;> cases eneg <;>
          simp [exponentText, fractionText] at hfd hid hed1 <;>
          simp [scanNumber, numberText, fractionText, exponentText, hfd, hed1]
      · have hid0 := hid r0 hr0
        have hc0m : c0 ≠ '-' := by
          intro h; subst h; exact absurd hd0 (by decide)
        cases neg <;> cases fp <;> cases eneg <;>
          simp [exponentText, fractionText] at hfd hid0 hed1 <;>
          simp [scanNumber, numberText, fractionText, exponentText, hfd, hid0, hed1, hc0, hd0,
            hc0m]

end Kamino

namespace Kamino

theorem integerDigits_all (ip : List Char) (h : IntegerDigits ip) :
    ∀ c ∈ ip, isDigit c = true := by
  rcases h with rfl | ⟨c0, r0, rfl, _, hd0, hr0⟩
  · intro c hc
    simp only [List.mem_singleton] at hc
    subst hc
    decide
  · intro c hc
    rcases List.mem_cons.mp hc with rfl | h
    · exact hd0
    · exact hr0 c h

set_option maxHeartbeats 4000000 in
/-- `numberParts` finds the parts a number text was built from. -/
theorem numberParts_build (neg : Bool) (ip fp : List Char) (ex : Option (Bool × List Char))
    (hip : IntegerDigits ip) (hfp : ∀ c ∈ fp, isDigit c = true)
    (hex : ∀ e ∈ ex, e.2 ≠ [] ∧ ∀ c ∈ e.2, isDigit c = true) :
    numberParts (numberText neg ip fp ex) =
      (neg, ip, fp, (ex.map (fun e => e.1)).getD false, (ex.map (fun e => e.2)).getD []) := by
  have hnil : Delimited [] := Or.inl rfl
  have hed : ∀ e ∈ ex, spanDigits e.2 = (e.2, []) := fun e he => by
    have := spanDigits_append e.2 [] (hex e he).2 (by simp)
    simpa using this
  have hfd : spanDigits (fp ++ exponentText ex) = (fp, exponentText ex) := by
    apply spanDigits_append fp _ hfp
    have := numberTail_head [] ex [] hnil
    simpa [fractionText] using this
  have hid : spanDigits (ip ++ (fractionText fp ++ exponentText ex)) =
      (ip, fractionText fp ++ exponentText ex) := by
    apply spanDigits_append ip _ (integerDigits_all ip hip)
    have := numberTail_head fp ex [] hnil
    simpa using this
  have hip0 : ∃ c0 r0, ip = c0 :: r0 ∧ c0 ≠ '-' := by
    rcases hip with rfl | ⟨c0, r0, rfl, _, hd0, _⟩
    · exact ⟨'0', [], rfl, by decide⟩
    · exact ⟨c0, r0, rfl, by intro h; subst h; exact absurd hd0 (by decide)⟩
  obtain ⟨c0, r0, rfl, hc0m⟩ := hip0
  rcases ex with _ | ⟨eneg, ed⟩
  · cases neg <;> cases fp <;>
      simp [exponentText, fractionText] at hfd hid <;>
      simp [numberParts, numberText, fractionText, exponentText, hfd, hid, hc0m]
  · have hex1 := hex (eneg, ed) rfl
    have hed1 := hed (eneg, ed) rfl
    simp only at hex1 hed1
    rcases ed with _ | ⟨e0, es⟩
    · exact absurd rfl hex1.1
    · have he0 : isDigit e0 = true := hex1.2 e0 (by simp)
      have he0p : e0 ≠ '+' := by
        intro h; subst h; exact absurd he0 (by decide)
      have he0m : e0 ≠ '-' := by
        intro h; subst h; exact absurd he0 (by decide)
      cases neg <;> cases fp <;> cases eneg <;>
        simp [exponentText, fractionText] at hfd hid hed1 <;>
        simp [numberParts, numberText, fractionText, exponentText, hfd, hid, hed1, hc0m]

end Kamino

namespace Kamino

/-! ## The text of a `float64` -/

theorem digitChar_ne_zero : ∀ d, d < 10 → d ≠ 0 → digitChar d ≠ '0' := by decide

theorem digitsValue_zeros (k : Nat) : digitsValue (List.replicate k '0') = 0 := by
  induction k with
  | zero => rfl
  | succ k ih =>
    rw [List.replicate_succ']
    rw [digitsValue_append, ih]
    rfl

theorem digitsValue_zeros_append (k : Nat) (xs : List Char) :
    digitsValue (List.replicate k '0' ++ xs) = digitsValue xs := by
  rw [digitsValue_append, digitsValue_zeros]
  simp

theorem digitsValue_append_zeros (k : Nat) (xs : List Char) :
    digitsValue (xs ++ List.replicate k '0') = digitsValue xs * 10 ^ k := by
  rw [digitsValue_append, digitsValue_zeros]
  simp

theorem isDigit_map_digitChar (ds : List Nat) (h : ∀ d ∈ ds, d < 10) :
    ∀ c ∈ ds.map digitChar, isDigit c = true := by
  intro c hc
  obtain ⟨d, hd, rfl⟩ := List.mem_map.mp hc
  exact digitChar_isDigit d (h d hd)

theorem isDigit_zeros (k : Nat) : ∀ c ∈ List.replicate k '0', isDigit c = true := by
  intro c hc
  rw [List.eq_of_mem_replicate hc]
  decide

/-- Readings of the same decimal: trailing zeros may be moved into the exponent. -/
theorem readsBackAs_integer (mant shift D k : Nat) (h : readsBackAs mant shift D (k : Int) = true) :
    readsBackAs mant shift (D * 10 ^ k) 0 = true := by
  unfold readsBackAs decimalBetween decimalSides at h ⊢
  have hk : (0 : Int) ≤ (k : Int) := Int.ofNat_nonneg k
  rw [if_pos hk] at h
  rw [if_pos (le_refl (0 : Int))]
  generalize (2 : Nat) ^ 1076 = K at h ⊢
  simpa using h

/-- The exponent layout as a number text. -/
theorem layoutE_text (d0 : Nat) (dt : List Nat) (dp : Int) :
    layoutE (d0 :: dt) dp = [digitChar d0] ++ fractionText (dt.map digitChar) ++
      exponentText (some (decide (dp - 1 < 0), (natDigits (dp - 1).natAbs).map digitChar)) := by
  cases dt with
  | nil => simp [layoutE, fractionText, exponentText]
  | cons d1 dr => simp [layoutE, fractionText, exponentText]

/-- The plain layout as a number text. -/
theorem layoutF_text (ds : List Nat) (dp : Int) (hne : ds ≠ []) :
    layoutF ds dp =
      (if 0 < dp then (ds.take dp.toNat).map digitChar ++
          List.replicate (dp.toNat - ds.length) '0' else ['0']) ++
      fractionText (if dp < ds.length then
        List.replicate (-dp).toNat '0' ++ (ds.drop dp.toNat).map digitChar else []) := by
  unfold layoutF fractionText
  simp only
  by_cases h : dp < (ds.length : Int)
  · rw [if_pos h, if_pos h]
    have hx : (List.replicate (-dp).toNat '0' ++ (ds.drop dp.toNat).map digitChar).isEmpty
        = false := by
      by_cases h0 : 0 < dp
      · have h1 : dp.toNat < ds.length := by omega
        have h2 : ds.drop dp.toNat ≠ [] := by
          intro hc
          have := congrArg List.length hc
          simp at this
          omega
        cases hd : ds.drop dp.toNat with
        | nil => exact absurd hd h2
        | cons a l => simp
      · have h1 : dp.toNat = 0 := by omega
        rw [h1]
        cases ds with
        | nil => exact absurd rfl hne
        | cons a l => simp
    rw [hx]
    simp
  · rw [if_neg h, if_neg h]
    simp

/-- The text of a number other than zero is a number text whose decimal reads back as the
number. -/
theorem formatFloat64_parts (neg : Bool) (mant shift : Nat) (hm : 0 < mant) :
    ∃ ip fp ex,
      formatFloat64 (.finite neg mant shift) = some (String.mk (numberText neg ip fp ex)) ∧
      IntegerDigits ip ∧ (∀ c ∈ fp, isDigit c = true) ∧
      (∀ e ∈ ex, e.2 ≠ [] ∧ ∀ c ∈ e.2, isDigit c = true) ∧
      readsBackAs mant shift (digitsValue (ip ++ fp))
        ((if (ex.map (fun e => e.1)).getD false
            then -(digitsValue ((ex.map (fun e => e.2)).getD []) : Int)
            else (digitsValue ((ex.map (fun e => e.2)).getD []) : Int)) - (fp.length : Int))
        = true := by
  have hrb := shortestDecimal_readsBack mant shift hm
  have hpos := readsBackAs_pos mant shift _ _ hm hrb
  have hlt := natDigits_lt (shortestDecimal mant shift).1
  have hhead := natDigits_head (shortestDecimal mant shift).1 hpos
  have hval := digitsValue_natDigits (shortestDecimal mant shift).1
  have hne := natDigits_ne_nil (shortestDecimal mant shift).1
  have hm0 : ¬ mant = 0 := by omega
  unfold formatFloat64
  simp only [if_neg hm0]
  generalize hD : (shortestDecimal mant shift).1 = D at *
  generalize hJ : (shortestDecimal mant shift).2 = J at *
  generalize hds : natDigits D = ds at *
  obtain ⟨d0, dt, rfl⟩ : ∃ d0 dt, ds = d0 :: dt := by
    cases ds with
    | nil => exact absurd rfl hne
    | cons a l => exact ⟨a, l, rfl⟩
  have hd0 : d0 < 10 := hlt d0 (by simp)
  have hd0z : d0 ≠ 0 := by
    intro h
    apply hhead
    simp [h]
  have hdt : ∀ d ∈ dt, d < 10 := fun d hd => hlt d (by simp [hd])
  by_cases hE : mant * 2 ^ shift < cutoffSmall ∨ cutoffLarge ≤ mant * 2 ^ shift
  · rw [if_pos hE]
    refine ⟨[digitChar d0], dt.map digitChar,
      some (decide (((d0 :: dt).length : Int) + J - 1 < 0),
        (natDigits (((d0 :: dt).length : Int) + J - 1).natAbs).map digitChar), ?_, ?_, ?_, ?_, ?_⟩
    · rw [layoutE_text]
      simp [numberText]
    · exact Or.inr ⟨digitChar d0, [], rfl, digitChar_ne_zero d0 hd0 hd0z,
        digitChar_isDigit d0 hd0, by simp⟩
    · exact isDigit_map_digitChar dt hdt
    · intro e he
      simp only [Option.mem_def, Option.some.injEq] at he
      subst he
      refine ⟨?_, isDigit_map_digitChar _ (natDigits_lt _)⟩
      simp only [ne_eq, List.map_eq_nil_iff]
      exact natDigits_ne_nil _
    · have h1 : digitsValue ([digitChar d0] ++ dt.map digitChar) = D := by
        simpa using hval
      rw [h1]
      simp only [Option.map_some', Option.getD_some, digitsValue_natDigits, List.length_map]
      have h2 : (if decide (((d0 :: dt).length : Int) + J - 1 < 0) = true
          then -((((d0 :: dt).length : Int) + J - 1).natAbs : Int)
          else ((((d0 :: dt).length : Int) + J - 1).natAbs : Int)) - (dt.length : Int) = J := by
        simp only [List.length_cons, decide_eq_true_eq]
        split <;> omega
      rw [h2]
      exact hrb
  · rw [if_neg hE]
    generalize hdp : ((d0 :: dt).length : Int) + J = dp at *
    refine ⟨(if 0 < dp then ((d0 :: dt).take dp.toNat).map digitChar ++
          List.replicate (dp.toNat - (d0 :: dt).length) '0' else ['0']),
      (if dp < ((d0 :: dt).length : Int) then
        List.replicate (-dp).toNat '0' ++ ((d0 :: dt).drop dp.toNat).map digitChar else []),
      none, ?_, ?_, ?_, ?_, ?_⟩
    · rw [layoutF_text _ _ (by simp)]
      simp [numberText, exponentText]
    · by_cases h0 : 0 < dp
      · rw [if_pos h0]
        obtain ⟨k, hk⟩ : ∃ k, dp.toNat = k + 1 := ⟨dp.toNat - 1, by omega⟩
        rw [hk]
        refine Or.inr ⟨digitChar d0, (dt.take k).map digitChar ++
          List.replicate (k + 1 - (d0 :: dt).length) '0', by simp,
          digitChar_ne_zero d0 hd0 hd0z, digitChar_isDigit d0 hd0, ?_⟩
        intro x hx
        rcases List.mem_append.mp hx with h | h
        · exact isDigit_map_digitChar _ (fun d hd => hdt d (List.mem_of_mem_take hd)) x h
        · exact isDigit_zeros _ x h
      · rw [if_neg h0]
        exact Or.inl rfl
    · intro c hc
      split at hc
      · rcases List.mem_append.mp hc with h | h
        · exact isDigit_zeros _ c h
        · exact isDigit_map_digitChar _ (fun d hd => hlt d (List.mem_of_mem_drop hd)) c h
      · simp at hc
    · intro e he
      simp at he
    · simp only [Option.map_none', Option.getD_none, Bool.false_eq_true, if_false]
      have hz : digitsValue [] = 0 := rfl
      rw [hz]
      by_cases h0 : 0 < dp
      · rw [if_pos h0]
        by_cases h1 : dp < ((d0 :: dt).length : Int)
        · rw [if_pos h1]
          have hz0 : (-dp).toNat = 0 := by omega
          rw [hz0]
          have hz1 : dp.toNat - (d0 :: dt).length = 0 := by omega
          rw [hz1]
          simp only [List.replicate_zero, List.append_nil, List.nil_append]
          rw [← List.map_append, List.take_append_drop, hval]
          have hj : ((0 : Nat) : Int) - ((((d0 :: dt).drop dp.toNat).map digitChar).length : Int)
              = J := by
            simp only [List.length_map, List.length_drop]
            omega
          rw [hj]
          exact hrb
        · rw [if_neg h1]
          have ht : (d0 :: dt).take dp.toNat = d0 :: dt := by
            apply List.take_of_length_le
            omega
          rw [ht, List.append_nil, digitsValue_append_zeros, hval]
          have hj : J = ((dp.toNat - (d0 :: dt).length : Nat) : Int) := by omega
          rw [hj] at hrb
          simpa using readsBackAs_integer mant shift D _ hrb
      · rw [if_neg h0]
        have h1 : dp < ((d0 :: dt).length : Int) := by
          simp only [List.length_cons]
          omega
        rw [if_pos h1]
        have hz1 : dp.toNat = 0 := by omega
        rw [hz1, List.drop_zero]
        have hv : digitsValue (['0'] ++ (List.replicate (-dp).toNat '0' ++
            (d0 :: dt).map digitChar)) = D := by
          have : ['0'] = List.replicate 1 '0' := rfl
          rw [this, digitsValue_zeros_append, digitsValue_zeros_append, hval]
        rw [hv]
        have hj : ((0 : Nat) : Int) - ((List.replicate (-dp).toNat '0' ++
            (d0 :: dt).map digitChar).length : Int) = J := by
          simp only [List.length_append, List.length_replicate, List.length_map]
          omega
        rw [hj]
        exact hrb

end Kamino

namespace Kamino

theorem string_mk_toList (l : List Char) : (String.mk l).toList = l := rfl

/-- The text of every finite number is a number text. -/
theorem formatFloat64_numberText (neg : Bool) (mant shift : Nat) :
    ∃ ip fp ex,
      formatFloat64 (.finite neg mant shift) = some (String.mk (numberText neg ip fp ex)) ∧
      IntegerDigits ip ∧ (∀ c ∈ fp, isDigit c = true) ∧
      (∀ e ∈ ex, e.2 ≠ [] ∧ ∀ c ∈ e.2, isDigit c = true) := by
  by_cases hm : mant = 0
  · subst hm
    refine ⟨['0'], [], none, ?_, Or.inl rfl, by simp, by simp⟩
    cases neg <;> simp [formatFloat64, numberText, fractionText, exponentText]
  · obtain ⟨ip, fp, ex, h1, h2, h3, h4, _⟩ := formatFloat64_parts neg mant shift (by omega)
    exact ⟨ip, fp, ex, h1, h2, h3, h4⟩

/-- The text `encoding/json` writes for a `float64` is scanned whole as a number. -/
theorem scanNumber_formatFloat64 (x : Float64) (s : String) (h : formatFloat64 x = some s)
    (rest : List Char) (hrest : Delimited rest) :
    scanNumber (s.toList ++ rest) = some (s.toList, rest) := by
  cases x with
  | nan => simp [formatFloat64] at h
  | inf neg => simp [formatFloat64] at h
  | finite neg mant shift =>
    obtain ⟨ip, fp, ex, h1, h2, h3, h4⟩ := formatFloat64_numberText neg mant shift
    rw [h1] at h
    cases h
    exact scanNumber_build neg ip fp ex rest h2 h3 h4 hrest

/-- Round trip of `strconv`: the text written for a `float64` is parsed as the same
number. -/
theorem parseFloat64_formatFloat64 (x : Float64) (hx : x.Valid) (s : String)
    (h : formatFloat64 x = some s) : parseFloat64 s = some x := by
  cases x with
  | nan => simp [formatFloat64] at h
  | inf neg => simp [formatFloat64] at h
  | finite neg mant shift =>
    by_cases hm : mant = 0
    · subst hm
      have hs : shift = 0 := hx.2.2 (by decide)
      subst hs
      have h1 : formatFloat64 (.finite neg 0 0) = some (String.mk (numberText neg ['0'] [] none))
          := by
        cases neg <;> simp [formatFloat64, numberText, fractionText, exponentText]
      rw [h1] at h
      cases h
      unfold parseFloat64
      simp only [string_mk_toList]
      rw [numberParts_build neg ['0'] [] none (Or.inl rfl) (by simp) (by simp)]
      simp [Float64.ofDecimal, Float64.ofFraction, digitsValue, divRoundEven]
    · obtain ⟨ip, fp, ex, h1, h2, h3, h4, h5⟩ := formatFloat64_parts neg mant shift (by omega)
      rw [h1] at h
      cases h
      unfold parseFloat64
      simp only [string_mk_toList]
      rw [numberParts_build neg ip fp ex h2 h3 h4]
      simp only []
      exact ofDecimal_of_readsBackAs neg mant shift _ _ (by omega) hx h5

end Kamino

namespace Kamino

/-! ## Strings -/

theorem hexVal_hexDigit : ∀ k, k < 16 → hexVal (hexDigit k) = some k := by decide

theorem char_eq_of_toNat (c : Char) (n : Nat) (h : c.toNat = n) : c = Char.ofNat n := by
  rw [← h, Char.ofNat_toNat]

/-- The scanner reads what was written for one character as one unit. -/
theorem scanString_escapeChar (c : Char) (tail : List Char) (acc : List StrUnit) :
    scanString (escapeChar c ++ tail) acc = scanString tail (writtenUnit c :: acc) := by
  unfold escapeChar
  simp only
  split
  · next h =>
    rcases h with rfl | rfl
    · rw [scanString.eq_def]
      simp [writtenUnit, dquote, rsolidus]
    · rw [scanString.eq_def]
      simp [writtenUnit, dquote, rsolidus]
  · next h0 =>
    simp only [not_or] at h0
    split
    · next h =>
      have hc := char_eq_of_toNat c 8 h
      subst hc
      rw [scanString.eq_def]
      simp [writtenUnit, dquote, rsolidus]
    · split
      · next h =>
        have hc := char_eq_of_toNat c 12 h
        subst hc
        rw [scanString.eq_def]
        simp [writtenUnit, dquote, rsolidus]
      · split
        · next h =>
          have hc := char_eq_of_toNat c 10 h
          subst hc
          rw [scanString.eq_def]
          simp [writtenUnit, dquote, rsolidus]
        · split
          · next h =>
            have hc := char_eq_of_toNat c 13 h
            subst hc
            rw [scanString.eq_def]
            simp [writtenUnit, dquote, rsolidus]
          · split
            · next h =>
              have hc := char_eq_of_toNat c 9 h
              subst hc
              rw [scanString.eq_def]
              simp [writtenUnit, dquote, rsolidus]
            · next h8 h12 h10 h13 h9 =>
              split
              · next h =>
                have hlt : c.toNat < 64 := by omega
                have hw : writtenUnit c = .unit16 c.toNat := by
                  unfold writtenUnit
                  simp only
                  rw [if_neg (by omega), if_pos (by omega)]
                have h16 := hexVal_hexDigit (c.toNat / 16) (by omega)
                have h1 := hexVal_hexDigit (c.toNat % 16) (by omega)
                have hz : hexVal '0' = some 0 := by decide
                have hv : c.toNat / 16 * 16 + c.toNat % 16 = c.toNat := by
                  omega
                rw [scanString.eq_def, hw]
                simp [dquote, rsolidus, h16, h1, hz, hv]
              · next hn =>
                split
                · next h =>
                  rcases h with h | h
                  · have hc := char_eq_of_toNat c 0x2028 h
                    subst hc
                    rw [scanString.eq_def]
                    simp [writtenUnit, dquote, rsolidus, hexVal, hexDigit]
                  · have hc := char_eq_of_toNat c 0x2029 h
                    subst hc
                    rw [scanString.eq_def]
                    simp [writtenUnit, dquote, rsolidus, hexVal, hexDigit]
                · next hu =>
                  have hw : writtenUnit c = .chr c := by
                    unfold writtenUnit
                    simp only
                    rw [if_neg (by omega), if_neg (by omega)]
                  rw [scanString.eq_def, hw]
                  have h32 : ¬ c.toNat < 32 := by omega
                  simp [h0.1, h0.2, h32]

/-- The scanner reads the inside of a written string as the units of its characters. -/
theorem scanString_escapeChars (cs : List Char) : ∀ (rest : List Char) (acc : List StrUnit),
    scanString (escapeChars cs ++ dquote :: rest) acc =
      some (acc.reverse ++ cs.map writtenUnit, rest) := by
  induction cs with
  | nil =>
    intro rest acc
    rw [scanString.eq_def]
    simp [escapeChars]
  | cons c cs ih =>
    intro rest acc
    simp only [escapeChars, List.append_assoc]
    rw [scanString_escapeChar, ih]
    simp

theorem writtenUnit_cases (c : Char) :
    writtenUnit c = .chr c ∨ (writtenUnit c = .unit16 c.toNat ∧ c.toNat < 0xD800) := by
  unfold writtenUnit
  simp only
  split
  · exact Or.inl rfl
  · split
    · next h => exact Or.inr ⟨rfl, by omega⟩
    · exact Or.inl rfl

/-- The units of written characters join to the characters. -/
theorem joinUnits_writtenUnit (cs : List Char) : joinUnits none (cs.map writtenUnit) = cs := by
  induction cs with
  | nil => rfl
  | cons c cs ih =>
    simp only [List.map]
    rcases writtenUnit_cases c with h | ⟨h, hlt⟩
    · rw [h, joinUnits, ih]
    · rw [h, joinUnits]
      have h1 : ¬ ((0xD800 ≤ c.toNat && c.toNat < 0xDC00) = true) := by
        simp only [Bool.and_eq_true, decide_eq_true_eq]; omega
      have h2 : ¬ ((0xDC00 ≤ c.toNat && c.toNat < 0xE000) = true) := by
        simp only [Bool.and_eq_true, decide_eq_true_eq]; omega
      rw [if_neg h1, if_neg h2, ih, Char.ofNat_toNat]

/-- A written string is read back as the string. -/
theorem parsesTo_encodeString (s : String) : ParsesTo (encodeString s) (.str s) := by
  intro fuel rest hfuel _
  cases fuel with
  | zero => simp [encodeString] at hfuel
  | succ f =>
    have hsp : skipSpace (encodeString s ++ rest) = encodeString s ++ rest := by
      simp [encodeString, skipSpace, isSpace, dquote]
    rw [parseValue, hsp]
    simp only [encodeString, List.cons_append, List.append_assoc, List.singleton_append]
    have h1 : ¬ dquote = '{' := by decide
    have h2 : ¬ dquote = '[' := by decide
    rw [if_neg h1, if_neg h2, if_pos trivial, List.nil_append, scanString_escapeChars]
    simp [joinUnits_writtenUnit]

end Kamino

namespace Kamino

/-! ## Values that are read back -/

theorem isDigit_facts (c : Char) (h : c = '-' ∨ isDigit c = true) :
    isSpace c = false ∧ c ≠ '{' ∧ c ≠ '[' ∧ c ≠ dquote ∧ c ≠ 't' ∧ c ≠ 'f' ∧ c ≠ 'n' := by
  rcases h with rfl | h
  · decide
  · have h1 : 48 ≤ c.toNat ∧ c.toNat ≤ 57 := by
      simpa [isDigit] using h
    refine ⟨?_, ?_, ?_, ?_, ?_, ?_, ?_⟩
    · simp only [isSpace, Bool.or_eq_false_iff, decide_eq_false_iff_not]
      omega
    all_goals
      intro hc
      subst hc
      revert h1
      decide

theorem numberText_head (neg : Bool) (ip fp : List Char) (ex : Option (Bool × List Char))
    (hip : IntegerDigits ip) :
    ∃ c0 t0, numberText neg ip fp ex = c0 :: t0 ∧ (c0 = '-' ∨ isDigit c0 = true) := by
  cases neg with
  | true =>
    exact ⟨'-', ip ++ (fractionText fp ++ exponentText ex), by simp [numberText], Or.inl rfl⟩
  | false =>
    rcases hip with rfl | ⟨c0, r0, rfl, _, hd0, _⟩
    · exact ⟨'0', fractionText fp ++ exponentText ex, by simp [numberText],
        Or.inr (by decide)⟩
    · exact ⟨c0, r0 ++ (fractionText fp ++ exponentText ex), by simp [numberText], Or.inr hd0⟩

/-- A number text is read back as the number literal with that text. -/
theorem parsesTo_numberText (neg : Bool) (ip fp : List Char) (ex : Option (Bool × List Char))
    (hip : IntegerDigits ip) (hfp : ∀ c ∈ fp, isDigit c = true)
    (hex : ∀ e ∈ ex, e.2 ≠ [] ∧ ∀ c ∈ e.2, isDigit c = true) :
    ParsesTo (numberText neg ip fp ex) (.num (String.mk (numberText neg ip fp ex))) := by
  intro fuel rest hfuel hrest
  have hscan := scanNumber_build neg ip fp ex rest hip hfp hex hrest
  obtain ⟨c0, t0, htxt, hc0⟩ := numberText_head neg ip fp ex hip
  obtain ⟨h1, h2, h3, h4, h5, h6, h7⟩ := isDigit_facts c0 hc0
  rw [htxt] at hscan hfuel ⊢
  cases fuel with
  | zero => simp at hfuel
  | succ f =>
    have hsp : skipSpace (c0 :: t0 ++ rest) = c0 :: (t0 ++ rest) := by
      simp [skipSpace, h1]
    rw [parseValue, hsp]
    simp only [if_neg h2, if_neg h3, if_neg h4, if_neg h5, if_neg h6, if_neg h7]
    rw [List.cons_append] at hscan
    rw [hscan]
    rfl

/-- A written integer is read back as its literal. -/
theorem parsesTo_encodeInt (n : Int) : ParsesTo (encodeInt n) (.num (String.mk (encodeInt n))) := by
  have hip : IntegerDigits ((natDigits n.natAbs).map digitChar) := by
    by_cases h0 : n.natAbs = 0
    · rw [h0]
      exact Or.inl (by decide)
    · have hhead := natDigits_head n.natAbs (by omega)
      have hlt := natDigits_lt n.natAbs
      cases hds : natDigits n.natAbs with
      | nil => exact absurd hds (natDigits_ne_nil _)
      | cons d0 dt =>
        rw [hds] at hhead hlt
        have hd0 : d0 < 10 := hlt d0 (by simp)
        have hd0z : d0 ≠ 0 := by
          intro h; apply hhead; simp [h]
        exact Or.inr ⟨digitChar d0, dt.map digitChar, by simp,
          digitChar_ne_zero d0 hd0 hd0z, digitChar_isDigit d0 hd0,
          isDigit_map_digitChar dt (fun d hd => hlt d (by simp [hd]))⟩
  have htxt : encodeInt n =
      numberText (decide (n < 0)) ((natDigits n.natAbs).map digitChar) [] none := by
    unfold encodeInt numberText
    by_cases h : n < 0
    · simp [h, fractionText, exponentText]
    · simp [h, fractionText, exponentText]
  rw [htxt]
  exact parsesTo_numberText _ _ _ _ hip (by simp) (by simp)

/-- A written `float64` is read back as its literal. -/
theorem parsesTo_encodeFloat (x : Float64) (txt : List Char) (h : encodeFloat x = some txt) :
    ParsesTo txt (.num (String.mk txt)) := by
  unfold encodeFloat at h
  cases x with
  | nan => simp [formatFloat64] at h
  | inf neg => simp [formatFloat64] at h
  | finite neg mant shift =>
    obtain ⟨ip, fp, ex, h1, h2, h3, h4⟩ := formatFloat64_numberText neg mant shift
    rw [h1] at h
    simp only [Option.map_some', Option.some.injEq, string_mk_toList] at h
    subst h
    exact parsesTo_numberText neg ip fp ex h2 h3 h4

/-- A written `bool` is read back. -/
theorem parsesTo_encodeBool (b : Bool) : ParsesTo (encodeBool b) (.bool b) := by
  intro fuel rest hfuel _
  cases fuel with
  | zero => cases b <;> simp [encodeBool] at hfuel
  | succ f =>
    cases b with
    | true =>
      rw [parseValue]
      simp [encodeBool, skipSpace, isSpace, stripWord, dquote]
    | false =>
      rw [parseValue]
      simp [encodeBool, skipSpace, isSpace, stripWord, dquote]

end Kamino

namespace Kamino

namespace Sicredi

/-- `Authenticate` that does not succeed leaves the adapter as it was. -/
theorem Authenticate_not_ok_same (s : SicrediAdapter) (w : World)
    (h : (Authenticate s w).1 ≠ .ok ()) : (Authenticate s w).2.1 = s := by
  cases hnet : w.net w.sent.length with
  | failed err => rw [Authenticate_failed s w err hnet]
  | response status body readErr =>
    cases readErr with
    | some err => rw [Authenticate_readErr s w status body err hnet]
    | none =>
      by_cases hst : status = 200
      · subst hst
        rw [Authenticate_200 s w body hnet] at h ⊢
        cases hdec : unmarshalAuthResponse body with
        | mk authResp err =>
          rw [hdec] at h
          cases err with
          | some e => rfl
          | none => exact absurd rfl h
      · rw [Authenticate_status s w status body hnet hst]

/-- `Authenticate` never dereferences a nil pointer. -/
theorem Authenticate_no_panic (s : SicrediAdapter) (w : World) :
    (Authenticate s w).1 ≠ .panic := by
  cases hnet : w.net w.sent.length with
  | failed err => rw [Authenticate_failed s w err hnet]; simp
  | response status body readErr =>
    cases readErr with
    | some err => rw [Authenticate_readErr s w status body err hnet]; simp
    | none =>
      by_cases hst : status = 200
      · subst hst
        rw [Authenticate_200 s w body hnet]
        cases hdec : unmarshalAuthResponse body with
        | mk authResp err =>
          cases err with
          | some e => simp
          | none => simp
      · rw [Authenticate_status s w status body hnet hst]; simp

/-- `RefreshAuthentication` that does not succeed leaves the adapter as it was. -/
theorem RefreshAuthentication_not_ok_same (s : SicrediAdapter) (w : World)
    (h : (RefreshAuthentication s w).1 ≠ .ok ()) : (RefreshAuthentication s w).2.1 = s := by
  cases hheld : s.token with
  | none => simp [RefreshAuthentication, hheld]
  | some token =>
    cases hnet : w.net w.sent.length with
    | failed err => rw [RefreshAuthentication_failed s w token err hheld hnet]
    | response status body readErr =>
      by_cases hst : status = 200
      · subst hst
        rw [RefreshAuthentication_200 s w token body readErr hheld hnet] at h ⊢
        cases hdec : unmarshalAuthResponse body with
        | mk authResp err =>
          rw [hdec] at h
          cases err with
          | some e => rfl
          | none => exact absurd rfl h
      · rw [RefreshAuthentication_status s w token status body readErr hheld hnet hst] at h ⊢
        exact Authenticate_not_ok_same s _ h

end Sicredi

namespace Sicoob

/-- `Authenticate` that does not succeed leaves the client as it was. -/
theorem client_Authenticate_not_ok_same (c : Client) (w : World)
    (h : (Authenticate c w).1 ≠ .ok ()) : (Authenticate c w).2.1 = c := by
  rcases hv : tokenStillValid c w with ⟨b, w0⟩
  cases b with
  | true => rw [client_Authenticate_valid c w (by rw [hv])]
  | false =>
    cases hnet : w0.net w0.sent.length with
    | failed err => rw [client_Authenticate_failed c w w0 err hv hnet]
    | response status body readErr =>
      by_cases hst : status = 200
      · subst hst
        rw [client_Authenticate_200 c w w0 body readErr hv hnet] at h ⊢
        cases hdec : unmarshalTokenResponse body with
        | mk tokenResp err =>
          rw [hdec] at h
          cases err with
          | some e => rfl
          | none => exact absurd rfl h
      · rw [client_Authenticate_status c w w0 status body readErr hv hnet hst]

end Sicoob

/-- C28: when `Authenticate` of either adapter returns an error, and when the Sicredi
`RefreshAuthentication` returns an error, the adapter is left exactly as it was before the
call: the held token and its expiry instants are unchanged. -/
theorem authentication_atomic :
    (∀ (s : Sicredi.SicrediAdapter) (w : World) (e : GoError),
      (Sicredi.Authenticate s w).1 = .error e →
      (Sicredi.Authenticate s w).2.1 = s ∧ (Sicredi.Authenticate s w).2.1.token = s.token) ∧
    (∀ (s : Sicredi.SicrediAdapter) (w : World) (e : GoError),
      (Sicredi.RefreshAuthentication s w).1 = .error e →
      (Sicredi.RefreshAuthentication s w).2.1 = s ∧
        (Sicredi.RefreshAuthentication s w).2.1.token = s.token) ∧
    (∀ (c : Sicoob.Client) (w : World) (e : GoError),
      (Sicoob.Authenticate c w).1 = .error e →
      (Sicoob.Authenticate c w).2.1 = c ∧ (Sicoob.Authenticate c w).2.1.token = c.token ∧
        (Sicoob.Authenticate c w).2.1.tokenExpiry = c.tokenExpiry) := by
  refine ⟨?_, ?_, ?_⟩
  · intro s w e h
    have hs := Sicredi.Authenticate_not_ok_same s w (by rw [h]; simp)
    exact ⟨hs, by rw [hs]⟩
  · intro s w e h
    have hs := Sicredi.RefreshAuthentication_not_ok_same s w (by rw [h]; simp)
    exact ⟨hs, by rw [hs]⟩
  · intro c w e h
    have hs := Sicoob.client_Authenticate_not_ok_same c w (by rw [h]; simp)
    exact ⟨hs, by rw [hs], by rw [hs]⟩

/-- Witness of C28: the refresh of an adapter holding a token answered 401, followed by a
password grant answered 500: the token `old-access` is still held. -/
theorem authentication_atomic_witness :
    (Sicredi.RefreshAuthentication (Sicredi.adapterHolding (3600 * Second) (7200 * Second))
        (frozenWorld 0 [.response 401 "" none, .response 500 "" none])).1 =
      .error (.errorf "autenticação falhou (status 500): ") ∧
    (Sicredi.RefreshAuthentication (Sicredi.adapterHolding (3600 * Second) (7200 * Second))
        (frozenWorld 0 [.response 401 "" none, .response 500 "" none])).2.1.token =
      (Sicredi.adapterHolding (3600 * Second) (7200 * Second)).token :=
  ⟨by decide,
    (authentication_atomic.2.1 (Sicredi.adapterHolding (3600 * Second) (7200 * Second))
      (frozenWorld 0 [.response 401 "" none, .response 500 "" none])
      (.errorf "autenticação falhou (status 500): ") (by decide)).2⟩

end Kamino

namespace Kamino

namespace Sicredi

/-- `RefreshAuthentication` on a held token never dereferences a nil pointer. -/
theorem RefreshAuthentication_no_panic (s : SicrediAdapter) (w : World) (token : TokenInfo)
    (hheld : s.token = some token) : (RefreshAuthentication s w).1 ≠ .panic := by
  cases hnet : w.net w.sent.length with
  | failed err => rw [RefreshAuthentication_failed s w token err hheld hnet]; simp
  | response status body readErr =>
    by_cases hst : status = 200
    · subst hst
      rw [RefreshAuthentication_200 s w token body readErr hheld hnet]
      cases hdec : unmarshalAuthResponse body with
      | mk authResp err =>
        cases err with
        | some e => simp
        | none => simp
    · rw [RefreshAuthentication_status s w token status body readErr hheld hnet hst]
      exact Authenticate_no_panic s _

/-- `ensureValidToken` never dereferences a nil pointer. -/
theorem ensureValidToken_no_panic (s : SicrediAdapter) (w : World) :
    (ensureValidToken s w).1 ≠ .panic := by
  cases hheld : s.token with
  | none =>
    have heq : ensureValidToken s w = Authenticate s w := by
      simp only [ensureValidToken, ensureValidTokenWith, hheld]
    rw [heq]
    exact Authenticate_no_panic s w
  | some token =>
    rw [ensureValidToken_held s w token hheld]
    split
    · split
      · exact RefreshAuthentication_no_panic s _ token hheld
      · exact Authenticate_no_panic s _
    · simp

end Sicredi

namespace Sicoob

/-- The validity test succeeds only on a held token. -/
theorem tokenStillValid_true_held (c : Client) (w : World)
    (h : (tokenStillValid c w).1 = true) : ∃ token, c.token = some token := by
  cases hc : c.token with
  | none =>
    rw [tokenStillValid_none c w hc] at h
    exact absurd h (by simp)
  | some token => exact ⟨token, rfl⟩

/-- After a successful `Authenticate` a token is held. -/
theorem client_Authenticate_ok_token (c : Client) (w : World)
    (hok : (Authenticate c w).1 = .ok ()) : ∃ token, (Authenticate c w).2.1.token = some token := by
  rcases hv : tokenStillValid c w with ⟨b, w0⟩
  cases b with
  | true =>
    rw [client_Authenticate_valid c w (by rw [hv])]
    exact tokenStillValid_true_held c w (by rw [hv])
  | false =>
    cases hnet : w0.net w0.sent.length with
    | failed err =>
      rw [client_Authenticate_failed c w w0 err hv hnet] at hok
      exact absurd hok (by simp)
    | response status body readErr =>
      by_cases hst : status = 200
      · subst hst
        rw [client_Authenticate_200 c w w0 body readErr hv hnet] at hok ⊢
        cases hdec : unmarshalTokenResponse body with
        | mk tokenResp err =>
          rw [hdec] at hok
          cases err with
          | some e => exact absurd hok (by simp)
          | none => exact ⟨tokenResp, rfl⟩
      · rw [client_Authenticate_status c w w0 status body readErr hv hnet hst] at hok
        exact absurd hok (by simp)

/-- `Authenticate` never dereferences a nil pointer. -/
theorem client_Authenticate_no_panic (c : Client) (w : World) :
    (Authenticate c w).1 ≠ .panic := by
  rcases hv : tokenStillValid c w with ⟨b, w0⟩
  cases b with
  | true => rw [client_Authenticate_valid c w (by rw [hv])]; simp
  | false =>
    cases hnet : w0.net w0.sent.length with
    | failed err => rw [client_Authenticate_failed c w w0 err hv hnet]; simp
    | response status body readErr =>
      by_cases hst : status = 200
      · subst hst
        rw [client_Authenticate_200 c w w0 body readErr hv hnet]
        cases hdec : unmarshalTokenResponse body with
        | mk tokenResp err =>
          cases err with
          | some e => simp
          | none => simp
      · rw [client_Authenticate_status c w w0 status body readErr hv hnet hst]; simp

/-- `getAccessToken` never dereferences a nil pointer. -/
theorem getAccessToken_no_panic (c : Client) (w : World) :
    (getAccessToken c w).1 ≠ .panic := by
  have slow : ∀ w0 : World, (match Authenticate c w0 with
      | (.error err, c1, w1) => ((.error err : Outcome String), c1, w1)
      | (.panic, c1, w1) => (.panic, c1, w1)
      | (.ok (), c1, w1) =>
        match c1.token with
        | some token => (.ok token.AccessToken, c1, w1)
        | none => (.panic, c1, w1)).1 ≠ .panic := by
    intro w0
    have hp := client_Authenticate_no_panic c w0
    have hk := client_Authenticate_ok_token c w0
    rcases hA : Authenticate c w0 with ⟨out, c1, w1⟩
    rw [hA] at hp hk
    cases out with
    | error err => simp
    | panic => exact absurd rfl hp
    | ok u =>
      obtain ⟨token, htok⟩ := hk rfl
      simp only at htok
      simp only [htok]
      simp
  unfold getAccessToken
  rcases hv : tokenStillValid c w with ⟨b, w0⟩
  cases hc : c.token with
  | none => exact slow w0
  | some token =>
    cases b with
    | true => simp
    | false => exact slow w0

end Sicoob

/-- C29: in sequential use no token dereference hits a nil token. The Sicredi
`ensureValidToken` never panics: without a token it is `Authenticate` and sends no refresh
grant, and `RefreshAuthentication` panics exactly when no token is held. When it returns no
error a token is held afterwards and `setCommonHeaders` writes `Authorization: Bearer` with
its access token. A successful Sicoob `Authenticate` leaves a token held, so `getAccessToken`
never panics. -/
theorem token_dereferences_safe :
    (∀ (s : Sicredi.SicrediAdapter) (w : World), (Sicredi.ensureValidToken s w).1 ≠ .panic) ∧
    (∀ (s : Sicredi.SicrediAdapter) (w : World),
      (Sicredi.RefreshAuthentication s w).1 = .panic ↔ s.token = none) ∧
    (∀ (s : Sicredi.SicrediAdapter) (w : World), s.token = none →
      Sicredi.ensureValidToken s w = Sicredi.Authenticate s w ∧
      refreshCalls (sentSince w (Sicredi.ensureValidToken s w).2.2) = 0) ∧
    (∀ (s s1 : Sicredi.SicrediAdapter) (w w1 : World),
      Sicredi.ensureValidToken s w = (.ok (), s1, w1) →
      ∃ token, s1.token = some token ∧
        Sicredi.setCommonHeaders s1 =
          [("x-api-key", s1.config.APIKey),
           ("Authorization", "Bearer " ++ token.AccessToken)]) ∧
    (∀ (c : Sicoob.Client) (w : World), (Sicoob.Authenticate c w).1 = .ok () →
      ∃ token, (Sicoob.Authenticate c w).2.1.token = some token) ∧
    (∀ (c : Sicoob.Client) (w : World), (Sicoob.getAccessToken c w).1 ≠ .panic) := by
  refine ⟨Sicredi.ensureValidToken_no_panic, ?_, ?_, ?_, Sicoob.client_Authenticate_ok_token,
    Sicoob.getAccessToken_no_panic⟩
  · intro s w
    constructor
    · intro h
      cases hheld : s.token with
      | none => rfl
      | some token => exact absurd h (Sicredi.RefreshAuthentication_no_panic s w token hheld)
    · intro h
      simp [Sicredi.RefreshAuthentication, h]
  · intro s w hnone
    have heq : Sicredi.ensureValidToken s w = Sicredi.Authenticate s w := by
      simp only [Sicredi.ensureValidToken, Sicredi.ensureValidTokenWith, hnone]
    refine ⟨heq, ?_⟩
    rw [heq, sentSince_append w _ _ (Sicredi.Authenticate_sent s w)]
    rfl
  · intro s s1 w w1 h
    obtain ⟨token, htok⟩ := Sicredi.ensureValidToken_ok_held s s1 w w1 h
    exact ⟨token, htok, by simp only [Sicredi.setCommonHeaders, htok]⟩

/-- Witness of C29: `ensureValidToken` of a fresh adapter answered 200 with a token. -/
theorem token_dereferences_safe_witness :
    ∃ token, (Sicredi.ensureValidToken Sicredi.freshAdapter
        (frozenWorld 0 [.response 200 bodyWithRefresh none])).2.1.token = some token ∧
      Sicredi.setCommonHeaders (Sicredi.ensureValidToken Sicredi.freshAdapter
        (frozenWorld 0 [.response 200 bodyWithRefresh none])).2.1 =
        [("x-api-key", (Sicredi.ensureValidToken Sicredi.freshAdapter
            (frozenWorld 0 [.response 200 bodyWithRefresh none])).2.1.config.APIKey),
         ("Authorization", "Bearer " ++ token.AccessToken)] := by
  have key : ∀ x : Outcome Unit × Sicredi.SicrediAdapter × World, x.1 = .ok () →
      x = (.ok (), x.2.1, x.2.2) := by
    rintro ⟨o, a, b⟩ h
    simp only at h
    subst h
    rfl
  exact token_dereferences_safe.2.2.2.1 Sicredi.freshAdapter _
    (frozenWorld 0 [.response 200 bodyWithRefresh none]) _ (key _ (by decide))

end Kamino

namespace Kamino

namespace Sicoob

/-- `Authenticate` sends nothing or the one token request. -/
theorem client_Authenticate_sent_cases (c : Client) (w : World) :
    (Authenticate c w).2.2.sent = w.sent ∨
      (Authenticate c w).2.2.sent = w.sent ++ [authRequest c] := by
  rcases hv : tokenStillValid c w with ⟨b, w0⟩
  have hw := (tokenStillValid_world c w).1
  rw [hv] at hw
  simp only at hw
  cases b with
  | true =>
    left
    rw [client_Authenticate_valid c w (by rw [hv]), hv]
    exact hw
  | false =>
    right
    rw [client_Authenticate_sent c w w0 hv, hw]

/-- `Authenticate` on a held token that has not expired. -/
theorem client_Authenticate_held_valid (c : Client) (w : World) (token : TokenResponse)
    (hheld : c.token = some token) (hvalid : w.clock w.reads < c.tokenExpiry) :
    Authenticate c w = (.ok (), c, { w with reads := w.reads + 1 }) := by
  have hv := tokenStillValid_some c w token hheld
  rw [client_Authenticate_valid c w (by rw [hv]; simpa using hvalid), hv]

end Sicoob

/-- C30: `Authenticate` of a Sicoob client holding a token, called before `tokenExpiry`,
returns no error, sends no request and leaves the client (token and `tokenExpiry`) as it
was; only the clock was read. So when a call of `Authenticate` has succeeded and the next
call comes before the `tokenExpiry` then held, the second call sends nothing, and the two
calls together send at most one token request. -/
theorem sicoob_valid_token_reused :
    (∀ (c : Sicoob.Client) (w : World) (token : Sicoob.TokenResponse),
      c.token = some token → w.clock w.reads < c.tokenExpiry →
      Sicoob.Authenticate c w = (.ok (), c, { w with reads := w.reads + 1 }) ∧
      sentSince w (Sicoob.Authenticate c w).2.2 = []) ∧
    (∀ (c : Sicoob.Client) (w : World),
      (Sicoob.Authenticate c w).1 = .ok () →
      (Sicoob.Authenticate c w).2.2.clock (Sicoob.Authenticate c w).2.2.reads <
        (Sicoob.Authenticate c w).2.1.tokenExpiry →
      (Sicoob.Authenticate (Sicoob.Authenticate c w).2.1 (Sicoob.Authenticate c w).2.2).1
        = .ok () ∧
      (Sicoob.Authenticate (Sicoob.Authenticate c w).2.1 (Sicoob.Authenticate c w).2.2).2.1
        = (Sicoob.Authenticate c w).2.1 ∧
      sentSince (Sicoob.Authenticate c w).2.2
        (Sicoob.Authenticate (Sicoob.Authenticate c w).2.1 (Sicoob.Authenticate c w).2.2).2.2
        = [] ∧
      (sentSince w
        (Sicoob.Authenticate (Sicoob.Authenticate c w).2.1
          (Sicoob.Authenticate c w).2.2).2.2).length ≤ 1) := by
  constructor
  · intro c w token hheld hvalid
    have h := Sicoob.client_Authenticate_held_valid c w token hheld hvalid
    refine ⟨h, ?_⟩
    rw [h]
    simp [sentSince]
  · intro c w hok hvalid
    obtain ⟨token, htok⟩ := Sicoob.client_Authenticate_ok_token c w hok
    have h := Sicoob.client_Authenticate_held_valid _ _ token htok hvalid
    rw [h]
    refine ⟨rfl, rfl, by simp [sentSince], ?_⟩
    rcases Sicoob.client_Authenticate_sent_cases c w with hs | hs
    · simp [sentSince, hs]
    · simp [sentSince, hs]

/-- Witness of C30: a fresh client authenticates (token of 3600 s, clock at 0), and the
second call sends nothing. -/
theorem sicoob_valid_token_reused_witness :
    (sentSince (frozenWorld 0 [.response 200 bodyWithoutRefresh none])
      (Sicoob.Authenticate
        (Sicoob.Authenticate Sicoob.freshClient
          (frozenWorld 0 [.response 200 bodyWithoutRefresh none])).2.1
        (Sicoob.Authenticate Sicoob.freshClient
          (frozenWorld 0 [.response 200 bodyWithoutRefresh none])).2.2).2.2).length ≤ 1 :=
  (sicoob_valid_token_reused.2 Sicoob.freshClient
    (frozenWorld 0 [.response 200 bodyWithoutRefresh none]) (by decide) (by decide)).2.2.2

end Kamino

namespace Kamino

namespace Sicredi

/-- The members written for the body of `AlterarDesconto`. -/
theorem descontoBody_members (desconto1 desconto2 desconto3 : Float64) :
    (descontoBody desconto1 desconto2 desconto3).members =
      (if desconto1.isPositive then [("valorDesconto1", encodeFloat desconto1)] else []) ++
      (if desconto2.isPositive then [("valorDesconto2", encodeFloat desconto2)] else []) ++
      (if desconto3.isPositive then [("valorDesconto3", encodeFloat desconto3)] else []) := by
  have h12 : "valorDesconto1".toList < "valorDesconto2".toList := by decide
  have h13 : "valorDesconto1".toList < "valorDesconto3".toList := by decide
  have h23 : "valorDesconto2".toList < "valorDesconto3".toList := by decide
  cases h1 : desconto1.isPositive <;> cases h2 : desconto2.isPositive <;>
    cases h3 : desconto3.isPositive <;>
    simp only [descontoBody, CommandBody.members, sortByKey, insertByKey, h1, h2,
      h3, h12, h13, h23, if_true, if_false, List.append_nil, List.nil_append, List.map,
      List.cons_append, Bool.false_eq_true]

/-- The members written for the body of `AlterarDataDesconto`. -/
theorem dataDescontoBody_members (data1 data2 data3 : String) :
    (dataDescontoBody data1 data2 data3).members =
      (if data1 ≠ "" then [("data1", some (encodeString data1))] else []) ++
      (if data2 ≠ "" then [("data2", some (encodeString data2))] else []) ++
      (if data3 ≠ "" then [("data3", some (encodeString data3))] else []) := by
  have h12 : "data1".toList < "data2".toList := by decide
  have h13 : "data1".toList < "data3".toList := by decide
  have h23 : "data2".toList < "data3".toList := by decide
  by_cases h1 : data1 = "" <;> by_cases h2 : data2 = "" <;> by_cases h3 : data3 = "" <;>
    simp only [dataDescontoBody, CommandBody.members, sortByKey, insertByKey, h1, h2,
      h3, h12, h13, h23, if_true, if_false, List.append_nil, List.nil_append, List.map,
      List.cons_append, ne_eq, not_true_eq_false, not_false_eq_true]

end Sicredi

open Sicredi in
/-- C26: the body `AlterarDesconto` hands to the command path has the member `valorDescontoN`
exactly when `dN > 0`, with the value `dN` (zero, negative and NaN tiers are left out), and
is the empty object when no tier is above zero; the body of `AlterarDataDesconto` has the
member `dataN` exactly when the N-th date is not empty, with that date as its value. -/
theorem discount_bodies_hold_given_tiers :
    (∀ desconto1 desconto2 desconto3 : Float64,
      (descontoBody desconto1 desconto2 desconto3).members =
        (if desconto1.isPositive then [("valorDesconto1", encodeFloat desconto1)] else []) ++
        (if desconto2.isPositive then [("valorDesconto2", encodeFloat desconto2)] else []) ++
        (if desconto3.isPositive then [("valorDesconto3", encodeFloat desconto3)] else []) ∧
      (∀ m : Member, m ∈ (descontoBody desconto1 desconto2 desconto3).members ↔
        (desconto1.isPositive = true ∧ m = ("valorDesconto1", encodeFloat desconto1)) ∨
        (desconto2.isPositive = true ∧ m = ("valorDesconto2", encodeFloat desconto2)) ∨
        (desconto3.isPositive = true ∧ m = ("valorDesconto3", encodeFloat desconto3))) ∧
      (desconto1.isPositive = false → desconto2.isPositive = false →
        desconto3.isPositive = false →
        comandoBody (some (descontoBody desconto1 desconto2 desconto3)) = .ok "\x7b\x7d")) ∧
    (∀ data1 data2 data3 : String,
      (dataDescontoBody data1 data2 data3).members =
        (if data1 ≠ "" then [("data1", some (encodeString data1))] else []) ++
        (if data2 ≠ "" then [("data2", some (encodeString data2))] else []) ++
        (if data3 ≠ "" then [("data3", some (encodeString data3))] else []) ∧
      (∀ m : Member, m ∈ (dataDescontoBody data1 data2 data3).members ↔
        (data1 ≠ "" ∧ m = ("data1", some (encodeString data1))) ∨
        (data2 ≠ "" ∧ m = ("data2", some (encodeString data2))) ∨
        (data3 ≠ "" ∧ m = ("data3", some (encodeString data3))))) ∧
    (∀ (L : Stdlib) (s : SicrediAdapter) (nossoNumero : String) (w : World),
      (∀ desconto1 desconto2 desconto3 : Float64,
        AlterarDesconto L s nossoNumero desconto1 desconto2 desconto3 w =
          executarComandoInstrucao L s nossoNumero "desconto"
            (some (descontoBody desconto1 desconto2 desconto3)) w) ∧
      (∀ data1 data2 data3 : String,
        AlterarDataDesconto L s nossoNumero data1 data2 data3 w =
          executarComandoInstrucao L s nossoNumero "data-desconto"
            (some (dataDescontoBody data1 data2 data3)) w)) ∧
    (∀ b : CommandBody, comandoBody (some b) = marshalMembers b.members) := by
  refine ⟨?_, ?_, fun _ _ _ _ => ⟨fun _ _ _ => rfl, fun _ _ _ => rfl⟩, fun _ => rfl⟩
  · intro d1 d2 d3
    refine ⟨descontoBody_members d1 d2 d3, ?_, ?_⟩
    · intro m
      rw [descontoBody_members]
      cases h1 : d1.isPositive <;> cases h2 : d2.isPositive <;> cases h3 : d3.isPositive <;>
        simp
    · intro h1 h2 h3
      simp only [comandoBody, marshalCommandBody, descontoBody_members, h1, h2, h3]
      rfl
  · intro data1 data2 data3
    refine ⟨dataDescontoBody_members data1 data2 data3, ?_⟩
    intro m
    rw [dataDescontoBody_members]
    by_cases h1 : data1 = "" <;> by_cases h2 : data2 = "" <;> by_cases h3 : data3 = "" <;>
      simp [h1, h2, h3]

open Sicredi in
/-- Witness of C26: the discounts 0, -5 and 0 give the empty object. -/
theorem discount_bodies_hold_given_tiers_witness :
    comandoBody (some (descontoBody (.finite false 0 0) (.finite true 5629499534213120 1024)
      (.finite false 0 0))) = .ok "\x7b\x7d" :=
  (discount_bodies_hold_given_tiers.1 (.finite false 0 0)
    (.finite true 5629499534213120 1024) (.finite false 0 0)).2.2 rfl rfl rfl

end Kamino
namespace Kamino

namespace Sicoob

/-- The keys `json.Marshal` writes for a `PixCobranca`. -/
theorem pixCobranca_memberKeys (p : PixCobranca) :
    memberKeys p.members =
      ["calendario", "devedor", "valor", "chave"] ++
      (if p.SolicitacaoPagador = "" then [] else ["solicitacaoPagador"]) ++
      (if p.InfoAdicionais.isEmpty then [] else ["infoAdicionais"]) := by
  rcases p with ⟨cal, dev, val, chave, sol, info⟩
  cases info <;> by_cases hs : sol = "" <;>
    simp [PixCobranca.members, memberKeys, structMember, stringMember, hs]

/-- The members of a `Pessoa` all have a value. -/
theorem pessoa_members_isSome (p : Pessoa) : p.members.all (fun m => m.2.isSome) = true := by
  have h : ∀ (k : String) (o : Bool) (v : String),
      (stringMember k o v).all (fun m => m.2.isSome) = true := by
    intro k o v
    unfold stringMember
    split_ifs <;> simp
  simp only [Pessoa.members, List.all_append, h, Bool.and_self]

end Sicoob

open Sicoob in
/-- C25: the body written for a PIX charge always holds the key `devedor`, also when the
debtor is the zero value: `omitempty` leaves out an empty string, a zero number and an empty
list, never a struct. The keys `solicitacaoPagador` and `infoAdicionais`, and `criacao` and
`expiracao` inside `calendario`, are left out when empty. -/
theorem pix_devedor_written_when_absent :
    (∀ p : PixCobranca,
      marshalPayload (.pix p) = marshalMembers p.members ∧
      memberKeys p.members =
        ["calendario", "devedor", "valor", "chave"] ++
        (if p.SolicitacaoPagador = "" then [] else ["solicitacaoPagador"]) ++
        (if p.InfoAdicionais.isEmpty then [] else ["infoAdicionais"]) ∧
      "devedor" ∈ memberKeys p.members ∧
      ("devedor", some (encodeObject p.Devedor.members)) ∈ p.members ∧
      ("calendario", some (encodeObject
        ((if p.Calendario.Criacao = "" then []
          else [("criacao", some (encodeString p.Calendario.Criacao))]) ++
         (if p.Calendario.Expiracao = 0 then []
          else [("expiracao", some (encodeInt p.Calendario.Expiracao))])))) ∈ p.members) ∧
    encodeObject Pessoa.zero.members =
      "\x7b\"tipoPessoa\":\"\",\"cpfCnpj\":\"\",\"nome\":\"\"\x7d".toList ∧
    marshalPayload (.pix pixSemDevedor) = .ok
      ("\x7b\"calendario\":\x7b\x7d,\"devedor\":\x7b\"tipoPessoa\":\"\",\"cpfCnpj\":\"\"," ++
       "\"nome\":\"\"\x7d,\"valor\":\x7b\"original\":\"10.00\"\x7d," ++
       "\"chave\":\"chave@empresa.com.br\"\x7d") ∧
    ((CriarCobrancaPix (jsonLib (fun _ => none)) (clientHolding 1000) pixSemDevedor
        (frozenWorld 0 [.response 201 "\x7b\x7d" none])).2.2.sent.map (fun r => r.body))
      = [.json
      ("\x7b\"calendario\":\x7b\x7d,\"devedor\":\x7b\"tipoPessoa\":\"\",\"cpfCnpj\":\"\"," ++
       "\"nome\":\"\"\x7d,\"valor\":\x7b\"original\":\"10.00\"\x7d," ++
       "\"chave\":\"chave@empresa.com.br\"\x7d")] := by
  refine ⟨fun p => ⟨rfl, pixCobranca_memberKeys p, ?_, ?_, ?_⟩, ?_, ?_, ?_⟩
  · rw [pixCobranca_memberKeys]; simp
  · simp [PixCobranca.members, structMember, Sicoob.pessoa_members_isSome]
  · rcases p with ⟨⟨cri, exp⟩, dev, val, chave, sol, info⟩
    by_cases h1 : cri = "" <;> by_cases h2 : exp = 0 <;>
      simp [PixCobranca.members, structMember, stringMember, intMember, h1, h2]
  · set_option maxRecDepth 100000 in decide
  · apply except_ok_of_toOption
    set_option maxRecDepth 100000 in decide
  · set_option maxRecDepth 100000 in decide

namespace Sicoob

/-- The configuration `NewClient` stores: the timeout defaults to 30 s. -/
theorem NewClient_cases (load : String → String → Except GoError Certificate)
    (config : Config) :
    (config.Environment = "production" ∧ config.CertPath ≠ "" ∧ config.KeyPath ≠ "" →
      (∀ err, load config.CertPath config.KeyPath = .error err →
        NewClient load config = (.error (.wrapf "erro ao carregar certificado" err),
          [(config.CertPath, config.KeyPath)])) ∧
      (∀ cert, load config.CertPath config.KeyPath = .ok cert →
        NewClient load config =
          (.ok ({ config := { config with
                      Timeout := if config.Timeout = 0 then 30 * Second else config.Timeout },
                  token := none, tokenExpiry := 0 },
                { Timeout := if config.Timeout = 0 then 30 * Second else config.Timeout,
                  Certificates := [cert] }),
            [(config.CertPath, config.KeyPath)]))) ∧
    (¬ (config.Environment = "production" ∧ config.CertPath ≠ "" ∧ config.KeyPath ≠ "") →
      NewClient load config =
        (.ok ({ config := { config with
                    Timeout := if config.Timeout = 0 then 30 * Second else config.Timeout },
                token := none, tokenExpiry := 0 },
              { Timeout := if config.Timeout = 0 then 30 * Second else config.Timeout,
                Certificates := [] }), [])) := by
  rcases config with ⟨a, b, c, d, env, cp, kp, t⟩
  refine ⟨fun hp => ⟨fun err hl => ?_, fun cert hl => ?_⟩, fun hp => ?_⟩
  · simp only at hp hl
    by_cases ht : t = 0
    · simp only [NewClient, ht, if_true, hp, ne_eq, not_false_eq_true, and_self, hl]
    · simp only [NewClient, ht, if_false, hp, ne_eq, not_false_eq_true, and_self, hl, if_true]
  · simp only at hp hl
    by_cases ht : t = 0
    · simp only [NewClient, ht, if_true, hp, ne_eq, not_false_eq_true, and_self, hl]
    · simp only [NewClient, ht, if_false, hp, ne_eq, not_false_eq_true, and_self, hl, if_true]
  · simp only at hp
    by_cases ht : t = 0
    · simp only [NewClient, ht, if_true, hp, if_false]
    · simp only [NewClient, ht, if_false, hp]

end Sicoob

open Sicoob in
/-- C21: `NewClient` calls `tls.LoadX509KeyPair`, once and on the two configured paths,
exactly when `Environment` is `"production"` and both `CertPath` and `KeyPath` are not
empty; the client it then returns holds the certificate loaded and nothing else, and it
fails, with the wrapped error of the load, exactly when that load fails. For every other
configuration nothing is loaded and a client without certificates is returned. A client
that holds a certificate sends its requests to the production URLs. -/
theorem client_certificate_only_in_production
    (load : String → String → Except GoError Certificate) (config : Config) :
    ((NewClient load config).2 ≠ [] ↔
      (config.Environment = "production" ∧ config.CertPath ≠ "" ∧ config.KeyPath ≠ "")) ∧
    (config.Environment = "production" ∧ config.CertPath ≠ "" ∧ config.KeyPath ≠ "" →
      (NewClient load config).2 = [(config.CertPath, config.KeyPath)] ∧
      (∀ cert, load config.CertPath config.KeyPath = .ok cert →
        ∃ c h, (NewClient load config).1 = .ok (c, h) ∧ h.Certificates = [cert]) ∧
      (∀ err, load config.CertPath config.KeyPath = .error err →
        (NewClient load config).1 = .error (.wrapf "erro ao carregar certificado" err))) ∧
    (¬ (config.Environment = "production" ∧ config.CertPath ≠ "" ∧ config.KeyPath ≠ "") →
      (NewClient load config).2 = [] ∧
      ∃ c h, (NewClient load config).1 = .ok (c, h) ∧ h.Certificates = []) ∧
    ((∃ err, (NewClient load config).1 = .error err) ↔
      ((config.CertPath, config.KeyPath) ∈ (NewClient load config).2 ∧
        ∃ err, load config.CertPath config.KeyPath = .error err)) ∧
    (∀ c h, (NewClient load config).1 = .ok (c, h) →
      c.token = none ∧ c.config.Environment = config.Environment ∧
      (h.Certificates ≠ [] →
        getAPIURL c = ProductionAPIURL ∧ getAuthURL c = ProductionAuthURL)) := by
  obtain ⟨hyes, hno⟩ := NewClient_cases load config
  by_cases hp : config.Environment = "production" ∧ config.CertPath ≠ "" ∧ config.KeyPath ≠ ""
  · cases hl : load config.CertPath config.KeyPath with
    | error err =>
      rw [(hyes hp).1 err hl]
      refine ⟨by simp [hp], fun _ => ⟨rfl, fun cert hc => by simp at hc, fun e he => ?_⟩,
        fun hn => absurd hp hn, by simp, fun c h hc => by simp at hc⟩
      rw [Except.error.injEq] at he; rw [he]
    | ok cert =>
      rw [(hyes hp).2 cert hl]
      refine ⟨by simp [hp], fun _ => ⟨rfl, fun cert1 hc => ?_, fun e he => by simp at he⟩,
        fun hn => absurd hp hn, by simp, fun c h hc => ?_⟩
      · rw [Except.ok.injEq] at hc; subst hc
        exact ⟨_, _, rfl, rfl⟩
      · simp only [Except.ok.injEq, Prod.mk.injEq] at hc
        obtain ⟨rfl, rfl⟩ := hc
        refine ⟨rfl, rfl, fun _ => ?_⟩
        simp only [getAPIURL, getAuthURL, hp.1, if_true, and_self]
  · rw [hno hp]
    refine ⟨by simp [hp], fun h => absurd h hp, fun _ => ⟨rfl, _, _, rfl, rfl⟩, by simp,
      fun c h hc => ?_⟩
    simp only [Except.ok.injEq, Prod.mk.injEq] at hc
    obtain ⟨rfl, rfl⟩ := hc
    exact ⟨rfl, rfl, fun hne => absurd rfl hne⟩

open Sicoob in
/-- Witness of C21: the production configuration with both paths set, on a file system that
holds the certificate. -/
theorem client_certificate_only_in_production_witness :
    (productionConfig.Environment = "production" ∧ productionConfig.CertPath ≠ "" ∧
      productionConfig.KeyPath ≠ "") ∧
    (NewClient sampleLoader productionConfig).2 =
      [(productionConfig.CertPath, productionConfig.KeyPath)] :=
  ⟨by decide,
    ((client_certificate_only_in_production sampleLoader productionConfig).2.1
      (by decide)).1⟩

/-- C22: the `http.Client` of a Sicoob client has the configured timeout, and 30 s when none
is configured; the `http.Client` of a Sicredi adapter has the configured timeout as it is,
so with none configured (`Timeout = 0`) its requests have no time limit instead of the
default of 30 s. -/
theorem default_timeout_only_sicoob :
    (∀ (load : String → String → Except GoError Certificate) (config : Sicoob.Config)
        (c : Sicoob.Client) (h : HttpClient),
      (Sicoob.NewClient load config).1 = .ok (c, h) →
        h.Timeout = (if config.Timeout = 0 then 30 * Second else config.Timeout) ∧
        c.config.Timeout = h.Timeout) ∧
    (∀ config : Sicredi.SicrediConfig,
      (Sicredi.NewSicrediAdapter.httpClient config).Timeout = config.Timeout ∧
      (Sicredi.NewSicrediAdapter config).config.Timeout = config.Timeout) ∧
    (Sicredi.NewSicrediAdapter.httpClient { Sicredi.sampleConfig with Timeout := 0 }).Timeout
      = 0 ∧
    (Sicredi.NewSicrediAdapter.httpClient { Sicredi.sampleConfig with Timeout := 0 }).Timeout
      ≠ 30 * Second := by
  refine ⟨fun load config c h hc => ?_, fun config => ⟨rfl, ?_⟩, rfl, by decide⟩
  · obtain ⟨hyes, hno⟩ := Sicoob.NewClient_cases load config
    by_cases hp : config.Environment = "production" ∧ config.CertPath ≠ "" ∧
        config.KeyPath ≠ ""
    · cases hl : load config.CertPath config.KeyPath with
      | error err => rw [(hyes hp).1 err hl] at hc; simp at hc
      | ok cert =>
        rw [(hyes hp).2 cert hl] at hc
        simp only [Except.ok.injEq, Prod.mk.injEq] at hc
        obtain ⟨rfl, rfl⟩ := hc
        exact ⟨rfl, rfl⟩
    · rw [hno hp] at hc
      simp only [Except.ok.injEq, Prod.mk.injEq] at hc
      obtain ⟨rfl, rfl⟩ := hc
      exact ⟨rfl, rfl⟩
  · unfold Sicredi.NewSicrediAdapter
    split_ifs <;> rfl

/-- Witness of C22: a Sicoob client built with no timeout configured. -/
theorem default_timeout_only_sicoob_witness :
    ∃ c h, (Sicoob.NewClient Sicoob.sampleLoader Sicoob.productionConfig).1 = .ok (c, h) ∧
      h.Timeout = 30 * Second :=
  ⟨_, _, rfl,
    (default_timeout_only_sicoob.1 Sicoob.sampleLoader Sicoob.productionConfig _ _ rfl).1⟩

end Kamino
namespace Kamino

namespace Webhook

/-- The loop of `normalizarTelefone` appends the digits it meets, in order. -/
theorem normalizarTelefoneLoop_eq (l resultado : List Char) :
    normalizarTelefoneLoop resultado l =
      resultado ++ l.filter (fun c => decide (48 ≤ c.toNat ∧ c.toNat ≤ 57)) := by
  induction l generalizing resultado with
  | nil => simp [normalizarTelefoneLoop]
  | cons c cs ih =>
    by_cases h : 48 ≤ c.toNat ∧ c.toNat ≤ 57
    · simp [normalizarTelefoneLoop, h, ih]
    · simp [normalizarTelefoneLoop, h, ih]

/-- The function `normalizarTelefone` keeps exactly the characters `'0'` to `'9'`. -/
theorem normalizarTelefone_toList (telefone : String) :
    (normalizarTelefone telefone).toList =
      telefone.toList.filter (fun c => decide (48 ≤ c.toNat ∧ c.toNat ≤ 57)) := by
  simp [normalizarTelefone, normalizarTelefoneLoop_eq]

/-- A text of ASCII characters has as many bytes as characters. -/
theorem len_of_ascii (l : List Char) (h : ∀ c ∈ l, c.toNat < 128) :
    (l.map utf8Len).sum = l.length := by
  induction l with
  | nil => rfl
  | cons c cs ih =>
    have hc : c.toNat < 128 := h c (List.mem_cons_self _ _)
    have := ih (fun d hd => h d (List.mem_cons_of_mem _ hd))
    simp only [List.map_cons, List.sum_cons, List.length_cons, this, utf8Len, hc, if_true]
    omega

/-- The number of bytes of the normalised telephone is the number of its digits. -/
theorem len_normalizarTelefone (telefone : String) :
    len (normalizarTelefone telefone) =
      (telefone.toList.filter (fun c => decide (48 ≤ c.toNat ∧ c.toNat ≤ 57))).length := by
  unfold len
  rw [normalizarTelefone_toList]
  apply len_of_ascii
  intro c hc
  have := (List.mem_filter.mp hc).2
  simp only [decide_eq_true_eq] at this
  omega

/-- The function `isNumeric` holds of the texts made of `'0'` to `'9'`. -/
theorem isNumericLoop_iff (l : List Char) :
    isNumericLoop l = true ↔ ∀ c ∈ l, 48 ≤ c.toNat ∧ c.toNat ≤ 57 := by
  induction l with
  | nil => simp [isNumericLoop]
  | cons c cs ih =>
    by_cases h : c.toNat < 48 ∨ c.toNat > 57
    · simp only [isNumericLoop, h, if_true, Bool.false_eq_true, List.mem_cons, forall_eq_or_imp,
        false_iff, not_and]
      intro h1
      omega
    · simp only [isNumericLoop, h, if_false, ih, List.mem_cons, forall_eq_or_imp, iff_and_self]
      intro _
      omega

/-- The password test of the handler: four bytes, all digits, is four characters, all digits. -/
theorem senha_test (senha : String) :
    (len senha ≠ 4 ∨ isNumeric senha = false) ↔
      ¬ (senha.length = 4 ∧ ∀ c ∈ senha.toList, 48 ≤ c.toNat ∧ c.toNat ≤ 57) := by
  have hlen : senha.length = senha.toList.length := rfl
  by_cases hn : isNumeric senha = true
  · have hall := (isNumericLoop_iff senha.toList).mp hn
    have hl : len senha = senha.toList.length :=
      len_of_ascii _ (fun c hc => by have := hall c hc; omega)
    simp only [hn, hl, hlen, Bool.true_eq_false, or_false, not_and]
    constructor
    · intro h1 h2; exact absurd h2 h1
    · intro h1 h2; exact absurd hall (h1 h2)
  · have hn2 : isNumeric senha = false := by simpa using hn
    have hnot : ¬ ∀ c ∈ senha.toList, 48 ≤ c.toNat ∧ c.toNat ≤ 57 :=
      fun h => hn ((isNumericLoop_iff senha.toList).mpr h)
    simp only [hn2, or_true, true_iff, not_and]
    exact fun _ => hnot

/-- The answers of the handler on a bound request, by the checks it makes in order. -/
theorem consultarBoletos_cases (sum256 : String → Digest) (db : Database)
    (req : ConsultaBoletoRequest) :
    ((len (normalizarTelefone req.Telefone) < 10 ∨ len (normalizarTelefone req.Telefone) > 11) →
      consultarBoletos sum256 db (.ok req) = (invalidPhone, [])) ∧
    (¬ (len (normalizarTelefone req.Telefone) < 10 ∨
        len (normalizarTelefone req.Telefone) > 11) →
      ((len (TrimSpace req.Senha) ≠ 4 ∨ isNumeric (TrimSpace req.Senha) = false) →
        consultarBoletos sum256 db (.ok req) = (invalidPassword, [])) ∧
      (¬ (len (TrimSpace req.Senha) ≠ 4 ∨ isNumeric (TrimSpace req.Senha) = false) →
        (∃ code e, consultarBoletos sum256 db (.ok req) =
            (.error code e, [.usuario (normalizarTelefone req.Telefone)]) ∧
          (code = 404 ∨ code = 401) ∧
          (∀ usuario, buscarUsuarioPorTelefone db (normalizarTelefone req.Telefone) =
              .ok usuario →
            validarSenha sum256 (TrimSpace req.Senha) usuario.DocumentoHash
              usuario.DocumentoPrimeiros4 = false)) ∨
        (∃ usuario a, buscarUsuarioPorTelefone db (normalizarTelefone req.Telefone) =
            .ok usuario ∧
          validarSenha sum256 (TrimSpace req.Senha) usuario.DocumentoHash
            usuario.DocumentoPrimeiros4 = true ∧
          consultarBoletos sum256 db (.ok req) =
            (a, [.usuario (normalizarTelefone req.Telefone), .boletos usuario.ID]) ∧
          ((∃ e, a = .error 500 e) ∨ (∃ r, a = .ok 200 r))))) := by
  refine ⟨fun h => ?_, fun h => ⟨fun h2 => ?_, fun h2 => ?_⟩⟩
  · simp only [consultarBoletos, h, if_true, invalidPhone]
  · simp only [consultarBoletos, h, if_false, h2, if_true, invalidPassword]
  · cases hu : buscarUsuarioPorTelefone db (normalizarTelefone req.Telefone) with
    | error err =>
      have heq : consultarBoletos sum256 db (.ok req) =
          (.error 404 { Success := false, Error := "Telefone não encontrado no sistema.",
                        Code := "USER_NOT_FOUND" },
            [.usuario (normalizarTelefone req.Telefone)]) := by
        simp only [consultarBoletos, h, if_false, h2, hu]
      exact Or.inl ⟨404, _, heq, Or.inl rfl, fun u hu2 => by simp at hu2⟩
    | ok usuario =>
      cases hv : validarSenha sum256 (TrimSpace req.Senha) usuario.DocumentoHash
          usuario.DocumentoPrimeiros4 with
      | false =>
        have heq : consultarBoletos sum256 db (.ok req) =
            (.error 401 { Success := false,
                          Error := "Senha incorreta. A senha são os 4 primeiros dígitos " ++
                            "do seu CPF ou CNPJ.",
                          Code := "INVALID_CREDENTIALS" },
              [.usuario (normalizarTelefone req.Telefone)]) := by
          simp only [consultarBoletos, h, if_false, h2, hu, hv, if_true]
        refine Or.inl ⟨401, _, heq, Or.inr rfl, fun u hu2 => ?_⟩
        rw [Except.ok.injEq] at hu2; subst hu2; exact hv
      | true =>
        right
        rcases hb : buscarBoletosPorUsuario db usuario.ID with ⟨boletos, _ | err⟩
        · have heq : consultarBoletos sum256 db (.ok req) =
              (.ok 200 { Success := true,
                         Message := if boletos.length = 0 then
                             "Nenhum boleto encontrado para este cliente"
                           else "Boletos encontrados com sucesso",
                         Cliente := usuario.Nome, Total := boletos.length,
                         Boletos := boletos },
                [.usuario (normalizarTelefone req.Telefone), .boletos usuario.ID]) := by
            simp only [consultarBoletos, h, if_false, h2, hu, hv, hb, Bool.true_eq_false]
          exact ⟨usuario, _, rfl, hv, heq, Or.inr ⟨_, rfl⟩⟩
        · have heq : consultarBoletos sum256 db (.ok req) =
              (.error 500 { Success := false,
                            Error := "Erro ao buscar boletos. Tente novamente.",
                            Code := "INTERNAL_ERROR" },
                [.usuario (normalizarTelefone req.Telefone), .boletos usuario.ID]) := by
            simp only [consultarBoletos, h, if_false, h2, hu, hv, hb, Bool.true_eq_false]
          exact ⟨usuario, _, rfl, hv, heq, Or.inl ⟨_, rfl⟩⟩

end Webhook

open Webhook in
/-- C23: on a bound request the handler answers `400 INVALID_PHONE` exactly when the number
of characters `'0'` to `'9'` in `telefone` is not 10 or 11 (`normalizarTelefone` keeps
exactly those characters, in order); when it is 10 or 11, the handler answers
`400 INVALID_PASSWORD` exactly when `senha` without its leading and trailing white space
is not four characters `'0'` to `'9'`. With either answer no query is run. -/
theorem webhook_request_validation (sum256 : String → Digest) (db : Database)
    (req : ConsultaBoletoRequest) :
    (normalizarTelefone req.Telefone).toList =
      req.Telefone.toList.filter (fun c => decide (48 ≤ c.toNat ∧ c.toNat ≤ 57)) ∧
    ((consultarBoletos sum256 db (.ok req)).1 = invalidPhone ↔
      ¬ ((normalizarTelefone req.Telefone).length = 10 ∨
         (normalizarTelefone req.Telefone).length = 11)) ∧
    (((normalizarTelefone req.Telefone).length = 10 ∨
        (normalizarTelefone req.Telefone).length = 11) →
      ((consultarBoletos sum256 db (.ok req)).1 = invalidPassword ↔
        ¬ ((TrimSpace req.Senha).length = 4 ∧
           ∀ c ∈ (TrimSpace req.Senha).toList, 48 ≤ c.toNat ∧ c.toNat ≤ 57))) ∧
    (((consultarBoletos sum256 db (.ok req)).1 = invalidPhone ∨
        (consultarBoletos sum256 db (.ok req)).1 = invalidPassword) →
      (consultarBoletos sum256 db (.ok req)).2 = []) := by
  obtain ⟨hphone, hrest⟩ := consultarBoletos_cases sum256 db req
  have hlen : (normalizarTelefone req.Telefone).length =
      len (normalizarTelefone req.Telefone) := by
    rw [len_normalizarTelefone, ← normalizarTelefone_toList]; rfl
  have hne : invalidPassword ≠ invalidPhone := by decide
  have hother : ¬ (len (normalizarTelefone req.Telefone) < 10 ∨
        len (normalizarTelefone req.Telefone) > 11) →
      ¬ (len (TrimSpace req.Senha) ≠ 4 ∨ isNumeric (TrimSpace req.Senha) = false) →
      (consultarBoletos sum256 db (.ok req)).1 ≠ invalidPhone ∧
      (consultarBoletos sum256 db (.ok req)).1 ≠ invalidPassword ∧
      (consultarBoletos sum256 db (.ok req)).2 ≠ [] := by
    intro h h2
    rcases (hrest h).2 h2 with ⟨code, e, heq, hcode, _⟩ | ⟨u, a, _, _, heq, ha⟩
    · rw [heq]
      refine ⟨?_, ?_, by simp⟩ <;>
        · simp only [invalidPhone, invalidPassword, ne_eq, Answer.error.injEq, not_and]
          intro hc; omega
    · rw [heq]
      rcases ha with ⟨e, rfl⟩ | ⟨r, rfl⟩
      · refine ⟨?_, ?_, by simp⟩ <;>
          simp [invalidPhone, invalidPassword]
      · refine ⟨?_, ?_, by simp⟩ <;>
          simp [invalidPhone, invalidPassword]
  refine ⟨normalizarTelefone_toList _, ?_, ?_, ?_⟩
  · rw [hlen]
    by_cases h : len (normalizarTelefone req.Telefone) < 10 ∨
        len (normalizarTelefone req.Telefone) > 11
    · rw [hphone h]
      simp only [true_iff]
      omega
    · by_cases h2 : len (TrimSpace req.Senha) ≠ 4 ∨ isNumeric (TrimSpace req.Senha) = false
      · rw [((hrest h).1 h2)]
        simp only [hne, false_iff, not_not]
        omega
      · simp only [(hother h h2).1, false_iff, not_not]
        omega
  · rw [hlen]
    intro hok
    have h : ¬ (len (normalizarTelefone req.Telefone) < 10 ∨
        len (normalizarTelefone req.Telefone) > 11) := by omega
    rw [← senha_test]
    by_cases h2 : len (TrimSpace req.Senha) ≠ 4 ∨ isNumeric (TrimSpace req.Senha) = false
    · rw [((hrest h).1 h2)]
      simp only [true_iff]
      exact h2
    · simp only [(hother h h2).2.1, false_iff]
      exact h2
  · intro hans
    by_cases h : len (normalizarTelefone req.Telefone) < 10 ∨
        len (normalizarTelefone req.Telefone) > 11
    · rw [hphone h]
    · by_cases h2 : len (TrimSpace req.Senha) ≠ 4 ∨ isNumeric (TrimSpace req.Senha) = false
      · rw [((hrest h).1 h2)]
      · rcases hans with ha | ha
        · exact absurd ha (hother h h2).1
        · exact absurd ha (hother h h2).2.1

open Webhook in
/-- Witness of C23: the telephone `(51) 99988-7766` has eleven digits, so the answer to it
with the password `12a4` is `400 INVALID_PASSWORD`. -/
theorem webhook_request_validation_witness :
    ((normalizarTelefone "(51) 99988-7766").length = 10 ∨
      (normalizarTelefone "(51) 99988-7766").length = 11) ∧
    ((consultarBoletos sampleSum256 sampleDatabase
        (.ok { Telefone := "(51) 99988-7766", Senha := " 12a4 " })).1 = invalidPassword ↔
      ¬ ((TrimSpace " 12a4 ").length = 4 ∧
         ∀ c ∈ (TrimSpace " 12a4 ").toList, 48 ≤ c.toNat ∧ c.toNat ≤ 57)) :=
  ⟨by decide,
    (webhook_request_validation sampleSum256 sampleDatabase
      { Telefone := "(51) 99988-7766", Senha := " 12a4 " }).2.2.1 (by decide)⟩

end Kamino
namespace Kamino

namespace Webhook

/-- The text `hex.EncodeToString` writes has two characters for each byte. -/
theorem hexEncodeToString_length (bytes : List (Fin 256)) :
    (hexEncodeToString bytes).length = 2 * bytes.length := by
  have h : (hexEncodeToString bytes).length =
      (bytes.flatMap (fun b => [hexDigit (b.val / 16), hexDigit (b.val % 16)])).length := rfl
  rw [h]
  clear h
  induction bytes with
  | nil => rfl
  | cons b bs ih =>
    simp only [List.flatMap_cons, List.length_append, List.length_cons, List.length_nil, ih]
    omega

/-- The text `hex.EncodeToString` writes is made of lower-case hexadecimal digits. -/
theorem hexEncodeToString_chars (bytes : List (Fin 256)) :
    ∀ c ∈ (hexEncodeToString bytes).toList, c ∈ "0123456789abcdef".toList := by
  have hd : ∀ n, n < 16 → hexDigit n ∈ "0123456789abcdef".toList := by decide
  intro c hc
  have h : (hexEncodeToString bytes).toList =
      bytes.flatMap (fun b => [hexDigit (b.val / 16), hexDigit (b.val % 16)]) := rfl
  rw [h, List.mem_flatMap] at hc
  obtain ⟨b, _, hb⟩ := hc
  simp only [List.mem_cons, List.mem_singleton, List.not_mem_nil, or_false] at hb
  rcases hb with rfl | rfl
  · exact hd _ (by have := b.isLt; omega)
  · exact hd _ (by omega)

/-- The hash `generateHash` returns has 64 characters. -/
theorem generateHash_length (sum256 : String → Digest) (s : String) :
    (generateHash sum256 s).length = 64 := by
  unfold generateHash
  rw [hexEncodeToString_length, (sum256 s).size]

/-- The method `validarSenha`, as a condition. -/
theorem validarSenha_eq_true (sum256 : String → Digest)
    (senha documentoHash primeiros4 : String) :
    validarSenha sum256 senha documentoHash primeiros4 = true ↔
      ((primeiros4 ≠ "" ∧ senha = primeiros4) ∨
        (generateHash sum256 senha).toList <+: documentoHash.toList) := by
  unfold validarSenha HasPrefix
  by_cases h : primeiros4 ≠ "" ∧ senha = primeiros4
  · rw [if_pos h]
    exact ⟨fun _ => Or.inl h, fun _ => rfl⟩
  · rw [if_neg h, List.isPrefixOf_iff_prefix]
    exact ⟨fun hp => Or.inr hp, fun hp => hp.resolve_left h⟩

end Webhook

open Webhook in
/-- C24: `validarSenha` accepts a password exactly when the stored first four digits are not
empty and equal to it, or the stored hash begins with the hash of the password, which is
the 64 lower-case hexadecimal digits of its SHA-256. So with no stored digits and a stored
hash of fewer than 64 characters no password is accepted. The handler runs the boleto query
only for a user that was found and for whom `validarSenha` returned true. -/
theorem validarSenha_accepts_iff (sum256 : String → Digest) :
    (∀ senha documentoHash primeiros4 : String,
      (validarSenha sum256 senha documentoHash primeiros4 = true ↔
        ((primeiros4 ≠ "" ∧ senha = primeiros4) ∨
          (generateHash sum256 senha).toList <+: documentoHash.toList)) ∧
      (primeiros4 = "" → documentoHash.length < 64 →
        validarSenha sum256 senha documentoHash primeiros4 = false)) ∧
    (∀ s : String, generateHash sum256 s = hexEncodeToString (sum256 s).bytes ∧
      (generateHash sum256 s).length = 64 ∧
      ∀ c ∈ (generateHash sum256 s).toList, c ∈ "0123456789abcdef".toList) ∧
    (∀ (db : Database) (req : ConsultaBoletoRequest) (userID : String),
      DBCall.boletos userID ∈ (consultarBoletos sum256 db (.ok req)).2 →
        ∃ usuario,
          buscarUsuarioPorTelefone db (normalizarTelefone req.Telefone) = .ok usuario ∧
          usuario.ID = userID ∧
          validarSenha sum256 (TrimSpace req.Senha) usuario.DocumentoHash
            usuario.DocumentoPrimeiros4 = true) ∧
    (∀ (db : Database) (err : GoError) (userID : String),
      DBCall.boletos userID ∉ (consultarBoletos sum256 db (.error err)).2) := by
  refine ⟨fun senha documentoHash primeiros4 =>
      ⟨validarSenha_eq_true sum256 senha documentoHash primeiros4, fun h1 h2 => ?_⟩,
    fun s => ⟨rfl, generateHash_length sum256 s, hexEncodeToString_chars _⟩,
    fun db req userID hmem => ?_, fun db err userID => by simp [consultarBoletos]⟩
  · cases hv : validarSenha sum256 senha documentoHash primeiros4 with
    | false => rfl
    | true =>
      rcases (validarSenha_eq_true sum256 senha documentoHash primeiros4).mp hv with h | h
      · exact absurd h1 h.1
      · have hle := h.length_le
        have h64 : (generateHash sum256 senha).toList.length = 64 :=
          generateHash_length sum256 senha
        have hd : documentoHash.toList.length = documentoHash.length := rfl
        omega
  · obtain ⟨hphone, hrest⟩ := consultarBoletos_cases sum256 db req
    by_cases h : len (normalizarTelefone req.Telefone) < 10 ∨
        len (normalizarTelefone req.Telefone) > 11
    · rw [hphone h] at hmem; simp at hmem
    · by_cases h2 : len (TrimSpace req.Senha) ≠ 4 ∨ isNumeric (TrimSpace req.Senha) = false
      · rw [(hrest h).1 h2] at hmem; simp at hmem
      · rcases (hrest h).2 h2 with ⟨code, e, heq, _, _⟩ | ⟨u, a, hu, hv, heq, _⟩
        · rw [heq] at hmem; simp at hmem
        · rw [heq] at hmem
          simp only [List.mem_cons, DBCall.boletos.injEq, List.mem_singleton,
            List.not_mem_nil, or_false, false_or, reduceCtorEq] at hmem
          exact ⟨u, hu, hmem.symm, hv⟩

open Webhook in
/-- Witness of C24: with no stored digits and the stored hash `0404` no password is
accepted, here `1234`. -/
theorem validarSenha_accepts_iff_witness :
    validarSenha sampleSum256 "1234" "0404" "" = false :=
  ((validarSenha_accepts_iff sampleSum256).1 "1234" "0404" "").2 rfl (by decide)

namespace Webhook

/-- The loop of `buscarBoletosPorUsuario` on rows that all scan. -/
theorem buscarBoletosLoop_ok (rs : List BoletoRow) (boletos : List BoletoResponse) :
    buscarBoletosLoop boletos (rs.map Except.ok) = .ok (boletos ++ rs.map boletoDaLinha) := by
  induction rs generalizing boletos with
  | nil => simp [buscarBoletosLoop]
  | cons r rest ih => simp [buscarBoletosLoop, ih]

end Webhook

open Webhook in
/-- C27: for a row whose `diasVencido` is a number of days (any 64-bit integer but the
least one), the boleto of the answer has `Vencido = (diasVencido > 0)` and
`DiasVencimento = -diasVencido`: `DiasVencimento` is positive exactly when the due date is
ahead, negative exactly when it has passed, `Vencido` holds exactly when `DiasVencimento`
is negative, and a boleto due today is not overdue and has `DiasVencimento = 0`. The
listing returns the boleto of every row, in order. -/
theorem overdue_flag_and_days (r : BoletoRow)
    (hlo : -9223372036854775808 < r.diasVencido)
    (hhi : r.diasVencido < 9223372036854775808) :
    (boletoDaLinha r).Vencido = decide (r.diasVencido > 0) ∧
    (boletoDaLinha r).DiasVencimento = -r.diasVencido ∧
    (0 < (boletoDaLinha r).DiasVencimento ↔ r.diasVencido < 0) ∧
    ((boletoDaLinha r).DiasVencimento < 0 ↔ 0 < r.diasVencido) ∧
    ((boletoDaLinha r).Vencido = true ↔ (boletoDaLinha r).DiasVencimento < 0) ∧
    (r.diasVencido = 0 →
      (boletoDaLinha r).Vencido = false ∧ (boletoDaLinha r).DiasVencimento = 0) ∧
    (∀ (db : Database) (userID : String) (rows : List BoletoRow) (err : Option GoError),
      db.queryBoletos userID = .ok { scans := rows.map Except.ok, err := err } →
        buscarBoletosPorUsuario db userID = (rows.map boletoDaLinha, err)) := by
  have hd : (boletoDaLinha r).DiasVencimento = -r.diasVencido := by
    simp only [boletoDaLinha]
    unfold wrapInt64
    omega
  have hv : (boletoDaLinha r).Vencido = decide (r.diasVencido > 0) := rfl
  refine ⟨hv, hd, ?_, ?_, ?_, ?_, ?_⟩
  · rw [hd]; omega
  · rw [hd]; omega
  · rw [hd, hv, decide_eq_true_eq]; omega
  · intro h0
    rw [hd, hv, h0]
    exact ⟨by decide, by decide⟩
  · intro db userID rows err hq
    simp only [buscarBoletosPorUsuario, hq, buscarBoletosLoop_ok, List.nil_append]

open Webhook in
/-- Witness of C27: the sample boleto fell due three days ago. -/
theorem overdue_flag_and_days_witness :
    (boletoDaLinha sampleRow).Vencido = true ∧ (boletoDaLinha sampleRow).DiasVencimento = -3 :=
  ⟨(overdue_flag_and_days sampleRow (by decide) (by decide)).1,
   (overdue_flag_and_days sampleRow (by decide) (by decide)).2.1⟩

end Kamino
namespace Kamino

/-- The member parser on a written member followed by a comma. -/
theorem parseMembers_comma (m : Member) (kv : String × JVal) (h : MemberReads m kv)
    (fuel : Nat) (r4 : List Char) (hfuel : (encodeMember m).length ≤ fuel) :
    parseMembers (fuel + 1) (encodeMember m ++ ',' :: r4) =
      (parseMembers fuel r4).map (fun p => (kv :: p.1, p.2)) := by
  obtain ⟨k, v⟩ := kv
  obtain ⟨key, val⟩ := m
  obtain ⟨hk, txt, hm, hp⟩ := h
  simp only at hk hm hp
  subst hk hm
  have hlen : txt.length ≤ fuel := by
    simp only [encodeMember, Option.getD_some, List.length_append, List.length_cons] at hfuel
    omega
  have hv := hp fuel (',' :: r4) hlen (Or.inr ⟨',', r4, rfl, Or.inl rfl⟩)
  have hsp : skipSpace (encodeMember (k, some txt) ++ ',' :: r4) =
      dquote :: (escapeChars k.toList ++ dquote :: (':' :: (txt ++ ',' :: r4))) := by
    simp [encodeMember, encodeString, skipSpace, isSpace, dquote]
  rw [parseMembers, hsp]
  simp only [if_true, scanString_escapeChars, List.reverse_nil, List.nil_append]
  have hsp2 : skipSpace (':' :: (txt ++ ',' :: r4)) = ':' :: (txt ++ ',' :: r4) := by
    simp [skipSpace, isSpace]
  have hsp3 : skipSpace (',' :: r4) = ',' :: r4 := by simp [skipSpace, isSpace]
  simp only [hsp2, hv, hsp3, joinUnits_writtenUnit]
  rfl

/-- The member parser on a written member followed by the closing brace. -/
theorem parseMembers_last (m : Member) (kv : String × JVal) (h : MemberReads m kv)
    (fuel : Nat) (r4 : List Char) (hfuel : (encodeMember m).length ≤ fuel) :
    parseMembers (fuel + 1) (encodeMember m ++ '}' :: r4) = some ([kv], r4) := by
  obtain ⟨k, v⟩ := kv
  obtain ⟨key, val⟩ := m
  obtain ⟨hk, txt, hm, hp⟩ := h
  simp only at hk hm hp
  subst hk hm
  have hlen : txt.length ≤ fuel := by
    simp only [encodeMember, Option.getD_some, List.length_append, List.length_cons] at hfuel
    omega
  have hv := hp fuel ('}' :: r4) hlen (Or.inr ⟨'}', r4, rfl, Or.inr (Or.inl rfl)⟩)
  have hsp : skipSpace (encodeMember (k, some txt) ++ '}' :: r4) =
      dquote :: (escapeChars k.toList ++ dquote :: (':' :: (txt ++ '}' :: r4))) := by
    simp [encodeMember, encodeString, skipSpace, isSpace, dquote]
  rw [parseMembers, hsp]
  simp only [if_true, scanString_escapeChars, List.reverse_nil, List.nil_append]
  have hsp2 : skipSpace (':' :: (txt ++ '}' :: r4)) = ':' :: (txt ++ '}' :: r4) := by
    simp [skipSpace, isSpace]
  have hsp3 : skipSpace ('}' :: r4) = '}' :: r4 := by simp [skipSpace, isSpace]
  simp only [hsp2, hv, hsp3, joinUnits_writtenUnit]
  rfl

/-- The member parser reads the written members of an object up to its closing brace. -/
theorem parseMembers_written (ms : List Member) (kvs : List (String × JVal))
    (h : List.Forall₂ MemberReads ms kvs) (hne : ms ≠ []) :
    ∀ (fuel : Nat) (rest : List Char),
      (commaSeparated (ms.map encodeMember)).length < fuel →
      parseMembers fuel (commaSeparated (ms.map encodeMember) ++ '}' :: rest) =
        some (kvs, rest) := by
  induction h with
  | nil => exact absurd rfl hne
  | @cons m kv ms1 kvs1 hm hrest ih =>
    intro fuel rest hfuel
    cases fuel with
    | zero => omega
    | succ f =>
      cases ms1 with
      | nil =>
        cases hrest
        simp only [List.map, commaSeparated] at hfuel ⊢
        exact parseMembers_last m kv hm f rest (by omega)
      | cons m2 ms2 =>
        simp only [List.map, commaSeparated, List.append_assoc, List.cons_append,
          List.length_append, List.length_cons] at hfuel ⊢
        rw [parseMembers_comma m kv hm f _ (by omega)]
        have := ih (by simp) f rest (by simp only [List.map]; omega)
        simp only [List.map] at this
        rw [this]
        rfl

/-- A written object is read back as the object of the values read for its members. -/
theorem parsesTo_encodeObject (ms : List Member) (kvs : List (String × JVal))
    (h : List.Forall₂ MemberReads ms kvs) : ParsesTo (encodeObject ms) (.obj kvs) := by
  intro fuel rest hfuel _
  cases fuel with
  | zero => simp [encodeObject] at hfuel
  | succ f =>
    cases ms with
    | nil =>
      cases h
      rw [parseValue]
      simp [encodeObject, commaSeparated, skipSpace, isSpace]
    | cons m ms1 =>
      have hne : m :: ms1 ≠ [] := by simp
      have hlen : (commaSeparated ((m :: ms1).map encodeMember)).length < f := by
        simp only [encodeObject, List.length_cons, List.length_append, List.length_nil]
          at hfuel
        omega
      have hpm := parseMembers_written (m :: ms1) kvs h hne f rest hlen
      obtain ⟨t, ht⟩ : ∃ t, commaSeparated ((m :: ms1).map encodeMember) =
          dquote :: t := by
        cases ms1 with
        | nil => exact ⟨_, by simp [commaSeparated, encodeMember, encodeString]; rfl⟩
        | cons m2 ms2 => exact ⟨_, by simp [commaSeparated, encodeMember, encodeString]; rfl⟩
      have hsp : skipSpace (encodeObject (m :: ms1) ++ rest) =
          '{' :: (commaSeparated ((m :: ms1).map encodeMember) ++ '}' :: rest) := by
        simp [encodeObject, skipSpace, isSpace]
      rw [parseValue, hsp]
      simp only [if_true]
      have hsp2 : skipSpace (commaSeparated ((m :: ms1).map encodeMember) ++ '}' :: rest) =
          dquote :: (t ++ '}' :: rest) := by
        rw [ht]
        simp [skipSpace, isSpace, dquote]
      rw [hsp2]
      have hq : ¬ dquote = '}' := by decide
      simp only [hpm, Option.map_some']
      split
      · rename_i heq
        simp only [List.cons.injEq] at heq
        exact absurd heq.1 hq
      · rfl

theorem mem_stringMember {m : Member} {key : String} {o : Bool} {v : String}
    (h : m ∈ stringMember key o v) : m = (key, some (encodeString v)) := by
  unfold stringMember at h
  split_ifs at h
  · simp at h
  · simpa using h

theorem mem_intMember {m : Member} {key : String} {o : Bool} {v : Int}
    (h : m ∈ intMember key o v) : m = (key, some (encodeInt v)) := by
  unfold intMember at h
  split_ifs at h
  · simp at h
  · simpa using h

theorem mem_floatMember {m : Member} {key : String} {o : Bool} {v : Float64}
    (h : m ∈ floatMember key o v) : m = (key, encodeFloat v) := by
  unfold floatMember at h
  split_ifs at h
  · simp at h
  · simpa using h

theorem mem_boolMember {m : Member} {key : String} {o : Bool} {v : Bool}
    (h : m ∈ boolMember key o v) : m = (key, some (encodeBool v)) := by
  unfold boolMember at h
  split_ifs at h
  · simp at h
  · simpa using h

/-- Members that are each read back are read back as a list, with the same keys. -/
theorem forall₂_memberReads (ms : List Member)
    (h : ∀ m ∈ ms, ∃ x, MemberReads m (m.1, x)) :
    ∃ kvs, List.Forall₂ MemberReads ms kvs ∧ kvs.map Prod.fst = ms.map Prod.fst := by
  induction ms with
  | nil => exact ⟨[], List.Forall₂.nil, rfl⟩
  | cons m ms ih =>
    obtain ⟨x, hx⟩ := h m (List.mem_cons_self _ _)
    obtain ⟨kvs, hk, hkeys⟩ := ih (fun m1 hm1 => h m1 (List.mem_cons_of_mem _ hm1))
    exact ⟨(m.1, x) :: kvs, List.Forall₂.cons hx hk, by simp [hkeys]⟩

theorem memberReads_string (key v : String) :
    MemberReads (key, some (encodeString v)) (key, .str v) :=
  ⟨rfl, _, rfl, parsesTo_encodeString v⟩

theorem memberReads_int (key : String) (v : Int) :
    MemberReads (key, some (encodeInt v)) (key, .num (String.mk (encodeInt v))) :=
  ⟨rfl, _, rfl, parsesTo_encodeInt v⟩

theorem memberReads_bool (key : String) (v : Bool) :
    MemberReads (key, some (encodeBool v)) (key, .bool v) :=
  ⟨rfl, _, rfl, parsesTo_encodeBool v⟩

theorem memberReads_float (key : String) (v : Float64) (txt : List Char)
    (h : encodeFloat v = some txt) :
    MemberReads (key, encodeFloat v) (key, .num (String.mk txt)) :=
  ⟨rfl, txt, h, parsesTo_encodeFloat v txt h⟩

namespace Sicoob

/-- The written members of a `Pessoa` are read back. -/
theorem pessoa_members_read (p : Pessoa) :
    ∃ kvs, List.Forall₂ MemberReads p.members kvs := by
  have h : ∀ m ∈ p.members, ∃ x, MemberReads m (m.1, x) := by
    simp only [Pessoa.members, List.forall_mem_append]
    refine ⟨⟨⟨⟨⟨⟨⟨⟨⟨?_, ?_⟩, ?_⟩, ?_⟩, ?_⟩, ?_⟩, ?_⟩, ?_⟩, ?_⟩, ?_⟩ <;>
      · intro m hm
        rw [mem_stringMember hm]
        exact ⟨_, memberReads_string _ _⟩
  obtain ⟨kvs, hk, _⟩ := forall₂_memberReads _ h
  exact ⟨kvs, hk⟩

end Sicoob

/-- Decoding the members of two lists in a row. -/
theorem decodeFields_append {α : Type} (setField : String → JVal → α → α × Bool)
    (l1 l2 : List (String × JVal)) (a : α) :
    (decodeFields setField (l1 ++ l2) a).1 =
      (decodeFields setField l2 (decodeFields setField l1 a).1).1 := by
  induction l1 generalizing a with
  | nil => rfl
  | cons kv l1 ih =>
    obtain ⟨k, v⟩ := kv
    show (decodeFields setField ((k, v) :: (l1 ++ l2)) a).1 = _
    simp only [decodeFields]
    exact ih _

/-- A part of the struct that no member of the list touches is as before. -/
theorem decodeFields_frame {α γ : Type} (setField : String → JVal → α → α × Bool)
    (proj : α → γ) (l : List (String × JVal))
    (h : ∀ kv ∈ l, ∀ a, proj (setField kv.1 kv.2 a).1 = proj a) (a : α) :
    proj (decodeFields setField l a).1 = proj a := by
  induction l generalizing a with
  | nil => rfl
  | cons kv l ih =>
    obtain ⟨k, v⟩ := kv
    simp only [decodeFields]
    rw [ih (fun kv1 h1 => h kv1 (List.mem_cons_of_mem _ h1))]
    exact h (k, v) (List.mem_cons_self _ _) a

theorem setWith_frame {α β γ : Type} (proj : α → γ) (decoded : Option β) (put : β → α)
    (a : α) (h : ∀ x, proj (put x) = proj a) : proj (setWith decoded put a).1 = proj a := by
  cases decoded with
  | none => rfl
  | some x => exact h x

theorem ite_fst_frame {α γ : Type} (proj : α → γ) (c : Prop) [Decidable c] (x y : α × Bool)
    (t : γ) (hx : proj x.1 = t) (hy : proj y.1 = t) : proj (if c then x else y).1 = t := by
  split_ifs
  · exact hx
  · exact hy

namespace Sicoob

set_option maxHeartbeats 4000000 in
/-- A member whose key does not select the field `valor` leaves the amount as it is. -/
theorem setField_frame_valor (key : String) (v : JVal) (b : Boleto)
    (h : keyMatches key "valor" = false) : (Boleto.setField key v b).1.Valor = b.Valor := by
  have hv : ¬ (keyMatches key "valor" = true) := by rw [h]; decide
  unfold Boleto.setField
  rw [if_neg hv]
  repeat' first
    | apply ite_fst_frame (fun x : Boleto => x.Valor)
    | exact setWith_frame (fun x : Boleto => x.Valor) _ _ _ (fun _ => rfl)
    | rfl

set_option maxHeartbeats 4000000 in
/-- A member whose key does not select the field `dataVencimento` leaves the due date as
it is. -/
theorem setField_frame_dataVencimento (key : String) (v : JVal) (b : Boleto)
    (h : keyMatches key "dataVencimento" = false) :
    (Boleto.setField key v b).1.DataVencimento = b.DataVencimento := by
  have hv : ¬ (keyMatches key "dataVencimento" = true) := by rw [h]; decide
  unfold Boleto.setField
  rw [if_neg hv]
  repeat' first
    | apply ite_fst_frame (fun x : Boleto => x.DataVencimento)
    | exact setWith_frame (fun x : Boleto => x.DataVencimento) _ _ _ (fun _ => rfl)
    | rfl

/-- The member `valor` sets the amount to the number read. -/
theorem setField_valor (lit : String) (x : Float64) (b : Boleto)
    (h : parseFloat64 lit = some x) :
    (Boleto.setField "valor" (.num lit) b).1 = { b with Valor := x } := by
  unfold Boleto.setField
  rw [if_neg (by decide), if_neg (by decide), if_neg (by decide), if_neg (by decide),
    if_pos (by decide)]
  simp only [decodeFloat, h, setWith]

/-- The member `dataVencimento` sets the due date to the string read. -/
theorem setField_dataVencimento (d : String) (b : Boleto) :
    (Boleto.setField "dataVencimento" (.str d) b).1 = { b with DataVencimento := d } := by
  unfold Boleto.setField
  rw [if_neg (by decide), if_neg (by decide), if_neg (by decide), if_neg (by decide),
    if_neg (by decide), if_pos (by decide)]
  simp only [decodeString, setWith]

end Sicoob

end Kamino
namespace Kamino

/-- A written 64-bit integer is read back by `strconv.ParseInt`. -/
theorem parseInt64_encodeInt (n : Int) (hlo : -9223372036854775808 ≤ n)
    (hhi : n ≤ 9223372036854775807) : parseInt64 (String.mk (encodeInt n)) = some n := by
  have hne := natDigits_ne_nil n.natAbs
  have hall : ((natDigits n.natAbs).map digitChar).all isDigit = true := by
    rw [List.all_eq_true]
    exact isDigit_map_digitChar _ (natDigits_lt _)
  have hval := digitsValue_natDigits n.natAbs
  have hemp : ((natDigits n.natAbs).map digitChar).isEmpty = false := by
    cases h : natDigits n.natAbs with
    | nil => exact absurd h hne
    | cons d ds => rfl
  unfold parseInt64 encodeInt
  by_cases hn : n < 0
  · rw [if_pos hn]
    simp only [string_mk_toList, if_true, hemp, hall, Bool.not_true, Bool.or_self,
      Bool.false_eq_true, if_false, hval]
    have : -(n.natAbs : Int) = n := by omega
    rw [this, if_pos ⟨hlo, hhi⟩]
  · rw [if_neg hn]
    cases h : natDigits n.natAbs with
    | nil => exact absurd h hne
    | cons d ds =>
      have hd : d < 10 := natDigits_lt n.natAbs d (by rw [h]; simp)
      have hc : ¬ digitChar d = '-' := by
        have := digitChar_toNat d hd
        intro hcon
        rw [hcon] at this
        have h45 : ('-' : Char).toNat = 45 := by decide
        omega
      rw [h] at hall hval hemp
      simp only [List.map_cons] at hall hval hemp ⊢
      simp only [string_mk_toList, hc, if_false, hemp, hall, Bool.not_true, Bool.or_self,
        Bool.false_eq_true, hval]
      have : (n.natAbs : Int) = n := by omega
      rw [this, if_pos ⟨hlo, hhi⟩]

/-- Members that each decode without error decode without error in a row. -/
theorem decodeFields_ok {α : Type} (setField : String → JVal → α → α × Bool)
    (l : List (String × JVal)) (h : ∀ kv ∈ l, ∀ a, (setField kv.1 kv.2 a).2 = true) (a : α) :
    (decodeFields setField l a).2 = true := by
  induction l generalizing a with
  | nil => rfl
  | cons kv l ih =>
    obtain ⟨k, v⟩ := kv
    simp only [decodeFields, Bool.and_eq_true]
    exact ⟨h (k, v) (List.mem_cons_self _ _) a,
      ih (fun kv1 h1 => h kv1 (List.mem_cons_of_mem _ h1)) _⟩

/-- Members that each decode without error decode without error in a row. -/
theorem decodeObject_ok {α : Type} (setField : String → JVal → α → Option α)
    (l : List (String × JVal)) (h : ∀ kv ∈ l, ∀ a, (setField kv.1 kv.2 a).isSome = true)
    (a : α) : (decodeObject setField l a).2 = true := by
  induction l generalizing a with
  | nil => rfl
  | cons kv l ih =>
    obtain ⟨k, v⟩ := kv
    have h1 := h (k, v) (List.mem_cons_self _ _) a
    obtain ⟨a1, ha1⟩ := Option.isSome_iff_exists.mp h1
    simp only at ha1
    simp only [decodeObject, ha1]
    exact ih (fun kv1 h1 => h kv1 (List.mem_cons_of_mem _ h1)) _

/-- Members that are each read back as a value with the property `Q` are read back as a
list, with the same keys, of values with `Q`. -/
theorem forall₂_memberReads_with (Q : String × JVal → Prop) (ms : List Member)
    (h : ∀ m ∈ ms, ∃ x, MemberReads m (m.1, x) ∧ Q (m.1, x)) :
    ∃ kvs, List.Forall₂ MemberReads ms kvs ∧ kvs.map Prod.fst = ms.map Prod.fst ∧
      ∀ kv ∈ kvs, Q kv := by
  induction ms with
  | nil => exact ⟨[], List.Forall₂.nil, rfl, by simp⟩
  | cons m ms ih =>
    obtain ⟨x, hx, hq⟩ := h m (List.mem_cons_self _ _)
    obtain ⟨kvs, hk, hkeys, hQ⟩ := ih (fun m1 hm1 => h m1 (List.mem_cons_of_mem _ hm1))
    refine ⟨(m.1, x) :: kvs, List.Forall₂.cons hx hk, by simp [hkeys], ?_⟩
    intro kv hkv
    rcases List.mem_cons.mp hkv with rfl | hkv
    · exact hq
    · exact hQ kv hkv

namespace Sicoob

set_option maxHeartbeats 4000000 in
/-- The written members of a `Pessoa` are read back as values that decode without error. -/
theorem pessoa_members_decode (p : Pessoa) :
    ∃ kvs, List.Forall₂ MemberReads p.members kvs ∧
      ∀ old, (decodePessoa (.obj kvs) old).2 = true := by
  have h : ∀ m ∈ p.members, ∃ x, MemberReads m (m.1, x) ∧
      (fun kv : String × JVal => ∀ a, (Pessoa.setField kv.1 kv.2 a).isSome = true)
        (m.1, x) := by
    simp only [Pessoa.members, List.forall_mem_append]
    refine ⟨⟨⟨⟨⟨⟨⟨⟨⟨?_, ?_⟩, ?_⟩, ?_⟩, ?_⟩, ?_⟩, ?_⟩, ?_⟩, ?_⟩, ?_⟩ <;>
      · intro m hm
        obtain rfl := mem_stringMember hm
        refine ⟨_, memberReads_string _ _, ?_⟩
        intro a
        dsimp only
        unfold Pessoa.setField
        repeat (first | rw [if_pos (by decide)] | rw [if_neg (by decide)])
        rfl
  obtain ⟨kvs, hk, _, hQ⟩ := forall₂_memberReads_with
    (fun kv : String × JVal => ∀ a, (Pessoa.setField kv.1 kv.2 a).isSome = true) _ h
  exact ⟨kvs, hk, fun old => decodeObject_ok _ _ hQ old⟩

end Sicoob

/-- The text written for a `float64` is parsed as the same number. -/
theorem parseFloat64_encodeFloat (x : Float64) (hx : x.Valid) (txt : List Char)
    (h : encodeFloat x = some txt) : parseFloat64 (String.mk txt) = some x := by
  apply parseFloat64_formatFloat64 x hx
  unfold encodeFloat at h
  cases hf : formatFloat64 x with
  | none => rw [hf] at h; simp at h
  | some s0 =>
    rw [hf] at h
    simp only [Option.map_some', Option.some.injEq] at h
    rw [← h]
    rfl

namespace Sicoob

set_option maxHeartbeats 16000000 in
/-- The members written for a `Boleto`: `valor` and `dataVencimento` are always written,
one after the other; every other member has another key and, when it was written, is read
back as a value that decodes into its field without error. -/
theorem boleto_members_decode (b : Boleto) (hb : b.InRange) :
    ∃ A C : List Member,
      b.members = A ++ ("valor", encodeFloat b.Valor) ::
        ("dataVencimento", some (encodeString b.DataVencimento)) :: C ∧
      ∀ m ∈ A ++ C, keyMatches m.1 "valor" = false ∧
        keyMatches m.1 "dataVencimento" = false ∧
        (m.2.isSome = true → ∃ x, MemberReads m (m.1, x) ∧
          ∀ a, (Boleto.setField m.1 x a).2 = true) := by
  obtain ⟨_, hvj, hvm, hvd, hint⟩ := hb
  have hV : floatMember "valor" false b.Valor = [("valor", encodeFloat b.Valor)] := by
    simp [floatMember]
  have hD : stringMember "dataVencimento" false b.DataVencimento =
      [("dataVencimento", some (encodeString b.DataVencimento))] := by
    simp [stringMember]
  have hi1 := parseInt64_encodeInt _ (hint b.ModalidadePartilha (by simp)).1
    (hint b.ModalidadePartilha (by simp)).2
  have hi2 := parseInt64_encodeInt _ (hint b.NossoNumero (by simp)).1
    (hint b.NossoNumero (by simp)).2
  have hi3 := parseInt64_encodeInt _ (hint b.TipoCobranca (by simp)).1
    (hint b.TipoCobranca (by simp)).2
  have hi4 := parseInt64_encodeInt _ (hint b.TipoJurosMora (by simp)).1
    (hint b.TipoJurosMora (by simp)).2
  have hi5 := parseInt64_encodeInt _ (hint b.TipoMulta (by simp)).1
    (hint b.TipoMulta (by simp)).2
  have hi6 := parseInt64_encodeInt _ (hint b.TipoDesconto1 (by simp)).1
    (hint b.TipoDesconto1 (by simp)).2
  obtain ⟨kvsP, hkP, hdecP⟩ := pessoa_members_decode b.Pagador
  refine ⟨stringMember "numeroContrato" false b.NumeroContrato ++
      intMember "modalidadePartilha" true b.ModalidadePartilha ++
      intMember "nossoNumero" true b.NossoNumero ++
      stringMember "seuNumero" true b.SeuNumero,
    stringMember "dataEmissao" true b.DataEmissao ++
      stringMember "dataLimitePagamento" true b.DataLimitePagamento ++
      stringMember "especieDocumento" true b.EspecieDocumento ++
      intMember "tipoCobranca" true b.TipoCobranca ++
      intMember "tipoJurosMora" true b.TipoJurosMora ++
      floatMember "valorJurosMora" true b.ValorJurosMora ++
      intMember "tipoMulta" true b.TipoMulta ++
      floatMember "valorMulta" true b.ValorMulta ++
      stringMember "dataMulta" true b.DataMulta ++
      intMember "tipoDesconto1" true b.TipoDesconto1 ++
      floatMember "valorDesconto1" true b.ValorDesconto1 ++
      stringMember "dataDesconto1" true b.DataDesconto1 ++
      structMember "pagador" b.Pagador.members ++
      stringMember "mensagem1" true b.Mensagem1 ++
      stringMember "mensagem2" true b.Mensagem2 ++
      stringMember "mensagem3" true b.Mensagem3 ++
      stringMember "mensagem4" true b.Mensagem4 ++
      stringMember "mensagem5" true b.Mensagem5 ++
      boolMember "gerarPix" true b.GerarPix ++
      stringMember "linhaDigitavel" true b.LinhaDigitavel ++
      stringMember "codigoBarras" true b.CodigoBarras ++
      stringMember "qrCode" true b.QrCode ++
      stringMember "txId" true b.TxId ++
      stringMember "situacao" true b.Situacao, ?_, ?_⟩
  · rw [Boleto.members, hV, hD]
    simp only [List.append_assoc, List.cons_append, List.nil_append]
  · simp only [List.forall_mem_append]
    repeat' apply And.intro
    all_goals
      intro m hm
      first
      | (obtain rfl := mem_stringMember hm
         refine ⟨by dsimp only; decide, by dsimp only; decide,
           fun _ => ⟨_, memberReads_string _ _, fun a => ?_⟩⟩
         dsimp only
         unfold Boleto.setField
         repeat (first | rw [if_pos (by decide)] | rw [if_neg (by decide)])
         rfl)
      | (obtain rfl := mem_intMember hm
         refine ⟨by dsimp only; decide, by dsimp only; decide,
           fun _ => ⟨_, memberReads_int _ _, fun a => ?_⟩⟩
         dsimp only
         unfold Boleto.setField
         repeat (first | rw [if_pos (by decide)] | rw [if_neg (by decide)])
         simp only [decodeInt, hi1, hi2, hi3, hi4, hi5, hi6, setWith])
      | (obtain rfl := mem_boolMember hm
         refine ⟨by dsimp only; decide, by dsimp only; decide,
           fun _ => ⟨_, memberReads_bool _ _, fun a => ?_⟩⟩
         dsimp only
         unfold Boleto.setField
         repeat (first | rw [if_pos (by decide)] | rw [if_neg (by decide)])
         rfl)
      | (obtain rfl := mem_floatMember hm
         refine ⟨by dsimp only; decide, by dsimp only; decide, fun hs => ?_⟩
         obtain ⟨txt, ht⟩ := Option.isSome_iff_exists.mp hs
         have hp : parseFloat64 (String.mk txt) = some _ :=
           parseFloat64_encodeFloat _ (by first | exact hvj | exact hvm | exact hvd) txt ht
         refine ⟨_, memberReads_float _ _ txt ht, fun a => ?_⟩
         dsimp only
         unfold Boleto.setField
         repeat (first | rw [if_pos (by decide)] | rw [if_neg (by decide)])
         simp only [decodeFloat, hp, setWith])
      | (simp only [structMember, pessoa_members_isSome, if_true, List.mem_singleton] at hm
         subst hm
         refine ⟨by dsimp only; decide, by dsimp only; decide,
           fun _ => ⟨.obj kvsP, ⟨rfl, _, rfl, parsesTo_encodeObject _ _ hkP⟩, fun a => ?_⟩⟩
         dsimp only
         unfold Boleto.setField
         repeat (first | rw [if_pos (by decide)] | rw [if_neg (by decide)])
         exact hdecP _)

end Sicoob

/-- A text that is read as a value is a JSON document of that value. -/
theorem parseJSON_of_parsesTo (s : String) (v : JVal) (h : ParsesTo s.toList v) :
    parseJSON s = some v := by
  have hl : s.toList.length = s.length := rfl
  have := h (2 * s.length + 2) [] (by omega) (Or.inl rfl)
  rw [List.append_nil] at this
  unfold parseJSON
  rw [this]
  simp [skipSpace]

/-- A written array of one object is read back as the array of the object read. -/
theorem parsesTo_array_of_object (ms : List Member) (v : JVal)
    (h : ParsesTo (encodeObject ms) v) : ParsesTo (encodeArray [encodeObject ms]) (.arr [v]) := by
  intro fuel rest hfuel _
  obtain ⟨t, ht⟩ : ∃ t, encodeObject ms = '{' :: t := ⟨_, rfl⟩
  rw [ht] at h hfuel ⊢
  simp only [encodeArray, commaSeparated, List.length_cons, List.length_append,
    List.length_nil] at hfuel
  cases fuel with
  | zero => omega
  | succ f =>
    cases f with
    | zero => omega
    | succ f1 =>
      have hv := h f1 (']' :: rest) (by simp only [List.length_cons]; omega)
        (Or.inr ⟨']', rest, rfl, Or.inr (Or.inr rfl)⟩)
      have hsp : skipSpace (encodeArray ['{' :: t] ++ rest) =
          '[' :: ('{' :: (t ++ ']' :: rest)) := by
        simp [encodeArray, commaSeparated, skipSpace, isSpace]
      have hsp2 : skipSpace ('{' :: (t ++ ']' :: rest)) = '{' :: (t ++ ']' :: rest) := by
        simp [skipSpace, isSpace]
      have hsp3 : skipSpace (']' :: rest) = ']' :: rest := by simp [skipSpace, isSpace]
      have h1 : ¬ '[' = '{' := by decide
      rw [parseValue, hsp]
      simp only [h1, if_false, if_true, hsp2]
      rw [parseItems]
      simp only [List.cons_append] at hv
      simp only [hv, hsp3, Option.map_some']
      rfl

namespace Sicoob

set_option maxHeartbeats 4000000 in
/-- The text written for a boleto is read as an object whose members decode, without
error, into a boleto with the same amount and due date. -/
theorem boleto_text_decodes (b : Boleto) (hb : b.InRange) (text : String)
    (h : marshalBoleto b = .ok text) :
    ∃ kvs, ParsesTo text.toList (.obj kvs) ∧
      (decodeFields Boleto.setField kvs Boleto.zero).2 = true ∧
      (decodeFields Boleto.setField kvs Boleto.zero).1.Valor = b.Valor ∧
      (decodeFields Boleto.setField kvs Boleto.zero).1.DataVencimento = b.DataVencimento := by
  obtain ⟨A, C, hshape, hgood⟩ := boleto_members_decode b hb
  have hv : b.Valor.Valid := hb.1
  unfold marshalBoleto marshalMembers at h
  split_ifs at h with hall
  rw [Except.ok.injEq] at h
  rw [hshape] at hall h
  simp only [List.all_append, List.all_cons, Bool.and_eq_true, List.all_eq_true] at hall
  obtain ⟨hA, hV, _, hC⟩ := hall
  obtain ⟨txt, htxt⟩ := Option.isSome_iff_exists.mp hV
  obtain ⟨kvsA, hkA, _, hokA⟩ := forall₂_memberReads_with
    (fun kv : String × JVal => ∀ a, (Boleto.setField kv.1 kv.2 a).2 = true) A
    (fun m hm => (hgood m (List.mem_append_left _ hm)).2.2 (hA m hm))
  obtain ⟨kvsC, hkC, hkeysC, hokC⟩ := forall₂_memberReads_with
    (fun kv : String × JVal => ∀ a, (Boleto.setField kv.1 kv.2 a).2 = true) C
    (fun m hm => (hgood m (List.mem_append_right _ hm)).2.2 (hC m hm))
  have hall2 : List.Forall₂ MemberReads
      (A ++ ("valor", encodeFloat b.Valor) ::
        ("dataVencimento", some (encodeString b.DataVencimento)) :: C)
      (kvsA ++ ("valor", .num (String.mk txt)) ::
        ("dataVencimento", .str b.DataVencimento) :: kvsC) :=
    List.rel_append hkA (List.Forall₂.cons (memberReads_float "valor" _ txt htxt)
      (List.Forall₂.cons (memberReads_string "dataVencimento" b.DataVencimento) hkC))
  have hP := parsesTo_encodeObject _ _ hall2
  have hnum : parseFloat64 (String.mk txt) = some b.Valor :=
    parseFloat64_encodeFloat b.Valor hv txt htxt
  have htl : text.toList = encodeObject (A ++ ("valor", encodeFloat b.Valor) ::
      ("dataVencimento", some (encodeString b.DataVencimento)) :: C) := by rw [← h]; rfl
  have hCkeys : ∀ kv ∈ kvsC, keyMatches kv.1 "valor" = false ∧
      keyMatches kv.1 "dataVencimento" = false := by
    intro kv hkv
    have h1 : kv.1 ∈ kvsC.map Prod.fst := List.mem_map_of_mem _ hkv
    rw [hkeysC, List.mem_map] at h1
    obtain ⟨m, hm, hmk⟩ := h1
    have := hgood m (List.mem_append_right _ hm)
    rw [hmk] at this
    exact ⟨this.1, this.2.1⟩
  have hokV : ∀ a, (Boleto.setField "valor" (.num (String.mk txt)) a).2 = true := by
    intro a
    unfold Boleto.setField
    repeat (first | rw [if_pos (by decide)] | rw [if_neg (by decide)])
    simp only [decodeFloat, hnum, setWith]
  have hokD : ∀ a, (Boleto.setField "dataVencimento" (.str b.DataVencimento) a).2 = true := by
    intro a
    unfold Boleto.setField
    repeat (first | rw [if_pos (by decide)] | rw [if_neg (by decide)])
    rfl
  have hdec : (decodeFields Boleto.setField (kvsA ++ ("valor", .num (String.mk txt)) ::
      ("dataVencimento", .str b.DataVencimento) :: kvsC) Boleto.zero).1 =
      (decodeFields Boleto.setField kvsC
        { (decodeFields Boleto.setField kvsA Boleto.zero).1 with
            Valor := b.Valor, DataVencimento := b.DataVencimento }).1 := by
    rw [decodeFields_append]
    simp only [decodeFields, setField_valor _ _ _ hnum, setField_dataVencimento]
  refine ⟨_, by rw [htl]; exact hP, ?_, ?_, ?_⟩
  · apply decodeFields_ok
    intro kv hkv a
    rcases List.mem_append.mp hkv with hk | hk
    · exact hokA kv hk a
    · rcases List.mem_cons.mp hk with rfl | hk
      · exact hokV a
      · rcases List.mem_cons.mp hk with rfl | hk
        · exact hokD a
        · exact hokC kv hk a
  · rw [hdec, decodeFields_frame Boleto.setField (fun x : Boleto => x.Valor) kvsC
      (fun kv hkv a => setField_frame_valor _ _ _ (hCkeys kv hkv).1)]
  · rw [hdec, decodeFields_frame Boleto.setField (fun x : Boleto => x.DataVencimento) kvsC
      (fun kv hkv a => setField_frame_dataVencimento _ _ _ (hCkeys kv hkv).2)]

/-- The answer of the provider that lists the one boleto written as `text`. -/
theorem resultado_text (text : String) :
    ("\x7b\"resultado\":[" ++ text ++ "]\x7d").toList =
      encodeObject [("resultado", some (encodeArray [text.toList]))] := by
  have hk : encodeString "resultado" = "\"resultado\"".toList := by decide
  simp only [encodeObject, encodeArray, commaSeparated, encodeMember, List.map, hk,
    Option.getD_some, String.toList, String.data_append]
  simp

/-- Decoding an answer that lists one written boleto gives the boleto decoded from its
text, without error. -/
theorem unmarshalResultado_text (b : Boleto) (hb : b.InRange) (text : String)
    (h : marshalBoleto b = .ok text) :
    unmarshalResultado ("\x7b\"resultado\":[" ++ text ++ "]\x7d") =
      ([(unmarshalBoleto text).1], none) ∧
    (unmarshalBoleto text).2 = none ∧
    (unmarshalBoleto text).1.Valor = b.Valor ∧
    (unmarshalBoleto text).1.DataVencimento = b.DataVencimento := by
  obtain ⟨kvs, hP, hflag, hvalor, hdata⟩ := boleto_text_decodes b hb text h
  have hparse := parseJSON_of_parsesTo text _ hP
  have hub : unmarshalBoleto text = ((decodeFields Boleto.setField kvs Boleto.zero).1, none) := by
    unfold unmarshalBoleto unmarshalFields
    rw [hparse]
    simp only [decodeStructValue, hflag, if_true]
  have hobj : text.toList = encodeObject b.members := by
    unfold marshalBoleto marshalMembers at h
    split_ifs at h
    rw [Except.ok.injEq] at h
    rw [← h]
    rfl
  have hPA : ParsesTo ("\x7b\"resultado\":[" ++ text ++ "]\x7d").toList
      (.obj [("resultado", .arr [.obj kvs])]) := by
    rw [resultado_text, hobj]
    apply parsesTo_encodeObject
    refine List.Forall₂.cons ⟨rfl, _, rfl, ?_⟩ List.Forall₂.nil
    apply parsesTo_array_of_object
    rw [← hobj]
    exact hP
  have hparse2 := parseJSON_of_parsesTo _ _ hPA
  refine ⟨?_, by rw [hub], by rw [hub]; exact hvalor, by rw [hub]; exact hdata⟩
  unfold unmarshalResultado unmarshalFields
  rw [hparse2, hub]
  have hkm : keyMatches "resultado" "resultado" = true := by decide
  simp only [decodeStructValue, decodeFields, setResultadoField, hkm, if_true, decodeBoletos,
    hflag, Bool.and_self]

end Sicoob

namespace Sicoob

/-- A boleto whose `float64` fields are finite has a JSON text. -/
theorem marshalBoleto_finite (b : Boleto)
    (hfin : ∀ x ∈ [b.Valor, b.ValorJurosMora, b.ValorMulta, b.ValorDesconto1],
      ∃ neg mant shift, x = Float64.finite neg mant shift) :
    marshalBoleto b = .ok (String.mk (encodeObject b.members)) := by
  have hs : ∀ (k : String) (o : Bool) (v : String),
      (stringMember k o v).all (fun m => m.2.isSome) = true := by
    intro k o v; unfold stringMember; split_ifs <;> simp
  have hi : ∀ (k : String) (o : Bool) (v : Int),
      (intMember k o v).all (fun m => m.2.isSome) = true := by
    intro k o v; unfold intMember; split_ifs <;> simp
  have hb : ∀ (k : String) (o : Bool) (v : Bool),
      (boolMember k o v).all (fun m => m.2.isSome) = true := by
    intro k o v; unfold boolMember; split_ifs <;> simp
  have hf : ∀ (k : String) (o : Bool) (x : Float64),
      (∃ neg mant shift, x = Float64.finite neg mant shift) →
      (floatMember k o x).all (fun m => m.2.isSome) = true := by
    intro k o x hx
    obtain ⟨neg, mant, shift, rfl⟩ := hx
    obtain ⟨ip, fp, ex, h1, _⟩ := formatFloat64_numberText neg mant shift
    unfold floatMember
    split_ifs <;> simp [encodeFloat, h1]
  have hp : (structMember "pagador" b.Pagador.members).all (fun m => m.2.isSome) = true := by
    simp [structMember, pessoa_members_isSome]
  have hall : b.members.all (fun m => m.2.isSome) = true := by
    simp only [Boleto.members, List.all_append, hs, hi, hb, hp,
      hf _ _ _ (hfin b.Valor (by simp)), hf _ _ _ (hfin b.ValorJurosMora (by simp)),
      hf _ _ _ (hfin b.ValorMulta (by simp)), hf _ _ _ (hfin b.ValorDesconto1 (by simp)),
      Bool.and_self]
  unfold marshalBoleto marshalMembers
  rw [if_pos hall]

end Sicoob

open Sicoob in
/-- C15: decoding the JSON text written for a `Boleto` returns no error and gives a boleto
with the same amount, as a `float64` and so to the cent, and the same due date string; so
does decoding the answer that lists that text under `resultado`, which is how
`ConsultarBoleto` decodes a boleto: it then returns that boleto. The text is the one
`doRequest` writes for a boleto, and a boleto whose `float64` fields are finite has one.
This holds for every boleto whose numbers are `float64` values and 64-bit integers, the
amount being any `float64`, among them the one nearest to any whole number of cents, and for
every due date that is a sequence of Unicode characters, among them the dates
`YYYY-MM-DD`. -/
theorem boleto_round_trip (b : Boleto) (hb : b.InRange) :
    (∀ text, marshalBoleto b = .ok text →
      (unmarshalBoleto text).2 = none ∧
      (unmarshalBoleto text).1.Valor = b.Valor ∧
      (unmarshalBoleto text).1.DataVencimento = b.DataVencimento ∧
      unmarshalResultado ("\x7b\"resultado\":[" ++ text ++ "]\x7d") =
        ([(unmarshalBoleto text).1], none) ∧
      ∀ (urlError : String → Option GoError) (c c1 : Client) (nossoNumero : Int)
          (w w1 : World),
        doRequest (jsonLib urlError) c "GET" ("/cobranca-bancaria/v2/boletos?numeroContrato=" ++
            c.config.NumeroContrato ++ "&nossoNumero=" ++ toString nossoNumero) none w =
          (.ok ("\x7b\"resultado\":[" ++ text ++ "]\x7d"), c1, w1) →
        ConsultarBoleto (jsonLib urlError) c nossoNumero w =
          (.ok (unmarshalBoleto text).1, c1, w1)) ∧
    ((∀ x ∈ [b.Valor, b.ValorJurosMora, b.ValorMulta, b.ValorDesconto1],
        ∃ neg mant shift, x = Float64.finite neg mant shift) →
      marshalBoleto b = .ok (String.mk (encodeObject b.members))) ∧
    (∀ urlError : String → Option GoError,
      (jsonLib urlError).marshal (.boleto b) = marshalBoleto b) ∧
    (∀ (neg : Bool) (cents : Nat) (x : Float64),
      Float64.ofDecimal neg cents (-2) = some x → x.Valid) := by
  have hm : ∀ urlError : String → Option GoError,
      (jsonLib urlError).marshal (.boleto b) = marshalBoleto b := by
    intro urlError
    simp only [jsonLib, marshalPayload]
  refine ⟨fun text h => ?_, marshalBoleto_finite b, hm, ?_⟩
  · obtain ⟨h1, h2, h3, h4⟩ := unmarshalResultado_text b hb text h
    refine ⟨h2, h3, h4, h1, ?_⟩
    intro urlError c c1 nossoNumero w w1 hreq
    have hL : (jsonLib urlError).unmarshalResultado = unmarshalResultado := rfl
    simp only [ConsultarBoleto, hreq, hL, h1]
  · intro neg cents x hx
    unfold Float64.ofDecimal at hx
    rw [if_neg (by decide)] at hx
    exact ofFraction_valid _ _ _ _ hx

open Sicoob in
/-- Witness of C15: the boleto of `150.25` due `2026-03-01`. -/
theorem boleto_round_trip_witness :
    (unmarshalBoleto
      ("\x7b\"numeroContrato\":\"987\",\"valor\":150.25," ++
       "\"dataVencimento\":\"2026-03-01\",\"pagador\":\x7b\"tipoPessoa\":\"\"," ++
       "\"cpfCnpj\":\"\",\"nome\":\"\"\x7d\x7d")).2 = none ∧
    (unmarshalBoleto
      ("\x7b\"numeroContrato\":\"987\",\"valor\":150.25," ++
       "\"dataVencimento\":\"2026-03-01\",\"pagador\":\x7b\"tipoPessoa\":\"\"," ++
       "\"cpfCnpj\":\"\",\"nome\":\"\"\x7d\x7d")).1.Valor = boletoExemplo.Valor ∧
    (unmarshalBoleto
      ("\x7b\"numeroContrato\":\"987\",\"valor\":150.25," ++
       "\"dataVencimento\":\"2026-03-01\",\"pagador\":\x7b\"tipoPessoa\":\"\"," ++
       "\"cpfCnpj\":\"\",\"nome\":\"\"\x7d\x7d")).1.DataVencimento = "2026-03-01" :=
  have h := (boleto_round_trip boletoExemplo
      ⟨⟨by decide, by decide, fun hlt => absurd hlt (by decide)⟩,
       ⟨by decide, by decide, fun _ => rfl⟩, ⟨by decide, by decide, fun _ => rfl⟩,
       ⟨by decide, by decide, fun _ => rfl⟩, by decide⟩).1
    ("\x7b\"numeroContrato\":\"987\",\"valor\":150.25," ++
       "\"dataVencimento\":\"2026-03-01\",\"pagador\":\x7b\"tipoPessoa\":\"\"," ++
       "\"cpfCnpj\":\"\",\"nome\":\"\"\x7d\x7d")
    (except_ok_of_toOption _ _ (by
      set_option exponentiation.threshold 3000 in
      set_option maxRecDepth 100000 in
      decide))
  ⟨h.1, h.2.1, h.2.2.1⟩

end Kamino
namespace Kamino

/-- The two sides of a decimal comparison, as a rational number: the first is the decimal
times `2 ^ 1076` times the second, which is positive. -/
theorem decimalSides_cast (d : Nat) (j : Int) :
    0 < (decimalSides d j).2 ∧
    ((decimalSides d j).1 : ℚ) =
      (d : ℚ) * (10 : ℚ) ^ j * 2 ^ 1076 * ((decimalSides d j).2 : ℚ) := by
  unfold decimalSides
  by_cases hj : 0 ≤ j
  · rw [if_pos hj]
    refine ⟨Nat.one_pos, ?_⟩
    obtain ⟨n, rfl⟩ := Int.eq_ofNat_of_zero_le hj
    simp only [Int.toNat_ofNat, zpow_natCast]
    push_cast
    ring
  · rw [if_neg hj]
    obtain ⟨n, hn⟩ : ∃ n : Nat, j = -(n : Int) := ⟨(-j).toNat, by omega⟩
    subst hn
    refine ⟨Nat.pos_pow_of_pos _ (by decide), ?_⟩
    simp only [neg_neg, Int.toNat_ofNat, zpow_neg, zpow_natCast]
    push_cast
    have h10 : ((10 : ℚ) ^ n) ≠ 0 := pow_ne_zero _ (by norm_num)
    field_simp

/-- The comparison of a decimal with two bounds, over the rational numbers. -/
theorem decimalBetween_iff (lo hi : Nat) (inclusive : Bool) (d : Nat) (j : Int) :
    decimalBetween lo hi inclusive d j = true ↔
      (if inclusive = true then
        (lo : ℚ) ≤ (d : ℚ) * (10 : ℚ) ^ j * 2 ^ 1076 ∧
          (d : ℚ) * (10 : ℚ) ^ j * 2 ^ 1076 ≤ (hi : ℚ)
      else
        (lo : ℚ) < (d : ℚ) * (10 : ℚ) ^ j * 2 ^ 1076 ∧
          (d : ℚ) * (10 : ℚ) ^ j * 2 ^ 1076 < (hi : ℚ)) := by
  obtain ⟨hpos, hcast⟩ := decimalSides_cast d j
  have hs : (0 : ℚ) < ((decimalSides d j).2 : ℚ) := by exact_mod_cast hpos
  have e1 : lo * (decimalSides d j).2 ≤ (decimalSides d j).1 ↔
      (lo : ℚ) ≤ (d : ℚ) * (10 : ℚ) ^ j * 2 ^ 1076 := by
    rw [← Nat.cast_le (α := ℚ), Nat.cast_mul, hcast]
    exact mul_le_mul_right hs
  have e2 : (decimalSides d j).1 ≤ hi * (decimalSides d j).2 ↔
      (d : ℚ) * (10 : ℚ) ^ j * 2 ^ 1076 ≤ (hi : ℚ) := by
    rw [← Nat.cast_le (α := ℚ), Nat.cast_mul, hcast]
    exact mul_le_mul_right hs
  have e3 : lo * (decimalSides d j).2 < (decimalSides d j).1 ↔
      (lo : ℚ) < (d : ℚ) * (10 : ℚ) ^ j * 2 ^ 1076 := by
    rw [← Nat.cast_lt (α := ℚ), Nat.cast_mul, hcast]
    exact mul_lt_mul_right hs
  have e4 : (decimalSides d j).1 < hi * (decimalSides d j).2 ↔
      (d : ℚ) * (10 : ℚ) ^ j * 2 ^ 1076 < (hi : ℚ) := by
    rw [← Nat.cast_lt (α := ℚ), Nat.cast_mul, hcast]
    exact mul_lt_mul_right hs
  unfold decimalBetween
  cases inclusive with
  | true => simp only [if_true, Bool.and_eq_true, decide_eq_true_eq, e1, e2]
  | false =>
    simp only [Bool.false_eq_true, if_false, Bool.and_eq_true, decide_eq_true_eq, e3, e4]

/-- The integer part computed by `floorAt`, over the rational numbers. -/
theorem floorAt_cast (a : Nat) (j : Int) :
    ((floorAt a j : Nat) : ℚ) * (10 : ℚ) ^ j * 2 ^ 1076 ≤ (a : ℚ) ∧
    (a : ℚ) < ((floorAt a j : Nat) + 1 : ℚ) * (10 : ℚ) ^ j * 2 ^ 1076 := by
  unfold floorAt
  by_cases hj : 0 ≤ j
  · rw [if_pos hj]
    obtain ⟨n, rfl⟩ := Int.eq_ofNat_of_zero_le hj
    simp only [Int.toNat_ofNat, zpow_natCast]
    have hD : 0 < 2 ^ 1076 * 10 ^ n := Nat.mul_pos (Nat.two_pow_pos _)
      (Nat.pos_pow_of_pos _ (by decide))
    have h1 : a / (2 ^ 1076 * 10 ^ n) * (2 ^ 1076 * 10 ^ n) ≤ a := Nat.div_mul_le_self _ _
    have h2 : a < (2 ^ 1076 * 10 ^ n) * (a / (2 ^ 1076 * 10 ^ n) + 1) :=
      Nat.lt_mul_div_succ a hD
    have h1q : ((a / (2 ^ 1076 * 10 ^ n) : Nat) : ℚ) * ((2 : ℚ) ^ 1076 * (10 : ℚ) ^ n) ≤ a := by
      exact_mod_cast h1
    have h2q : (a : ℚ) < ((2 : ℚ) ^ 1076 * (10 : ℚ) ^ n) *
        (((a / (2 ^ 1076 * 10 ^ n) : Nat) : ℚ) + 1) := by
      exact_mod_cast h2
    generalize ((a / (2 ^ 1076 * 10 ^ n) : Nat) : ℚ) = q at h1q h2q ⊢
    generalize (2 : ℚ) ^ 1076 = P at h1q h2q ⊢
    generalize (10 : ℚ) ^ n = T at h1q h2q ⊢
    constructor
    · calc q * T * P = q * (P * T) := by ring
        _ ≤ a := h1q
    · calc (a : ℚ) < P * T * (q + 1) := h2q
        _ = (q + 1) * T * P := by ring
  · rw [if_neg hj]
    obtain ⟨n, hn⟩ : ∃ n : Nat, j = -(n : Int) := ⟨(-j).toNat, by omega⟩
    subst hn
    simp only [neg_neg, Int.toNat_ofNat, zpow_neg, zpow_natCast]
    have hD : 0 < 2 ^ 1076 := Nat.two_pow_pos _
    have h1 : a * 10 ^ n / 2 ^ 1076 * 2 ^ 1076 ≤ a * 10 ^ n := Nat.div_mul_le_self _ _
    have h2 : a * 10 ^ n < 2 ^ 1076 * (a * 10 ^ n / 2 ^ 1076 + 1) :=
      Nat.lt_mul_div_succ _ hD
    have h1q : ((a * 10 ^ n / 2 ^ 1076 : Nat) : ℚ) * (2 : ℚ) ^ 1076 ≤ a * (10 : ℚ) ^ n := by
      exact_mod_cast h1
    have h2q : (a : ℚ) * (10 : ℚ) ^ n <
        (2 : ℚ) ^ 1076 * (((a * 10 ^ n / 2 ^ 1076 : Nat) : ℚ) + 1) := by
      exact_mod_cast h2
    have hT : (0 : ℚ) < (10 : ℚ) ^ n := pow_pos (by norm_num) n
    generalize ((a * 10 ^ n / 2 ^ 1076 : Nat) : ℚ) = q at h1q h2q ⊢
    generalize (2 : ℚ) ^ 1076 = P at h1q h2q ⊢
    generalize (10 : ℚ) ^ n = T at h1q h2q hT ⊢
    constructor
    · rw [show q * T⁻¹ * P = (q * P) / T by field_simp, div_le_iff₀ hT]
      exact h1q
    · rw [show (q + 1) * T⁻¹ * P = (P * (q + 1)) / T by field_simp; ring, lt_div_iff₀ hT]
      exact h2q

/-- The number of digits of a positive number, by its size. -/
theorem natDigitsAux_length : ∀ (fuel n : Nat) (acc : List Nat), n < 10 ^ (fuel + 1) → 0 < n →
    ∃ L, 1 ≤ L ∧ (natDigitsAux fuel n acc).length = acc.length + L ∧
      10 ^ (L - 1) ≤ n ∧ n < 10 ^ L := by
  intro fuel
  induction fuel with
  | zero =>
    intro n acc hn h0
    exact ⟨1, le_refl _, by simp [natDigitsAux], by simpa using h0, by simpa using hn⟩
  | succ f ih =>
    intro n acc hn h0
    by_cases h10 : n < 10
    · exact ⟨1, le_refl _, by simp [natDigitsAux, h10], by simpa using h0, by simpa using h10⟩
    · have hq : n / 10 < 10 ^ (f + 1) := by
        rw [Nat.div_lt_iff_lt_mul (by decide)]
        calc n < 10 ^ (f + 1 + 1) := hn
          _ = 10 ^ (f + 1) * 10 := pow_succ _ _
      have hq0 : 0 < n / 10 := Nat.div_pos (by omega) (by decide)
      obtain ⟨L, hL1, hlen, hlo, hhi⟩ := ih (n / 10) (n % 10 :: acc) hq hq0
      refine ⟨L + 1, by omega, ?_, ?_, ?_⟩
      · simp only [natDigitsAux, h10, if_false, hlen, List.length_cons]
        omega
      · have h1 : 10 ^ (L - 1) * 10 ≤ n := (Nat.le_div_iff_mul_le (by decide)).mp hlo
        have h2 : 10 ^ (L + 1 - 1) = 10 ^ (L - 1) * 10 := by
          have : L + 1 - 1 = (L - 1) + 1 := by omega
          rw [this, pow_succ]
        rw [h2]
        exact h1
      · have h1 : n < 10 ^ L * 10 := (Nat.div_lt_iff_lt_mul (by decide)).mp hhi
        rw [pow_succ]
        exact h1

/-- The number of digits of a positive number, by its size. -/
theorem natDigits_length (n : Nat) (hn : 0 < n) :
    1 ≤ (natDigits n).length ∧ 10 ^ ((natDigits n).length - 1) ≤ n ∧
      n < 10 ^ (natDigits n).length := by
  obtain ⟨L, hL1, hlen, hlo, hhi⟩ := natDigitsAux_length n n [] (lt_ten_pow_succ n) hn
  have : (natDigits n).length = L := by
    unfold natDigits
    rw [hlen]
    simp
  rw [this]
  exact ⟨hL1, hlo, hhi⟩

/-- A number below `10 ^ L` has at most `L` digits. -/
theorem natDigits_length_le (n L : Nat) (hL : 1 ≤ L) (h : n < 10 ^ L) :
    (natDigits n).length ≤ L := by
  by_cases hn : n = 0
  · subst hn
    have : natDigits 0 = [0] := by decide
    rw [this]
    exact hL
  · obtain ⟨_, hlo, _⟩ := natDigits_length n (by omega)
    by_contra hcon
    have hle : L ≤ (natDigits n).length - 1 := by omega
    have : 10 ^ L ≤ 10 ^ ((natDigits n).length - 1) := Nat.pow_le_pow_right (by decide) hle
    omega

/-- Counting the numbers below `N` with a property that is inherited downwards. -/
theorem filter_range_antitone (p : Nat → Bool) (hp : ∀ t, p (t + 1) = true → p t = true)
    (N : Nat) :
    (∀ t, t < ((List.range N).filter p).length → p t = true) ∧
    ((List.range N).filter p).length ≤ N ∧
    (((List.range N).filter p).length < N → p ((List.range N).filter p).length = false) := by
  have hdown : ∀ M t, t ≤ M → p M = true → p t = true := by
    intro M
    induction M with
    | zero => intro t ht h; have : t = 0 := by omega
              subst this; exact h
    | succ M ih =>
      intro t ht h
      by_cases hte : t = M + 1
      · subst hte; exact h
      · exact ih t (by omega) (hp M h)
  induction N with
  | zero => simp
  | succ N ih =>
    obtain ⟨h1, h2, h3⟩ := ih
    rw [List.range_succ, List.filter_append]
    by_cases hN : p N = true
    · have hc : ((List.range N).filter p).length = N := by
        by_contra hne
        have hlt : ((List.range N).filter p).length < N := by omega
        have := h3 hlt
        rw [hdown N _ (by omega) hN] at this
        exact absurd this (by decide)
      simp only [List.filter_cons, hN, if_true, List.filter_nil, List.length_append,
        List.length_cons, List.length_nil, hc]
      refine ⟨fun t ht => hdown N t (by omega) hN, by omega, fun h => by omega⟩
    · have hN' : p N = false := by simpa using hN
      simp only [List.filter_cons, hN', Bool.false_eq_true, if_false, List.filter_nil,
        List.append_nil]
      refine ⟨h1, by omega, fun h => ?_⟩
      by_cases hlt : ((List.range N).filter p).length < N
      · exact h3 hlt
      · have : ((List.range N).filter p).length = N := by omega
        rw [this]
        exact hN'

theorem two_pow_1076_lt : 2 ^ 1076 < 10 ^ 330 := by
  set_option exponentiation.threshold 3000 in
  norm_num

/-- The decimal exponent `k` of a positive `a / 2 ^ 1076`: it lies from `10 ^ (k - 1)` up
to, but below, `10 ^ k`. -/
theorem decimalExponent_spec (a : Nat) (ha : 0 < a) :
    (10 : ℚ) ^ (decimalExponent a - 1) * 2 ^ 1076 ≤ (a : ℚ) ∧
    (a : ℚ) < (10 : ℚ) ^ (decimalExponent a) * 2 ^ 1076 := by
  unfold decimalExponent
  by_cases h : 2 ^ 1076 ≤ a
  · rw [if_pos h]
    have hP : 0 < 2 ^ 1076 := Nat.two_pow_pos _
    have hn : 0 < a / 2 ^ 1076 := Nat.div_pos h hP
    obtain ⟨hL1, hlo, hhi⟩ := natDigits_length _ hn
    generalize (natDigits (a / 2 ^ 1076)).length = L at hL1 hlo hhi ⊢
    have e1 : ((L : ℤ) - 1) = ((L - 1 : ℕ) : ℤ) := by omega
    rw [e1, zpow_natCast, zpow_natCast]
    have h1 : 10 ^ (L - 1) * 2 ^ 1076 ≤ a :=
      le_trans (Nat.mul_le_mul_right _ hlo) (Nat.div_mul_le_self _ _)
    have h2 : a < 10 ^ L * 2 ^ 1076 := by
      have := Nat.lt_mul_div_succ a hP
      calc a < 2 ^ 1076 * (a / 2 ^ 1076 + 1) := this
        _ ≤ 2 ^ 1076 * 10 ^ L := Nat.mul_le_mul_left _ hhi
        _ = 10 ^ L * 2 ^ 1076 := Nat.mul_comm _ _
    exact ⟨by exact_mod_cast h1, by exact_mod_cast h2⟩
  · rw [if_neg h]
    generalize hpdef : (fun t => decide (a * 10 ^ (t + 1) < 2 ^ 1076)) = p
    have hpt : ∀ t, p t = true ↔ a * 10 ^ (t + 1) < 2 ^ 1076 := by
      intro t
      rw [← hpdef]
      exact decide_eq_true_iff
    have hp : ∀ t, p (t + 1) = true → p t = true := by
      intro t ht
      rw [hpt] at ht ⊢
      have : a * 10 ^ (t + 1) ≤ a * 10 ^ (t + 1 + 1) :=
        Nat.mul_le_mul_left _ (Nat.pow_le_pow_right (by decide) (by omega))
      omega
    obtain ⟨h1, h2, h3⟩ := filter_range_antitone p hp 330
    generalize ((List.range 330).filter p).length = c at h1 h2 h3 ⊢
    have hc : c < 330 := by
      by_contra hcon
      have := (hpt 329).mp (h1 329 (by omega))
      have h10 : 10 ^ 330 ≤ a * 10 ^ (329 + 1) := Nat.le_mul_of_pos_left _ ha
      have := two_pow_1076_lt
      omega
    have hL : 2 ^ 1076 ≤ a * 10 ^ (c + 1) := by
      have := h3 hc
      by_contra hcon
      have := (hpt c).mpr (by omega)
      simp_all
    have hU : a * 10 ^ c < 2 ^ 1076 := by
      cases c with
      | zero => simpa using h
      | succ c1 => exact (hpt c1).mp (h1 c1 (by omega))
    have e1 : -(c : ℤ) - 1 = -((c + 1 : ℕ) : ℤ) := by push_cast; ring
    rw [e1, zpow_neg, zpow_neg, zpow_natCast, zpow_natCast]
    have hLq : (2 : ℚ) ^ 1076 ≤ (a : ℚ) * (10 : ℚ) ^ (c + 1) := by exact_mod_cast hL
    have hUq : (a : ℚ) * (10 : ℚ) ^ c < (2 : ℚ) ^ 1076 := by exact_mod_cast hU
    have hT1 : (0 : ℚ) < (10 : ℚ) ^ (c + 1) := pow_pos (by norm_num) _
    have hT0 : (0 : ℚ) < (10 : ℚ) ^ c := pow_pos (by norm_num) _
    generalize (2 : ℚ) ^ 1076 = P at hLq hUq ⊢
    generalize (10 : ℚ) ^ (c + 1) = T1 at hLq hT1 ⊢
    generalize (10 : ℚ) ^ c = T0 at hUq hT0 ⊢
    constructor
    · rw [inv_mul_le_iff₀ hT1]
      linarith
    · rw [show T0⁻¹ * P = P / T0 by field_simp, lt_div_iff₀ hT0]
      exact hUq

/-- Between a decimal within the bounds and a value below the upper bound, every decimal
is within the bounds. -/
theorem decimalBetween_below (lo hi a : Nat) (inclusive : Bool) (ha : a < hi)
    (d1 d : Nat) (j1 j : Int) (h1 : decimalBetween lo hi inclusive d1 j1 = true)
    (hle : (d1 : ℚ) * (10 : ℚ) ^ j1 * 2 ^ 1076 ≤ (d : ℚ) * (10 : ℚ) ^ j * 2 ^ 1076)
    (hd : (d : ℚ) * (10 : ℚ) ^ j * 2 ^ 1076 ≤ (a : ℚ)) :
    decimalBetween lo hi inclusive d j = true := by
  rw [decimalBetween_iff] at h1 ⊢
  have haq : (a : ℚ) < (hi : ℚ) := by exact_mod_cast ha
  cases inclusive with
  | true =>
    simp only [if_true] at h1 ⊢
    exact ⟨le_trans h1.1 hle, le_of_lt (lt_of_le_of_lt hd haq)⟩
  | false =>
    simp only [Bool.false_eq_true, if_false] at h1 ⊢
    exact ⟨lt_of_lt_of_le h1.1 hle, lt_of_le_of_lt hd haq⟩

/-- Between a value above the lower bound and a decimal within the bounds, every decimal
is within the bounds. -/
theorem decimalBetween_above (lo hi a : Nat) (inclusive : Bool) (ha : lo < a)
    (d2 d : Nat) (j2 j : Int) (h2 : decimalBetween lo hi inclusive d2 j2 = true)
    (hle : (d : ℚ) * (10 : ℚ) ^ j * 2 ^ 1076 ≤ (d2 : ℚ) * (10 : ℚ) ^ j2 * 2 ^ 1076)
    (hd : (a : ℚ) ≤ (d : ℚ) * (10 : ℚ) ^ j * 2 ^ 1076) :
    decimalBetween lo hi inclusive d j = true := by
  rw [decimalBetween_iff] at h2 ⊢
  have haq : (lo : ℚ) < (a : ℚ) := by exact_mod_cast ha
  cases inclusive with
  | true =>
    simp only [if_true] at h2 ⊢
    exact ⟨le_of_lt (lt_of_lt_of_le haq hd), le_trans hle h2.2⟩
  | false =>
    simp only [Bool.false_eq_true, if_false] at h2 ⊢
    exact ⟨lt_of_lt_of_le haq hd, lt_of_le_of_lt hle h2.2⟩

/-- The value of a number lies strictly between the midpoints to its neighbours. -/
theorem quarterValue_between (mant shift : Nat) (hm : 0 < mant) :
    quarterLower mant shift < quarterValue mant shift ∧
    quarterValue mant shift < quarterUpper mant shift := by
  have hE : 0 < 2 ^ shift := Nat.two_pow_pos shift
  unfold quarterLower quarterValue quarterUpper
  constructor
  · split
    · exact Nat.mul_lt_mul_of_pos_right (by omega) hE
    · exact Nat.mul_lt_mul_of_pos_right (by omega) hE
  · exact Nat.mul_lt_mul_of_pos_right (by omega) hE

/-- When some multiple of `10 ^ j` reads back as the number, the number cut at `10 ^ j` or
the next multiple above it does. -/
theorem readsBackAs_floor (mant shift : Nat) (hm : 0 < mant) (t : Nat) (j : Int)
    (h : readsBackAs mant shift t j = true) :
    readsBackAs mant shift (floorAt (quarterValue mant shift) j) j = true ∨
    readsBackAs mant shift (floorAt (quarterValue mant shift) j + 1) j = true := by
  obtain ⟨hlo, hhi⟩ := quarterValue_between mant shift hm
  obtain ⟨hf1, hf2⟩ := floorAt_cast (quarterValue mant shift) j
  have hT : (0 : ℚ) < (10 : ℚ) ^ j * 2 ^ 1076 :=
    mul_pos (zpow_pos (by norm_num) _) (pow_pos (by norm_num) _)
  unfold readsBackAs at h ⊢
  by_cases htq : t ≤ floorAt (quarterValue mant shift) j
  · left
    apply decimalBetween_below _ _ _ _ hhi t _ j j h _ hf1
    have : (t : ℚ) ≤ (floorAt (quarterValue mant shift) j : ℚ) := by exact_mod_cast htq
    calc (t : ℚ) * (10 : ℚ) ^ j * 2 ^ 1076 = (t : ℚ) * ((10 : ℚ) ^ j * 2 ^ 1076) := by ring
      _ ≤ (floorAt (quarterValue mant shift) j : ℚ) * ((10 : ℚ) ^ j * 2 ^ 1076) :=
        mul_le_mul_of_nonneg_right this (le_of_lt hT)
      _ = _ := by ring
  · right
    have htq' : floorAt (quarterValue mant shift) j + 1 ≤ t := by omega
    have hc : ((floorAt (quarterValue mant shift) j + 1 : Nat) : ℚ) ≤ (t : ℚ) := by
      exact_mod_cast htq'
    apply decimalBetween_above _ _ _ _ hlo t _ j j h
    · calc ((floorAt (quarterValue mant shift) j + 1 : Nat) : ℚ) * (10 : ℚ) ^ j * 2 ^ 1076
          = ((floorAt (quarterValue mant shift) j + 1 : Nat) : ℚ) *
            ((10 : ℚ) ^ j * 2 ^ 1076) := by ring
        _ ≤ (t : ℚ) * ((10 : ℚ) ^ j * 2 ^ 1076) :=
          mul_le_mul_of_nonneg_right hc (le_of_lt hT)
        _ = _ := by ring
    · push_cast
      exact le_of_lt hf2

/-- The result of `roundDigits`: the number cut after `n` digits or the next decimal above
it, and there is one as soon as one of the two reads back as the number. -/
theorem roundDigits_spec (mant shift : Nat) (k : Int) (n : Nat) :
    ((readsBackAs mant shift (floorAt (quarterValue mant shift) (k - n)) (k - n) = true ∨
      readsBackAs mant shift (floorAt (quarterValue mant shift) (k - n) + 1) (k - n) = true) →
      (roundDigits mant shift k n).isSome = true) ∧
    (∀ r, roundDigits mant shift k n = some r →
      r.2 = k - n ∧ r.1 ≤ floorAt (quarterValue mant shift) (k - n) + 1) := by
  unfold roundDigits
  simp only
  cases hd : readsBackAs mant shift (floorAt (quarterValue mant shift) (k - n)) (k - n) <;>
    cases hu : readsBackAs mant shift (floorAt (quarterValue mant shift) (k - n) + 1)
      (k - n) <;>
    simp only [Bool.and_self, Bool.and_true, Bool.and_false, Bool.false_eq_true, if_false,
      if_true, or_self, false_or, or_false, or_true, Option.isSome_none, Option.isSome_some,
      false_implies, true_implies, true_and, and_true]
  · intro r hr; cases hr
  · intro r hr
    cases hr
    exact ⟨rfl, le_refl _⟩
  · intro r hr
    cases hr
    exact ⟨rfl, Nat.le_succ _⟩
  · constructor
    · split <;> rfl
    · intro r hr
      split at hr
      · cases hr; exact ⟨rfl, le_refl _⟩
      · cases hr; exact ⟨rfl, Nat.le_succ _⟩

/-- When a decimal of `m` digits reads back as the number, some multiple of
`10 ^ (k - m)` does, `k` being the decimal exponent of the number. -/
theorem readsBackAs_multiple (mant shift : Nat) (hm : 0 < mant) (d : Nat) (j : Int)
    (h : readsBackAs mant shift d j = true) (m : Nat) (hm1 : 1 ≤ m) (hhi : d < 10 ^ m) :
    ∃ t, readsBackAs mant shift t (decimalExponent (quarterValue mant shift) - m) = true := by
  obtain ⟨_, hqhi⟩ := quarterValue_between mant shift hm
  have ha : 0 < quarterValue mant shift := by
    unfold quarterValue
    exact Nat.mul_pos (by omega) (Nat.two_pow_pos _)
  obtain ⟨hk1, _⟩ := decimalExponent_spec (quarterValue mant shift) ha
  generalize decimalExponent (quarterValue mant shift) = k at hk1 ⊢
  have h10 : (10 : ℚ) ≠ 0 := by norm_num
  have hP : (0 : ℚ) < 2 ^ 1076 := pow_pos (by norm_num) _
  by_cases hj : k - m ≤ j
  · refine ⟨d * 10 ^ (j - (k - m)).toNat, ?_⟩
    unfold readsBackAs at h ⊢
    rw [decimalBetween_iff] at h ⊢
    have hV : ((d * 10 ^ (j - (k - m)).toNat : Nat) : ℚ) * (10 : ℚ) ^ (k - (m : ℤ)) * 2 ^ 1076 =
        (d : ℚ) * (10 : ℚ) ^ j * 2 ^ 1076 := by
      push_cast
      have e : (10 : ℚ) ^ (j - (k - m)).toNat * (10 : ℚ) ^ (k - (m : ℤ)) = (10 : ℚ) ^ j := by
        have he : (((j - (k - m)).toNat : ℕ) : ℤ) + (k - (m : ℤ)) = j := by omega
        rw [← zpow_natCast, ← zpow_add₀ h10, he]
      calc (d : ℚ) * (10 : ℚ) ^ (j - (k - m)).toNat * (10 : ℚ) ^ (k - (m : ℤ)) * 2 ^ 1076
          = (d : ℚ) * ((10 : ℚ) ^ (j - (k - m)).toNat * (10 : ℚ) ^ (k - (m : ℤ))) * 2 ^ 1076 := by
            ring
        _ = _ := by rw [e]
    rw [hV]
    exact h
  · refine ⟨10 ^ (m - 1), ?_⟩
    have hV : ((10 ^ (m - 1) : Nat) : ℚ) * (10 : ℚ) ^ (k - (m : ℤ)) * 2 ^ 1076 =
        (10 : ℚ) ^ (k - 1) * 2 ^ 1076 := by
      push_cast
      have e : (10 : ℚ) ^ (m - 1) * (10 : ℚ) ^ (k - (m : ℤ)) = (10 : ℚ) ^ (k - 1) := by
        have he : ((m - 1 : ℕ) : ℤ) + (k - (m : ℤ)) = k - 1 := by omega
        rw [← zpow_natCast, ← zpow_add₀ h10, he]
      rw [e]
    unfold readsBackAs at h ⊢
    apply decimalBetween_below _ _ _ _ hqhi d _ j _ h
    · rw [hV]
      have hd : (d : ℚ) ≤ (10 : ℚ) ^ m := by
        have : d ≤ 10 ^ m := le_of_lt hhi
        exact_mod_cast this
      have hz : (0 : ℚ) < (10 : ℚ) ^ j := zpow_pos (by norm_num) _
      have e1 : (10 : ℚ) ^ m * (10 : ℚ) ^ j = (10 : ℚ) ^ ((m : ℤ) + j) := by
        rw [← zpow_natCast, ← zpow_add₀ h10]
      have e2 : (10 : ℚ) ^ ((m : ℤ) + j) ≤ (10 : ℚ) ^ (k - 1) :=
        zpow_le_zpow_right₀ (by norm_num) (by omega)
      calc (d : ℚ) * (10 : ℚ) ^ j * 2 ^ 1076 ≤ (10 : ℚ) ^ m * (10 : ℚ) ^ j * 2 ^ 1076 := by
            apply mul_le_mul_of_nonneg_right _ (le_of_lt hP)
            exact mul_le_mul_of_nonneg_right hd (le_of_lt hz)
        _ = (10 : ℚ) ^ ((m : ℤ) + j) * 2 ^ 1076 := by rw [e1]
        _ ≤ (10 : ℚ) ^ (k - 1) * 2 ^ 1076 := mul_le_mul_of_nonneg_right e2 (le_of_lt hP)
    · rw [hV]
      exact hk1

/-- The value of a number and the midpoints to its neighbours, over the rational
numbers. -/
theorem quarter_cast (mant shift : Nat) (hm : 0 < mant) :
    ((quarterValue mant shift : Nat) : ℚ) = 4 * (mant : ℚ) * (2 : ℚ) ^ shift ∧
    ((quarterUpper mant shift : Nat) : ℚ) = (4 * (mant : ℚ) + 2) * (2 : ℚ) ^ shift ∧
    ((quarterLower mant shift : Nat) : ℚ) =
      (if mant = 4503599627370496 ∧ 0 < shift then (4 * (mant : ℚ) - 1) * (2 : ℚ) ^ shift
       else (4 * (mant : ℚ) - 2) * (2 : ℚ) ^ shift) := by
  unfold quarterValue quarterUpper quarterLower
  refine ⟨by push_cast; ring, by push_cast; ring, ?_⟩
  split
  · rw [Nat.cast_mul, Nat.cast_sub (by omega)]
    push_cast
    ring
  · rw [Nat.cast_mul, Nat.cast_sub (by omega)]
    push_cast
    ring

/-- Seventeen digits suffice: among the decimals of seventeen digits, the number cut or
the next one above it reads back as the number. -/
theorem roundDigits_seventeen (mant shift : Nat) (hm : 0 < mant)
    (hv : mant < 9007199254740992) :
    (roundDigits mant shift (decimalExponent (quarterValue mant shift)) 17).isSome = true := by
  apply (roundDigits_spec mant shift _ 17).1
  by_contra hcon
  rw [not_or] at hcon
  obtain ⟨hq, hq1⟩ := hcon
  obtain ⟨hlo, hhi⟩ := quarterValue_between mant shift hm
  have ha : 0 < quarterValue mant shift := by omega
  obtain ⟨hk1, _⟩ := decimalExponent_spec (quarterValue mant shift) ha
  obtain ⟨hf1, hf2⟩ := floorAt_cast (quarterValue mant shift)
    (decimalExponent (quarterValue mant shift) - (17 : ℕ))
  obtain ⟨ca, chi, clo⟩ := quarter_cast mant shift hm
  have hloq : ((quarterLower mant shift : Nat) : ℚ) < ((quarterValue mant shift : Nat) : ℚ) := by
    exact_mod_cast hlo
  have hhiq : ((quarterValue mant shift : Nat) : ℚ) < ((quarterUpper mant shift : Nat) : ℚ) := by
    exact_mod_cast hhi
  unfold readsBackAs at hq hq1
  rw [decimalBetween_iff] at hq hq1
  generalize decimalExponent (quarterValue mant shift) = k at hk1 hf1 hf2 hq hq1
  generalize floorAt (quarterValue mant shift) (k - (17 : ℕ)) = q at hf1 hf2 hq hq1
  have h10 : (10 : ℚ) ≠ 0 := by norm_num
  have hT : (10 : ℚ) ^ (k - (17 : ℕ)) * (10 : ℚ) ^ 16 = (10 : ℚ) ^ (k - 1) := by
    have he : (k - ((17 : ℕ) : ℤ)) + ((16 : ℕ) : ℤ) = k - 1 := by push_cast; ring
    rw [← zpow_natCast (10 : ℚ) 16, ← zpow_add₀ h10, he]
  have hq1' : ((q + 1 : Nat) : ℚ) * (10 : ℚ) ^ (k - (17 : ℕ)) * 2 ^ 1076 =
      (q : ℚ) * (10 : ℚ) ^ (k - (17 : ℕ)) * 2 ^ 1076 + (10 : ℚ) ^ (k - (17 : ℕ)) * 2 ^ 1076 := by
    push_cast; ring
  rw [hq1'] at hq1
  have hf2' : ((quarterValue mant shift : Nat) : ℚ) <
      (q : ℚ) * (10 : ℚ) ^ (k - (17 : ℕ)) * 2 ^ 1076 + (10 : ℚ) ^ (k - (17 : ℕ)) * 2 ^ 1076 := by
    calc ((quarterValue mant shift : Nat) : ℚ) < ((q : ℚ) + 1) * (10 : ℚ) ^ (k - (17 : ℕ)) * 2 ^ 1076 :=
          hf2
      _ = _ := by ring
  have hk1' : (10 : ℚ) ^ (k - (17 : ℕ)) * 2 ^ 1076 * (10 : ℚ) ^ 16 ≤
      ((quarterValue mant shift : Nat) : ℚ) := by
    calc (10 : ℚ) ^ (k - (17 : ℕ)) * 2 ^ 1076 * (10 : ℚ) ^ 16
        = ((10 : ℚ) ^ (k - (17 : ℕ)) * (10 : ℚ) ^ 16) * 2 ^ 1076 := by ring
      _ = (10 : ℚ) ^ (k - 1) * 2 ^ 1076 := by rw [hT]
      _ ≤ _ := hk1
  generalize (q : ℚ) * (10 : ℚ) ^ (k - (17 : ℕ)) * 2 ^ 1076 = Vq at hf1 hf2' hq hq1
  generalize (10 : ℚ) ^ (k - (17 : ℕ)) * 2 ^ 1076 = T at hf2' hq1 hk1'
  -- the width of the interval is at most `T`
  have hwidth : ((quarterUpper mant shift : Nat) : ℚ) - ((quarterLower mant shift : Nat) : ℚ) ≤ T := by
    cases hinc : (mant % 2 == 0) with
    | true =>
      rw [hinc] at hq hq1
      simp only [if_true, not_and, not_le] at hq hq1
      have h1 : Vq < ((quarterLower mant shift : Nat) : ℚ) := by
        by_contra hc
        have := hq (not_lt.mp hc)
        linarith
      have h2 : ((quarterUpper mant shift : Nat) : ℚ) < Vq + T := by
        apply hq1
        linarith
      linarith
    | false =>
      rw [hinc] at hq hq1
      simp only [Bool.false_eq_true, if_false, not_and, not_lt] at hq hq1
      have h1 : Vq ≤ ((quarterLower mant shift : Nat) : ℚ) := by
        by_contra hc
        have := hq (not_le.mp hc)
        linarith
      have h2 : ((quarterUpper mant shift : Nat) : ℚ) ≤ Vq + T := by
        apply hq1
        linarith
      linarith
  have hE : (0 : ℚ) < (2 : ℚ) ^ shift := pow_pos (by norm_num) _
  have hMv : (mant : ℚ) < 9007199254740992 := by exact_mod_cast hv
  have hME : (mant : ℚ) * (2 : ℚ) ^ shift < 9007199254740992 * (2 : ℚ) ^ shift :=
    mul_lt_mul_of_pos_right hMv hE
  have hfin : ((quarterUpper mant shift : Nat) : ℚ) - ((quarterLower mant shift : Nat) : ℚ)
      ≤ T := hwidth
  rw [ca] at hk1'
  rw [chi, clo] at hfin
  generalize (2 : ℚ) ^ shift = E at hE hME hfin hk1'
  have h16 : (10 : ℚ) ^ 16 = 10000000000000000 := by norm_num
  rw [h16] at hk1'
  split_ifs at hfin with hb
  · have hM : (mant : ℚ) = 4503599627370496 := by exact_mod_cast hb.1
    rw [hM] at hfin hk1'
    nlinarith
  · nlinarith

/-- The search `shortestFrom` stops at the first number of digits for which there is a
decimal. -/
theorem shortestFrom_first (mant shift : Nat) (k : Int) : ∀ (fuel n n1 : Nat), n ≤ n1 →
    n1 < n + fuel → (roundDigits mant shift k n1).isSome = true →
    ∃ r n0, shortestFrom mant shift k fuel n = some r ∧ n ≤ n0 ∧ n0 ≤ n1 ∧
      roundDigits mant shift k n0 = some r := by
  intro fuel
  induction fuel with
  | zero => intro n n1 h1 h2 _; omega
  | succ f ih =>
    intro n n1 h1 h2 h3
    cases hr : roundDigits mant shift k n with
    | some r => exact ⟨r, n, by simp only [shortestFrom, hr], le_refl _, h1, hr⟩
    | none =>
      have hne : n ≠ n1 := by
        intro he
        rw [← he, hr] at h3
        exact absurd h3 (by decide)
      obtain ⟨r, n0, hs, ha, hb, hc⟩ := ih (n + 1) n1 (by omega) (by omega) h3
      exact ⟨r, n0, by simp only [shortestFrom, hr, hs], by omega, hb, hc⟩

/-- Removing trailing zeros does not make the digits more. -/
theorem stripZeros_le : ∀ (fuel d : Nat) (j : Int), (stripZeros fuel d j).1 ≤ d := by
  intro fuel
  induction fuel with
  | zero => intro d j; exact le_refl _
  | succ f ih =>
    intro d j
    simp only [stripZeros]
    split
    · exact le_trans (ih _ _) (Nat.div_le_self _ _)
    · exact le_refl _

/-- A power of ten loses a zero. -/
theorem stripZeros_pow (fuel n : Nat) (j : Int) (hn : 1 ≤ n) :
    (stripZeros (fuel + 1) (10 ^ n) j).1 < 10 ^ n := by
  obtain ⟨n1, rfl⟩ : ∃ n1, n = n1 + 1 := ⟨n - 1, by omega⟩
  have hpos : 0 < 10 ^ n1 := Nat.pos_pow_of_pos _ (by decide)
  have h10 : 10 ^ (n1 + 1) = 10 ^ n1 * 10 := pow_succ _ _
  have hc : 10 ^ (n1 + 1) ≠ 0 ∧ 10 ^ (n1 + 1) % 10 = 0 := by
    rw [h10]
    exact ⟨by omega, Nat.mul_mod_left _ _⟩
  simp only [stripZeros, hc, ne_eq, not_false_eq_true, and_self, if_true]
  have hd : 10 ^ (n1 + 1) / 10 = 10 ^ n1 := by
    rw [h10]
    exact Nat.mul_div_cancel _ (by decide)
  rw [hd]
  have := stripZeros_le fuel (10 ^ n1) (j + 1)
  omega

/-- The decimal `strconv` prints is a shortest one: no decimal that reads back as the
number has fewer digits. -/
theorem shortestDecimal_minimal (mant shift : Nat) (hm : 0 < mant)
    (hv : mant < 9007199254740992) (d : Nat) (j : Int)
    (h : readsBackAs mant shift d j = true) :
    (natDigits (shortestDecimal mant shift).1).length ≤ (natDigits d).length := by
  have hd := readsBackAs_pos mant shift d j hm h
  obtain ⟨hm1, _, hhi⟩ := natDigits_length d hd
  have ha : 0 < quarterValue mant shift := by
    unfold quarterValue
    exact Nat.mul_pos (by omega) (Nat.two_pow_pos _)
  obtain ⟨_, hk2⟩ := decimalExponent_spec (quarterValue mant shift) ha
  -- a number of digits, at most that of `d` and at most 17, for which there is a decimal
  obtain ⟨n1, hn1, hn1m, hsome⟩ : ∃ n1, 1 ≤ n1 ∧ n1 < 1 + 17 ∧
      n1 ≤ (natDigits d).length ∧
      (roundDigits mant shift (decimalExponent (quarterValue mant shift)) n1).isSome = true := by
    by_cases hlen : (natDigits d).length ≤ 17
    · obtain ⟨t, ht⟩ := readsBackAs_multiple mant shift hm d j h _ hm1 hhi
      exact ⟨_, hm1, by omega, le_refl _,
        (roundDigits_spec mant shift _ _).1 (readsBackAs_floor mant shift hm t _ ht)⟩
    · exact ⟨17, by omega, by omega, by omega, roundDigits_seventeen mant shift hm hv⟩
  obtain ⟨r, n0, hs, hn0, hn01, hr⟩ := shortestFrom_first mant shift _ 17 1 n1 hn1 hn1m hsome.2
  obtain ⟨_, hrle⟩ := (roundDigits_spec mant shift _ n0).2 r hr
  -- the number cut after `n0` digits is below `10 ^ n0`
  obtain ⟨hf1, _⟩ := floorAt_cast (quarterValue mant shift)
    (decimalExponent (quarterValue mant shift) - n0)
  have hq : floorAt (quarterValue mant shift)
      (decimalExponent (quarterValue mant shift) - n0) < 10 ^ n0 := by
    have h10 : (10 : ℚ) ≠ 0 := by norm_num
    have hT : (0 : ℚ) < (10 : ℚ) ^ (decimalExponent (quarterValue mant shift) - (n0 : ℤ)) *
        2 ^ 1076 := mul_pos (zpow_pos (by norm_num) _) (pow_pos (by norm_num) _)
    have e : ((10 ^ n0 : Nat) : ℚ) *
        ((10 : ℚ) ^ (decimalExponent (quarterValue mant shift) - (n0 : ℤ)) * 2 ^ 1076) =
        (10 : ℚ) ^ (decimalExponent (quarterValue mant shift)) * 2 ^ 1076 := by
      push_cast
      have he : ((n0 : ℕ) : ℤ) + (decimalExponent (quarterValue mant shift) - (n0 : ℤ)) =
          decimalExponent (quarterValue mant shift) := by ring
      rw [← mul_assoc, ← zpow_natCast, ← zpow_add₀ h10, he]
    have hlt : (floorAt (quarterValue mant shift)
        (decimalExponent (quarterValue mant shift) - n0) : ℚ) *
        ((10 : ℚ) ^ (decimalExponent (quarterValue mant shift) - (n0 : ℤ)) * 2 ^ 1076) <
        ((10 ^ n0 : Nat) : ℚ) *
        ((10 : ℚ) ^ (decimalExponent (quarterValue mant shift) - (n0 : ℤ)) * 2 ^ 1076) := by
      rw [e]
      calc _ = (floorAt (quarterValue mant shift)
            (decimalExponent (quarterValue mant shift) - n0) : ℚ) *
            (10 : ℚ) ^ (decimalExponent (quarterValue mant shift) - (n0 : ℤ)) * 2 ^ 1076 := by
              ring
        _ ≤ _ := hf1
        _ < _ := hk2
    have := lt_of_mul_lt_mul_right hlt (le_of_lt hT)
    exact_mod_cast this
  have hr1 : r.1 ≤ 10 ^ n0 := by omega
  have hfinal : (stripZeros 1100 r.1 r.2).1 < 10 ^ n0 := by
    by_cases he : r.1 = 10 ^ n0
    · rw [he]
      exact stripZeros_pow 1099 n0 r.2 hn0
    · have := stripZeros_le 1100 r.1 r.2
      omega
  have hlen := natDigits_length_le _ n0 hn0 hfinal
  unfold shortestDecimal
  simp only [hs, Option.getD_some]
  omega

/-- The result of `divRoundEven` lies within one half of the fraction, at exactly one half
only when it is even. -/
theorem divRoundEven_spec (p d : Nat) (hd : 0 < d) :
    2 * (divRoundEven p d * d) ≤ 2 * p + d ∧ 2 * p ≤ 2 * (divRoundEven p d * d) + d ∧
    (2 * (divRoundEven p d * d) = 2 * p + d → divRoundEven p d % 2 = 0) ∧
    (2 * p = 2 * (divRoundEven p d * d) + d → divRoundEven p d % 2 = 0) := by
  have hdiv : d * (p / d) + p % d = p := Nat.div_add_mod p d
  have hr : p % d < d := Nat.mod_lt p hd
  have hc : p / d * d = d * (p / d) := Nat.mul_comm _ _
  have hs : (p / d + 1) * d = d * (p / d) + d := by ring
  unfold divRoundEven
  simp only
  split
  · rw [hc]
    refine ⟨by omega, by omega, fun h => by omega, fun h => by omega⟩
  · split
    · rw [hs]
      refine ⟨by omega, by omega, fun h => by omega, fun h => by omega⟩
    · split
      · rw [hc]
        refine ⟨by omega, by omega, fun h => by omega, fun h => by omega⟩
      · rw [hs]
        refine ⟨by omega, by omega, fun h => by omega, fun h => by omega⟩

/-- A fraction that `Float64.ofFraction` converts to a number lies between the midpoints to
the neighbours of that number, at a midpoint only when the mantissa is even. -/
theorem ofFraction_within (neg : Bool) (n d mant shift : Nat) (hd : 0 < d) (hm : 0 < mant)
    (h : Float64.ofFraction neg n d = some (.finite neg mant shift)) :
    quarterLower mant shift * d ≤ 4 * (n * 2 ^ 1074) ∧
    4 * (n * 2 ^ 1074) ≤ quarterUpper mant shift * d ∧
    (mant % 2 = 1 → quarterLower mant shift * d ≠ 4 * (n * 2 ^ 1074) ∧
      4 * (n * 2 ^ 1074) ≠ quarterUpper mant shift * d) := by
  unfold Float64.ofFraction at h
  simp only at h
  generalize n * 2 ^ 1074 = p at h ⊢
  by_cases ht : p / d < 4503599627370496
  · rw [if_pos ht] at h
    simp only [Option.some.injEq, Float64.finite.injEq, true_and] at h
    obtain ⟨hmant, hshift⟩ := h
    subst hshift
    obtain ⟨s1, s2, s3, s4⟩ := divRoundEven_spec p d hd
    rw [hmant] at s1 s2 s3 s4
    have hql : quarterLower mant 0 = 4 * mant - 2 := by simp [quarterLower]
    have hqu : quarterUpper mant 0 = 4 * mant + 2 := by simp [quarterUpper]
    have h1 := four_sub_two_mul mant d hm
    have h2 : (4 * mant + 2) * d = 4 * (mant * d) + 2 * d := by ring
    rw [hql, hqu]
    refine ⟨by omega, by omega, fun hodd => ⟨?_, ?_⟩⟩
    · intro he
      have := s3 (by omega)
      omega
    · intro he
      have := s4 (by omega)
      omega
  · rw [if_neg ht] at h
    have hE : 0 < 2 ^ binaryShift 2100 (p / d) := Nat.two_pow_pos _
    have hd' : 0 < d * 2 ^ binaryShift 2100 (p / d) := Nat.mul_pos hd hE
    obtain ⟨s1, s2, s3, s4⟩ := divRoundEven_spec p (d * 2 ^ binaryShift 2100 (p / d)) hd'
    have hqq : p / d / 2 ^ binaryShift 2100 (p / d) = p / (d * 2 ^ binaryShift 2100 (p / d)) :=
      Nat.div_div_eq_div_mul p d _
    by_cases hdre : divRoundEven p (d * 2 ^ binaryShift 2100 (p / d)) = 9007199254740992
    · rw [if_pos hdre] at h
      simp only at h
      split at h
      · simp only [Option.some.injEq, Float64.finite.injEq, true_and] at h
        obtain ⟨hmant, hshift⟩ := h
        subst hmant hshift
        rw [hdre] at s1 s2
        have hql : quarterLower 4503599627370496 (binaryShift 2100 (p / d) + 1) * d =
            18014398509481983 * (2 * (d * 2 ^ binaryShift 2100 (p / d))) := by
          unfold quarterLower
          rw [if_pos ⟨rfl, Nat.succ_pos _⟩, pow_succ]
          ring
        have hqu : quarterUpper 4503599627370496 (binaryShift 2100 (p / d) + 1) * d =
            18014398509481986 * (2 * (d * 2 ^ binaryShift 2100 (p / d))) := by
          simp only [quarterUpper]
          rw [pow_succ]
          ring
        rw [hql, hqu]
        generalize d * 2 ^ binaryShift 2100 (p / d) = Y at s1 s2 hd'
        refine ⟨by linarith, by linarith, fun hodd => absurd hodd (by decide)⟩
      · cases h
    · rw [if_neg hdre] at h
      simp only at h
      split at h
      · next hle =>
        simp only [Option.some.injEq, Float64.finite.injEq, true_and] at h
        obtain ⟨hmant, hshift⟩ := h
        rw [hmant, hshift] at s1 s2 s3 s4
        have hsp := binaryShift_spec 2100 (p / d) (by omega)
        rw [hqq, hshift] at hsp
        rw [hshift] at hd' hE
        clear hqq hdre hle hshift hmant
        have hqu : quarterUpper mant shift * d = 4 * (mant * (d * 2 ^ shift)) +
            2 * (d * 2 ^ shift) := by
          simp only [quarterUpper]; ring
        have hge : mant = 4503599627370496 → mant * (d * 2 ^ shift) ≤ p := by
          intro he
          have h52 := hsp.2 (by omega)
          rw [he]
          exact (Nat.le_div_iff_mul_le hd').mp h52
        rw [hqu]
        by_cases hb : mant = 4503599627370496 ∧ 0 < shift
        · have hql : quarterLower mant shift * d + d * 2 ^ shift =
              4 * (mant * (d * 2 ^ shift)) := by
            simp only [quarterLower]
            rw [if_pos hb]
            have := four_sub_one_mul mant (d * 2 ^ shift) hm
            calc (4 * mant - 1) * 2 ^ shift * d + d * 2 ^ shift
                = (4 * mant - 1) * (d * 2 ^ shift) + d * 2 ^ shift := by ring
              _ = _ := this
          have hp := hge hb.1
          have hodd : ¬ mant % 2 = 1 := by rw [hb.1]; decide
          generalize mant * (d * 2 ^ shift) = X at s1 s2 s3 s4 hql hp
          generalize d * 2 ^ shift = Y at s1 s2 s3 s4 hql hd'
          generalize quarterLower mant shift * d = L at hql
          refine ⟨by omega, by omega, fun h => absurd h hodd⟩
        · have hql : quarterLower mant shift * d + 2 * (d * 2 ^ shift) =
              4 * (mant * (d * 2 ^ shift)) := by
            simp only [quarterLower]
            rw [if_neg hb]
            have := four_sub_two_mul mant (d * 2 ^ shift) hm
            calc (4 * mant - 2) * 2 ^ shift * d + 2 * (d * 2 ^ shift)
                = (4 * mant - 2) * (d * 2 ^ shift) + 2 * (d * 2 ^ shift) := by ring
              _ = _ := this
          generalize mant * (d * 2 ^ shift) = X at s1 s2 s3 s4 hql
          generalize d * 2 ^ shift = Y at s1 s2 s3 s4 hql hd'
          generalize quarterLower mant shift * d = L at hql
          refine ⟨by omega, by omega, fun hodd => ⟨?_, ?_⟩⟩
          · intro he
            have := s3 (by omega)
            omega
          · intro he
            have := s4 (by omega)
            omega
      · cases h

/-- A decimal that is converted to a number reads back as that number. -/
theorem readsBackAs_of_ofDecimal (neg : Bool) (mant shift D : Nat) (j : Int) (hm : 0 < mant)
    (h : Float64.ofDecimal neg D j = some (.finite neg mant shift)) :
    readsBackAs mant shift D j = true := by
  unfold Float64.ofDecimal at h
  unfold readsBackAs decimalBetween decimalSides
  by_cases hj : 0 ≤ j
  · rw [if_pos hj] at h
    rw [if_pos hj]
    obtain ⟨h1, h2, h3⟩ := ofFraction_within neg _ 1 mant shift Nat.one_pos hm h
    have h4 : 4 * (D * 10 ^ j.toNat * 2 ^ 1074) = D * 10 ^ j.toNat * 2 ^ 1076 := by
      rw [two_pow_1076]; ring
    rw [h4] at h1 h2 h3
    simp only
    by_cases he : (mant % 2 == 0) = true
    · rw [if_pos he]
      simp only [Bool.and_eq_true, decide_eq_true_eq]
      exact ⟨h1, h2⟩
    · rw [if_neg he]
      have hodd : mant % 2 = 1 := by
        have : ¬ mant % 2 = 0 := by simpa using he
        omega
      obtain ⟨n1, n2⟩ := h3 hodd
      simp only [Bool.and_eq_true, decide_eq_true_eq]
      exact ⟨lt_of_le_of_ne h1 n1, lt_of_le_of_ne h2 n2⟩
  · rw [if_neg hj] at h
    rw [if_neg hj]
    have hd : 0 < 10 ^ (-j).toNat := Nat.pos_pow_of_pos _ (by decide)
    obtain ⟨h1, h2, h3⟩ := ofFraction_within neg _ _ mant shift hd hm h
    have h4 : 4 * (D * 2 ^ 1074) = D * 2 ^ 1076 := by
      rw [two_pow_1076]; ring
    rw [h4] at h1 h2 h3
    simp only
    by_cases he : (mant % 2 == 0) = true
    · rw [if_pos he]
      simp only [Bool.and_eq_true, decide_eq_true_eq]
      exact ⟨h1, h2⟩
    · rw [if_neg he]
      have hodd : mant % 2 = 1 := by
        have : ¬ mant % 2 = 0 := by simpa using he
        omega
      obtain ⟨n1, n2⟩ := h3 hodd
      simp only [Bool.and_eq_true, decide_eq_true_eq]
      exact ⟨lt_of_le_of_ne h1 n1, lt_of_le_of_ne h2 n2⟩

/-- The last digit of the decimal `strconv` prints is not zero. -/
theorem shortestDecimal_last (mant shift : Nat) (hm : 0 < mant)
    (hv : mant < 9007199254740992) : (shortestDecimal mant shift).1 % 10 ≠ 0 := by
  intro h0
  have hrb := shortestDecimal_readsBack mant shift hm
  have hpos := readsBackAs_pos mant shift _ _ hm hrb
  generalize (shortestDecimal mant shift).2 = j at hrb
  have hmin := fun d j h => shortestDecimal_minimal mant shift hm hv d j h
  generalize (shortestDecimal mant shift).1 = d at hrb hpos h0 hmin
  have hd : d = 10 * (d / 10) := by omega
  have hrb2 : readsBackAs mant shift (d / 10) (j + 1) = true := by
    unfold readsBackAs at hrb ⊢
    rw [← decimalBetween_shift, ← hd]
    exact hrb
  have h1 := hmin _ _ hrb2
  obtain ⟨hL1, hlo, hhi⟩ := natDigits_length d hpos
  have hd10 : 0 < d / 10 := readsBackAs_pos mant shift _ _ hm hrb2
  generalize (natDigits d).length = L at hL1 hlo hhi h1
  have hL2 : 2 ≤ L := by
    by_contra hc
    have : L = 1 := by omega
    subst this
    simp only [pow_one] at hhi
    omega
  have hlt : d / 10 < 10 ^ (L - 1) := by
    rw [Nat.div_lt_iff_lt_mul (by decide)]
    have : 10 ^ L = 10 ^ (L - 1) * 10 := by
      have : L = (L - 1) + 1 := by omega
      rw [this, pow_succ]
      simp
    omega
  have := natDigits_length_le (d / 10) (L - 1) (by omega) hlt
  omega

open Sicredi in
/-- C14 (amended): the amount of a creation request is written once, under the key `valor`,
as the number text `encoding/json` gives a `float64`. For a `float64` other than zero its
digits are those of the decimal `shortestDecimal`, laid out without an exponent from `1e-6`
up to `1e21`: this decimal is converted back to the same number, no decimal that is
converted to the same number has fewer digits, and its last digit is not zero; the text as
a whole is parsed as the same number. So no fraction digits are added: the amount 150.00 is
written `150`, 2500.00 is written `2500`, 150.25 is written `150.25` and 0.10 is written
`0.1`. -/
theorem amount_written_shortest :
    (∀ r : CriarBoletoRequest, ∃ front back,
      r.members = front ++ ("valor", encodeFloat r.Valor) :: back ∧
      "valor" ∉ memberKeys front ∧ "valor" ∉ memberKeys back) ∧
    (∀ x : Float64, encodeFloat x = (formatFloat64 x).map String.toList) ∧
    (∀ (neg : Bool) (mant shift : Nat), 0 < mant → Float64.Valid (.finite neg mant shift) →
      formatFloat64 (.finite neg mant shift) = some (String.mk (
        (if neg then ['-'] else []) ++
        (if mant * 2 ^ shift < cutoffSmall ∨ cutoffLarge ≤ mant * 2 ^ shift then
          layoutE (natDigits (shortestDecimal mant shift).1)
            (((natDigits (shortestDecimal mant shift).1).length : Int) +
              (shortestDecimal mant shift).2)
         else
          layoutF (natDigits (shortestDecimal mant shift).1)
            (((natDigits (shortestDecimal mant shift).1).length : Int) +
              (shortestDecimal mant shift).2)))) ∧
      (∀ text, formatFloat64 (.finite neg mant shift) = some text →
        parseFloat64 text = some (.finite neg mant shift)) ∧
      Float64.ofDecimal neg (shortestDecimal mant shift).1 (shortestDecimal mant shift).2 =
        some (.finite neg mant shift) ∧
      (∀ (d : Nat) (j : Int), Float64.ofDecimal neg d j = some (.finite neg mant shift) →
        (natDigits (shortestDecimal mant shift).1).length ≤ (natDigits d).length) ∧
      (shortestDecimal mant shift).1 % 10 ≠ 0) ∧
    (parseFloat64 "150.00").bind formatFloat64 = some "150" ∧
    (parseFloat64 "2500.00").bind formatFloat64 = some "2500" ∧
    (parseFloat64 "150.25").bind formatFloat64 = some "150.25" ∧
    (parseFloat64 "0.10").bind formatFloat64 = some "0.1" := by
  refine ⟨?_, fun _ => rfl, ?_, ?_, ?_, ?_, ?_⟩
  · intro r
    have main : ∀ extra : List Member, "valor" ∉ memberKeys extra →
        ∃ front back,
          stringMember "tipoCobranca" false r.TipoCobranca ++
          stringMember "codigoBeneficiario" false r.CodigoBeneficiario ++
          structMember "pagador" r.Pagador.members ++
          extra ++
          stringMember "especieDocumento" false r.EspecieDocumento ++
          stringMember "nossoNumero" true r.NossoNumero ++
          stringMember "seuNumero" false r.SeuNumero ++
          stringMember "dataVencimento" false r.DataVencimento ++
          floatMember "valor" false r.Valor ++
          intMember "diasProtestoAuto" true r.DiasProtestoAuto ++
          intMember "diasNegativacaoAuto" true r.DiasNegativacaoAuto ++
          intMember "validadeAposVencimento" true r.ValidadeAposVencimento ++
          stringMember "tipoDesconto" true r.TipoDesconto ++
          floatMember "valorDesconto1" true r.ValorDesconto1 ++
          stringMember "dataDesconto1" true r.DataDesconto1 ++
          floatMember "valorDesconto2" true r.ValorDesconto2 ++
          stringMember "dataDesconto2" true r.DataDesconto2 ++
          floatMember "valorDesconto3" true r.ValorDesconto3 ++
          stringMember "dataDesconto3" true r.DataDesconto3 ++
          floatMember "descontoAntecipado" true r.DescontoAntecipado ++
          stringMember "tipoJuros" true r.TipoJuros ++
          floatMember "juros" true r.Juros ++
          floatMember "multa" true r.Multa ++
          stringsMember "informativos" r.Informativos ++
          stringsMember "mensagens" r.Mensagens =
            front ++ ("valor", encodeFloat r.Valor) :: back ∧
          "valor" ∉ memberKeys front ∧ "valor" ∉ memberKeys back := by
      intro extra hextra
      refine ⟨stringMember "tipoCobranca" false r.TipoCobranca ++
          stringMember "codigoBeneficiario" false r.CodigoBeneficiario ++
          structMember "pagador" r.Pagador.members ++
          extra ++
          stringMember "especieDocumento" false r.EspecieDocumento ++
          stringMember "nossoNumero" true r.NossoNumero ++
          stringMember "seuNumero" false r.SeuNumero ++
          stringMember "dataVencimento" false r.DataVencimento,
        intMember "diasProtestoAuto" true r.DiasProtestoAuto ++
          intMember "diasNegativacaoAuto" true r.DiasNegativacaoAuto ++
          intMember "validadeAposVencimento" true r.ValidadeAposVencimento ++
          stringMember "tipoDesconto" true r.TipoDesconto ++
          floatMember "valorDesconto1" true r.ValorDesconto1 ++
          stringMember "dataDesconto1" true r.DataDesconto1 ++
          floatMember "valorDesconto2" true r.ValorDesconto2 ++
          stringMember "dataDesconto2" true r.DataDesconto2 ++
          floatMember "valorDesconto3" true r.ValorDesconto3 ++
          stringMember "dataDesconto3" true r.DataDesconto3 ++
          floatMember "descontoAntecipado" true r.DescontoAntecipado ++
          stringMember "tipoJuros" true r.TipoJuros ++
          floatMember "juros" true r.Juros ++
          floatMember "multa" true r.Multa ++
          stringsMember "informativos" r.Informativos ++
          stringsMember "mensagens" r.Mensagens, ?_, ?_, ?_⟩
      · have hv : floatMember "valor" false r.Valor = [("valor", encodeFloat r.Valor)] := by
          simp [floatMember]
        simp only [hv, List.append_assoc, List.cons_append, List.nil_append]
      · simp [memberKeys_append, memberKeys_stringMember, memberKeys_structMember,
          List.mem_ite_nil_left, hextra]
      · simp [memberKeys_append, memberKeys_stringMember, memberKeys_intMember,
          memberKeys_floatMember, memberKeys_stringsMember, List.mem_ite_nil_left]
    cases hbf : r.BeneficiarioFinal with
    | none =>
      simp only [CriarBoletoRequest.members, hbf]
      exact main [] (by simp [memberKeys])
    | some b =>
      simp only [CriarBoletoRequest.members, hbf]
      exact main (structMember "beneficiarioFinal" b.members) (by simp [memberKeys_structMember])
  · intro neg mant shift hm hvalid
    refine ⟨?_, fun text ht => parseFloat64_formatFloat64 _ hvalid text ht,
      ofDecimal_of_readsBackAs neg mant shift _ _ hm hvalid
        (shortestDecimal_readsBack mant shift hm),
      fun d j hd => shortestDecimal_minimal mant shift hm hvalid.1 d j
        (readsBackAs_of_ofDecimal neg mant shift d j hm hd),
      shortestDecimal_last mant shift hm hvalid.1⟩
    have hm0 : ¬ mant = 0 := by omega
    unfold formatFloat64
    simp only [hm0, if_false]
    split_ifs <;> rfl
  · set_option exponentiation.threshold 3000 in
    set_option maxRecDepth 100000 in
    decide
  · set_option exponentiation.threshold 3000 in
    set_option maxRecDepth 100000 in
    decide
  · set_option exponentiation.threshold 3000 in
    set_option maxRecDepth 100000 in
    decide
  · set_option exponentiation.threshold 3000 in
    set_option maxRecDepth 100000 in
    decide

/-- Witness of C14 (amended): the amount 150.00 is the decimal 150, of three digits, and
the decimal written for it has no more. -/
theorem amount_written_shortest_witness :
    (natDigits (shortestDecimal 5277655813324800 1029).1).length ≤ (natDigits 150).length :=
  (amount_written_shortest.2.2.1 false 5277655813324800 1029 (by decide)
    ⟨by decide, by decide, fun h => absurd h (by decide)⟩).2.2.2.1 150 0 (by
      set_option exponentiation.threshold 3000 in
      set_option maxRecDepth 100000 in
      decide)

end Kamino
